import Mathlib

/-!
# WLAN host driver: IPA offload glue (`wlan_hdd_ipa.c`)

A shallow embedding of the resource-manager state machine, the WDI pipe
enable/disable guards, the transmit-descriptor pool, the pending-event queue
and the handler of the firmware op-codes of `core/hdd/src/wlan_hdd_ipa.c`
(the variant compiled without `CONFIG_IPA_WDI_UNIFIED_API`), followed by
theorems about them.

Conventions of the embedding:

* the global context `struct hdd_ipa_priv` becomes the record
  `hdd_ipa_priv`, passed explicitly; every C function becomes a function
  returning its result together with the new context;
* calls that leave this file (IPA driver, TXRX layer, kernel work queues,
  allocator) are appended, in program order, to the ghost field `calls`;
  the value such a call returns is read from the environment `Env`, as a
  function of the calls made so far;
* spin locks and mutexes are not represented: each function is modelled as
  running alone;
* fixed-width counters are natural numbers reduced modulo `2 ^ w`.
-/

namespace HddIpa

/-! ## Constants -/

/-- Linux `EPERM` (asm-generic/errno-base.h). -/
def EPERM : Int := 1
/-- Linux `EAGAIN` (asm-generic/errno-base.h). -/
def EAGAIN : Int := 11
/-- Linux `ENOMEM` (asm-generic/errno-base.h). -/
def ENOMEM : Int := 12
/-- Linux `EBUSY` (asm-generic/errno-base.h). -/
def EBUSY : Int := 16
/-- Linux `ENODEV` (asm-generic/errno-base.h). -/
def ENODEV : Int := 19
/-- Linux `EINVAL` (asm-generic/errno-base.h). -/
def EINVAL : Int := 22
/-- Linux `EINPROGRESS` (asm-generic/errno.h). -/
def EINPROGRESS : Int := 115
/-- The QDF status `QDF_STATUS_E_FAILURE` (qdf_status.h), a non-zero code. -/
def QDF_STATUS_E_FAILURE : Int := 16
/-- The QDF status `QDF_STATUS_E_INVAL` (qdf_status.h), a non-zero code. -/
def QDF_STATUS_E_INVAL : Int := 4

/-- `HDD_IPA_ENABLE_MASK`, `BIT(0)`. -/
def HDD_IPA_ENABLE_MASK : Nat := 1
/-- `HDD_IPA_RM_ENABLE_MASK`, `BIT(3)`. -/
def HDD_IPA_RM_ENABLE_MASK : Nat := 8
/-- `HDD_IPA_CLK_SCALING_ENABLE_MASK`, `BIT(4)`. -/
def HDD_IPA_CLK_SCALING_ENABLE_MASK : Nat := 16
/-- `HDD_IPA_UC_ENABLE_MASK`, `BIT(5)`. -/
def HDD_IPA_UC_ENABLE_MASK : Nat := 32
/-- `HDD_IPA_UC_STA_ENABLE_MASK`, `BIT(6)`. -/
def HDD_IPA_UC_STA_ENABLE_MASK : Nat := 64

/-- `HDD_IPA_UC_NUM_WDI_PIPE`: the TX and the RX pipe. -/
def HDD_IPA_UC_NUM_WDI_PIPE : Nat := 2
/-- `HDD_IPA_MAX_PENDING_EVENT_COUNT`. -/
def HDD_IPA_MAX_PENDING_EVENT_COUNT : Nat := 20

/-- Values of `enum ipa_wlan_event` (IPA driver header), in the order in
which `hdd_ipa_wlan_event_to_str` lists them.  The bound
`IPA_WLAN_EVENT_MAX` of the enumeration is a field of `Env`. -/
def WLAN_CLIENT_CONNECT : Nat := 0
/-- See `WLAN_CLIENT_CONNECT`. -/
def WLAN_CLIENT_DISCONNECT : Nat := 1
/-- See `WLAN_CLIENT_CONNECT`. -/
def WLAN_AP_CONNECT : Nat := 6
/-- See `WLAN_CLIENT_CONNECT`. -/
def WLAN_AP_DISCONNECT : Nat := 7
/-- See `WLAN_CLIENT_CONNECT`. -/
def WLAN_STA_CONNECT : Nat := 8
/-- See `WLAN_CLIENT_CONNECT`. -/
def WLAN_STA_DISCONNECT : Nat := 9
/-- See `WLAN_CLIENT_CONNECT`. -/
def WLAN_CLIENT_CONNECT_EX : Nat := 10
/-- The message type that follows `WLAN_CLIENT_CONNECT_EX` in
`enum ipa_wlan_event` (IPA driver header). -/
def WLAN_SWITCH_TO_SCC : Nat := 11
/-- See `WLAN_SWITCH_TO_SCC`. -/
def WLAN_SWITCH_TO_MCC : Nat := 12
/-- See `WLAN_SWITCH_TO_SCC`. -/
def WLAN_WDI_ENABLE : Nat := 13
/-- See `WLAN_SWITCH_TO_SCC`. -/
def WLAN_WDI_DISABLE : Nat := 14
/-- Device modes of an adapter (`enum tQDF_ADAPTER_MODE`): station. -/
def QDF_STA_MODE : Nat := 0
/-- Device modes of an adapter: soft access point. -/
def QDF_SAP_MODE : Nat := 1
/-- Device modes of an adapter: P2P group owner. -/
def QDF_P2P_GO_MODE : Nat := 3

/-- Values of `enum hdd_ipa_uc_op_code`. -/
def HDD_IPA_UC_OPCODE_TX_SUSPEND : Nat := 0
/-- See `HDD_IPA_UC_OPCODE_TX_SUSPEND`. -/
def HDD_IPA_UC_OPCODE_TX_RESUME : Nat := 1
/-- See `HDD_IPA_UC_OPCODE_TX_SUSPEND`. -/
def HDD_IPA_UC_OPCODE_RX_SUSPEND : Nat := 2
/-- See `HDD_IPA_UC_OPCODE_TX_SUSPEND`. -/
def HDD_IPA_UC_OPCODE_RX_RESUME : Nat := 3
/-- See `HDD_IPA_UC_OPCODE_TX_SUSPEND`. -/
def HDD_IPA_UC_OPCODE_STATS : Nat := 4
/-- See `HDD_IPA_UC_OPCODE_TX_SUSPEND`; defined only with `FEATURE_METERING`. -/
def HDD_IPA_UC_OPCODE_SHARING_STATS : Nat := 5
/-- See `HDD_IPA_UC_OPCODE_SHARING_STATS`. -/
def HDD_IPA_UC_OPCODE_QUOTA_RSP : Nat := 6
/-- See `HDD_IPA_UC_OPCODE_SHARING_STATS`. -/
def HDD_IPA_UC_OPCODE_QUOTA_IND : Nat := 7
/-- See `HDD_IPA_UC_OPCODE_TX_SUSPEND`. -/
def HDD_IPA_UC_OPCODE_UC_READY : Nat := 8
/-- The bound `HDD_IPA_UC_OPCODE_MAX` of `enum hdd_ipa_uc_op_code`. -/
def HDD_IPA_UC_OPCODE_MAX : Nat := 9

/-- Reason codes for a statistics query: `HDD_IPA_UC_STAT_REASON_NONE`. -/
def HDD_IPA_UC_STAT_REASON_NONE : Nat := 0
/-- See `HDD_IPA_UC_STAT_REASON_NONE`. -/
def HDD_IPA_UC_STAT_REASON_DEBUG : Nat := 1
/-- See `HDD_IPA_UC_STAT_REASON_NONE`. -/
def HDD_IPA_UC_STAT_REASON_BW_CAL : Nat := 2

/-- `HDD_IPA_MAX_BANDWIDTH`. -/
def HDD_IPA_MAX_BANDWIDTH : Nat := 800

/-! ## Data model -/

/-- The C `enum hdd_ipa_rm_state`. -/
inductive hdd_ipa_rm_state
  | HDD_IPA_RM_RELEASED
  | HDD_IPA_RM_GRANT_PENDING
  | HDD_IPA_RM_GRANTED
  deriving DecidableEq, Repr

/-- The C `enum ipa_rm_event`, as far as `hdd_ipa_rm_notify` tells its
values apart; `other` stands for every further event code. -/
inductive ipa_rm_event
  | IPA_RM_RESOURCE_GRANTED
  | IPA_RM_RESOURCE_RELEASED
  | other
  deriving DecidableEq, Repr

/-- Calls that leave `wlan_hdd_ipa.c` to set up or tear down resources and
work items. -/
inductive InitCall
  | init_work_uc_rm_work
  | ipa_rm_create_resource (prod : Bool)
  | ipa_rm_delete_resource (prod : Bool)
  | ipa_rm_add_dependency
  | ipa_rm_inactivity_timer_init
  | qdf_wake_lock_create
  | init_delayed_work_wake_lock_work
  | cancel_work_sync_uc_op_work (op_code : Nat)
  deriving DecidableEq, Repr

/-- Calls that leave `wlan_hdd_ipa.c`.  Adapters, buffers and descriptors
are named by natural numbers. -/
inductive ExtCall
  | ipa_rm_inactivity_timer_request_resource
  | ipa_rm_inactivity_timer_release_resource
  | ipa_rm_request_resource
  | ipa_rm_release_resource
  | cancel_delayed_work_wake_lock_work
  | schedule_delayed_work_wake_lock_work
  | qdf_wake_lock_acquire
  | qdf_wake_lock_release
  | schedule_work_uc_rm_work
  | ol_txrx_rx_hash_smmu_map (map : Bool)
  | ipa_enable_wdi_pipe (tx : Bool)
  | ipa_resume_wdi_pipe (tx : Bool)
  | ipa_suspend_wdi_pipe (tx : Bool)
  | ipa_disable_wdi_pipe (tx : Bool)
  | ol_txrx_ipa_uc_set_active (uc_active is_tx : Bool)
  | init_completion_ipa_resource_comp
  | wait_for_completion_timeout
  | qdf_mem_malloc_pending_event
  | qdf_mem_malloc_msg
  | hdd_ipa_wdi_dereg_intf (adapter : Nat)
  | hdd_ipa_wdi_reg_intf (adapter : Nat)
  | ol_txrx_get_vdev_by_sta_id (sta_id : Nat)
  | qdf_nbuf_reg_free_cb
  | sme_ipa_offload_enable_disable (session_id offload_type : Nat) (enable : Bool)
  | ipa_send_msg (type : Nat)
  | ipa_free_skb (desc : Nat)
  | dev_kfree_skb_any (skb : Nat)
  | qdf_nbuf_map (skb : Nat)
  | qdf_nbuf_unmap (skb : Nat)
  | ol_tx_send_ipa_data_frame (skb : Nat)
  | qdf_nbuf_free (skb : Nat)
  | qdf_mem_malloc_tx_desc (n : Nat)
  | complete_ipa_resource_comp
  | ipa_rm_notify_completion
  | hdd_deinit_tx_rx (adapter : Nat)
  | ipa_setup_sys_pipe (i : Nat)
  | ipa_teardown_sys_pipe (handle : Nat)
  | init_work_mcc_work
  | ipa_connect_wdi_pipe (tx : Bool)
  | ipa_disconnect_wdi_pipe (tx : Bool)
  | ipa_rm_set_perf_profile (prod : Bool) (max_supported_bw_mbps : Nat)
  | complete_ipa_uc_sharing_stats_comp
  | complete_ipa_uc_set_quota_comp
  | ipa_broadcast_wdi_quota_reach_ind (adapter quota_bytes : Nat)
  | schedule_work_uc_op_work (op_code : Nat)
  | schedule_work_pm_work
  | init (c : InitCall)
  deriving DecidableEq, Repr

/-- What `hdd_ipa_uc_disconnect_client` reads of an entry of
`adapter->aStaInfo`: whether `macAddrSTA` is the broadcast address, `isUsed`
and `isDeauthInProgress`. -/
structure hdd_station_info where
  is_broadcast : Bool
  isUsed : Bool
  isDeauthInProgress : Bool
  deriving DecidableEq, Repr

/-- What the code reads from outside this file.  `ret hist c` is the value
the external call `c` returns when `hist` lists the calls made before it
(for an allocation, zero stands for `NULL`). -/
structure Env where
  ret : List ExtCall → ExtCall → Int
  /-- `cds_get_context(QDF_MODULE_ID_TXRX)` is not `NULL`. -/
  pdev : Bool
  /-- `cds_get_context(QDF_MODULE_ID_QDF_DEVICE)` is not `NULL`. -/
  osdev : Bool
  /-- `qdf_mem_smmu_s1_enabled(osdev)`. -/
  smmu_s1_enabled : Bool
  /-- `pdev->tx_desc.pool_size`. -/
  pool_size : Nat
  /-- `wlan_hdd_validate_context(hdd_ctx)`, zero when the context is valid. -/
  wlan_hdd_validate_context : Int
  /-- `hdd_validate_adapter(adapter)`, zero when the adapter is valid. -/
  hdd_validate_adapter : Nat → Int
  /-- `hdd_is_adapter_valid(hdd_ctx, adapter)`. -/
  hdd_is_adapter_valid : Nat → Bool
  /-- `adapter->device_mode`. -/
  device_mode : Nat → Nat
  /-- `adapter->sessionId`. -/
  sessionId : Nat → Nat
  /-- `WLAN_HDD_GET_AP_CTX_PTR(adapter)->dfs_cac_block_tx`. -/
  dfs_cac_block_tx : Nat → Bool
  /-- `wlan_hdd_validate_session_id(session_id)`, zero when valid. -/
  wlan_hdd_validate_session_id : Nat → Int
  /-- `hdd_get_adapter(hdd_ctx, QDF_STA_MODE)`. -/
  sta_adapter : Nat
  /-- `cds_is_driver_unloading()`. -/
  cds_is_driver_unloading : Bool
  /-- The constant `IPA_WLAN_EVENT_MAX` of the IPA driver header. -/
  IPA_WLAN_EVENT_MAX : Nat
  /-- The build defines `MDM_PLATFORM`. -/
  MDM_PLATFORM : Bool
  /-- The build defines `FEATURE_METERING`. -/
  FEATURE_METERING : Bool
  /-- The width of `unsigned long` in bits. -/
  BITS_PER_LONG : Nat
  /-- `hdd_get_adapter(hdd_ctx, QDF_STA_MODE)` is `NULL`. -/
  sta_adapter_is_null : Bool
  /-- The adapters of the list walked with `hdd_get_front_adapter` and
  `hdd_get_next_adapter`, in order. -/
  adapters : List Nat
  /-- The handle that `ipa_setup_sys_pipe` stores through its second argument
  when it succeeds, as a function of the calls made before it. -/
  sys_pipe_handle : List ExtCall → Nat
  /-- The array `adapter->aStaInfo`, of `WLAN_MAX_STA_COUNT` entries. -/
  aStaInfo : Nat → List hdd_station_info

/-- The C `struct hdd_ipa_iface_stats`. -/
structure hdd_ipa_iface_stats where
  num_tx : Nat
  num_tx_drop : Nat
  num_tx_err : Nat
  num_tx_cac_drop : Nat
  deriving DecidableEq, Repr

/-- The C `struct hdd_ipa_iface_context`; `adapter` and `tl_context` are
`none` for `NULL`. -/
structure hdd_ipa_iface_context where
  adapter : Option Nat
  tl_context : Option Nat
  iface_id : Nat
  sta_id : Nat
  ifa_address : Nat
  stats : hdd_ipa_iface_stats
  deriving DecidableEq, Repr

/-- The counters of the C `struct hdd_ipa_stats` that the modelled
functions write. -/
structure hdd_ipa_stats where
  event : List Nat
  num_send_msg : Nat
  num_rm_grant : Nat
  num_rm_release : Nat
  num_rm_grant_imm : Nat
  num_tx_desc_q_cnt : Nat
  num_tx_desc_error : Nat
  num_tx_comp_cnt : Nat
  num_cons_perf_req : Nat
  num_prod_perf_req : Nat
  deriving DecidableEq, Repr

/-- The C `struct ipa_uc_stas_map`. -/
structure ipa_uc_stas_map where
  is_reserved : Bool
  sta_id : Nat
  deriving DecidableEq, Repr

/-- The C `struct ipa_uc_pending_event` without its list node. -/
structure ipa_uc_pending_event where
  adapter : Nat
  type : Nat
  sta_id : Nat
  mac_addr : List Nat
  is_loading : Bool
  deriving DecidableEq, Repr

/-- The C `struct hdd_ipa_tx_desc` without its list link. -/
structure hdd_ipa_tx_desc where
  id : Nat
  ipa_tx_desc_ptr : Option Nat
  deriving DecidableEq, Repr

/-- A network buffer, as far as this file looks into it: its identity,
the ownership flag read by `qdf_nbuf_ipa_owned_get` and the descriptor
index kept in `QDF_NBUF_CB_TX_IPA_PRIV` (which `hdd_ipa_nbuf_cb` reads into
a `uint16_t`). -/
structure sk_buff where
  id : Nat
  ipa_owned : Bool
  tx_ipa_priv : Nat
  deriving DecidableEq, Repr

/-- The IPA descriptor `struct ipa_rx_data` handed over with a packet: its
identity and its buffer. -/
structure ipa_rx_data where
  id : Nat
  skb : sk_buff
  deriving DecidableEq, Repr

/-- The counters of the C `struct ipa_uc_fw_stats` that `hdd_ipa_uc_op_cb`
reads, each a `uint32_t`. -/
structure ipa_uc_fw_stats where
  tx_pkts_completed : Nat
  rx_num_pkts_indicated : Nat
  rx_num_ind_drop_no_space : Nat
  rx_num_ind_drop_no_buf : Nat
  deriving DecidableEq, Repr

/-- A message from the firmware: the `op_code` of the C `struct op_msg_type`
and the bytes that follow the header, which the code reads through a cast as
`struct ipa_uc_fw_stats` (`uc_fw_stat`), as `struct ipa_uc_quota_ind`
(`quota_bytes`), or copies as a block (`payload`). -/
structure op_msg_type where
  op_code : Nat
  uc_fw_stat : ipa_uc_fw_stats
  quota_bytes : Nat
  payload : List Nat
  deriving DecidableEq, Repr

/-- The C `struct hdd_ipa_sys_pipe` without its connection parameters. -/
structure hdd_ipa_sys_pipe where
  conn_hdl : Nat
  conn_hdl_valid : Bool
  deriving DecidableEq, Repr

/-- The fields of the C `struct hdd_ipa_priv` that the modelled functions
read or write, and the fields of `hdd_ctx` and `hdd_ctx->config` that they
read (`IpaConfig`, `IpaMccTxDescSize`, the bandwidth settings and
`mcc_mode`); `free_tx_desc_head` lists the indices into
`tx_desc_list` of the descriptors linked on the free list, head first;
`adapter_ipa_context` holds `adapter->ipa_context` (an index into
`iface_context`) for the adapters where it is not `NULL`, as a list of
pairs read front to back; `nbuf_free_cb` tells whether
`qdf_nbuf_reg_free_cb(hdd_ipa_nbuf_cb)` has run; `calls` is the ghost
record of external calls.  The array bounds `HDD_IPA_MAX_IFACE`,
`WLAN_MAX_STA_COUNT` and `CSR_ROAM_SESSION_MAX` are the lengths of
`iface_context`, `assoc_stas_map` and `vdev_to_iface`; `uc_op_work` holds
the `msg` pointer of each work item, and `ipa_sharing_stats` and
`ipa_quota_rsp` the bytes last copied into these structures. -/
structure hdd_ipa_priv where
  IpaConfig : Nat
  IpaMccTxDescSize : Nat
  iface_context : List hdd_ipa_iface_context
  num_iface : Nat
  rm_state : hdd_ipa_rm_state
  uc_rm_work_event : ipa_rm_event
  wake_lock_released : Bool
  tx_ref_cnt : Int
  pm_queue_head : List Nat
  suspended : Bool
  tx_desc_size : Nat
  tx_desc_list : List hdd_ipa_tx_desc
  free_tx_desc_head : List Nat
  stats : hdd_ipa_stats
  activated_fw_pipe : Nat
  sap_num_connected_sta : Nat
  sta_connected : Nat
  resource_loading : Bool
  resource_unloading : Bool
  pending_cons_req : Bool
  assoc_stas_map : List ipa_uc_stas_map
  pending_event : List ipa_uc_pending_event
  ipa_pipes_down : Bool
  uc_loaded : Bool
  wdi_enabled : Bool
  vdev_to_iface : List Nat
  vdev_offload_enabled : List Bool
  adapter_ipa_context : List (Nat × Nat)
  nbuf_free_cb : Bool
  busBandwidthHighThreshold : Nat
  busBandwidthMediumThreshold : Nat
  IpaHighBandwidthMbps : Nat
  IpaMediumBandwidthMbps : Nat
  IpaLowBandwidthMbps : Nat
  mcc_mode : Bool
  curr_prod_bw : Nat
  curr_cons_bw : Nat
  sys_pipe : List hdd_ipa_sys_pipe
  stat_req_reason : Nat
  ipa_tx_packets_diff : Nat
  ipa_rx_packets_diff : Nat
  ipa_p_tx_packets : Nat
  ipa_p_rx_packets : Nat
  uc_op_work : List (Option op_msg_type)
  ipa_sharing_stats : List Nat
  ipa_quota_rsp : List Nat
  ipa_quota_ind_quota_bytes : Nat
  calls : List ExtCall
  deriving DecidableEq, Repr

/-! ## Helpers of the embedding -/

/-- Perform the external call `c`: read its result from the environment and
record it. -/
def call (env : Env) (c : ExtCall) (s : hdd_ipa_priv) : Int × hdd_ipa_priv :=
  (env.ret s.calls c, { s with calls := s.calls ++ [c] })

/-- Increment of a `uint64_t` counter. -/
def inc64 (x : Nat) : Nat := (x + 1) % 2 ^ 64

/-- Decrement of a `uint64_t` counter. -/
def dec64 (x : Nat) : Nat := (x + (2 ^ 64 - 1)) % 2 ^ 64

/-- Increment of a `uint8_t` field. -/
def inc8 (x : Nat) : Nat := (x + 1) % 2 ^ 8

/-- Decrement of a `uint8_t` field. -/
def dec8 (x : Nat) : Nat := (x + (2 ^ 8 - 1)) % 2 ^ 8

/-- Wrap an integer into the range of the 32-bit `int` inside `atomic_t`. -/
def wrap32 (x : Int) : Int := (x + 2 ^ 31) % 2 ^ 32 - 2 ^ 31

/-- The macro `HDD_IPA_IS_CONFIG_ENABLED(_hdd_ctx, _mask)`. -/
def HDD_IPA_IS_CONFIG_ENABLED (s : hdd_ipa_priv) (mask : Nat) : Bool :=
  (s.IpaConfig &&& mask) == mask

/-- The C `hdd_ipa_is_enabled`. -/
def hdd_ipa_is_enabled (s : hdd_ipa_priv) : Bool :=
  HDD_IPA_IS_CONFIG_ENABLED s HDD_IPA_ENABLE_MASK

/-- The C `hdd_ipa_uc_is_enabled`. -/
def hdd_ipa_uc_is_enabled (s : hdd_ipa_priv) : Bool :=
  HDD_IPA_IS_CONFIG_ENABLED s HDD_IPA_UC_ENABLE_MASK

/-- The C `hdd_ipa_uc_sta_is_enabled`. -/
def hdd_ipa_uc_sta_is_enabled (s : hdd_ipa_priv) : Bool :=
  HDD_IPA_IS_CONFIG_ENABLED s HDD_IPA_UC_STA_ENABLE_MASK

/-- The C `hdd_ipa_uc_sta_only_offload_is_enabled`: whether the build defines
`MDM_PLATFORM`. -/
def hdd_ipa_uc_sta_only_offload_is_enabled (env : Env) : Bool := env.MDM_PLATFORM

/-- The C `hdd_ipa_is_rm_enabled`. -/
def hdd_ipa_is_rm_enabled (s : hdd_ipa_priv) : Bool :=
  HDD_IPA_IS_CONFIG_ENABLED s HDD_IPA_RM_ENABLE_MASK

/-- The C `hdd_ipa_is_fw_wdi_actived` for a context that is not `NULL`. -/
def hdd_ipa_is_fw_wdi_actived (s : hdd_ipa_priv) : Bool :=
  HDD_IPA_UC_NUM_WDI_PIPE == s.activated_fw_pipe

/-! ## Resource manager -/

/-- The C `hdd_ipa_wdi_rm_request`. -/
def hdd_ipa_wdi_rm_request (env : Env) (s : hdd_ipa_priv) : Int × hdd_ipa_priv :=
  if !hdd_ipa_is_rm_enabled s then (0, s)
  else
    match s.rm_state with
    | .HDD_IPA_RM_GRANTED => (0, s)
    | .HDD_IPA_RM_GRANT_PENDING => (-EINPROGRESS, s)
    | .HDD_IPA_RM_RELEASED =>
      let s1 := { s with rm_state := .HDD_IPA_RM_GRANT_PENDING }
      let r := call env .ipa_rm_inactivity_timer_request_resource s1
      let ret := r.1
      let s2 := r.2
      let s3 :=
        if ret = 0 then
          { s2 with rm_state := .HDD_IPA_RM_GRANTED,
                    stats := { s2.stats with
                      num_rm_grant_imm := inc64 s2.stats.num_rm_grant_imm } }
        else s2
      let s4 := (call env .cancel_delayed_work_wake_lock_work s3).2
      let s5 :=
        if s4.wake_lock_released then
          { (call env .qdf_wake_lock_acquire s4).2 with wake_lock_released := false }
        else s4
      (ret, s5)

/-- The C `hdd_ipa_wdi_rm_try_release`. -/
def hdd_ipa_wdi_rm_try_release (env : Env) (s : hdd_ipa_priv) : Int × hdd_ipa_priv :=
  if !hdd_ipa_is_rm_enabled s then (0, s)
  else if s.tx_ref_cnt ≠ 0 then (-EAGAIN, s)
  else if !s.pm_queue_head.isEmpty then (-EAGAIN, s)
  else
    match s.rm_state with
    | .HDD_IPA_RM_GRANT_PENDING => (-EINPROGRESS, s)
    | .HDD_IPA_RM_RELEASED => (0, s)
    | .HDD_IPA_RM_GRANTED =>
      let s1 := { s with rm_state := .HDD_IPA_RM_RELEASED,
                         stats := { s.stats with
                           num_rm_release := inc64 s.stats.num_rm_release } }
      let r := call env .ipa_rm_inactivity_timer_release_resource s1
      let ret := r.1
      let s2 := r.2
      let s3 := if ret ≠ 0 then { s2 with rm_state := .HDD_IPA_RM_GRANTED } else s2
      let s4 := (call env .schedule_delayed_work_wake_lock_work s3).2
      (ret, s4)

/-! ## WDI pipes -/

/-- The C `hdd_ipa_wdi_enable_pipes`. -/
def hdd_ipa_wdi_enable_pipes (env : Env) (s : hdd_ipa_priv) : Int × hdd_ipa_priv :=
  if !env.pdev then (QDF_STATUS_E_FAILURE, s)
  else
    let r0 := call env (.ol_txrx_rx_hash_smmu_map true) s
    if r0.1 ≠ 0 then r0
    else
      let smmu_unmap := fun (r : Int × hdd_ipa_priv) =>
        (r.1, (call env (.ol_txrx_rx_hash_smmu_map false) r.2).2)
      let r1 := call env (.ipa_enable_wdi_pipe true) r0.2
      if r1.1 ≠ 0 then smmu_unmap r1
      else
        let r2 := call env (.ipa_resume_wdi_pipe true) r1.2
        if r2.1 ≠ 0 then smmu_unmap r2
        else
          let r3 := call env (.ipa_enable_wdi_pipe false) r2.2
          if r3.1 ≠ 0 then smmu_unmap r3
          else
            let r4 := call env (.ipa_resume_wdi_pipe false) r3.2
            if r4.1 ≠ 0 then smmu_unmap r4
            else (0, r4.2)

/-- The C `hdd_ipa_wdi_disable_pipes`. -/
def hdd_ipa_wdi_disable_pipes (env : Env) (s : hdd_ipa_priv) : Int × hdd_ipa_priv :=
  if !env.pdev then (QDF_STATUS_E_FAILURE, s)
  else
    let r1 := call env (.ipa_suspend_wdi_pipe false) s
    if r1.1 ≠ 0 then r1
    else
      let r2 := call env (.ipa_disable_wdi_pipe false) r1.2
      if r2.1 ≠ 0 then r2
      else
        let r3 := call env (.ipa_suspend_wdi_pipe true) r2.2
        if r3.1 ≠ 0 then r3
        else
          let r4 := call env (.ipa_disable_wdi_pipe true) r3.2
          if r4.1 ≠ 0 then r4
          else
            let r5 := call env (.ol_txrx_rx_hash_smmu_map false) r4.2
            if r5.1 ≠ 0 then r5
            else (0, r5.2)

/-- The C `hdd_ipa_uc_enable_pipes`. -/
def hdd_ipa_uc_enable_pipes (env : Env) (s : hdd_ipa_priv) : Int × hdd_ipa_priv :=
  if !env.pdev then (QDF_STATUS_E_FAILURE, s)
  else if !s.ipa_pipes_down then (0, s)
  else
    let r := hdd_ipa_wdi_enable_pipes env s
    if r.1 ≠ 0 then r
    else
      let s1 := (call env (.ol_txrx_ipa_uc_set_active true true) r.2).2
      let s2 := (call env (.ol_txrx_ipa_uc_set_active true false) s1).2
      let s3 := (call env .init_completion_ipa_resource_comp s2).2
      (r.1, { s3 with ipa_pipes_down := false })

/-- The C `hdd_ipa_uc_disable_pipes`. -/
def hdd_ipa_uc_disable_pipes (env : Env) (s : hdd_ipa_priv) : Int × hdd_ipa_priv :=
  if s.ipa_pipes_down then (0, s)
  else
    let r := hdd_ipa_wdi_disable_pipes env s
    if r.1 ≠ 0 then r
    else (r.1, { r.2 with ipa_pipes_down := true })

/-- The C `hdd_ipa_rm_notify`, for a context pointer that is not `NULL`. -/
def hdd_ipa_rm_notify (env : Env) (s : hdd_ipa_priv) (event : ipa_rm_event) :
    hdd_ipa_priv :=
  if !hdd_ipa_is_rm_enabled s then s
  else
    match event with
    | .IPA_RM_RESOURCE_GRANTED =>
      if hdd_ipa_uc_is_enabled s then
        (call env .schedule_work_uc_rm_work { s with uc_rm_work_event := event }).2
      else
        { s with rm_state := .HDD_IPA_RM_GRANTED,
                 stats := { s.stats with num_rm_grant := inc64 s.stats.num_rm_grant } }
    | .IPA_RM_RESOURCE_RELEASED => { s with resource_unloading := false }
    | .other => s

/-- The C `hdd_ipa_uc_rm_notify_handler`. -/
def hdd_ipa_uc_rm_notify_handler (env : Env) (s : hdd_ipa_priv)
    (event : ipa_rm_event) : hdd_ipa_priv :=
  if env.wlan_hdd_validate_context ≠ 0 then s
  else if !hdd_ipa_is_rm_enabled s then s
  else
    match event with
    | .IPA_RM_RESOURCE_GRANTED =>
      if s.resource_unloading == false && s.activated_fw_pipe == 0 then
        { (hdd_ipa_uc_enable_pipes env s).2 with resource_loading := false }
      else s
    | .IPA_RM_RESOURCE_RELEASED => { s with resource_unloading := false }
    | .other => s

/-- The C `hdd_ipa_uc_rm_notify_defer`: the work item that
`hdd_ipa_rm_notify` schedules hands the stored event to the handler. -/
def hdd_ipa_uc_rm_notify_defer (env : Env) (s : hdd_ipa_priv) : hdd_ipa_priv :=
  hdd_ipa_uc_rm_notify_handler env s s.uc_rm_work_event

/-- Delivery of the asynchronous grant notification: the callback
`hdd_ipa_rm_notify` with `IPA_RM_RESOURCE_GRANTED`, followed, when uC offload
is enabled (the case in which the callback schedules `uc_rm_work`), by the
scheduled work item. -/
def rm_grant_notification (env : Env) (s : hdd_ipa_priv) : hdd_ipa_priv :=
  let s1 := hdd_ipa_rm_notify env s .IPA_RM_RESOURCE_GRANTED
  if hdd_ipa_uc_is_enabled s then hdd_ipa_uc_rm_notify_defer env s1 else s1

/-- The C `hdd_ipa_wake_lock_timer_func`, the handler of the delayed work
`wake_lock_work`. -/
def hdd_ipa_wake_lock_timer_func (env : Env) (s : hdd_ipa_priv) : hdd_ipa_priv :=
  if s.rm_state ≠ .HDD_IPA_RM_RELEASED then s
  else (call env .qdf_wake_lock_release { s with wake_lock_released := true }).2

/-- The C `hdd_ipa_wdi_setup_rm`; the parameters of the resources are left
out. -/
def hdd_ipa_wdi_setup_rm (env : Env) (s : hdd_ipa_priv) : Int × hdd_ipa_priv :=
  if !hdd_ipa_is_rm_enabled s then (0, s)
  else
    let s1 := (call env (.init .init_work_uc_rm_work) s).2
    let r1 := call env (.init (.ipa_rm_create_resource true)) s1
    if r1.1 ≠ 0 then r1
    else
      let r2 := call env (.init (.ipa_rm_create_resource false)) r1.2
      if r2.1 ≠ 0 then (r2.1, (call env (.init (.ipa_rm_delete_resource true)) r2.2).2)
      else
        let s2 := (call env (.init .ipa_rm_add_dependency) r2.2).2
        let r3 := call env (.init .ipa_rm_inactivity_timer_init) s2
        if r3.1 ≠ 0 then
          let s3 := (call env (.init (.ipa_rm_delete_resource false)) r3.2).2
          (r3.1, (call env (.init (.ipa_rm_delete_resource true)) s3).2)
        else
          let s3 := (call env (.init .qdf_wake_lock_create) r3.2).2
          let s4 := (call env (.init .init_delayed_work_wake_lock_work) s3).2
          (r3.1, { s4 with rm_state := .HDD_IPA_RM_RELEASED,
                           wake_lock_released := true,
                           tx_ref_cnt := 0 })

/-- The C `hdd_ipa_is_rm_released`. -/
def hdd_ipa_is_rm_released (s : hdd_ipa_priv) : Bool :=
  if s.rm_state ≠ .HDD_IPA_RM_RELEASED then false else true

/-- The C `__hdd_ipa_suspend` (and its wrapper `hdd_ipa_suspend`). -/
def __hdd_ipa_suspend (env : Env) (s : hdd_ipa_priv) : Int × hdd_ipa_priv :=
  if env.wlan_hdd_validate_context ≠ 0 then (0, s)
  else if !hdd_ipa_is_enabled s then (0, s)
  else if s.tx_ref_cnt ≠ 0 then (-EAGAIN, s)
  else if !hdd_ipa_is_rm_released s then (-EAGAIN, s)
  else (0, { s with suspended := true })

/-- The C `__hdd_ipa_resume` (and its wrapper `hdd_ipa_resume`). -/
def __hdd_ipa_resume (env : Env) (s : hdd_ipa_priv) : Int × hdd_ipa_priv :=
  if env.wlan_hdd_validate_context ≠ 0 then (0, s)
  else if !hdd_ipa_is_enabled s then (0, s)
  else (0, { (call env .schedule_work_pm_work s).2 with suspended := false })

/-! ## Transmit-descriptor pool -/

/-- The loop of `hdd_ipa_alloc_tx_desc_list`: descriptor `i` gets `id = i`, no
buffer, and is linked at the tail of the free list. -/
def alloc_tx_desc_loop (n : Nat) : List hdd_ipa_tx_desc × List Nat :=
  (List.range n).foldl
    (fun acc i => (acc.1 ++ [{ id := i, ipa_tx_desc_ptr := none }], acc.2 ++ [i]))
    ([], [])

/-- The C `hdd_ipa_alloc_tx_desc_list`. -/
def hdd_ipa_alloc_tx_desc_list (env : Env) (s : hdd_ipa_priv) : Int × hdd_ipa_priv :=
  if !env.pdev then (-ENODEV, s)
  else
    let n := (min s.IpaMccTxDescSize env.pool_size) % 2 ^ 16
    let s1 := { s with tx_desc_size := n, free_tx_desc_head := [] }
    let r := call env (.qdf_mem_malloc_tx_desc n) s1
    if r.1 = 0 then (-ENOMEM, r.2)
    else
      let l := alloc_tx_desc_loop n
      (0, { r.2 with tx_desc_list := l.1, free_tx_desc_head := l.2,
                     stats := { r.2.stats with num_tx_desc_q_cnt := 0,
                                               num_tx_desc_error := 0 } })

/-- Write `tx_desc_list[id].ipa_tx_desc_ptr`. -/
def set_tx_desc_ptr (l : List hdd_ipa_tx_desc) (id : Nat) (p : Option Nat) :
    List hdd_ipa_tx_desc :=
  match l[id]? with
  | some d => l.set id { d with ipa_tx_desc_ptr := p }
  | none => l

/-- The C `hdd_ipa_nbuf_cb`. -/
def hdd_ipa_nbuf_cb (env : Env) (s : hdd_ipa_priv) (skb : sk_buff) : hdd_ipa_priv :=
  if !skb.ipa_owned then (call env (.dev_kfree_skb_any skb.id) s).2
  else
    let s1 :=
      if env.osdev && env.smmu_s1_enabled then (call env (.qdf_nbuf_unmap skb.id) s).2
      else s
    let id := skb.tx_ipa_priv % 2 ^ 16
    let ipa_tx_desc := (s1.tx_desc_list[id]?).bind (fun d => d.ipa_tx_desc_ptr)
    let s2 := (call env (.ipa_free_skb (ipa_tx_desc.getD 0)) s1).2
    let s3 := { s2 with
      tx_desc_list := set_tx_desc_ptr s2.tx_desc_list id none,
      free_tx_desc_head := s2.free_tx_desc_head ++ [id],
      stats := { s2.stats with
        num_tx_desc_q_cnt := dec64 s2.stats.num_tx_desc_q_cnt,
        num_tx_comp_cnt := inc64 s2.stats.num_tx_comp_cnt },
      tx_ref_cnt := wrap32 (s2.tx_ref_cnt - 1) }
    (hdd_ipa_wdi_rm_try_release env s3).2

/-- The QDF routine `qdf_nbuf_free` lies outside this file; the only way it
can reach the context is the callback that `hdd_ipa_setup_iface` registers
with `qdf_nbuf_reg_free_cb`.  It is taken to hand the buffer to that
callback when it has been registered (ghost flag `nbuf_free_cb`) and to free
the buffer otherwise. -/
def qdf_nbuf_free (env : Env) (s : hdd_ipa_priv) (skb : sk_buff) : hdd_ipa_priv :=
  let s1 := (call env (.qdf_nbuf_free skb.id) s).2
  if s1.nbuf_free_cb then hdd_ipa_nbuf_cb env s1 skb
  else (call env (.dev_kfree_skb_any skb.id) s1).2

/-- Apply `f` to `iface_context[i]`. -/
def modify_iface (s : hdd_ipa_priv) (i : Nat)
    (f : hdd_ipa_iface_context → hdd_ipa_iface_context) : hdd_ipa_priv :=
  match s.iface_context[i]? with
  | some c => { s with iface_context := s.iface_context.set i (f c) }
  | none => s

/-- The statement `iface_context->stats.num_tx_drop++`. -/
def iface_num_tx_drop_inc (s : hdd_ipa_priv) (i : Nat) : hdd_ipa_priv :=
  modify_iface s i (fun c => { c with stats := { c.stats with
    num_tx_drop := inc64 c.stats.num_tx_drop } })

/-- The result of `hdd_validate_adapter` being non-zero, for a pointer that
may be `NULL`. -/
def adapter_invalid (env : Env) (a : Option Nat) : Bool :=
  match a with
  | none => true
  | some a => env.hdd_validate_adapter a != 0

/-- The second half of `hdd_ipa_send_pkt_to_tl`, from the lock of `q_lock`
on: take the first descriptor off the free list, bind it to the packet and
hand the buffer to the TXRX layer; with an empty free list count the error
and drop the packet. -/
def send_pkt_take_desc (env : Env) (s0 : hdd_ipa_priv) (i : Nat)
    (ipa_tx_desc : ipa_rx_data) (skb : sk_buff) : Option Nat × hdd_ipa_priv :=
  match s0.free_tx_desc_head with
  | [] =>
    let s1 := { s0 with stats := { s0.stats with
      num_tx_desc_error := inc64 s0.stats.num_tx_desc_error } }
    let s2 := if env.smmu_s1_enabled then (call env (.qdf_nbuf_unmap skb.id) s1).2
              else s1
    let s3 := (call env (.ipa_free_skb ipa_tx_desc.id) s2).2
    (none, (hdd_ipa_wdi_rm_try_release env s3).2)
  | id :: rest =>
    let s1 := { s0 with
      free_tx_desc_head := rest,
      tx_desc_list := set_tx_desc_ptr s0.tx_desc_list id (some ipa_tx_desc.id),
      stats := { s0.stats with
        num_tx_desc_q_cnt := inc64 s0.stats.num_tx_desc_q_cnt } }
    let skb1 : sk_buff := { skb with tx_ipa_priv := id }
    let r := call env (.ol_tx_send_ipa_data_frame skb1.id) s1
    if r.1 ≠ 0 then
      let s2 := qdf_nbuf_free env r.2 skb1
      (some id, modify_iface s2 i (fun c => { c with stats := { c.stats with
        num_tx_err := inc64 c.stats.num_tx_err } }))
    else
      let s2 := { r.2 with tx_ref_cnt := wrap32 (r.2.tx_ref_cnt + 1) }
      (some id, modify_iface s2 i (fun c => { c with stats := { c.stats with
        num_tx := inc64 c.stats.num_tx } }))

/-- The C `hdd_ipa_send_pkt_to_tl`, for the interface context
`iface_context[i]`.  Addresses, lengths and the adapter byte and packet
counters are left out.  Besides the new context the model returns the
descriptor index that was taken from the free list and stored in the buffer,
if one was taken. -/
def hdd_ipa_send_pkt_to_tl (env : Env) (s : hdd_ipa_priv) (i : Nat)
    (ipa_tx_desc : ipa_rx_data) : Option Nat × hdd_ipa_priv :=
  let adapter := (s.iface_context[i]?).bind (fun c => c.adapter)
  if adapter_invalid env adapter then
    let s1 := (call env (.ipa_free_skb ipa_tx_desc.id) s).2
    (none, (hdd_ipa_wdi_rm_try_release env (iface_num_tx_drop_inc s1 i)).2)
  else
    let a := adapter.getD 0
    if (QDF_SAP_MODE == env.device_mode a || QDF_P2P_GO_MODE == env.device_mode a)
        && env.dfs_cac_block_tx a then
      let s1 := (call env (.ipa_free_skb ipa_tx_desc.id) s).2
      let s2 := modify_iface s1 i (fun c => { c with stats := { c.stats with
        num_tx_cac_drop := inc64 c.stats.num_tx_cac_drop } })
      (none, (hdd_ipa_wdi_rm_try_release env s2).2)
    else if !env.osdev then
      let s1 := (call env (.ipa_free_skb ipa_tx_desc.id) s).2
      (none, (hdd_ipa_wdi_rm_try_release env (iface_num_tx_drop_inc s1 i)).2)
    else
      let skb : sk_buff := { ipa_tx_desc.skb with ipa_owned := true, tx_ipa_priv := 0 }
      if env.smmu_s1_enabled then
        let m := call env (.qdf_nbuf_map skb.id) s
        if m.1 ≠ 0 then
          let s1 := (call env (.ipa_free_skb ipa_tx_desc.id) m.2).2
          (none, (hdd_ipa_wdi_rm_try_release env (iface_num_tx_drop_inc s1 i)).2)
        else send_pkt_take_desc env m.2 i ipa_tx_desc skb
      else send_pkt_take_desc env s i ipa_tx_desc skb

/-- The critical section of `hdd_ipa_send_pkt_to_tl` under `q_lock`, on a
free list that is not empty, with the assignment that follows it: unlink
the first free descriptor, point it at the packet, count it and store its
index in the buffer.  The result is `none` on an empty free list. -/
def tx_desc_pop (s : hdd_ipa_priv) (ipa_tx_desc : ipa_rx_data) (skb : sk_buff) :
    Option (Nat × sk_buff × hdd_ipa_priv) :=
  match s.free_tx_desc_head with
  | [] => none
  | id :: rest =>
    some (id, { skb with tx_ipa_priv := id },
      { s with
        free_tx_desc_head := rest,
        tx_desc_list := set_tx_desc_ptr s.tx_desc_list id (some ipa_tx_desc.id),
        stats := { s.stats with
          num_tx_desc_q_cnt := inc64 s.stats.num_tx_desc_q_cnt } })

/-- A run of descriptor acquisitions, one for each packet of the list, in
order, each through `send_pkt_take_desc` with the buffer prepared as
`hdd_ipa_send_pkt_to_tl` prepares it; the result lists what each acquisition
returned. -/
def acquire_seq (env : Env) (s : hdd_ipa_priv) (i : Nat) :
    List ipa_rx_data → List (Option Nat) × hdd_ipa_priv
  | [] => ([], s)
  | d :: ds =>
    let r := send_pkt_take_desc env s i d
      { d.skb with ipa_owned := true, tx_ipa_priv := 0 }
    let rs := acquire_seq env r.2 i ds
    (r.1 :: rs.1, rs.2)

/-! ## Association table -/

/-- The second loop of `hdd_ipa_uc_find_add_assoc_sta`: reserve the first
slot that is not reserved. -/
def assoc_sta_add (sta_id : Nat) : List ipa_uc_stas_map → List ipa_uc_stas_map
  | [] => []
  | m :: ms =>
    if !m.is_reserved then { is_reserved := true, sta_id := sta_id } :: ms
    else m :: assoc_sta_add sta_id ms

/-- The last loop of `hdd_ipa_uc_find_add_assoc_sta`: clear the first slot
reserved for `sta_id`. -/
def assoc_sta_del (sta_id : Nat) : List ipa_uc_stas_map → List ipa_uc_stas_map
  | [] => []
  | m :: ms =>
    if m.is_reserved && m.sta_id == sta_id then
      { is_reserved := false, sta_id := 0xFF } :: ms
    else m :: assoc_sta_del sta_id ms

/-- The C `hdd_ipa_uc_find_add_assoc_sta`. -/
def hdd_ipa_uc_find_add_assoc_sta (s : hdd_ipa_priv) (sta_add : Bool) (sta_id : Nat) :
    Bool × hdd_ipa_priv :=
  let sta_found := s.assoc_stas_map.any (fun m => m.is_reserved && m.sta_id == sta_id)
  if sta_add && sta_found then (sta_found, s)
  else if sta_add then
    (sta_found, { s with assoc_stas_map := assoc_sta_add sta_id s.assoc_stas_map })
  else if !sta_found then (sta_found, s)
  else (sta_found, { s with assoc_stas_map := assoc_sta_del sta_id s.assoc_stas_map })

/-! ## Pipe life cycle -/

/-- The C `hdd_ipa_uc_handle_first_con`. -/
def hdd_ipa_uc_handle_first_con (env : Env) (s : hdd_ipa_priv) : Int × hdd_ipa_priv :=
  let s1 := { s with activated_fw_pipe := 0, resource_loading := true }
  if hdd_ipa_is_rm_enabled s1 then
    let r := call env .ipa_rm_request_resource s1
    if r.1 = 0 then
      let e := hdd_ipa_uc_enable_pipes env r.2
      if e.1 ≠ 0 then (-EBUSY, { e.2 with resource_loading := false })
      else (0, e.2)
    else (0, r.2)
  else
    let e := hdd_ipa_uc_enable_pipes env s1
    if e.1 ≠ 0 then (-EBUSY, { e.2 with resource_loading := false })
    else (0, { e.2 with resource_loading := false })

/-- The C `hdd_ipa_uc_handle_last_discon`. -/
def hdd_ipa_uc_handle_last_discon (env : Env) (s : hdd_ipa_priv) : hdd_ipa_priv :=
  if !env.pdev then s
  else
    let s1 := { s with resource_unloading := true }
    let s2 := (call env .init_completion_ipa_resource_comp s1).2
    (call env (.ol_txrx_ipa_uc_set_active false false) s2).2

/-! ## Interfaces -/

/-- Offload type `SIR_AP_RX_DATA_OFFLOAD` (sir_api.h). -/
def SIR_AP_RX_DATA_OFFLOAD : Nat := 0
/-- Offload type `SIR_STA_RX_DATA_OFFLOAD` (sir_api.h). -/
def SIR_STA_RX_DATA_OFFLOAD : Nat := 1

/-- Read `adapter->ipa_context`. -/
def get_ipa_context (s : hdd_ipa_priv) (adapter : Nat) : Option Nat :=
  s.adapter_ipa_context.lookup adapter

/-- Write `adapter->ipa_context`. -/
def set_ipa_context (s : hdd_ipa_priv) (adapter : Nat) (c : Option Nat) : hdd_ipa_priv :=
  let l := s.adapter_ipa_context.filter (fun p => p.1 != adapter)
  match c with
  | none => { s with adapter_ipa_context := l }
  | some i => { s with adapter_ipa_context := (adapter, i) :: l }

/-- The C `hdd_ipa_cleanup_iface`; the argument is the index of the interface
context, `none` for a `NULL` pointer. -/
def hdd_ipa_cleanup_iface (env : Env) (s : hdd_ipa_priv) (iface_context : Option Nat) :
    hdd_ipa_priv :=
  match iface_context with
  | none => s
  | some i =>
    let adapter := (s.iface_context[i]?).bind (fun c => c.adapter)
    if adapter_invalid env adapter then s
    else
      let a := adapter.getD 0
      let s1 := (call env (.hdd_ipa_wdi_dereg_intf a) s).2
      let s2 := set_ipa_context s1 a none
      let s3 := modify_iface s2 i (fun c =>
        { c with adapter := none, tl_context := none, ifa_address := 0 })
      if s3.num_iface == 0 then s3
      else { s3 with num_iface := dec8 s3.num_iface }

/-- The search loop of `hdd_ipa_setup_iface`: the first interface context
without an adapter, counting from index `i`. -/
def find_free_iface : List hdd_ipa_iface_context → Nat → Option Nat
  | [], _ => none
  | c :: cs, i => if c.adapter.isNone then some i else find_free_iface cs (i + 1)

/-- The C `hdd_ipa_setup_iface`. -/
def hdd_ipa_setup_iface (env : Env) (s : hdd_ipa_priv) (adapter sta_id : Nat) :
    Int × hdd_ipa_priv :=
  if QDF_SAP_MODE == env.device_mode adapter && (get_ipa_context s adapter).isSome then
    (0, s)
  else if s.iface_context.length == s.num_iface then (-EINVAL, s)
  else
    match find_free_iface s.iface_context 0 with
    | none => (-ENOMEM, s)
    | some i =>
      let s1 := set_ipa_context s adapter (some i)
      let s2 := modify_iface s1 i (fun c => { c with adapter := some adapter,
                                                     sta_id := sta_id })
      let t := call env (.ol_txrx_get_vdev_by_sta_id sta_id) s2
      if t.1 = 0 then (-EINVAL, hdd_ipa_cleanup_iface env t.2 (some i))
      else
        let s3 := modify_iface t.2 i (fun c => { c with tl_context := some t.1.toNat })
        let r := call env (.hdd_ipa_wdi_reg_intf adapter) s3
        if r.1 ≠ 0 then (r.1, hdd_ipa_cleanup_iface env r.2 (some i))
        else
          let s4 := (call env .qdf_nbuf_reg_free_cb r.2).2
          (r.1, { s4 with nbuf_free_cb := true, num_iface := inc8 s4.num_iface })

/-- The C `hdd_ipa_uc_offload_enable_disable`. -/
def hdd_ipa_uc_offload_enable_disable (env : Env) (s : hdd_ipa_priv) (adapter : Nat)
    (offload_type : Nat) (enable : Bool) : hdd_ipa_priv :=
  if env.hdd_validate_adapter adapter ≠ 0 then s
  else
    let session_id := env.sessionId adapter
    if (get_ipa_context s adapter).isNone then s
    else if session_id ≥ s.vdev_offload_enabled.length then s
    else if enable == s.vdev_offload_enabled.getD session_id false then s
    else if env.wlan_hdd_validate_session_id session_id ≠ 0 then s
    else
      let r := call env (.sme_ipa_offload_enable_disable session_id offload_type enable) s
      if r.1 ≠ 0 then r.2
      else { r.2 with vdev_offload_enabled := r.2.vdev_offload_enabled.set session_id enable }

/-- The statement `hdd_ipa->vdev_to_iface[adapter->sessionId] = v`. -/
def set_vdev_to_iface (env : Env) (s : hdd_ipa_priv) (adapter v : Nat) : hdd_ipa_priv :=
  { s with vdev_to_iface := s.vdev_to_iface.set (env.sessionId adapter) v }

/-- The value `((struct hdd_ipa_iface_context *)(adapter->ipa_context))->iface_id`. -/
def adapter_iface_id (s : hdd_ipa_priv) (adapter : Nat) : Nat :=
  match get_ipa_context s adapter with
  | some i => ((s.iface_context[i]?).map (fun c => c.iface_id)).getD 0
  | none => 0

/-! ## Connection events and the pending-event queue -/

/-- The C `is_zero_ether_addr`. -/
def is_zero_ether_addr (mac_addr : List Nat) : Bool :=
  mac_addr.all (fun b => b == 0)

/-- The statement `hdd_ipa->stats.event[type]++` on a `uint32_t` counter. -/
def stats_event_inc (s : hdd_ipa_priv) (type : Nat) : hdd_ipa_priv :=
  { s with stats := { s.stats with
      event := s.stats.event.set type ((s.stats.event.getD type 0 + 1) % 2 ^ 32) } }

/-- The end of `__hdd_ipa_wlan_evt`: allocate the message for the IPA driver
and send it. -/
def send_wlan_msg (env : Env) (s : hdd_ipa_priv) (type : Nat) : Int × hdd_ipa_priv :=
  let m := call env .qdf_mem_malloc_msg s
  if m.1 = 0 then (-ENOMEM, m.2)
  else
    let r := call env (.ipa_send_msg type) m.2
    if r.1 ≠ 0 then r
    else (r.1, { r.2 with stats := { r.2.stats with
      num_send_msg := inc64 r.2.stats.num_send_msg } })

/-- The entry that `__hdd_ipa_wlan_evt` fills in for an event it stores:
the arguments of the call, tagged with the current `resource_loading`. -/
def stored_pending_event (s : hdd_ipa_priv) (adapter sta_id type : Nat)
    (mac_addr : List Nat) : ipa_uc_pending_event :=
  { adapter := adapter, type := type, sta_id := sta_id, mac_addr := mac_addr,
    is_loading := s.resource_loading }

/-- In `__hdd_ipa_wlan_evt`, once an entry is at hand: link it at the tail of
the list, clean up the interface for a disconnect event, and return 0. -/
def pending_event_insert (env : Env) (s1 : hdd_ipa_priv) (ev : ipa_uc_pending_event) :
    Int × hdd_ipa_priv :=
  let s2 := { s1 with pending_event := s1.pending_event ++ [ev] }
  if ev.type == WLAN_STA_DISCONNECT || ev.type == WLAN_AP_DISCONNECT then
    (0, hdd_ipa_cleanup_iface env s2 (get_ipa_context s2 ev.adapter))
  else (0, s2)

/-- The part of `__hdd_ipa_wlan_evt` that stores an event after the wait for
the end of a load or unload timed out: with twenty entries or more the
oldest entry is unlinked and reused, otherwise an entry is allocated. -/
def queue_pending_event (env : Env) (s : hdd_ipa_priv) (adapter sta_id type : Nat)
    (mac_addr : List Nat) : Int × hdd_ipa_priv :=
  let ev := stored_pending_event s adapter sta_id type mac_addr
  if s.pending_event.length ≥ HDD_IPA_MAX_PENDING_EVENT_COUNT then
    match s.pending_event with
    | [] => (-ENOMEM, s)
    | _ :: rest => pending_event_insert env { s with pending_event := rest } ev
  else
    let m := call env .qdf_mem_malloc_pending_event s
    if m.1 = 0 then (-ENOMEM, m.2)
    else pending_event_insert env m.2 ev

/-- The case `WLAN_STA_CONNECT` of `__hdd_ipa_wlan_evt` with the code that
follows the `switch`. -/
def wlan_evt_sta_connect (env : Env) (s : hdd_ipa_priv) (adapter sta_id type : Nat) :
    Int × hdd_ipa_priv :=
  let s1 := if s.sta_connected != 0 then
      hdd_ipa_cleanup_iface env s (get_ipa_context s adapter) else s
  let r := hdd_ipa_setup_iface env s1 adapter sta_id
  if r.1 ≠ 0 then r
  else
    let s2 := r.2
    let s3 :=
      if hdd_ipa_uc_sta_is_enabled s2 &&
          (decide (s2.sap_num_connected_sta > 0) ||
            hdd_ipa_uc_sta_only_offload_is_enabled env) &&
          s2.sta_connected == 0 then
        hdd_ipa_uc_offload_enable_disable env s2 adapter SIR_STA_RX_DATA_OFFLOAD true
      else s2
    let f : Int × hdd_ipa_priv :=
      if !hdd_ipa_uc_sta_only_offload_is_enabled env then (0, s3)
      else if s3.sap_num_connected_sta == 0 && s3.sta_connected == 0 then
        hdd_ipa_uc_handle_first_con env s3
      else (0, s3)
    if f.1 ≠ 0 then
      (f.1, hdd_ipa_uc_offload_enable_disable env f.2 adapter
              SIR_STA_RX_DATA_OFFLOAD false)
    else
      let s4 := set_vdev_to_iface env f.2 adapter (adapter_iface_id f.2 adapter)
      send_wlan_msg env { s4 with sta_connected := 1 } type

/-- The case `WLAN_AP_CONNECT` of `__hdd_ipa_wlan_evt` with the code that
follows the `switch`. -/
def wlan_evt_ap_connect (env : Env) (s : hdd_ipa_priv) (adapter sta_id type : Nat) :
    Int × hdd_ipa_priv :=
  if (get_ipa_context s adapter).isSome then (0, s)
  else
    let r := hdd_ipa_setup_iface env s adapter sta_id
    if r.1 ≠ 0 then r
    else
      let s2 :=
        if hdd_ipa_uc_is_enabled r.2 then
          hdd_ipa_uc_offload_enable_disable env r.2 adapter SIR_AP_RX_DATA_OFFLOAD true
        else r.2
      let s3 := set_vdev_to_iface env s2 adapter (adapter_iface_id s2 adapter)
      send_wlan_msg env s3 type

/-- The case `WLAN_STA_DISCONNECT` of `__hdd_ipa_wlan_evt` with the code that
follows the `switch`. -/
def wlan_evt_sta_disconnect (env : Env) (s : hdd_ipa_priv) (adapter type : Nat) :
    Int × hdd_ipa_priv :=
  if s.sta_connected == 0 then (-EINVAL, s)
  else
    let s1 := { s with sta_connected := 0 }
    let s2 :=
      if !hdd_ipa_uc_is_enabled s1 then s1
      else if (s1.num_iface == 1 ||
            (hdd_ipa_uc_sta_only_offload_is_enabled env && s1.sap_num_connected_sta == 0)) &&
          hdd_ipa_is_fw_wdi_actived s1 && !s1.ipa_pipes_down then
        hdd_ipa_uc_handle_last_discon env s1
      else s1
    let s3 :=
      if hdd_ipa_uc_sta_is_enabled s2 &&
          (decide (s2.sap_num_connected_sta > 0) ||
            hdd_ipa_uc_sta_only_offload_is_enabled env) then
        let o := hdd_ipa_uc_offload_enable_disable env s2 adapter
          SIR_STA_RX_DATA_OFFLOAD false
        set_vdev_to_iface env o adapter o.vdev_to_iface.length
      else s2
    let s4 := hdd_ipa_cleanup_iface env s3 (get_ipa_context s3 adapter)
    send_wlan_msg env s4 type

/-- The case `WLAN_AP_DISCONNECT` of `__hdd_ipa_wlan_evt` with the code that
follows the `switch`. -/
def wlan_evt_ap_disconnect (env : Env) (s : hdd_ipa_priv) (adapter type : Nat) :
    Int × hdd_ipa_priv :=
  if (get_ipa_context s adapter).isNone then (-EINVAL, s)
  else
    let s1 :=
      if s.num_iface == 1 && hdd_ipa_is_fw_wdi_actived s && !s.ipa_pipes_down then
        if env.cds_is_driver_unloading then (hdd_ipa_uc_disable_pipes env s).2
        else hdd_ipa_uc_handle_last_discon env s
      else s
    let s2 :=
      if hdd_ipa_uc_is_enabled s1 then
        let o := hdd_ipa_uc_offload_enable_disable env s1 adapter
          SIR_AP_RX_DATA_OFFLOAD false
        set_vdev_to_iface env o adapter o.vdev_to_iface.length
      else s1
    let s3 := hdd_ipa_cleanup_iface env s2 (get_ipa_context s2 adapter)
    send_wlan_msg env s3 type

/-- In the case `WLAN_CLIENT_CONNECT_EX` of `__hdd_ipa_wlan_evt`: the block
that enables the pipes when the first station connects. -/
def client_connect_first_sta (env : Env) (s1 : hdd_ipa_priv) : Int × hdd_ipa_priv :=
  if s1.sap_num_connected_sta == 0 && s1.uc_loaded == true then
    let s2 :=
      if hdd_ipa_uc_sta_is_enabled s1 && s1.sta_connected != 0 &&
          !hdd_ipa_uc_sta_only_offload_is_enabled env then
        hdd_ipa_uc_offload_enable_disable env s1 env.sta_adapter
          SIR_STA_RX_DATA_OFFLOAD true
      else s1
    if hdd_ipa_uc_sta_only_offload_is_enabled env && s2.sta_connected != 0 then (0, s2)
    else
      let h := hdd_ipa_uc_handle_first_con env s2
      if h.1 ≠ 0 then
        if hdd_ipa_uc_sta_is_enabled h.2 && h.2.sta_connected != 0 then
          (-EPERM, hdd_ipa_uc_offload_enable_disable env h.2 env.sta_adapter
            SIR_STA_RX_DATA_OFFLOAD false)
        else (-EPERM, h.2)
      else (0, h.2)
  else (0, s1)

/-- The case `WLAN_CLIENT_CONNECT_EX` of `__hdd_ipa_wlan_evt`. -/
def wlan_evt_client_connect_ex (env : Env) (s : hdd_ipa_priv) (sta_id type : Nat) :
    Int × hdd_ipa_priv :=
  if !hdd_ipa_uc_is_enabled s then (0, s)
  else
    let fa := hdd_ipa_uc_find_add_assoc_sta s true sta_id
    if fa.1 then (0, fa.2)
    else
      let f := client_connect_first_sta env fa.2
      if f.1 ≠ 0 then f
      else
        send_wlan_msg env
          { f.2 with sap_num_connected_sta := inc8 f.2.sap_num_connected_sta } type

/-- In the case `WLAN_CLIENT_DISCONNECT` of `__hdd_ipa_wlan_evt`: the block
that disables the pipes when the last station has left. -/
def client_disconnect_last_sta (env : Env) (s1 : hdd_ipa_priv) : hdd_ipa_priv :=
  if s1.sap_num_connected_sta == 0 && s1.uc_loaded == true &&
      !(hdd_ipa_uc_sta_only_offload_is_enabled env && s1.sta_connected != 0) then
    let d :=
      if s1.resource_unloading == false && hdd_ipa_is_fw_wdi_actived s1 &&
          !s1.ipa_pipes_down then
        hdd_ipa_uc_handle_last_discon env s1
      else s1
    if hdd_ipa_uc_sta_is_enabled d && d.sta_connected != 0 then
      hdd_ipa_uc_offload_enable_disable env d env.sta_adapter
        SIR_STA_RX_DATA_OFFLOAD false
    else d
  else s1

/-- The case `WLAN_CLIENT_DISCONNECT` of `__hdd_ipa_wlan_evt` with the code
that follows the `switch`. -/
def wlan_evt_client_disconnect (env : Env) (s : hdd_ipa_priv) (sta_id type : Nat) :
    Int × hdd_ipa_priv :=
  if !hdd_ipa_uc_is_enabled s then (0, s)
  else if s.sap_num_connected_sta == 0 then (0, s)
  else
    let fa := hdd_ipa_uc_find_add_assoc_sta s false sta_id
    if !fa.1 then (0, fa.2)
    else
      let s1 := { fa.2 with sap_num_connected_sta := dec8 fa.2.sap_num_connected_sta }
      send_wlan_msg env (client_disconnect_last_sta env s1) type

/-- The `switch (type)` of `__hdd_ipa_wlan_evt` with the code that follows
it. -/
def wlan_evt_switch (env : Env) (s : hdd_ipa_priv) (adapter sta_id type : Nat) :
    Int × hdd_ipa_priv :=
  if type = WLAN_STA_CONNECT then wlan_evt_sta_connect env s adapter sta_id type
  else if type = WLAN_AP_CONNECT then wlan_evt_ap_connect env s adapter sta_id type
  else if type = WLAN_STA_DISCONNECT then wlan_evt_sta_disconnect env s adapter type
  else if type = WLAN_AP_DISCONNECT then wlan_evt_ap_disconnect env s adapter type
  else if type = WLAN_CLIENT_CONNECT_EX then wlan_evt_client_connect_ex env s sta_id type
  else if type = WLAN_CLIENT_DISCONNECT then wlan_evt_client_disconnect env s sta_id type
  else (0, s)

/-- The C `__hdd_ipa_wlan_evt`, for a global context that is not `NULL`. -/
def __hdd_ipa_wlan_evt (env : Env) (s : hdd_ipa_priv) (adapter sta_id type : Nat)
    (mac_addr : List Nat) : Int × hdd_ipa_priv :=
  if env.hdd_validate_adapter adapter ≠ 0 then (-EINVAL, s)
  else if type ≥ env.IPA_WLAN_EVENT_MAX then (-EINVAL, s)
  else if is_zero_ether_addr mac_addr then (-EINVAL, s)
  else if !hdd_ipa_is_enabled s then (-EINVAL, s)
  else if hdd_ipa_uc_is_enabled s && !hdd_ipa_uc_sta_is_enabled s &&
      QDF_SAP_MODE != env.device_mode adapter then (0, s)
  else if hdd_ipa_uc_is_enabled s && (s.resource_loading || s.resource_unloading) then
    let w := call env .wait_for_completion_timeout s
    if w.1 = 0 then queue_pending_event env w.2 adapter sta_id type mac_addr
    else wlan_evt_switch env (stats_event_inc w.2 type) adapter sta_id type
  else wlan_evt_switch env (stats_event_inc s type) adapter sta_id type

/-- The test in the loop of `hdd_ipa_uc_proc_pending_event` that decides
whether a dequeued event is dispatched. -/
def pending_event_dispatched (env : Env) (is_loading : Bool)
    (e : ipa_uc_pending_event) : Bool :=
  e.is_loading == is_loading && env.hdd_is_adapter_valid e.adapter &&
    env.hdd_validate_adapter e.adapter == 0

/-- The C `hdd_ipa_uc_proc_pending_event`.  The loop runs until the list is
empty; `fuel` bounds the number of entries taken off the list, and the
result is `none` when the bound is reached first.  Besides the new context
the model returns the entries it handed to `__hdd_ipa_wlan_evt`, in order. -/
def hdd_ipa_uc_proc_pending_event (env : Env) :
    Nat → hdd_ipa_priv → Bool → Option (List ipa_uc_pending_event × hdd_ipa_priv)
  | 0, _, _ => none
  | fuel + 1, s, is_loading =>
    match s.pending_event with
    | [] => some ([], s)
    | e :: rest =>
      let s1 := { s with pending_event := rest }
      if pending_event_dispatched env is_loading e then
        let s2 := (__hdd_ipa_wlan_evt env s1 e.adapter e.sta_id e.type e.mac_addr).2
        (hdd_ipa_uc_proc_pending_event env fuel s2 is_loading).map
          (fun r => (e :: r.1, r.2))
      else
        hdd_ipa_uc_proc_pending_event env fuel s1 is_loading

/-- The C `__hdd_ipa_uc_force_pipe_shutdown`, for a context whose `hdd_ipa`
pointer is set. -/
def __hdd_ipa_uc_force_pipe_shutdown (env : Env) (s : hdd_ipa_priv) : hdd_ipa_priv :=
  if !hdd_ipa_is_enabled s then s
  else if s.ipa_pipes_down = false then (hdd_ipa_uc_disable_pipes env s).2
  else s

/-! ## System pipes, WDI pipe connection and performance level -/

/-- Apply `f` to `sys_pipe[i]`. -/
def set_sys_pipe (l : List hdd_ipa_sys_pipe) (i : Nat)
    (f : hdd_ipa_sys_pipe → hdd_ipa_sys_pipe) : List hdd_ipa_sys_pipe :=
  match l[i]? with
  | some p => l.set i (f p)
  | none => l

/-- The label `setup_sys_pipe_fail` of `hdd_ipa_setup_sys_pipe`: the loop
`while (--i >= 0)`, entered with index `i`, tears down pipe `i - 1` down to
pipe 0 and zeroes their entries. -/
def setup_sys_pipe_fail (env : Env) (s : hdd_ipa_priv) : Nat → hdd_ipa_priv
  | 0 => s
  | i + 1 =>
    let hdl := ((s.sys_pipe[i]?).map (fun p => p.conn_hdl)).getD 0
    let s1 := (call env (.ipa_teardown_sys_pipe hdl) s).2
    setup_sys_pipe_fail env
      { s1 with sys_pipe := s1.sys_pipe.set i { conn_hdl := 0, conn_hdl_valid := false } } i

/-- The first loop of `hdd_ipa_setup_sys_pipe` (the TX pipes), at index `i`
with `k` iterations to go.  The result is the value of the call that failed
(0 when none did), the index on leaving the loop, and the context. -/
def setup_sys_pipe_tx (env : Env) (s : hdd_ipa_priv) (i : Nat) :
    Nat → Int × Nat × hdd_ipa_priv
  | 0 => (0, i, s)
  | k + 1 =>
    let hdl := env.sys_pipe_handle s.calls
    let r := call env (.ipa_setup_sys_pipe i) s
    if r.1 ≠ 0 then (r.1, i, r.2)
    else
      setup_sys_pipe_tx env
        { r.2 with sys_pipe := r.2.sys_pipe.set i { conn_hdl := hdl, conn_hdl_valid := true } }
        (i + 1) k

/-- The C `hdd_ipa_setup_sys_pipe`; `HDD_IPA_MAX_IFACE`, which is also
`HDD_IPA_RX_PIPE`, is the length of `iface_context`.  The connection
parameters handed to the IPA driver are left out. -/
def hdd_ipa_setup_sys_pipe (env : Env) (s : hdd_ipa_priv) : Int × hdd_ipa_priv :=
  let n := s.iface_context.length
  let t := setup_sys_pipe_tx env s 0 n
  if t.1 ≠ 0 then (t.1, setup_sys_pipe_fail env t.2.2 t.2.1)
  else
    let rx : Int × hdd_ipa_priv :=
      if !hdd_ipa_uc_sta_is_enabled t.2.2 then
        let hdl := env.sys_pipe_handle t.2.2.calls
        let r := call env (.ipa_setup_sys_pipe t.2.1) t.2.2
        if r.1 ≠ 0 then r
        else
          let l1 := set_sys_pipe r.2.sys_pipe t.2.1 (fun p => { p with conn_hdl := hdl })
          let l2 := set_sys_pipe l1 n (fun p => { p with conn_hdl_valid := true })
          (r.1, { r.2 with sys_pipe := l2 })
      else (0, t.2.2)
    if rx.1 ≠ 0 then (rx.1, setup_sys_pipe_fail env rx.2 t.2.1)
    else
      let a := hdd_ipa_alloc_tx_desc_list env rx.2
      if a.1 ≠ 0 then (a.1, setup_sys_pipe_fail env a.2 t.2.1)
      else a

/-- The C `hdd_ipa_wdi_conn_pipes`.  The pipe parameters, the doorbell
addresses and the pipe handles are left out; as in the other WDI calls a
pipe is named by whether it is the TX pipe. -/
def hdd_ipa_wdi_conn_pipes (env : Env) (s : hdd_ipa_priv) : Int × hdd_ipa_priv :=
  if !env.osdev then (QDF_STATUS_E_FAILURE, s)
  else
    let r := call env (.ipa_connect_wdi_pipe true) s
    if r.1 ≠ 0 then (QDF_STATUS_E_FAILURE, r.2)
    else
      let r2 := call env (.ipa_connect_wdi_pipe false) r.2
      if r2.1 ≠ 0 then
        (QDF_STATUS_E_FAILURE, (call env (.ipa_disconnect_wdi_pipe true) r2.2).2)
      else (0, r2.2)

/-- The C `hdd_ipa_is_clk_scaling_enabled`. -/
def hdd_ipa_is_clk_scaling_enabled (s : hdd_ipa_priv) : Bool :=
  HDD_IPA_IS_CONFIG_ENABLED s (HDD_IPA_CLK_SCALING_ENABLE_MASK ||| HDD_IPA_RM_ENABLE_MASK)

/-- The choice of the next bandwidth in `__hdd_ipa_set_perf_level`. -/
def next_bw (s : hdd_ipa_priv) (packets : Nat) : Nat :=
  if packets > s.busBandwidthHighThreshold / 2 then s.IpaHighBandwidthMbps
  else if packets > s.busBandwidthMediumThreshold / 2 then s.IpaMediumBandwidthMbps
  else s.IpaLowBandwidthMbps

/-- The C `__hdd_ipa_set_perf_level` (and its wrapper
`hdd_ipa_set_perf_level`). -/
def hdd_ipa_set_perf_level (env : Env) (s : hdd_ipa_priv) (tx_packets rx_packets : Nat) :
    Int × hdd_ipa_priv :=
  if env.wlan_hdd_validate_context ≠ 0 then (0, s)
  else if !hdd_ipa_is_enabled s || !hdd_ipa_is_clk_scaling_enabled s then (0, s)
  else
    let next_cons_bw := next_bw s tx_packets
    let next_prod_bw := next_bw s rx_packets
    let c : Int × hdd_ipa_priv :=
      if s.curr_cons_bw ≠ next_cons_bw then
        let r := call env (.ipa_rm_set_perf_profile false next_cons_bw) s
        if r.1 ≠ 0 then r
        else (0, { r.2 with curr_cons_bw := next_cons_bw,
                            stats := { r.2.stats with
                              num_cons_perf_req := inc64 r.2.stats.num_cons_perf_req } })
      else (0, s)
    if c.1 ≠ 0 then c
    else if c.2.curr_prod_bw ≠ next_prod_bw then
      let r := call env (.ipa_rm_set_perf_profile true next_prod_bw) c.2
      if r.1 ≠ 0 then r
      else (0, { r.2 with curr_prod_bw := next_prod_bw,
                          stats := { r.2.stats with
                            num_prod_perf_req := inc64 r.2.stats.num_prod_perf_req } })
    else (0, c.2)

/-- The C `hdd_ipa_init_perf_level`. -/
def hdd_ipa_init_perf_level (env : Env) (s : hdd_ipa_priv) : Int × hdd_ipa_priv :=
  if hdd_ipa_is_clk_scaling_enabled s then
    let r := hdd_ipa_set_perf_level env s 0 0
    if r.1 ≠ 0 then (QDF_STATUS_E_FAILURE, r.2) else (0, r.2)
  else
    let r := call env (.ipa_rm_set_perf_profile false HDD_IPA_MAX_BANDWIDTH) s
    if r.1 ≠ 0 then (QDF_STATUS_E_FAILURE, r.2)
    else
      let r2 := call env (.ipa_rm_set_perf_profile true HDD_IPA_MAX_BANDWIDTH) r.2
      if r2.1 ≠ 0 then (QDF_STATUS_E_FAILURE, r2.2)
      else (0, r2.2)

/-- In `hdd_ipa_uc_loaded_handler`: the block that sets up the system pipes
for MCC when STA offload is enabled; the result is the value of `ret`. -/
def loaded_handler_sys_pipe (env : Env) (s : hdd_ipa_priv) : Int × hdd_ipa_priv :=
  if hdd_ipa_uc_sta_is_enabled s then
    let r := hdd_ipa_setup_sys_pipe env s
    if r.1 ≠ 0 then r
    else (r.1, (call env .init_work_mcc_work r.2).2)
  else (0, s)

/-- In `hdd_ipa_uc_loaded_handler`: from the connection of the WDI pipes to
the end. -/
def loaded_handler_connect (env : Env) (s : hdd_ipa_priv) : hdd_ipa_priv :=
  let c := hdd_ipa_wdi_conn_pipes env s
  if c.1 ≠ 0 then c.2
  else
    let s2 := (hdd_ipa_init_perf_level env c.2).2
    if s2.sap_num_connected_sta ≠ 0 then (hdd_ipa_uc_handle_first_con env s2).2
    else s2

/-- The C `hdd_ipa_uc_loaded_handler`. -/
def hdd_ipa_uc_loaded_handler (env : Env) (s : hdd_ipa_priv) : hdd_ipa_priv :=
  if s.uc_loaded then s
  else
    let s1 := { s with uc_loaded := true }
    if !env.osdev then s1
    else if !env.pdev then s1
    else
      let p := loaded_handler_sys_pipe env s1
      if p.1 ≠ 0 then p.2
      else loaded_handler_connect env p.2

/-- The C `__hdd_ipa_uc_ssr_reinit`, for a context pointer that is not
`NULL`; the client types of the interface contexts are left out. -/
def __hdd_ipa_uc_ssr_reinit (s : hdd_ipa_priv) : Int × hdd_ipa_priv :=
  if !hdd_ipa_uc_is_enabled s then (0, s)
  else
    (0, { s with
      iface_context := s.iface_context.enum.map (fun p =>
        { p.2 with iface_id := p.1, adapter := none }),
      resource_loading := false,
      resource_unloading := false,
      sta_connected := 0,
      ipa_pipes_down := true,
      uc_loaded := true })

/-- The C `hdd_ipa_uc_send_evt`; the interface name and the address copied
into the message are left out. -/
def hdd_ipa_uc_send_evt (env : Env) (s : hdd_ipa_priv) (type : Nat) : Int × hdd_ipa_priv :=
  let m := call env .qdf_mem_malloc_msg s
  if m.1 = 0 then (-ENOMEM, m.2)
  else
    let r := call env (.ipa_send_msg type) m.2
    if r.1 ≠ 0 then r
    else (r.1, { r.2 with stats := { r.2.stats with
      num_send_msg := inc64 r.2.stats.num_send_msg } })

/-- The loop of `hdd_ipa_uc_disconnect_client` over `adapter->aStaInfo`. -/
def hdd_ipa_uc_disconnect_client (env : Env) (s : hdd_ipa_priv) :
    List hdd_station_info → hdd_ipa_priv
  | [] => s
  | i :: rest =>
    if i.is_broadcast then hdd_ipa_uc_disconnect_client env s rest
    else if i.isUsed && !i.isDeauthInProgress && s.sap_num_connected_sta != 0 then
      let s1 := (hdd_ipa_uc_send_evt env s WLAN_CLIENT_DISCONNECT).2
      hdd_ipa_uc_disconnect_client env
        { s1 with sap_num_connected_sta := dec8 s1.sap_num_connected_sta } rest
    else hdd_ipa_uc_disconnect_client env s rest

/-- The C `hdd_ipa_uc_disconnect_ap`. -/
def hdd_ipa_uc_disconnect_ap (env : Env) (s : hdd_ipa_priv) (adapter : Nat) : hdd_ipa_priv :=
  if (get_ipa_context s adapter).isSome then
    (hdd_ipa_uc_send_evt env s WLAN_AP_DISCONNECT).2
  else s

/-- The C `hdd_ipa_uc_disconnect_sta`. -/
def hdd_ipa_uc_disconnect_sta (env : Env) (s : hdd_ipa_priv) : hdd_ipa_priv :=
  if hdd_ipa_uc_sta_is_enabled s && s.sta_connected != 0 then
    (hdd_ipa_uc_send_evt env s WLAN_STA_DISCONNECT).2
  else s

/-- The C `hdd_ipa_uc_disconnect`: the loop over the adapter list. -/
def hdd_ipa_uc_disconnect (env : Env) (s : hdd_ipa_priv) : List Nat → hdd_ipa_priv
  | [] => s
  | a :: rest =>
    let s1 :=
      if env.device_mode a == QDF_SAP_MODE then
        hdd_ipa_uc_disconnect_ap env
          (hdd_ipa_uc_disconnect_client env s (env.aStaInfo a)) a
      else if env.device_mode a == QDF_STA_MODE then hdd_ipa_uc_disconnect_sta env s
      else s
    hdd_ipa_uc_disconnect env s1 rest

/-- The first loop of `__hdd_ipa_uc_ssr_deinit`, at index `idx` with `k`
iterations to go: clean up the interface contexts whose adapter is still on
the adapter list, as long as `num_iface` is not 0. -/
def ssr_cleanup_ifaces (env : Env) (s : hdd_ipa_priv) (idx : Nat) : Nat → hdd_ipa_priv
  | 0 => s
  | k + 1 =>
    if s.num_iface == 0 then s
    else
      let s1 :=
        match (s.iface_context[idx]?).bind (fun c => c.adapter) with
        | some a =>
          if env.hdd_is_adapter_valid a then hdd_ipa_cleanup_iface env s (some idx)
          else s
        | none => s
      ssr_cleanup_ifaces env s1 (idx + 1) k

/-- The last loop of `__hdd_ipa_uc_ssr_deinit`: cancel every op-code work
item and drop its message. -/
def ssr_cancel_op_work (env : Env) (s : hdd_ipa_priv) (idx : Nat) : Nat → hdd_ipa_priv
  | 0 => s
  | k + 1 =>
    let s1 := (call env (.init (.cancel_work_sync_uc_op_work idx)) s).2
    ssr_cancel_op_work env { s1 with uc_op_work := s1.uc_op_work.set idx none } (idx + 1) k

/-- The C `__hdd_ipa_uc_ssr_deinit`, for a context pointer that is not
`NULL`. -/
def __hdd_ipa_uc_ssr_deinit (env : Env) (s : hdd_ipa_priv) : Int × hdd_ipa_priv :=
  if !hdd_ipa_uc_is_enabled s then (0, s)
  else
    let s1 := hdd_ipa_uc_disconnect env s env.adapters
    let s2 := ssr_cleanup_ifaces env s1 0 s1.iface_context.length
    let s3 := { s2 with
      num_iface := 0,
      assoc_stas_map := s2.assoc_stas_map.map
        (fun _ => { is_reserved := false, sta_id := 0xFF }) }
    let s4 := if hdd_ipa_uc_sta_is_enabled s3 then { s3 with sta_connected := 0 } else s3
    (0, ssr_cancel_op_work env s4 0 HDD_IPA_UC_OPCODE_MAX)

/-! ## Firmware op-codes -/

/-- The C `hdd_ipa_uc_send_wdi_control_msg`. -/
def hdd_ipa_uc_send_wdi_control_msg (env : Env) (s : hdd_ipa_priv) (ctrl : Bool) :
    Int × hdd_ipa_priv :=
  let m := call env .qdf_mem_malloc_msg s
  if m.1 = 0 then (-ENOMEM, m.2)
  else call env (.ipa_send_msg (if ctrl then WLAN_WDI_ENABLE else WLAN_WDI_DISABLE)) m.2

/-- The loop of `__hdd_ipa_send_mcc_scc_msg` over the adapter list. -/
def flush_txrx_queues (env : Env) (s : hdd_ipa_priv) : List Nat → hdd_ipa_priv
  | [] => s
  | a :: as =>
    let s1 :=
      if env.device_mode a == QDF_STA_MODE || env.device_mode a == QDF_SAP_MODE then
        (call env (.hdd_deinit_tx_rx a) s).2
      else s
    flush_txrx_queues env s1 as

/-- The C `__hdd_ipa_send_mcc_scc_msg` (and its wrapper
`hdd_ipa_send_mcc_scc_msg`), which the file defines when the build does not
define `QCA_LL_TX_FLOW_CONTROL_V2`. -/
def hdd_ipa_send_mcc_scc_msg (env : Env) (s : hdd_ipa_priv) ( mcc_mode : Bool) :
    Int × hdd_ipa_priv :=
  if env.wlan_hdd_validate_context ≠ 0 then (-EINVAL, s)
  else if !hdd_ipa_uc_sta_is_enabled s then (-EINVAL, s)
  else
    let s1 := if !s.mcc_mode then flush_txrx_queues env s env.adapters else s
    let m := call env .qdf_mem_malloc_msg s1
    if m.1 = 0 then (-ENOMEM, m.2)
    else
      call env (.ipa_send_msg (if mcc_mode then WLAN_SWITCH_TO_MCC else WLAN_SWITCH_TO_SCC)) m.2

/-- The macro `HDD_BW_GET_DIFF(_x, _y)`, evaluated in `unsigned long`. -/
def HDD_BW_GET_DIFF (env : Env) (x y : Nat) : Nat :=
  ((2 ^ env.BITS_PER_LONG - 1 - y) + x + 1) % 2 ^ env.BITS_PER_LONG

/-- The C `hdd_ipa_uc_op_metering`, in both variants: with
`FEATURE_METERING` and without. -/
def hdd_ipa_uc_op_metering (env : Env) (s : hdd_ipa_priv) (msg : op_msg_type) :
    Int × hdd_ipa_priv :=
  if !env.FEATURE_METERING then (QDF_STATUS_E_INVAL, s)
  else if HDD_IPA_UC_OPCODE_SHARING_STATS == msg.op_code then
    (0, (call env .complete_ipa_uc_sharing_stats_comp
      { s with ipa_sharing_stats := msg.payload }).2)
  else if HDD_IPA_UC_OPCODE_QUOTA_RSP == msg.op_code then
    (0, (call env .complete_ipa_uc_set_quota_comp
      { s with ipa_quota_rsp := msg.payload }).2)
  else if HDD_IPA_UC_OPCODE_QUOTA_IND == msg.op_code then
    let s1 := { s with ipa_quota_ind_quota_bytes := msg.quota_bytes }
    if !env.sta_adapter_is_null then
      (0, (call env
        (.ipa_broadcast_wdi_quota_reach_ind env.sta_adapter msg.quota_bytes) s1).2)
    else (0, s1)
  else (QDF_STATUS_E_INVAL, s)

/-- The statements of `hdd_ipa_uc_op_cb` that send the WDI enable message
the first time the pipes are active. -/
def uc_op_wdi_enable (env : Env) (s : hdd_ipa_priv) : hdd_ipa_priv :=
  if s.wdi_enabled == false then
    let r := hdd_ipa_uc_send_wdi_control_msg env { s with wdi_enabled := true } true
    if r.1 = 0 then (hdd_ipa_send_mcc_scc_msg env r.2 r.2.mcc_mode).2 else r.2
  else s

/-- In the branch of `hdd_ipa_uc_op_cb` for the resume op-codes, once both
pipes are active: the statements from `resource_loading = false` up to the
call of `hdd_ipa_uc_proc_pending_event`. -/
def uc_op_resume_complete (env : Env) (s : hdd_ipa_priv) : hdd_ipa_priv :=
  uc_op_wdi_enable env
    (call env .complete_ipa_resource_comp { s with resource_loading := false }).2

/-- The branch of `hdd_ipa_uc_op_cb` for `HDD_IPA_UC_OPCODE_TX_RESUME` and
`HDD_IPA_UC_OPCODE_RX_RESUME`.  The result is `none` when the replay of the
pending events runs out of `fuel`. -/
def uc_op_resume (env : Env) (fuel : Nat) (s : hdd_ipa_priv) : Option hdd_ipa_priv :=
  let s1 := { s with activated_fw_pipe := inc8 s.activated_fw_pipe }
  if hdd_ipa_is_fw_wdi_actived s1 then
    (hdd_ipa_uc_proc_pending_event env fuel (uc_op_resume_complete env s1) true).map
      (fun r =>
        let s4 := if r.2.pending_cons_req then (call env .ipa_rm_notify_completion r.2).2
                  else r.2
        { s4 with pending_cons_req := false })
  else some s1

/-- In the branch of `hdd_ipa_uc_op_cb` for the suspend op-codes: the
statements run for `HDD_IPA_UC_OPCODE_RX_SUSPEND` only. -/
def uc_op_suspend_pipes (env : Env) (s : hdd_ipa_priv) (op_code : Nat) : hdd_ipa_priv :=
  if HDD_IPA_UC_OPCODE_RX_SUSPEND == op_code then
    (call env (.ol_txrx_ipa_uc_set_active false true)
      (hdd_ipa_uc_disable_pipes env s).2).2
  else s

/-- In the branch of `hdd_ipa_uc_op_cb` for the suspend op-codes, once no
pipe is active: the statements from `resource_unloading = false` up to the
call of `hdd_ipa_uc_proc_pending_event`. -/
def uc_op_suspend_complete (env : Env) (s : hdd_ipa_priv) : hdd_ipa_priv :=
  let s3 := (call env .complete_ipa_resource_comp
    { s with resource_unloading := false }).2
  if hdd_ipa_is_rm_enabled s3 then (call env .ipa_rm_release_resource s3).2
  else s3

/-- The branch of `hdd_ipa_uc_op_cb` for `HDD_IPA_UC_OPCODE_TX_SUSPEND` and
`HDD_IPA_UC_OPCODE_RX_SUSPEND`.  The result is `none` when the replay of the
pending events runs out of `fuel`. -/
def uc_op_suspend (env : Env) (fuel : Nat) (s : hdd_ipa_priv) (op_code : Nat) :
    Option hdd_ipa_priv :=
  let s1 := uc_op_suspend_pipes env s op_code
  let s2 := { s1 with activated_fw_pipe := dec8 s1.activated_fw_pipe }
  if s2.activated_fw_pipe == 0 then
    (hdd_ipa_uc_proc_pending_event env fuel (uc_op_suspend_complete env s2) false).map
      (fun r => { r.2 with pending_cons_req := false })
  else some s2

/-- The branch of `hdd_ipa_uc_op_cb` for a statistics message requested for
bandwidth calibration.  The sum of the three receive counters is formed in
`uint32_t`, the differences are stored in `uint32_t` fields. -/
def uc_op_bw_cal (env : Env) (s : hdd_ipa_priv) (st : ipa_uc_fw_stats) : hdd_ipa_priv :=
  let rx := (st.rx_num_ind_drop_no_space + st.rx_num_ind_drop_no_buf +
    st.rx_num_pkts_indicated) % 2 ^ 32
  { s with
    ipa_tx_packets_diff :=
      HDD_BW_GET_DIFF env st.tx_pkts_completed s.ipa_p_tx_packets % 2 ^ 32,
    ipa_rx_packets_diff := HDD_BW_GET_DIFF env rx s.ipa_p_rx_packets % 2 ^ 32,
    ipa_p_tx_packets := st.tx_pkts_completed,
    ipa_p_rx_packets := rx }

/-- The C `hdd_ipa_uc_op_cb`; `op_msg` is `none` for a `NULL` pointer.  The
result is `none` when a replay of the pending events runs out of `fuel`. -/
def hdd_ipa_uc_op_cb (env : Env) (fuel : Nat) (s : hdd_ipa_priv)
    (op_msg : Option op_msg_type) : Option hdd_ipa_priv :=
  match op_msg with
  | none => some s
  | some msg =>
    if !env.pdev then some s
    else if HDD_IPA_UC_OPCODE_MAX ≤ msg.op_code then some s
    else if env.wlan_hdd_validate_context ≠ 0 then some s
    else if HDD_IPA_UC_OPCODE_TX_RESUME == msg.op_code ||
        HDD_IPA_UC_OPCODE_RX_RESUME == msg.op_code then
      uc_op_resume env fuel s
    else if HDD_IPA_UC_OPCODE_TX_SUSPEND == msg.op_code ||
        HDD_IPA_UC_OPCODE_RX_SUSPEND == msg.op_code then
      uc_op_suspend env fuel s msg.op_code
    else if HDD_IPA_UC_OPCODE_STATS == msg.op_code &&
        HDD_IPA_UC_STAT_REASON_DEBUG == s.stat_req_reason then
      some s
    else if HDD_IPA_UC_OPCODE_STATS == msg.op_code &&
        HDD_IPA_UC_STAT_REASON_BW_CAL == s.stat_req_reason then
      some (uc_op_bw_cal env s msg.uc_fw_stat)
    else if msg.op_code == HDD_IPA_UC_OPCODE_UC_READY then
      some (hdd_ipa_uc_loaded_handler env s)
    else some (hdd_ipa_uc_op_metering env s msg).2

/-- The C `hdd_ipa_uc_op_event_handler`, for a context whose `hdd_ipa`
pointer is set: keep the message in the work item of its op-code and schedule
the work item, unless the op-code is out of range or a message is already
kept there. -/
def hdd_ipa_uc_op_event_handler (env : Env) (s : hdd_ipa_priv) (msg : op_msg_type) :
    hdd_ipa_priv :=
  if env.wlan_hdd_validate_context ≠ 0 then s
  else if HDD_IPA_UC_OPCODE_MAX ≤ msg.op_code then s
  else if (s.uc_op_work.getD msg.op_code none).isSome then s
  else
    (call env (.schedule_work_uc_op_work msg.op_code)
      { s with uc_op_work := s.uc_op_work.set msg.op_code (some msg) }).2

/-! ## Sequences of op-codes and events; the association table -/

/-- A step of the pipe life cycle: a firmware op-code handed to
`hdd_ipa_uc_op_cb`, or a connection event handed to `__hdd_ipa_wlan_evt`. -/
inductive LifeStep
  | op (msg : op_msg_type)
  | evt (adapter sta_id type : Nat) (mac_addr : List Nat)
  deriving DecidableEq, Repr

/-- Run one step; `none` when a replay runs out of `fuel`. -/
def life_step (env : Env) (fuel : Nat) (s : hdd_ipa_priv) : LifeStep → Option hdd_ipa_priv
  | .op msg => hdd_ipa_uc_op_cb env fuel s (some msg)
  | .evt adapter sta_id type mac_addr =>
    some (__hdd_ipa_wlan_evt env s adapter sta_id type mac_addr).2

/-- Run a sequence of steps in order. -/
def life_run (env : Env) (fuel : Nat) (s : hdd_ipa_priv) :
    List LifeStep → Option hdd_ipa_priv
  | [] => some s
  | st :: rest => (life_step env fuel s st).bind (fun s1 => life_run env fuel s1 rest)

/-- The number of `WLAN_WDI_ENABLE` messages handed to the IPA driver so
far. -/
def wdi_enable_msgs (s : hdd_ipa_priv) : Nat :=
  s.calls.count (.ipa_send_msg WLAN_WDI_ENABLE)

/-- The station ids held by the reserved slots of the association table, in
slot order. -/
def reserved_ids (m : List ipa_uc_stas_map) : List Nat :=
  (m.filter (fun e => e.is_reserved)).map (fun e => e.sta_id)

/-- A sequence of calls of `hdd_ipa_uc_find_add_assoc_sta`, each given by
its `sta_add` flag and station id. -/
def assoc_calls (s : hdd_ipa_priv) : List (Bool × Nat) → hdd_ipa_priv
  | [] => s
  | c :: rest => assoc_calls (hdd_ipa_uc_find_add_assoc_sta s c.1 c.2).2 rest

/-- A step of the resource manager after `hdd_ipa_wdi_setup_rm`: a request,
a release attempt, a run of the wake-lock work, a notification from the IPA
driver, or a run of the deferred notification handler. -/
inductive RmStep
  | request
  | try_release
  | timer
  | notify (event : ipa_rm_event)
  | defer
  deriving DecidableEq, Repr

/-- Run one step.  The IPA driver grants only what has been requested: the
result is `none` for a grant notification delivered while no grant is
pending. -/
def rm_step (env : Env) (s : hdd_ipa_priv) : RmStep → Option hdd_ipa_priv
  | .request => some (hdd_ipa_wdi_rm_request env s).2
  | .try_release => some (hdd_ipa_wdi_rm_try_release env s).2
  | .timer => some (hdd_ipa_wake_lock_timer_func env s)
  | .notify event =>
    if event = .IPA_RM_RESOURCE_GRANTED ∧ s.rm_state ≠ .HDD_IPA_RM_GRANT_PENDING then none
    else some (hdd_ipa_rm_notify env s event)
  | .defer => some (hdd_ipa_uc_rm_notify_defer env s)

/-- Run a sequence of steps in order. -/
def rm_run (env : Env) (s : hdd_ipa_priv) : List RmStep → Option hdd_ipa_priv
  | [] => some s
  | st :: rest => (rm_step env s st).bind (fun s1 => rm_run env s1 rest)

/-! ## The descriptor pool: invariant -/

/-- The three quantities of the pool that the conservation law relates. -/
def pool_view (s : hdd_ipa_priv) : List Nat × Nat × Nat :=
  (s.free_tx_desc_head, s.stats.num_tx_desc_q_cnt, s.tx_desc_size)

/-- Slot `id` is in use: it is a slot of the pool and is not linked on the
free list. -/
def slot_in_use (s : hdd_ipa_priv) (id : Nat) : Prop :=
  id < s.tx_desc_size ∧ id ∉ s.free_tx_desc_head

/-- The invariant of the pool: conservation, together with what makes it
inductive (the free list holds distinct slots of the pool, and the size fits
the `uint16_t` field). -/
def pool_inv (v : List Nat × Nat × Nat) : Prop :=
  v.1.length + v.2.1 = v.2.2 ∧ v.1.Nodup ∧ (∀ i ∈ v.1, i < v.2.2) ∧ v.2.2 < 2 ^ 16

/-- States of the pool reached from `hdd_ipa_alloc_tx_desc_list` by sends
(`hdd_ipa_send_pkt_to_tl`, which pops the free list) and by completions
(`hdd_ipa_nbuf_cb`) for slots that are in use. -/
inductive PoolReach : hdd_ipa_priv → Prop
  | alloc (env : Env) (s : hdd_ipa_priv) :
      (hdd_ipa_alloc_tx_desc_list env s).1 = 0 →
      PoolReach (hdd_ipa_alloc_tx_desc_list env s).2
  | send (env : Env) (s : hdd_ipa_priv) (i : Nat) (d : ipa_rx_data) :
      PoolReach s → PoolReach (hdd_ipa_send_pkt_to_tl env s i d).2
  | complete (env : Env) (s : hdd_ipa_priv) (skb : sk_buff) :
      PoolReach s → (skb.ipa_owned = true → slot_in_use s skb.tx_ipa_priv) →
      PoolReach (hdd_ipa_nbuf_cb env s skb)


/-! ## The pending-event queue: auxiliary definitions -/

/-- The last `n` elements of a list. -/
def lastN {α : Type} (n : Nat) (l : List α) : List α := l.drop (l.length - n)

/-- The conditions under which `__hdd_ipa_wlan_evt` reaches the timed wait on
`ipa_resource_comp`: its arguments pass the checks at the top, uC offload is
enabled and a load or unload is in progress. -/
def reaches_wait (env : Env) (s : hdd_ipa_priv) (adapter type : Nat)
    (mac_addr : List Nat) : Bool :=
  env.hdd_validate_adapter adapter == 0 && decide (type < env.IPA_WLAN_EVENT_MAX) &&
    !is_zero_ether_addr mac_addr && hdd_ipa_is_enabled s &&
    !(hdd_ipa_uc_is_enabled s && !hdd_ipa_uc_sta_is_enabled s &&
        QDF_SAP_MODE != env.device_mode adapter) &&
    hdd_ipa_uc_is_enabled s && (s.resource_loading || s.resource_unloading)

/-- `__hdd_ipa_wlan_evt` called for each event of a list in turn. -/
def wlan_evts (env : Env) (s : hdd_ipa_priv) (evs : List ipa_uc_pending_event) :
    hdd_ipa_priv :=
  evs.foldl
    (fun st e => (__hdd_ipa_wlan_evt env st e.adapter e.sta_id e.type e.mac_addr).2) s


/-- The configuration word and the two transition flags. -/
def cfg_view (s : hdd_ipa_priv) : Nat × Bool × Bool :=
  (s.IpaConfig, s.resource_loading, s.resource_unloading)


/-! ## Sample inputs -/

/-- An environment in which every external call returns zero, every context
is present and every adapter is a valid soft access point. -/
def env_zero : Env :=
  { ret := fun _ _ => 0
    pdev := true
    osdev := true
    smmu_s1_enabled := false
    pool_size := 4
    wlan_hdd_validate_context := 0
    hdd_validate_adapter := fun _ => 0
    hdd_is_adapter_valid := fun _ => true
    device_mode := fun _ => QDF_SAP_MODE
    sessionId := fun _ => 0
    dfs_cac_block_tx := fun _ => false
    wlan_hdd_validate_session_id := fun _ => 0
    sta_adapter := 0
    cds_is_driver_unloading := false
    IPA_WLAN_EVENT_MAX := 16
    MDM_PLATFORM := false
    FEATURE_METERING := false
    BITS_PER_LONG := 64
    sta_adapter_is_null := false
    adapters := [0, 1]
    sys_pipe_handle := fun _ => 1
    aStaInfo := fun _ => List.replicate 4
      { is_broadcast := false, isUsed := true, isDeauthInProgress := false } }

/-- As `env_zero`, but allocations succeed, the resource-manager primitives
answer `-EINPROGRESS` and every other call returns zero (in particular the
timed wait times out). -/
def env_async : Env :=
  { env_zero with
    ret := fun _ c =>
      match c with
      | .qdf_mem_malloc_pending_event => 1
      | .qdf_mem_malloc_msg => 1
      | .qdf_mem_malloc_tx_desc _ => 1
      | .ipa_rm_inactivity_timer_request_resource => -EINPROGRESS
      | .ipa_rm_inactivity_timer_release_resource => -EINPROGRESS
      | .ipa_rm_request_resource => -EINPROGRESS
      | _ => 0 }

/-- A freshly initialised context: IPA, the resource manager and uC offload
enabled through `cfg`, three interface contexts, four association slots,
pipes down, resource released. -/
def priv_init (cfg : Nat) : hdd_ipa_priv :=
  { IpaConfig := cfg
    IpaMccTxDescSize := 4
    iface_context :=
      (List.range 3).map (fun i =>
        { adapter := none, tl_context := none, iface_id := i, sta_id := 0,
          ifa_address := 0,
          stats := { num_tx := 0, num_tx_drop := 0, num_tx_err := 0,
                     num_tx_cac_drop := 0 } })
    num_iface := 0
    rm_state := .HDD_IPA_RM_RELEASED
    uc_rm_work_event := .other
    wake_lock_released := true
    tx_ref_cnt := 0
    pm_queue_head := []
    suspended := false
    tx_desc_size := 0
    tx_desc_list := []
    free_tx_desc_head := []
    stats := { event := List.replicate 16 0, num_send_msg := 0, num_rm_grant := 0,
               num_rm_release := 0, num_rm_grant_imm := 0, num_tx_desc_q_cnt := 0,
               num_tx_desc_error := 0, num_tx_comp_cnt := 0,
               num_cons_perf_req := 0, num_prod_perf_req := 0 }
    activated_fw_pipe := 0
    sap_num_connected_sta := 0
    sta_connected := 0
    resource_loading := false
    resource_unloading := false
    pending_cons_req := false
    assoc_stas_map := List.replicate 4 { is_reserved := false, sta_id := 0xFF }
    pending_event := []
    ipa_pipes_down := true
    uc_loaded := false
    wdi_enabled := false
    vdev_to_iface := List.replicate 5 5
    vdev_offload_enabled := List.replicate 5 false
    adapter_ipa_context := []
    nbuf_free_cb := false
    busBandwidthHighThreshold := 2000
    busBandwidthMediumThreshold := 500
    IpaHighBandwidthMbps := 400
    IpaMediumBandwidthMbps := 200
    IpaLowBandwidthMbps := 100
    mcc_mode := false
    curr_prod_bw := 0
    curr_cons_bw := 0
    sys_pipe := List.replicate 4 { conn_hdl := 0, conn_hdl_valid := false }
    stat_req_reason := HDD_IPA_UC_STAT_REASON_NONE
    ipa_tx_packets_diff := 0
    ipa_rx_packets_diff := 0
    ipa_p_tx_packets := 0
    ipa_p_rx_packets := 0
    uc_op_work := List.replicate 9 none
    ipa_sharing_stats := []
    ipa_quota_rsp := []
    ipa_quota_ind_quota_bytes := 0
    calls := [] }

/-- Twenty-five distinct client-connect events, numbered 1 to 25 by their
station id, tagged as stored during a load. -/
def events_25 : List ipa_uc_pending_event :=
  (List.range 25).map (fun i =>
    { adapter := 1, type := WLAN_CLIENT_CONNECT_EX, sta_id := i + 1,
      mac_addr := [2, 0, 0, 0, 0, i + 1], is_loading := true })

/-- A context with a soft access point set up on interface context 0 for
adapter 1, and the descriptor pool allocated. -/
def priv_sap : hdd_ipa_priv :=
  let s := priv_init 41
  { s with
    iface_context := s.iface_context.set 0
      { adapter := some 1, tl_context := some 1, iface_id := 0, sta_id := 1,
        ifa_address := 0,
        stats := { num_tx := 0, num_tx_drop := 0, num_tx_err := 0, num_tx_cac_drop := 0 } }
    num_iface := 1
    adapter_ipa_context := [(1, 0)]
    nbuf_free_cb := true }

/-- As `env_async`, but the TXRX layer rejects every frame. -/
def env_reject : Env :=
  { env_async with
    ret := fun hist c =>
      match c with
      | .ol_tx_send_ipa_data_frame _ => 1
      | _ => env_async.ret hist c }

/-- A packet handed over by the IPA driver. -/
def sample_desc : ipa_rx_data :=
  { id := 7, skb := { id := 70, ipa_owned := false, tx_ipa_priv := 0 } }

/-- The context `priv_sap` after four packets have taken the four
descriptors of its pool. -/
def priv_pool_full : hdd_ipa_priv :=
  (acquire_seq env_async (hdd_ipa_alloc_tx_desc_list env_async priv_sap).2 0
    (List.replicate 4 sample_desc)).2

/-- A pending event for adapter `a`, station `sta`, tagged `l`. -/
def sample_event (a sta : Nat) (l : Bool) : ipa_uc_pending_event :=
  { adapter := a, type := WLAN_CLIENT_CONNECT_EX, sta_id := sta,
    mac_addr := [2, 0, 0, 0, 0, sta], is_loading := l }

/-- A firmware message with op-code `op` and an empty body. -/
def sample_msg (op : Nat) : op_msg_type :=
  { op_code := op,
    uc_fw_stat := { tx_pkts_completed := 0, rx_num_pkts_indicated := 0,
                    rx_num_ind_drop_no_space := 0, rx_num_ind_drop_no_buf := 0 },
    quota_bytes := 0, payload := [] }

/-- A context in which one pipe is active, a load is in progress, a consumer
request is pending and one event is queued for the load. -/
def priv_loading : hdd_ipa_priv :=
  { priv_init 41 with
    activated_fw_pipe := 1, resource_loading := true, pending_cons_req := true,
    pending_event := [sample_event 1 1 true] }

/-- A context in which the resource is granted, one pipe is still active and
an unload is in progress. -/
def priv_unloading : hdd_ipa_priv :=
  { priv_init 41 with
    rm_state := .HDD_IPA_RM_GRANTED, activated_fw_pipe := 1,
    resource_unloading := true }


/-- The context `priv_sap` with station 5 connected: the first slot of the
association table is reserved for it. -/
def priv_station : hdd_ipa_priv :=
  { priv_sap with
    sap_num_connected_sta := 1
    assoc_stas_map := priv_sap.assoc_stas_map.set 0 { is_reserved := true, sta_id := 5 } }

/-- The context `priv_sap` with every slot of the association table
reserved, for stations 1 to 4. -/
def priv_table_full : hdd_ipa_priv :=
  { priv_sap with
    sap_num_connected_sta := 4
    assoc_stas_map := (List.range 4).map (fun i => { is_reserved := true, sta_id := i + 1 }) }

/-- As `env_zero`, but the IPA driver refuses to suspend a WDI pipe. -/
def env_suspend_fails : Env :=
  { env_zero with
    ret := fun _ c =>
      match c with
      | .ipa_suspend_wdi_pipe _ => -EINVAL
      | _ => 0 }

/-! ## Frame lemmas: the pending-event list -/

@[simp] theorem call_pending_event (env : Env) (c : ExtCall) (s : hdd_ipa_priv) :
    (call env c s).2.pending_event = s.pending_event := rfl

@[simp] theorem wdi_enable_pipes_pending_event (env : Env) (s : hdd_ipa_priv) :
    (hdd_ipa_wdi_enable_pipes env s).2.pending_event = s.pending_event := by
  unfold hdd_ipa_wdi_enable_pipes
  dsimp only
  split_ifs <;> simp

@[simp] theorem wdi_disable_pipes_pending_event (env : Env) (s : hdd_ipa_priv) :
    (hdd_ipa_wdi_disable_pipes env s).2.pending_event = s.pending_event := by
  unfold hdd_ipa_wdi_disable_pipes
  dsimp only
  split_ifs <;> simp

@[simp] theorem uc_enable_pipes_pending_event (env : Env) (s : hdd_ipa_priv) :
    (hdd_ipa_uc_enable_pipes env s).2.pending_event = s.pending_event := by
  unfold hdd_ipa_uc_enable_pipes
  dsimp only
  split_ifs <;> simp

@[simp] theorem uc_disable_pipes_pending_event (env : Env) (s : hdd_ipa_priv) :
    (hdd_ipa_uc_disable_pipes env s).2.pending_event = s.pending_event := by
  unfold hdd_ipa_uc_disable_pipes
  dsimp only
  split_ifs <;> simp

@[simp] theorem handle_first_con_pending_event (env : Env) (s : hdd_ipa_priv) :
    (hdd_ipa_uc_handle_first_con env s).2.pending_event = s.pending_event := by
  unfold hdd_ipa_uc_handle_first_con
  dsimp only
  split_ifs <;> simp

@[simp] theorem handle_last_discon_pending_event (env : Env) (s : hdd_ipa_priv) :
    (hdd_ipa_uc_handle_last_discon env s).pending_event = s.pending_event := by
  unfold hdd_ipa_uc_handle_last_discon
  dsimp only
  split_ifs <;> simp

@[simp] theorem set_ipa_context_pending_event (s : hdd_ipa_priv) (a : Nat) (c : Option Nat) :
    (set_ipa_context s a c).pending_event = s.pending_event := by
  unfold set_ipa_context
  cases c <;> rfl

@[simp] theorem modify_iface_pending_event (s : hdd_ipa_priv) (i : Nat)
    (f : hdd_ipa_iface_context → hdd_ipa_iface_context) :
    (modify_iface s i f).pending_event = s.pending_event := by
  unfold modify_iface
  split <;> rfl

@[simp] theorem cleanup_iface_pending_event (env : Env) (s : hdd_ipa_priv) (i : Option Nat) :
    (hdd_ipa_cleanup_iface env s i).pending_event = s.pending_event := by
  unfold hdd_ipa_cleanup_iface
  cases i with
  | none => rfl
  | some i =>
    dsimp only
    split_ifs <;> simp

@[simp] theorem setup_iface_pending_event (env : Env) (s : hdd_ipa_priv) (a sta : Nat) :
    (hdd_ipa_setup_iface env s a sta).2.pending_event = s.pending_event := by
  unfold hdd_ipa_setup_iface
  cases find_free_iface s.iface_context 0 with
  | none =>
    dsimp only
    split_ifs <;> rfl
  | some i =>
    dsimp only
    split_ifs <;> simp

@[simp] theorem offload_enable_disable_pending_event (env : Env) (s : hdd_ipa_priv)
    (a t : Nat) (b : Bool) :
    (hdd_ipa_uc_offload_enable_disable env s a t b).pending_event = s.pending_event := by
  unfold hdd_ipa_uc_offload_enable_disable
  dsimp only
  split_ifs <;> simp

@[simp] theorem set_vdev_to_iface_pending_event (env : Env) (s : hdd_ipa_priv) (a v : Nat) :
    (set_vdev_to_iface env s a v).pending_event = s.pending_event := rfl

@[simp] theorem stats_event_inc_pending_event (s : hdd_ipa_priv) (t : Nat) :
    (stats_event_inc s t).pending_event = s.pending_event := rfl

@[simp] theorem send_wlan_msg_pending_event (env : Env) (s : hdd_ipa_priv) (t : Nat) :
    (send_wlan_msg env s t).2.pending_event = s.pending_event := by
  unfold send_wlan_msg
  dsimp only
  split_ifs <;> simp

@[simp] theorem find_add_assoc_sta_pending_event (s : hdd_ipa_priv) (b : Bool) (sta : Nat) :
    (hdd_ipa_uc_find_add_assoc_sta s b sta).2.pending_event = s.pending_event := by
  unfold hdd_ipa_uc_find_add_assoc_sta
  dsimp only
  split_ifs <;> rfl

@[simp] theorem client_connect_first_sta_pending_event (env : Env) (s : hdd_ipa_priv) :
    (client_connect_first_sta env s).2.pending_event = s.pending_event := by
  unfold client_connect_first_sta
  dsimp only
  split_ifs <;> simp

@[simp] theorem client_disconnect_last_sta_pending_event (env : Env) (s : hdd_ipa_priv) :
    (client_disconnect_last_sta env s).pending_event = s.pending_event := by
  unfold client_disconnect_last_sta
  dsimp only
  split_ifs <;> simp

@[simp] theorem wlan_evt_sta_connect_pending_event (env : Env) (s : hdd_ipa_priv)
    (a sta t : Nat) :
    (wlan_evt_sta_connect env s a sta t).2.pending_event = s.pending_event := by
  unfold wlan_evt_sta_connect
  dsimp only
  split_ifs <;> simp

@[simp] theorem wlan_evt_ap_connect_pending_event (env : Env) (s : hdd_ipa_priv)
    (a sta t : Nat) :
    (wlan_evt_ap_connect env s a sta t).2.pending_event = s.pending_event := by
  unfold wlan_evt_ap_connect
  dsimp only
  split_ifs <;> simp

@[simp] theorem wlan_evt_sta_disconnect_pending_event (env : Env) (s : hdd_ipa_priv)
    (a t : Nat) :
    (wlan_evt_sta_disconnect env s a t).2.pending_event = s.pending_event := by
  unfold wlan_evt_sta_disconnect
  dsimp only
  split_ifs <;> simp

@[simp] theorem wlan_evt_ap_disconnect_pending_event (env : Env) (s : hdd_ipa_priv)
    (a t : Nat) :
    (wlan_evt_ap_disconnect env s a t).2.pending_event = s.pending_event := by
  unfold wlan_evt_ap_disconnect
  dsimp only
  split_ifs <;> simp

@[simp] theorem wlan_evt_client_connect_ex_pending_event (env : Env) (s : hdd_ipa_priv)
    (sta t : Nat) :
    (wlan_evt_client_connect_ex env s sta t).2.pending_event = s.pending_event := by
  unfold wlan_evt_client_connect_ex
  dsimp only
  split_ifs <;> simp

@[simp] theorem wlan_evt_client_disconnect_pending_event (env : Env) (s : hdd_ipa_priv)
    (sta t : Nat) :
    (wlan_evt_client_disconnect env s sta t).2.pending_event = s.pending_event := by
  unfold wlan_evt_client_disconnect
  dsimp only
  split_ifs <;> simp

@[simp] theorem wlan_evt_switch_pending_event (env : Env) (s : hdd_ipa_priv) (a sta t : Nat) :
    (wlan_evt_switch env s a sta t).2.pending_event = s.pending_event := by
  unfold wlan_evt_switch
  split_ifs <;> simp

/-! ## Queueing a sequence of events -/

@[simp] theorem call_cfg_view (env : Env) (c : ExtCall) (s : hdd_ipa_priv) :
    cfg_view (call env c s).2 = cfg_view s := rfl

@[simp] theorem set_ipa_context_cfg_view (s : hdd_ipa_priv) (a : Nat) (c : Option Nat) :
    cfg_view (set_ipa_context s a c) = cfg_view s := by
  unfold set_ipa_context
  cases c <;> rfl

@[simp] theorem modify_iface_cfg_view (s : hdd_ipa_priv) (i : Nat)
    (f : hdd_ipa_iface_context → hdd_ipa_iface_context) :
    cfg_view (modify_iface s i f) = cfg_view s := by
  unfold modify_iface
  split <;> rfl

@[simp] theorem cleanup_iface_cfg_view (env : Env) (s : hdd_ipa_priv) (i : Option Nat) :
    cfg_view (hdd_ipa_cleanup_iface env s i) = cfg_view s := by
  unfold hdd_ipa_cleanup_iface
  cases i with
  | none => rfl
  | some i =>
    dsimp only
    split_ifs
    · rfl
    · simp
    · have h : ∀ x : hdd_ipa_priv, cfg_view { x with num_iface := dec8 x.num_iface } =
          cfg_view x := fun _ => rfl
      rw [h]
      simp


/-! ## The pending-event queue: lemmas -/

theorem lastN_append_lastN {α : Type} (n : Nat) (l r : List α) :
    lastN n (lastN n l ++ r) = lastN n (l ++ r) := by
  unfold lastN
  by_cases h : n ≤ l.length
  · have e1 : (List.drop (l.length - n) l ++ r).length - n = r.length := by
      simp only [List.length_append, List.length_drop]; omega
    have e2 : (l ++ r).length - n = (l.length - n) + r.length := by
      simp only [List.length_append]; omega
    have e3 : List.drop (l.length - n + r.length) (l ++ r) =
        List.drop r.length (List.drop (l.length - n) (l ++ r)) := by
      rw [List.drop_drop]
    have e4 : List.drop (l.length - n) (l ++ r) = List.drop (l.length - n) l ++ r :=
      List.drop_append_of_le_length (by omega)
    rw [e1, e2, e3, e4]
  · have e0 : l.length - n = 0 := by omega
    rw [e0, List.drop_zero]

theorem lastN_of_length_le {α : Type} (n : Nat) (l : List α) (h : l.length ≤ n) :
    lastN n l = l := by
  unfold lastN
  have e0 : l.length - n = 0 := by omega
  rw [e0, List.drop_zero]

theorem length_lastN {α : Type} (n : Nat) (l : List α) :
    (lastN n l).length = min l.length n := by
  unfold lastN
  simp only [List.length_drop]
  omega

theorem pending_event_insert_spec (env : Env) (s1 : hdd_ipa_priv)
    (ev : ipa_uc_pending_event) :
    (pending_event_insert env s1 ev).1 = 0 ∧
    (pending_event_insert env s1 ev).2.pending_event = s1.pending_event ++ [ev] ∧
    cfg_view (pending_event_insert env s1 ev).2 = cfg_view s1 := by
  unfold pending_event_insert
  dsimp only
  split_ifs
  · refine ⟨rfl, ?_, ?_⟩
    · simp
    · rw [cleanup_iface_cfg_view]; rfl
  · exact ⟨rfl, rfl, rfl⟩

theorem queue_pending_event_queue (env : Env) (s : hdd_ipa_priv) (a sta t : Nat)
    (mac : List Nat) :
    (queue_pending_event env s a sta t mac).2.pending_event =
      if HDD_IPA_MAX_PENDING_EVENT_COUNT ≤ s.pending_event.length then
        s.pending_event.tail ++ [stored_pending_event s a sta t mac]
      else if env.ret s.calls .qdf_mem_malloc_pending_event = 0 then s.pending_event
      else s.pending_event ++ [stored_pending_event s a sta t mac] := by
  unfold queue_pending_event
  dsimp only
  by_cases hlen : HDD_IPA_MAX_PENDING_EVENT_COUNT ≤ s.pending_event.length
  · rw [if_pos hlen, if_pos hlen]
    cases hq : s.pending_event with
    | nil => rw [hq] at hlen; simp [HDD_IPA_MAX_PENDING_EVENT_COUNT] at hlen
    | cons e rest =>
      dsimp only
      rw [(pending_event_insert_spec env _ _).2.1]
      rfl
  · rw [if_neg hlen, if_neg hlen]
    by_cases hm : env.ret s.calls .qdf_mem_malloc_pending_event = 0
    · have : (call env .qdf_mem_malloc_pending_event s).1 = 0 := hm
      rw [if_pos this, if_pos hm]
      rfl
    · have : ¬ (call env .qdf_mem_malloc_pending_event s).1 = 0 := hm
      rw [if_neg this, if_neg hm, (pending_event_insert_spec env _ _).2.1]
      rfl

theorem queue_pending_event_ret (env : Env) (s : hdd_ipa_priv) (a sta t : Nat)
    (mac : List Nat)
    (h : HDD_IPA_MAX_PENDING_EVENT_COUNT ≤ s.pending_event.length ∨
      env.ret s.calls .qdf_mem_malloc_pending_event ≠ 0) :
    (queue_pending_event env s a sta t mac).1 = 0 := by
  unfold queue_pending_event
  dsimp only
  by_cases hlen : HDD_IPA_MAX_PENDING_EVENT_COUNT ≤ s.pending_event.length
  · rw [if_pos hlen]
    cases hq : s.pending_event with
    | nil => rw [hq] at hlen; simp [HDD_IPA_MAX_PENDING_EVENT_COUNT] at hlen
    | cons e rest => exact (pending_event_insert_spec env _ _).1
  · rw [if_neg hlen]
    rcases h with h | h
    · exact absurd h hlen
    · have : ¬ (call env .qdf_mem_malloc_pending_event s).1 = 0 := h
      rw [if_neg this]
      exact (pending_event_insert_spec env _ _).1

theorem queue_pending_event_cfg_view (env : Env) (s : hdd_ipa_priv) (a sta t : Nat)
    (mac : List Nat) :
    cfg_view (queue_pending_event env s a sta t mac).2 = cfg_view s := by
  unfold queue_pending_event
  dsimp only
  split_ifs
  · cases hq : s.pending_event with
    | nil => rfl
    | cons e rest =>
      dsimp only
      rw [(pending_event_insert_spec env _ _).2.2]
      simp only [cfg_view]
  · rfl
  · rw [(pending_event_insert_spec env _ _).2.2]
    rfl

theorem wlan_evt_eq_of_reaches_wait (env : Env) (s : hdd_ipa_priv) (a sta t : Nat)
    (mac : List Nat) (h : reaches_wait env s a t mac = true) :
    __hdd_ipa_wlan_evt env s a sta t mac =
      if env.ret s.calls .wait_for_completion_timeout = 0 then
        queue_pending_event env (call env .wait_for_completion_timeout s).2 a sta t mac
      else
        wlan_evt_switch env
          (stats_event_inc (call env .wait_for_completion_timeout s).2 t) a sta t := by
  unfold reaches_wait at h
  simp only [Bool.and_eq_true, beq_iff_eq, decide_eq_true_eq, Bool.not_eq_true',
    Bool.or_eq_true] at h
  obtain ⟨⟨⟨⟨⟨⟨h1, h2⟩, h3⟩, h4⟩, h5⟩, h6⟩, h7⟩ := h
  unfold __hdd_ipa_wlan_evt
  have h7' : (s.resource_loading || s.resource_unloading) = true := by
    simpa using h7
  rw [if_neg (by simp [h1]), if_neg (by omega), if_neg (by simp [h3]),
    if_neg (by simp [h4]), if_neg (by simp [h5]), if_pos (by simp [h6, h7'])]
  rfl

theorem wlan_evt_queue_of_not_reaches_wait (env : Env) (s : hdd_ipa_priv) (a sta t : Nat)
    (mac : List Nat) (h : reaches_wait env s a t mac = false) :
    (__hdd_ipa_wlan_evt env s a sta t mac).2.pending_event = s.pending_event := by
  unfold __hdd_ipa_wlan_evt
  by_cases h1 : env.hdd_validate_adapter a ≠ 0
  · rw [if_pos h1]
  · rw [if_neg h1]
    by_cases h2 : t ≥ env.IPA_WLAN_EVENT_MAX
    · rw [if_pos h2]
    · rw [if_neg h2]
      by_cases h3 : is_zero_ether_addr mac = true
      · rw [if_pos h3]
      · rw [if_neg h3]
        by_cases h4 : (!hdd_ipa_is_enabled s) = true
        · rw [if_pos h4]
        · rw [if_neg h4]
          by_cases h5 : (hdd_ipa_uc_is_enabled s && !hdd_ipa_uc_sta_is_enabled s &&
              QDF_SAP_MODE != env.device_mode a) = true
          · rw [if_pos h5]
          · rw [if_neg h5]
            have h6 : ¬ (hdd_ipa_uc_is_enabled s &&
                (s.resource_loading || s.resource_unloading)) = true := by
              intro h6
              have e1 : (env.hdd_validate_adapter a == 0) = true := by simpa using h1
              have e2 : decide (t < env.IPA_WLAN_EVENT_MAX) = true := by simpa using h2
              have e3 : is_zero_ether_addr mac = false := Bool.eq_false_iff.mpr h3
              have e4 : hdd_ipa_is_enabled s = true := by
                cases hh : hdd_ipa_is_enabled s
                · rw [hh] at h4; exact absurd rfl h4
                · rfl
              have e5 := Bool.eq_false_iff.mpr h5
              rw [Bool.and_eq_true] at h6
              unfold reaches_wait at h
              rw [e1, e2, e3, e4, e5, h6.1, h6.2] at h
              exact absurd h (by decide)
            rw [if_neg h6]
            simp

/-- The pending-event list after `__hdd_ipa_wlan_evt`: unchanged unless the
call reaches the timed wait and the wait times out. -/
theorem wlan_evt_queue (env : Env) (s : hdd_ipa_priv) (a sta t : Nat) (mac : List Nat) :
    (__hdd_ipa_wlan_evt env s a sta t mac).2.pending_event =
      if reaches_wait env s a t mac = true ∧
          env.ret s.calls .wait_for_completion_timeout = 0 then
        (queue_pending_event env (call env .wait_for_completion_timeout s).2
          a sta t mac).2.pending_event
      else s.pending_event := by
  by_cases hr : reaches_wait env s a t mac = true
  · rw [wlan_evt_eq_of_reaches_wait env s a sta t mac hr]
    by_cases hw : env.ret s.calls .wait_for_completion_timeout = 0
    · rw [if_pos hw, if_pos ⟨hr, hw⟩]
    · rw [if_neg hw, if_neg (fun h => hw h.2)]
      simp
  · rw [if_neg (fun h => hr h.1)]
    exact wlan_evt_queue_of_not_reaches_wait env s a sta t mac (by simpa using hr)

/-- After `__hdd_ipa_wlan_evt` the list is the old one, or the old one with
one entry appended, or (only when it held twenty entries or more) the old
one without its first entry and with one entry appended. -/
theorem wlan_evt_queue_cases (env : Env) (s : hdd_ipa_priv) (a sta t : Nat)
    (mac : List Nat) :
    (__hdd_ipa_wlan_evt env s a sta t mac).2.pending_event = s.pending_event ∨
    (s.pending_event.length < HDD_IPA_MAX_PENDING_EVENT_COUNT ∧
      (__hdd_ipa_wlan_evt env s a sta t mac).2.pending_event =
        s.pending_event ++ [stored_pending_event s a sta t mac]) ∨
    (HDD_IPA_MAX_PENDING_EVENT_COUNT ≤ s.pending_event.length ∧
      (__hdd_ipa_wlan_evt env s a sta t mac).2.pending_event =
        s.pending_event.tail ++ [stored_pending_event s a sta t mac]) := by
  rw [wlan_evt_queue, queue_pending_event_queue]
  have hs : stored_pending_event (call env .wait_for_completion_timeout s).2 a sta t mac =
      stored_pending_event s a sta t mac := rfl
  simp only [call_pending_event, hs]
  split_ifs with h1 h2 h3
  · exact Or.inr (Or.inr ⟨h2, rfl⟩)
  · exact Or.inl rfl
  · exact Or.inr (Or.inl ⟨by omega, rfl⟩)
  · exact Or.inl rfl

theorem wlan_evt_queue_length (env : Env) (s : hdd_ipa_priv) (a sta t : Nat)
    (mac : List Nat)
    (h : s.pending_event.length ≤ HDD_IPA_MAX_PENDING_EVENT_COUNT) :
    (__hdd_ipa_wlan_evt env s a sta t mac).2.pending_event.length ≤
      HDD_IPA_MAX_PENDING_EVENT_COUNT := by
  rcases wlan_evt_queue_cases env s a sta t mac with h1 | ⟨hl, h1⟩ | ⟨hl, h1⟩
  · rw [h1]; exact h
  · rw [h1, List.length_append, List.length_singleton]; omega
  · rw [h1, List.length_append, List.length_singleton, List.length_tail]
    unfold HDD_IPA_MAX_PENDING_EVENT_COUNT at *
    omega

theorem proc_pending_event_drains (env : Env) (phase : Bool) :
    ∀ (fuel : Nat) (s : hdd_ipa_priv) (disp : List ipa_uc_pending_event)
      (s' : hdd_ipa_priv),
      hdd_ipa_uc_proc_pending_event env fuel s phase = some (disp, s') →
      s'.pending_event = [] ∧
      ∀ e ∈ disp, pending_event_dispatched env phase e = true := by
  intro fuel
  induction fuel with
  | zero => intro s disp s' h; simp [hdd_ipa_uc_proc_pending_event] at h
  | succ n ih =>
    intro s disp s' h
    unfold hdd_ipa_uc_proc_pending_event at h
    cases hq : s.pending_event with
    | nil =>
      rw [hq] at h
      simp only [Option.some.injEq, Prod.mk.injEq] at h
      obtain ⟨h1, h2⟩ := h
      subst h1 h2
      exact ⟨hq, by simp⟩
    | cons e rest =>
      rw [hq] at h
      dsimp only at h
      by_cases hd : pending_event_dispatched env phase e = true
      · rw [if_pos hd] at h
        cases hr : hdd_ipa_uc_proc_pending_event env n
            (__hdd_ipa_wlan_evt env { s with pending_event := rest }
              e.adapter e.sta_id e.type e.mac_addr).2 phase with
        | none => rw [hr] at h; simp at h
        | some r =>
          rw [hr] at h
          simp only [Option.map_some', Option.some.injEq, Prod.mk.injEq] at h
          obtain ⟨h1, h2⟩ := h
          obtain ⟨i1, i2⟩ := ih _ r.1 r.2 hr
          subst h1 h2
          refine ⟨i1, ?_⟩
          intro x hx
          rcases List.mem_cons.mp hx with hx | hx
          · exact hx ▸ hd
          · exact i2 x hx
      · rw [if_neg hd] at h
        exact ih _ disp s' h

theorem reaches_wait_congr (env : Env) (s1 s2 : hdd_ipa_priv) (a t : Nat) (mac : List Nat)
    (h : cfg_view s1 = cfg_view s2) :
    reaches_wait env s1 a t mac = reaches_wait env s2 a t mac := by
  simp only [cfg_view, Prod.mk.injEq] at h
  obtain ⟨h1, h2, h3⟩ := h
  simp only [reaches_wait, hdd_ipa_is_enabled, hdd_ipa_uc_is_enabled,
    hdd_ipa_uc_sta_is_enabled, HDD_IPA_IS_CONFIG_ENABLED, h1, h2, h3]

/-- One call that stores its event: the list becomes the last twenty entries
of the old list followed by the new entry, and the configuration and the
transition flags stay as they were. -/
theorem wlan_evt_stores (env : Env) (s : hdd_ipa_priv) (e : ipa_uc_pending_event)
    (hwait : ∀ hist, env.ret hist .wait_for_completion_timeout = 0)
    (halloc : ∀ hist, env.ret hist .qdf_mem_malloc_pending_event ≠ 0)
    (hr : reaches_wait env s e.adapter e.type e.mac_addr = true)
    (htag : e.is_loading = s.resource_loading)
    (hlen : s.pending_event.length ≤ HDD_IPA_MAX_PENDING_EVENT_COUNT) :
    (__hdd_ipa_wlan_evt env s e.adapter e.sta_id e.type e.mac_addr).1 = 0 ∧
    (__hdd_ipa_wlan_evt env s e.adapter e.sta_id e.type e.mac_addr).2.pending_event =
      lastN HDD_IPA_MAX_PENDING_EVENT_COUNT (s.pending_event ++ [e]) ∧
    cfg_view (__hdd_ipa_wlan_evt env s e.adapter e.sta_id e.type e.mac_addr).2 =
      cfg_view s := by
  have hst : stored_pending_event (call env .wait_for_completion_timeout s).2
      e.adapter e.sta_id e.type e.mac_addr = e := by
    cases e
    simp only [stored_pending_event, call] at htag ⊢
    simp only [htag]
  rw [wlan_evt_eq_of_reaches_wait env s _ _ _ _ hr, if_pos (hwait _)]
  refine ⟨?_, ?_, ?_⟩
  · exact queue_pending_event_ret env _ _ _ _ _ (Or.inr (halloc _))
  · rw [queue_pending_event_queue, hst, if_neg (halloc _)]
    simp only [call_pending_event]
    unfold lastN HDD_IPA_MAX_PENDING_EVENT_COUNT at *
    by_cases h20 : 20 ≤ s.pending_event.length
    · rw [if_pos h20]
      have hl : s.pending_event.length = 20 := by omega
      rw [List.length_append, List.length_singleton, hl]
      cases hq : s.pending_event with
      | nil => rw [hq] at hl; simp at hl
      | cons x rest => rfl
    · rw [if_neg h20]
      have e0 : (s.pending_event ++ [e]).length - 20 = 0 := by
        rw [List.length_append, List.length_singleton]; omega
      rw [e0, List.drop_zero]
  · rw [queue_pending_event_cfg_view]
    rfl

theorem wlan_evts_queue (env : Env)
    (hwait : ∀ hist, env.ret hist .wait_for_completion_timeout = 0)
    (halloc : ∀ hist, env.ret hist .qdf_mem_malloc_pending_event ≠ 0) :
    ∀ (evs : List ipa_uc_pending_event) (s : hdd_ipa_priv),
      (∀ e ∈ evs, reaches_wait env s e.adapter e.type e.mac_addr = true ∧
        e.is_loading = s.resource_loading) →
      s.pending_event.length ≤ HDD_IPA_MAX_PENDING_EVENT_COUNT →
      (wlan_evts env s evs).pending_event =
        lastN HDD_IPA_MAX_PENDING_EVENT_COUNT (s.pending_event ++ evs) := by
  intro evs
  induction evs with
  | nil =>
    intro s _ hlen
    simp only [wlan_evts, List.foldl_nil, List.append_nil]
    exact (lastN_of_length_le _ _ hlen).symm
  | cons e rest ih =>
    intro s hev hlen
    obtain ⟨_, h2, h3⟩ := wlan_evt_stores env s e hwait halloc
      (hev e (List.mem_cons_self _ _)).1 (hev e (List.mem_cons_self _ _)).2 hlen
    have hfold : wlan_evts env s (e :: rest) =
        wlan_evts env (__hdd_ipa_wlan_evt env s e.adapter e.sta_id e.type e.mac_addr).2
          rest := rfl
    rw [hfold, ih]
    · rw [h2, lastN_append_lastN, List.append_assoc]
      rfl
    · intro x hx
      have hx' := hev x (List.mem_cons_of_mem _ hx)
      rw [reaches_wait_congr env _ s _ _ _ h3]
      refine ⟨hx'.1, ?_⟩
      rw [hx'.2]
      have := congrArg (fun v => v.2.1) h3
      exact this.symm
    · rw [h2, length_lastN]
      omega

/-! ## Frame lemmas: the resource-manager state -/

@[simp] theorem call_rm_state (env : Env) (c : ExtCall) (s : hdd_ipa_priv) :
    (call env c s).2.rm_state = s.rm_state := rfl

@[simp] theorem call_IpaConfig (env : Env) (c : ExtCall) (s : hdd_ipa_priv) :
    (call env c s).2.IpaConfig = s.IpaConfig := rfl

@[simp] theorem wdi_enable_pipes_rm_state (env : Env) (s : hdd_ipa_priv) :
    (hdd_ipa_wdi_enable_pipes env s).2.rm_state = s.rm_state := by
  unfold hdd_ipa_wdi_enable_pipes
  dsimp only
  split_ifs <;> simp

@[simp] theorem wdi_enable_pipes_IpaConfig (env : Env) (s : hdd_ipa_priv) :
    (hdd_ipa_wdi_enable_pipes env s).2.IpaConfig = s.IpaConfig := by
  unfold hdd_ipa_wdi_enable_pipes
  dsimp only
  split_ifs <;> simp

@[simp] theorem uc_enable_pipes_rm_state (env : Env) (s : hdd_ipa_priv) :
    (hdd_ipa_uc_enable_pipes env s).2.rm_state = s.rm_state := by
  unfold hdd_ipa_uc_enable_pipes
  dsimp only
  split_ifs <;> simp

@[simp] theorem uc_enable_pipes_IpaConfig (env : Env) (s : hdd_ipa_priv) :
    (hdd_ipa_uc_enable_pipes env s).2.IpaConfig = s.IpaConfig := by
  unfold hdd_ipa_uc_enable_pipes
  dsimp only
  split_ifs <;> simp

theorem uc_rm_notify_handler_rm_state (env : Env) (s : hdd_ipa_priv) (ev : ipa_rm_event) :
    (hdd_ipa_uc_rm_notify_handler env s ev).rm_state = s.rm_state := by
  unfold hdd_ipa_uc_rm_notify_handler
  cases ev <;> dsimp only <;> split_ifs <;> simp

theorem uc_rm_notify_handler_IpaConfig (env : Env) (s : hdd_ipa_priv) (ev : ipa_rm_event) :
    (hdd_ipa_uc_rm_notify_handler env s ev).IpaConfig = s.IpaConfig := by
  unfold hdd_ipa_uc_rm_notify_handler
  cases ev <;> dsimp only <;> split_ifs <;> simp

/-- With uC offload enabled, delivery of the grant notification changes
neither the configuration nor `rm_state`. -/
theorem rm_grant_notification_uc (env : Env) (s : hdd_ipa_priv)
    (hrm : hdd_ipa_is_rm_enabled s = true)
    (huc : hdd_ipa_uc_is_enabled s = true) :
    (rm_grant_notification env s).rm_state = s.rm_state ∧
    (rm_grant_notification env s).IpaConfig = s.IpaConfig := by
  unfold rm_grant_notification hdd_ipa_uc_rm_notify_defer hdd_ipa_rm_notify
  simp only [huc, hrm, if_true, Bool.not_true, Bool.false_eq_true, if_false]
  rw [uc_rm_notify_handler_rm_state, uc_rm_notify_handler_IpaConfig]
  exact ⟨rfl, rfl⟩

/-- With uC offload disabled, delivery of the grant notification is the
assignment of Granted and the increment of `num_rm_grant`. -/
theorem rm_grant_notification_no_uc (env : Env) (s : hdd_ipa_priv)
    (hrm : hdd_ipa_is_rm_enabled s = true)
    (huc : hdd_ipa_uc_is_enabled s = false) :
    rm_grant_notification env s =
      { s with rm_state := .HDD_IPA_RM_GRANTED,
               stats := { s.stats with num_rm_grant := inc64 s.stats.num_rm_grant } } := by
  unfold rm_grant_notification hdd_ipa_rm_notify
  simp only [huc, hrm, Bool.not_true, Bool.false_eq_true, if_false]

theorem rm_request_of_granted (env : Env) (s : hdd_ipa_priv)
    (hst : s.rm_state = .HDD_IPA_RM_GRANTED) :
    hdd_ipa_wdi_rm_request env s = (0, s) := by
  unfold hdd_ipa_wdi_rm_request
  split_ifs
  · rfl
  · simp only [hst]

theorem rm_request_of_pending (env : Env) (s : hdd_ipa_priv)
    (hrm : hdd_ipa_is_rm_enabled s = true)
    (hst : s.rm_state = .HDD_IPA_RM_GRANT_PENDING) :
    hdd_ipa_wdi_rm_request env s = (-EINPROGRESS, s) := by
  unfold hdd_ipa_wdi_rm_request
  simp only [hrm, hst, Bool.not_true, Bool.false_eq_true, if_false]
/-! ## The descriptor pool: lemmas -/

theorem alloc_tx_desc_loop_snd (n : Nat) : (alloc_tx_desc_loop n).2 = List.range n := by
  unfold alloc_tx_desc_loop
  induction n with
  | zero => rfl
  | succ k ih => rw [List.range_succ, List.foldl_append]; simp [ih]

theorem alloc_tx_desc_loop_fst (n : Nat) :
    (alloc_tx_desc_loop n).1 =
      (List.range n).map (fun i => { id := i, ipa_tx_desc_ptr := none }) := by
  unfold alloc_tx_desc_loop
  induction n with
  | zero => rfl
  | succ k ih => rw [List.range_succ, List.foldl_append]; simp [ih]

theorem nodup_lt_length_le (l : List Nat) (n : Nat) (hnd : l.Nodup)
    (hlt : ∀ i ∈ l, i < n) : l.length ≤ n := by
  have h1 : l.toFinset ⊆ Finset.range n := by
    intro i hi
    exact Finset.mem_range.mpr (hlt i (List.mem_toFinset.mp hi))
  have h2 := Finset.card_le_card h1
  rw [List.toFinset_card_of_nodup hnd, Finset.card_range] at h2
  exact h2

@[simp] theorem call_pool_view (env : Env) (c : ExtCall) (s : hdd_ipa_priv) :
    pool_view (call env c s).2 = pool_view s := rfl

@[simp] theorem modify_iface_pool_view (s : hdd_ipa_priv) (i : Nat)
    (f : hdd_ipa_iface_context → hdd_ipa_iface_context) :
    pool_view (modify_iface s i f) = pool_view s := by
  unfold modify_iface
  split <;> rfl

@[simp] theorem iface_num_tx_drop_inc_pool_view (s : hdd_ipa_priv) (i : Nat) :
    pool_view (iface_num_tx_drop_inc s i) = pool_view s := by
  unfold iface_num_tx_drop_inc
  simp

@[simp] theorem try_release_pool_view (env : Env) (s : hdd_ipa_priv) :
    pool_view (hdd_ipa_wdi_rm_try_release env s).2 = pool_view s := by
  unfold hdd_ipa_wdi_rm_try_release
  cases s.rm_state <;> dsimp only <;> split_ifs <;> rfl

theorem alloc_pool_inv (env : Env) (s : hdd_ipa_priv)
    (h : (hdd_ipa_alloc_tx_desc_list env s).1 = 0) :
    pool_inv (pool_view (hdd_ipa_alloc_tx_desc_list env s).2) := by
  unfold hdd_ipa_alloc_tx_desc_list at h ⊢
  dsimp only at h ⊢
  split_ifs at h ⊢ with h1 h2
  · simp [ENODEV] at h
  · simp [ENOMEM] at h
  · simp only [pool_view, pool_inv, alloc_tx_desc_loop_snd, List.length_range]
    refine ⟨rfl, List.nodup_range _, fun i hi => List.mem_range.mp hi, ?_⟩
    exact Nat.mod_lt _ (by norm_num)

theorem nbuf_cb_pool_inv (env : Env) (s : hdd_ipa_priv) (skb : sk_buff)
    (hinv : pool_inv (pool_view s))
    (huse : skb.ipa_owned = true → slot_in_use s skb.tx_ipa_priv) :
    pool_inv (pool_view (hdd_ipa_nbuf_cb env s skb)) := by
  unfold hdd_ipa_nbuf_cb
  by_cases ho : skb.ipa_owned = true
  · obtain ⟨hlt, hnm⟩ := huse ho
    obtain ⟨hcons, hnd, hall, hsz⟩ := hinv
    simp only [pool_view] at hcons hnd hall hsz
    have hlen : s.free_tx_desc_head.length < s.tx_desc_size := by
      have h1 : (skb.tx_ipa_priv :: s.free_tx_desc_head).Nodup :=
        List.nodup_cons.mpr ⟨hnm, hnd⟩
      have h2 := nodup_lt_length_le (skb.tx_ipa_priv :: s.free_tx_desc_head)
        s.tx_desc_size h1 (by
          intro i hi
          rcases List.mem_cons.mp hi with h | h
          · exact h ▸ hlt
          · exact hall i h)
      simpa using h2
    have hid : skb.tx_ipa_priv % 2 ^ 16 = skb.tx_ipa_priv :=
      Nat.mod_eq_of_lt (by omega)
    simp only [ho, Bool.not_true, Bool.false_eq_true, if_false, try_release_pool_view, hid]
    split_ifs
    all_goals
      simp only [pool_view, pool_inv, call, List.length_append, List.length_singleton]
      refine ⟨?_, ?_, ?_, hsz⟩
      · unfold dec64
        have : s.stats.num_tx_desc_q_cnt < 2 ^ 64 := by
          have : s.stats.num_tx_desc_q_cnt ≤ s.tx_desc_size := by omega
          have : (2:Nat) ^ 16 < 2 ^ 64 := by norm_num
          omega
        omega
      · exact List.Nodup.append hnd (List.nodup_singleton _)
          (by simpa using hnm)
      · intro i hi
        rcases List.mem_append.mp hi with h | h
        · exact hall i h
        · simp at h; exact h ▸ hlt
  · simp only [ho, Bool.not_false, if_true, call_pool_view]
    exact hinv

theorem qdf_nbuf_free_pool_inv (env : Env) (s : hdd_ipa_priv) (skb : sk_buff)
    (hinv : pool_inv (pool_view s))
    (huse : skb.ipa_owned = true → slot_in_use s skb.tx_ipa_priv) :
    pool_inv (pool_view (qdf_nbuf_free env s skb)) := by
  unfold qdf_nbuf_free
  dsimp only
  split_ifs
  · exact nbuf_cb_pool_inv env _ skb hinv huse
  · simpa using hinv

theorem send_pkt_take_desc_pool_inv (env : Env) (s0 : hdd_ipa_priv) (i : Nat)
    (d : ipa_rx_data) (skb : sk_buff)
    (hinv : pool_inv (pool_view s0)) :
    pool_inv (pool_view (send_pkt_take_desc env s0 i d skb).2) := by
  unfold send_pkt_take_desc
  cases hf : s0.free_tx_desc_head with
  | nil =>
    have hv : pool_view s0 = ([], s0.stats.num_tx_desc_q_cnt, s0.tx_desc_size) := by
      simp only [pool_view, hf]
    rw [hv] at hinv
    dsimp only
    split_ifs <;> (simp only [try_release_pool_view, call_pool_view]; exact hinv)
  | cons id rest =>
    obtain ⟨hcons, hnd, hall, hsz⟩ := hinv
    simp only [pool_view, hf, List.length_cons] at hcons hnd hall hsz
    have hnd' := List.nodup_cons.mp hnd
    have hq : s0.stats.num_tx_desc_q_cnt + 1 < 2 ^ 64 := by
      have h1 : s0.stats.num_tx_desc_q_cnt ≤ s0.tx_desc_size := by omega
      have h2 : (2:Nat) ^ 16 < 2 ^ 64 := by norm_num
      omega
    have hinv1 : pool_inv (rest, inc64 s0.stats.num_tx_desc_q_cnt, s0.tx_desc_size) := by
      refine ⟨?_, hnd'.2, fun j hj => hall j (List.mem_cons_of_mem _ hj), hsz⟩
      show rest.length + inc64 s0.stats.num_tx_desc_q_cnt = s0.tx_desc_size
      unfold inc64
      rw [Nat.mod_eq_of_lt hq]
      omega
    dsimp only
    split_ifs
    · simp only [modify_iface_pool_view]
      apply qdf_nbuf_free_pool_inv
      · exact hinv1
      · intro _
        exact ⟨hall id (List.mem_cons_self _ _), hnd'.1⟩
    · simp only [modify_iface_pool_view]
      exact hinv1

theorem send_pkt_pool_inv (env : Env) (s : hdd_ipa_priv) (i : Nat) (d : ipa_rx_data)
    (hinv : pool_inv (pool_view s)) :
    pool_inv (pool_view (hdd_ipa_send_pkt_to_tl env s i d).2) := by
  unfold hdd_ipa_send_pkt_to_tl
  dsimp only
  split_ifs
  · simpa using hinv
  · simpa using hinv
  · simpa using hinv
  · simpa using hinv
  · exact send_pkt_take_desc_pool_inv env _ i d _ (by simpa using hinv)
  · exact send_pkt_take_desc_pool_inv env _ i d _ hinv

theorem pool_reach_inv (s : hdd_ipa_priv) (h : PoolReach s) : pool_inv (pool_view s) := by
  induction h with
  | alloc env s h => exact alloc_pool_inv env s h
  | send env s i d _ ih => exact send_pkt_pool_inv env s i d ih
  | complete env s skb _ huse ih => exact nbuf_cb_pool_inv env s skb ih huse

/-! ## Theorems: resource manager -/

/-- C1: with the resource manager enabled, while `tx_ref_cnt` is non-zero or
the suspend/resume queue is non-empty, `hdd_ipa_wdi_rm_try_release` returns
`-EAGAIN` and leaves the whole context as it was: no external call is
recorded (so the release primitive is not invoked) and `rm_state` keeps its
value. -/
theorem try_release_busy (env : Env) (s : hdd_ipa_priv)
    (hrm : hdd_ipa_is_rm_enabled s = true)
    (hbusy : s.tx_ref_cnt ≠ 0 ∨ s.pm_queue_head ≠ []) :
    (hdd_ipa_wdi_rm_try_release env s).1 = -EAGAIN ∧
    (hdd_ipa_wdi_rm_try_release env s).2 = s ∧
    (hdd_ipa_wdi_rm_try_release env s).2.calls.count
        .ipa_rm_inactivity_timer_release_resource =
      s.calls.count .ipa_rm_inactivity_timer_release_resource ∧
    (hdd_ipa_wdi_rm_try_release env s).2.rm_state = s.rm_state := by
  have key : hdd_ipa_wdi_rm_try_release env s = (-EAGAIN, s) := by
    unfold hdd_ipa_wdi_rm_try_release
    rcases hbusy with h | h
    · simp [hrm, h]
    · by_cases h0 : s.tx_ref_cnt = 0
      · have hq : s.pm_queue_head.isEmpty = false := by
          cases hq : s.pm_queue_head with
          | nil => exact absurd hq h
          | cons a l => rfl
        simp [hrm, h0, hq]
      · simp [hrm, h0]
  rw [key]
  exact ⟨rfl, rfl, rfl, rfl⟩

/-- Witness of `try_release_busy`: one descriptor in flight, resource
granted. -/
theorem try_release_busy_witness :
    (hdd_ipa_wdi_rm_try_release env_zero
        { priv_init 41 with tx_ref_cnt := 1, rm_state := .HDD_IPA_RM_GRANTED }).1
      = -EAGAIN ∧
    (hdd_ipa_wdi_rm_try_release env_zero
        { priv_init 41 with tx_ref_cnt := 1, rm_state := .HDD_IPA_RM_GRANTED }).2.rm_state
      = .HDD_IPA_RM_GRANTED :=
  have h := try_release_busy env_zero
    { priv_init 41 with tx_ref_cnt := 1, rm_state := .HDD_IPA_RM_GRANTED }
    (by decide) (Or.inl (by decide))
  ⟨h.1, h.2.2.2⟩

/-- C4: with the resource manager enabled, `hdd_ipa_wdi_rm_request` in state
Granted returns 0 and in state GrantPending returns `-EINPROGRESS`; in both
cases the context, the record of external calls included, is unchanged, so
the request primitive is not invoked. -/
theorem rm_request_idempotent (env : Env) (s : hdd_ipa_priv)
    (hrm : hdd_ipa_is_rm_enabled s = true) :
    (s.rm_state = .HDD_IPA_RM_GRANTED →
      hdd_ipa_wdi_rm_request env s = (0, s)) ∧
    (s.rm_state = .HDD_IPA_RM_GRANT_PENDING →
      hdd_ipa_wdi_rm_request env s = (-EINPROGRESS, s)) := by
  constructor <;> intro h <;> unfold hdd_ipa_wdi_rm_request <;> simp [hrm, h]

/-- Witness of `rm_request_idempotent`. -/
theorem rm_request_idempotent_witness :
    hdd_ipa_wdi_rm_request env_async
        { priv_init 41 with rm_state := .HDD_IPA_RM_GRANTED } =
      (0, { priv_init 41 with rm_state := .HDD_IPA_RM_GRANTED }) :=
  (rm_request_idempotent env_async
    { priv_init 41 with rm_state := .HDD_IPA_RM_GRANTED } (by decide)).1 rfl

/-- C5: with the resource manager enabled and `rm_state` Released,
`hdd_ipa_wdi_rm_request` invokes the request primitive exactly once; when the
primitive returns 0 the call returns 0 and `rm_state` is Granted, otherwise
the call returns the value of the primitive and `rm_state` is GrantPending. -/
theorem rm_request_from_released (env : Env) (s : hdd_ipa_priv)
    (hrm : hdd_ipa_is_rm_enabled s = true)
    (hst : s.rm_state = .HDD_IPA_RM_RELEASED) :
    (hdd_ipa_wdi_rm_request env s).2.calls.count
        .ipa_rm_inactivity_timer_request_resource =
      s.calls.count .ipa_rm_inactivity_timer_request_resource + 1 ∧
    (env.ret s.calls .ipa_rm_inactivity_timer_request_resource = 0 →
      (hdd_ipa_wdi_rm_request env s).1 = 0 ∧
      (hdd_ipa_wdi_rm_request env s).2.rm_state = .HDD_IPA_RM_GRANTED) ∧
    (env.ret s.calls .ipa_rm_inactivity_timer_request_resource ≠ 0 →
      (hdd_ipa_wdi_rm_request env s).1 =
        env.ret s.calls .ipa_rm_inactivity_timer_request_resource ∧
      (hdd_ipa_wdi_rm_request env s).2.rm_state = .HDD_IPA_RM_GRANT_PENDING) := by
  unfold hdd_ipa_wdi_rm_request
  simp only [hrm, hst, call]
  by_cases hret : env.ret s.calls .ipa_rm_inactivity_timer_request_resource = 0 <;>
    by_cases hw : s.wake_lock_released = true <;>
    simp [hret, hw, List.count_append, List.count_cons, List.count_nil]

/-- Witness of `rm_request_from_released`: an asynchronous accelerator. -/
theorem rm_request_from_released_witness :
    (hdd_ipa_wdi_rm_request env_async (priv_init 41)).1 = -EINPROGRESS ∧
    (hdd_ipa_wdi_rm_request env_async (priv_init 41)).2.rm_state =
      .HDD_IPA_RM_GRANT_PENDING :=
  (rm_request_from_released env_async (priv_init 41) (by decide) rfl).2.2 (by decide)

/-- C7: with the resource manager enabled, nothing in flight, an empty
suspend/resume queue and `rm_state` Granted, `hdd_ipa_wdi_rm_try_release`
invokes the release primitive once and returns its value; `rm_state` is
Released when the primitive returned 0 and is put back to Granted
otherwise. -/
theorem try_release_from_granted (env : Env) (s : hdd_ipa_priv)
    (hrm : hdd_ipa_is_rm_enabled s = true)
    (hcnt : s.tx_ref_cnt = 0) (hq : s.pm_queue_head = [])
    (hst : s.rm_state = .HDD_IPA_RM_GRANTED) :
    (hdd_ipa_wdi_rm_try_release env s).2.calls.count
        .ipa_rm_inactivity_timer_release_resource =
      s.calls.count .ipa_rm_inactivity_timer_release_resource + 1 ∧
    (hdd_ipa_wdi_rm_try_release env s).1 =
      env.ret s.calls .ipa_rm_inactivity_timer_release_resource ∧
    (env.ret s.calls .ipa_rm_inactivity_timer_release_resource = 0 →
      (hdd_ipa_wdi_rm_try_release env s).1 = 0 ∧
      (hdd_ipa_wdi_rm_try_release env s).2.rm_state = .HDD_IPA_RM_RELEASED) ∧
    (env.ret s.calls .ipa_rm_inactivity_timer_release_resource ≠ 0 →
      (hdd_ipa_wdi_rm_try_release env s).2.rm_state = .HDD_IPA_RM_GRANTED) := by
  unfold hdd_ipa_wdi_rm_try_release
  simp only [hrm, hcnt, hq, hst, call]
  by_cases hret : env.ret s.calls .ipa_rm_inactivity_timer_release_resource = 0 <;>
    simp [hret, List.count_append, List.count_cons, List.count_nil]

/-- Witness of `try_release_from_granted`: the release succeeds. -/
theorem try_release_from_granted_witness :
    (hdd_ipa_wdi_rm_try_release env_zero
        { priv_init 41 with rm_state := .HDD_IPA_RM_GRANTED }).1 = 0 ∧
    (hdd_ipa_wdi_rm_try_release env_zero
        { priv_init 41 with rm_state := .HDD_IPA_RM_GRANTED }).2.rm_state =
      .HDD_IPA_RM_RELEASED :=
  (try_release_from_granted env_zero
    { priv_init 41 with rm_state := .HDD_IPA_RM_GRANTED }
    (by decide) rfl rfl rfl).2.2.1 rfl

/-! ## Theorems: pipes -/

/-- C10: when `ipa_pipes_down` is set, `__hdd_ipa_uc_force_pipe_shutdown`
returns the context as it was, the record of external calls included (the
pipe-disable primitives are not invoked); hence a second force-shutdown
changes nothing either. -/
theorem force_pipe_shutdown_idempotent (env : Env) (s : hdd_ipa_priv)
    (hdown : s.ipa_pipes_down = true) :
    __hdd_ipa_uc_force_pipe_shutdown env s = s ∧
    __hdd_ipa_uc_force_pipe_shutdown env (__hdd_ipa_uc_force_pipe_shutdown env s) =
      __hdd_ipa_uc_force_pipe_shutdown env s := by
  have key : __hdd_ipa_uc_force_pipe_shutdown env s = s := by
    unfold __hdd_ipa_uc_force_pipe_shutdown
    simp [hdown]
  rw [key]
  exact ⟨rfl, key⟩

/-- Witness of `force_pipe_shutdown_idempotent`. -/
theorem force_pipe_shutdown_idempotent_witness :
    __hdd_ipa_uc_force_pipe_shutdown env_zero (priv_init 41) = priv_init 41 :=
  (force_pipe_shutdown_idempotent env_zero (priv_init 41) rfl).1

/-! ## Theorems: descriptor pool -/

/-- C2: pool conservation.  In every state reached from
`hdd_ipa_alloc_tx_desc_list` by sends (with their free-list pop) and by
completions `hdd_ipa_nbuf_cb` for slots in use, the length of
`free_tx_desc_head` plus `num_tx_desc_q_cnt` equals `tx_desc_size`. -/
theorem pool_conservation (s : hdd_ipa_priv) (h : PoolReach s) :
    s.free_tx_desc_head.length + s.stats.num_tx_desc_q_cnt = s.tx_desc_size :=
  (pool_reach_inv s h).1

/-- Witness of `pool_conservation`: allocate a pool of four, send one packet,
complete it. -/
theorem pool_conservation_witness :
    (hdd_ipa_nbuf_cb env_async
        (hdd_ipa_send_pkt_to_tl env_async
          (hdd_ipa_alloc_tx_desc_list env_async priv_sap).2 0 sample_desc).2
        { id := 70, ipa_owned := true, tx_ipa_priv := 0 }).free_tx_desc_head.length +
      (hdd_ipa_nbuf_cb env_async
        (hdd_ipa_send_pkt_to_tl env_async
          (hdd_ipa_alloc_tx_desc_list env_async priv_sap).2 0 sample_desc).2
        { id := 70, ipa_owned := true, tx_ipa_priv := 0 }).stats.num_tx_desc_q_cnt =
      (hdd_ipa_nbuf_cb env_async
        (hdd_ipa_send_pkt_to_tl env_async
          (hdd_ipa_alloc_tx_desc_list env_async priv_sap).2 0 sample_desc).2
        { id := 70, ipa_owned := true, tx_ipa_priv := 0 }).tx_desc_size :=
  pool_conservation _
    (PoolReach.complete env_async _ { id := 70, ipa_owned := true, tx_ipa_priv := 0 }
      (PoolReach.send env_async _ 0 sample_desc
        (PoolReach.alloc env_async priv_sap (by decide)))
      (fun _ => ⟨by decide, by decide⟩))

/-! ## Theorems: pending-event queue -/

/-- C3: bounded queue.  (1) `__hdd_ipa_wlan_evt`, the only function that
links entries on the pending-event list, keeps it at no more than 20
entries, and a replay that returns leaves it within that bound.  (2) When a call stores its event (it reaches the
timed wait and the wait times out) while the list holds 20 entries, the call
returns 0 and the new list is the old one without its first entry, followed
by the new entry.  (3) When every call stores its event, queueing the events
`evs` into an empty list leaves the last `min k 20` of them, in arrival
order. -/
theorem pending_event_queue_bounded (env : Env) (s : hdd_ipa_priv) :
    ((∀ a sta t mac,
        s.pending_event.length ≤ HDD_IPA_MAX_PENDING_EVENT_COUNT →
        (__hdd_ipa_wlan_evt env s a sta t mac).2.pending_event.length ≤
          HDD_IPA_MAX_PENDING_EVENT_COUNT) ∧
      (∀ fuel phase disp s',
        hdd_ipa_uc_proc_pending_event env fuel s phase = some (disp, s') →
        s'.pending_event.length ≤ HDD_IPA_MAX_PENDING_EVENT_COUNT)) ∧
    (∀ a sta t mac,
      reaches_wait env s a t mac = true →
      env.ret s.calls .wait_for_completion_timeout = 0 →
      s.pending_event.length = HDD_IPA_MAX_PENDING_EVENT_COUNT →
      (__hdd_ipa_wlan_evt env s a sta t mac).1 = 0 ∧
      (__hdd_ipa_wlan_evt env s a sta t mac).2.pending_event =
        s.pending_event.tail ++ [stored_pending_event s a sta t mac]) ∧
    (∀ evs : List ipa_uc_pending_event,
      (∀ hist, env.ret hist .wait_for_completion_timeout = 0) →
      (∀ hist, env.ret hist .qdf_mem_malloc_pending_event ≠ 0) →
      (∀ e ∈ evs, reaches_wait env s e.adapter e.type e.mac_addr = true ∧
        e.is_loading = s.resource_loading) →
      s.pending_event = [] →
      (wlan_evts env s evs).pending_event =
        evs.drop (evs.length - HDD_IPA_MAX_PENDING_EVENT_COUNT) ∧
      (wlan_evts env s evs).pending_event.length =
        min evs.length HDD_IPA_MAX_PENDING_EVENT_COUNT) := by
  refine ⟨⟨?_, ?_⟩, ?_, ?_⟩
  · intro a sta t mac h
    exact wlan_evt_queue_length env s a sta t mac h
  · intro fuel phase disp s' h
    rw [(proc_pending_event_drains env phase fuel s disp s' h).1]
    exact Nat.zero_le _
  · intro a sta t mac hr hw hlen
    rw [wlan_evt_eq_of_reaches_wait env s a sta t mac hr, if_pos hw]
    refine ⟨queue_pending_event_ret env _ _ _ _ _ (Or.inl ?_), ?_⟩
    · show HDD_IPA_MAX_PENDING_EVENT_COUNT ≤ s.pending_event.length
      omega
    · rw [queue_pending_event_queue, if_pos (by
        show HDD_IPA_MAX_PENDING_EVENT_COUNT ≤ s.pending_event.length
        omega)]
      rfl
  · intro evs hwait halloc hev hempty
    have h := wlan_evts_queue env hwait halloc evs s hev (by rw [hempty]; simp)
    rw [hempty, List.nil_append] at h
    rw [h]
    exact ⟨rfl, length_lastN _ _⟩

/-- Witness of `pending_event_queue_bounded`: 25 events queued during a load
leave events 6 to 25. -/
theorem pending_event_queue_bounded_witness :
    (wlan_evts env_async { priv_init 41 with resource_loading := true }
        events_25).pending_event = events_25.drop 5 ∧
    (wlan_evts env_async { priv_init 41 with resource_loading := true }
        events_25).pending_event.length = 20 :=
  (pending_event_queue_bounded env_async
      { priv_init 41 with resource_loading := true }).2.2 events_25
    (fun _ => rfl) (fun _ => show (1 : Int) ≠ 0 by decide) (by decide) rfl

/-- C9, as stated, fails: an entry queued with phase Unloading is gone from
the pending-event list after a replay for phase Loading. -/
theorem phase_isolation_counterexample :
    sample_event 1 1 false ∈
      ({ priv_init 41 with pending_event := [sample_event 1 1 false] } :
        hdd_ipa_priv).pending_event ∧
    (sample_event 1 1 false).is_loading = false ∧
    (hdd_ipa_uc_proc_pending_event env_zero 2
        { priv_init 41 with pending_event := [sample_event 1 1 false] } true).map
      (fun r => (r.1, r.2.pending_event)) = some ([], []) := by
  decide

/-- C9, amended: a replay that returns leaves the pending-event list empty,
for either phase; the entries whose tag differs from the phase are taken off
the list without being dispatched (every dispatched entry carries the tag of
the phase). -/
theorem proc_pending_event_empties (env : Env) (phase : Bool) (fuel : Nat)
    (s s' : hdd_ipa_priv) (disp : List ipa_uc_pending_event)
    (h : hdd_ipa_uc_proc_pending_event env fuel s phase = some (disp, s')) :
    s'.pending_event = [] ∧ ∀ e ∈ disp, e.is_loading = phase := by
  obtain ⟨h1, h2⟩ := proc_pending_event_drains env phase fuel s disp s' h
  refine ⟨h1, fun e he => ?_⟩
  have hd := h2 e he
  unfold pending_event_dispatched at hd
  simp only [Bool.and_eq_true, beq_iff_eq] at hd
  exact hd.1.1

/-- Witness of `proc_pending_event_empties`. -/
theorem proc_pending_event_empties_witness :
    ({ priv_init 41 with pending_event := [] } : hdd_ipa_priv).pending_event = [] ∧
    ∀ e ∈ ([] : List ipa_uc_pending_event), e.is_loading = true :=
  proc_pending_event_empties env_zero true 2
    { priv_init 41 with pending_event := [sample_event 1 1 false] }
    { priv_init 41 with pending_event := [] } [] (by decide)

/-! ## Theorems: grant notification -/

/-- C6, as stated, fails with uC offload enabled: after the grant
notification and its deferred handler `rm_state` is still GrantPending and
the next `hdd_ipa_wdi_rm_request` answers `-EINPROGRESS`. -/
theorem grant_notification_uc_counterexample :
    hdd_ipa_is_rm_enabled
      { priv_init 41 with rm_state := .HDD_IPA_RM_GRANT_PENDING } = true ∧
    hdd_ipa_uc_is_enabled
      { priv_init 41 with rm_state := .HDD_IPA_RM_GRANT_PENDING } = true ∧
    (rm_grant_notification env_zero
      { priv_init 41 with rm_state := .HDD_IPA_RM_GRANT_PENDING }).rm_state =
        .HDD_IPA_RM_GRANT_PENDING ∧
    (hdd_ipa_wdi_rm_request env_zero
      (rm_grant_notification env_zero
        { priv_init 41 with rm_state := .HDD_IPA_RM_GRANT_PENDING })).1 =
        -EINPROGRESS := by
  decide

/-- C6, amended: with the resource manager enabled and `rm_state`
GrantPending, delivery of the grant notification with uC offload disabled
sets `rm_state` to Granted, and the next `hdd_ipa_wdi_rm_request` returns 0
without an external call; with uC offload enabled the notification is handed
to the deferred handler, which leaves `rm_state` GrantPending, and the next
request returns `-EINPROGRESS`. -/
theorem grant_notification (env : Env) (s : hdd_ipa_priv)
    (hrm : hdd_ipa_is_rm_enabled s = true)
    (hst : s.rm_state = .HDD_IPA_RM_GRANT_PENDING) :
    (hdd_ipa_uc_is_enabled s = false →
      (rm_grant_notification env s).rm_state = .HDD_IPA_RM_GRANTED ∧
      ∀ env2, hdd_ipa_wdi_rm_request env2 (rm_grant_notification env s) =
        (0, rm_grant_notification env s)) ∧
    (hdd_ipa_uc_is_enabled s = true →
      (rm_grant_notification env s).rm_state = .HDD_IPA_RM_GRANT_PENDING ∧
      ∀ env2, hdd_ipa_wdi_rm_request env2 (rm_grant_notification env s) =
        (-EINPROGRESS, rm_grant_notification env s)) := by
  refine ⟨?_, ?_⟩
  · intro huc
    have hg : (rm_grant_notification env s).rm_state = .HDD_IPA_RM_GRANTED := by
      rw [rm_grant_notification_no_uc env s hrm huc]
    exact ⟨hg, fun env2 => rm_request_of_granted env2 _ hg⟩
  · intro huc
    obtain ⟨h1, h2⟩ := rm_grant_notification_uc env s hrm huc
    have hp : (rm_grant_notification env s).rm_state = .HDD_IPA_RM_GRANT_PENDING := by
      rw [h1, hst]
    have hrm2 : hdd_ipa_is_rm_enabled (rm_grant_notification env s) = true := by
      simp only [hdd_ipa_is_rm_enabled, HDD_IPA_IS_CONFIG_ENABLED, h2] at hrm ⊢
      exact hrm
    exact ⟨hp, fun env2 => rm_request_of_pending env2 _ hrm2 hp⟩

/-- Witness of `grant_notification`: resource manager enabled, uC offload
disabled. -/
theorem grant_notification_witness :
    (rm_grant_notification env_zero
      { priv_init 9 with rm_state := .HDD_IPA_RM_GRANT_PENDING }).rm_state =
        .HDD_IPA_RM_GRANTED :=
  ((grant_notification env_zero
    { priv_init 9 with rm_state := .HDD_IPA_RM_GRANT_PENDING } (by decide) rfl).1
    (by decide)).1

/-! ## Frame lemmas: the pipe life-cycle fields -/

@[simp] theorem call_ipa_pipes_down (env : Env) (c : ExtCall) (s : hdd_ipa_priv) :
    (call env c s).2.ipa_pipes_down = s.ipa_pipes_down := rfl

@[simp] theorem call_resource_loading (env : Env) (c : ExtCall) (s : hdd_ipa_priv) :
    (call env c s).2.resource_loading = s.resource_loading := rfl

@[simp] theorem call_resource_unloading (env : Env) (c : ExtCall) (s : hdd_ipa_priv) :
    (call env c s).2.resource_unloading = s.resource_unloading := rfl

@[simp] theorem call_activated_fw_pipe (env : Env) (c : ExtCall) (s : hdd_ipa_priv) :
    (call env c s).2.activated_fw_pipe = s.activated_fw_pipe := rfl

@[simp] theorem wdi_enable_pipes_ipa_pipes_down (env : Env) (s : hdd_ipa_priv) :
    (hdd_ipa_wdi_enable_pipes env s).2.ipa_pipes_down = s.ipa_pipes_down := by
  unfold hdd_ipa_wdi_enable_pipes
  dsimp only
  split_ifs <;> simp

@[simp] theorem wdi_enable_pipes_resource_loading (env : Env) (s : hdd_ipa_priv) :
    (hdd_ipa_wdi_enable_pipes env s).2.resource_loading = s.resource_loading := by
  unfold hdd_ipa_wdi_enable_pipes
  dsimp only
  split_ifs <;> simp

@[simp] theorem wdi_enable_pipes_resource_unloading (env : Env) (s : hdd_ipa_priv) :
    (hdd_ipa_wdi_enable_pipes env s).2.resource_unloading = s.resource_unloading := by
  unfold hdd_ipa_wdi_enable_pipes
  dsimp only
  split_ifs <;> simp

@[simp] theorem wdi_enable_pipes_activated_fw_pipe (env : Env) (s : hdd_ipa_priv) :
    (hdd_ipa_wdi_enable_pipes env s).2.activated_fw_pipe = s.activated_fw_pipe := by
  unfold hdd_ipa_wdi_enable_pipes
  dsimp only
  split_ifs <;> simp

@[simp] theorem wdi_disable_pipes_ipa_pipes_down (env : Env) (s : hdd_ipa_priv) :
    (hdd_ipa_wdi_disable_pipes env s).2.ipa_pipes_down = s.ipa_pipes_down := by
  unfold hdd_ipa_wdi_disable_pipes
  dsimp only
  split_ifs <;> simp

@[simp] theorem wdi_disable_pipes_resource_loading (env : Env) (s : hdd_ipa_priv) :
    (hdd_ipa_wdi_disable_pipes env s).2.resource_loading = s.resource_loading := by
  unfold hdd_ipa_wdi_disable_pipes
  dsimp only
  split_ifs <;> simp

@[simp] theorem wdi_disable_pipes_resource_unloading (env : Env) (s : hdd_ipa_priv) :
    (hdd_ipa_wdi_disable_pipes env s).2.resource_unloading = s.resource_unloading := by
  unfold hdd_ipa_wdi_disable_pipes
  dsimp only
  split_ifs <;> simp

@[simp] theorem wdi_disable_pipes_activated_fw_pipe (env : Env) (s : hdd_ipa_priv) :
    (hdd_ipa_wdi_disable_pipes env s).2.activated_fw_pipe = s.activated_fw_pipe := by
  unfold hdd_ipa_wdi_disable_pipes
  dsimp only
  split_ifs <;> simp

@[simp] theorem uc_enable_pipes_resource_loading (env : Env) (s : hdd_ipa_priv) :
    (hdd_ipa_uc_enable_pipes env s).2.resource_loading = s.resource_loading := by
  unfold hdd_ipa_uc_enable_pipes
  dsimp only
  split_ifs <;> simp

@[simp] theorem uc_enable_pipes_resource_unloading (env : Env) (s : hdd_ipa_priv) :
    (hdd_ipa_uc_enable_pipes env s).2.resource_unloading = s.resource_unloading := by
  unfold hdd_ipa_uc_enable_pipes
  dsimp only
  split_ifs <;> simp

@[simp] theorem uc_enable_pipes_activated_fw_pipe (env : Env) (s : hdd_ipa_priv) :
    (hdd_ipa_uc_enable_pipes env s).2.activated_fw_pipe = s.activated_fw_pipe := by
  unfold hdd_ipa_uc_enable_pipes
  dsimp only
  split_ifs <;> simp

@[simp] theorem uc_disable_pipes_resource_loading (env : Env) (s : hdd_ipa_priv) :
    (hdd_ipa_uc_disable_pipes env s).2.resource_loading = s.resource_loading := by
  unfold hdd_ipa_uc_disable_pipes
  dsimp only
  split_ifs <;> simp

@[simp] theorem uc_disable_pipes_resource_unloading (env : Env) (s : hdd_ipa_priv) :
    (hdd_ipa_uc_disable_pipes env s).2.resource_unloading = s.resource_unloading := by
  unfold hdd_ipa_uc_disable_pipes
  dsimp only
  split_ifs <;> simp

@[simp] theorem uc_disable_pipes_activated_fw_pipe (env : Env) (s : hdd_ipa_priv) :
    (hdd_ipa_uc_disable_pipes env s).2.activated_fw_pipe = s.activated_fw_pipe := by
  unfold hdd_ipa_uc_disable_pipes
  dsimp only
  split_ifs <;> simp

/-- A call of `hdd_ipa_uc_enable_pipes` with the pipes up changes nothing. -/
theorem uc_enable_pipes_of_up (env : Env) (s : hdd_ipa_priv)
    (h : s.ipa_pipes_down = false) :
    hdd_ipa_uc_enable_pipes env s =
      (if env.pdev then 0 else QDF_STATUS_E_FAILURE, s) := by
  unfold hdd_ipa_uc_enable_pipes
  cases hp : env.pdev <;> simp [h]

/-- A call of `hdd_ipa_uc_disable_pipes` with the pipes down changes nothing. -/
theorem uc_disable_pipes_of_down (env : Env) (s : hdd_ipa_priv)
    (h : s.ipa_pipes_down = true) :
    hdd_ipa_uc_disable_pipes env s = (0, s) := by
  unfold hdd_ipa_uc_disable_pipes
  simp [h]

/-- The result of `hdd_ipa_uc_enable_pipes` decides `ipa_pipes_down`: zero
leaves the pipes up, anything else leaves the flag as it was. -/
theorem uc_enable_pipes_flag (env : Env) (s : hdd_ipa_priv) :
    ((hdd_ipa_uc_enable_pipes env s).1 = 0 →
      (hdd_ipa_uc_enable_pipes env s).2.ipa_pipes_down = false) ∧
    ((hdd_ipa_uc_enable_pipes env s).1 ≠ 0 →
      (hdd_ipa_uc_enable_pipes env s).2.ipa_pipes_down = s.ipa_pipes_down) := by
  unfold hdd_ipa_uc_enable_pipes
  dsimp only
  split_ifs with h1 h2 h3
  · exact ⟨fun h => absurd h (show QDF_STATUS_E_FAILURE ≠ 0 by decide), fun _ => rfl⟩
  · exact ⟨fun _ => by simpa using h2, fun _ => rfl⟩
  · exact ⟨fun h => absurd h h3, fun _ => by simp⟩
  · exact ⟨fun _ => rfl, fun h => absurd (not_not.mp h3) h⟩

/-- The result of `hdd_ipa_uc_disable_pipes` decides `ipa_pipes_down`: zero
leaves the pipes down, anything else leaves the flag as it was. -/
theorem uc_disable_pipes_flag (env : Env) (s : hdd_ipa_priv) :
    ((hdd_ipa_uc_disable_pipes env s).1 = 0 →
      (hdd_ipa_uc_disable_pipes env s).2.ipa_pipes_down = true) ∧
    ((hdd_ipa_uc_disable_pipes env s).1 ≠ 0 →
      (hdd_ipa_uc_disable_pipes env s).2.ipa_pipes_down = s.ipa_pipes_down) := by
  unfold hdd_ipa_uc_disable_pipes
  dsimp only
  split_ifs with h1 h2
  · exact ⟨fun _ => h1, fun _ => rfl⟩
  · exact ⟨fun h => absurd h h2, fun _ => by simp⟩
  · exact ⟨fun _ => rfl, fun h => absurd (not_not.mp h2) h⟩

/-! ## Theorems: pipe enable and disable guards -/

/-- C18, as stated, fails: a call of `hdd_ipa_uc_enable_pipes` with the pipes
already up, and a call of `hdd_ipa_uc_disable_pipes` with the pipes already
down, return 0, the value that a successful enable and a successful disable
return. -/
theorem pipe_guard_result_counterexample :
    ({ priv_init 41 with ipa_pipes_down := false } : hdd_ipa_priv).ipa_pipes_down = false ∧
    (hdd_ipa_uc_enable_pipes env_zero { priv_init 41 with ipa_pipes_down := false }).1 = 0 ∧
    (hdd_ipa_uc_enable_pipes env_zero (priv_init 41)).1 = 0 ∧
    (priv_init 41).ipa_pipes_down = true ∧
    (hdd_ipa_uc_disable_pipes env_zero (priv_init 41)).1 = 0 ∧
    (hdd_ipa_uc_disable_pipes env_zero { priv_init 41 with ipa_pipes_down := false }).1 = 0 := by
  decide

/-- C18, amended: `hdd_ipa_uc_disable_pipes` called with the pipes already
down returns 0 and the unchanged context; `hdd_ipa_uc_enable_pipes` called
with the pipes already up returns the unchanged context together with 0 when
the TXRX device is present and with `QDF_STATUS_E_FAILURE` when it is not.
The result is the one a successful call gives. -/
theorem pipe_guard_result (env : Env) (s : hdd_ipa_priv) :
    (s.ipa_pipes_down = true → hdd_ipa_uc_disable_pipes env s = (0, s)) ∧
    (s.ipa_pipes_down = false → env.pdev = true →
      hdd_ipa_uc_enable_pipes env s = (0, s)) ∧
    (s.ipa_pipes_down = false → env.pdev = false →
      hdd_ipa_uc_enable_pipes env s = (QDF_STATUS_E_FAILURE, s)) := by
  refine ⟨uc_disable_pipes_of_down env s, fun h hp => ?_, fun h hp => ?_⟩
  · rw [uc_enable_pipes_of_up env s h, hp]
    rfl
  · rw [uc_enable_pipes_of_up env s h, hp]
    rfl

/-- Witness of `pipe_guard_result`. -/
theorem pipe_guard_result_witness :
    hdd_ipa_uc_disable_pipes env_zero (priv_init 41) = (0, priv_init 41) ∧
    hdd_ipa_uc_enable_pipes env_zero { priv_init 41 with ipa_pipes_down := false } =
      (0, { priv_init 41 with ipa_pipes_down := false }) :=
  ⟨(pipe_guard_result env_zero (priv_init 41)).1 (by decide),
   (pipe_guard_result env_zero { priv_init 41 with ipa_pipes_down := false }).2.1
     (by decide) (by decide)⟩

/-! ## Theorems: first connection -/

/-- C16, as stated, fails with the resource manager enabled: the resource is
granted synchronously, the pipe enable succeeds, the result is 0 and the
pipes are up, yet `resource_loading` is still set on return. -/
theorem first_con_sync_grant_counterexample :
    hdd_ipa_is_rm_enabled (priv_init 41) = true ∧
    env_zero.ret (priv_init 41).calls .ipa_rm_request_resource = 0 ∧
    (hdd_ipa_uc_handle_first_con env_zero (priv_init 41)).1 = 0 ∧
    (hdd_ipa_uc_handle_first_con env_zero (priv_init 41)).2.ipa_pipes_down = false ∧
    (hdd_ipa_uc_handle_first_con env_zero (priv_init 41)).2.activated_fw_pipe = 0 ∧
    (hdd_ipa_uc_handle_first_con env_zero (priv_init 41)).2.resource_loading = true := by
  decide

/-! ## The descriptor pool: the free list along acquisitions -/

@[simp] theorem call_free_tx_desc_head (env : Env) (c : ExtCall) (s : hdd_ipa_priv) :
    (call env c s).2.free_tx_desc_head = s.free_tx_desc_head := rfl

@[simp] theorem call_tx_desc_list (env : Env) (c : ExtCall) (s : hdd_ipa_priv) :
    (call env c s).2.tx_desc_list = s.tx_desc_list := rfl

@[simp] theorem call_num_tx_desc_error (env : Env) (c : ExtCall) (s : hdd_ipa_priv) :
    (call env c s).2.stats.num_tx_desc_error = s.stats.num_tx_desc_error := rfl

theorem call_calls (env : Env) (c : ExtCall) (s : hdd_ipa_priv) :
    (call env c s).2.calls = s.calls ++ [c] := rfl

@[simp] theorem modify_iface_free_tx_desc_head (s : hdd_ipa_priv) (i : Nat)
    (f : hdd_ipa_iface_context → hdd_ipa_iface_context) :
    (modify_iface s i f).free_tx_desc_head = s.free_tx_desc_head := by
  unfold modify_iface
  split <;> rfl

@[simp] theorem modify_iface_tx_desc_list (s : hdd_ipa_priv) (i : Nat)
    (f : hdd_ipa_iface_context → hdd_ipa_iface_context) :
    (modify_iface s i f).tx_desc_list = s.tx_desc_list := by
  unfold modify_iface
  split <;> rfl

@[simp] theorem try_release_free_tx_desc_head (env : Env) (s : hdd_ipa_priv) :
    (hdd_ipa_wdi_rm_try_release env s).2.free_tx_desc_head = s.free_tx_desc_head := by
  unfold hdd_ipa_wdi_rm_try_release
  cases s.rm_state <;> dsimp only <;> split_ifs <;> rfl

@[simp] theorem try_release_tx_desc_list (env : Env) (s : hdd_ipa_priv) :
    (hdd_ipa_wdi_rm_try_release env s).2.tx_desc_list = s.tx_desc_list := by
  unfold hdd_ipa_wdi_rm_try_release
  cases s.rm_state <;> dsimp only <;> split_ifs <;> rfl

@[simp] theorem try_release_num_tx_desc_error (env : Env) (s : hdd_ipa_priv) :
    (hdd_ipa_wdi_rm_try_release env s).2.stats.num_tx_desc_error =
      s.stats.num_tx_desc_error := by
  unfold hdd_ipa_wdi_rm_try_release
  cases s.rm_state <;> dsimp only <;> split_ifs <;> rfl

theorem try_release_calls_mem (env : Env) (s : hdd_ipa_priv) (c : ExtCall)
    (h : c ∈ s.calls) : c ∈ (hdd_ipa_wdi_rm_try_release env s).2.calls := by
  unfold hdd_ipa_wdi_rm_try_release
  cases s.rm_state <;> dsimp only <;> split_ifs <;> simp [call, h]

/-- The completion callback links at most the slot named by the buffer at
the tail of the free list. -/
theorem nbuf_cb_free_tx_desc_head (env : Env) (s : hdd_ipa_priv) (skb : sk_buff) :
    (hdd_ipa_nbuf_cb env s skb).free_tx_desc_head =
      s.free_tx_desc_head ++
        (if skb.ipa_owned then [skb.tx_ipa_priv % 2 ^ 16] else []) := by
  unfold hdd_ipa_nbuf_cb
  cases ho : skb.ipa_owned
  · simp
  · simp only [Bool.not_true, Bool.false_eq_true, if_false, if_true,
      try_release_free_tx_desc_head]
    split_ifs <;> rfl

/-- An acquisition yields no slot exactly when the free list is empty. -/
theorem send_pkt_take_desc_none_iff (env : Env) (s : hdd_ipa_priv) (i : Nat)
    (d : ipa_rx_data) (skb : sk_buff) :
    (send_pkt_take_desc env s i d skb).1 = none ↔ s.free_tx_desc_head = [] := by
  unfold send_pkt_take_desc
  split
  · rename_i heq
    simp [heq]
  · rename_i id rest heq
    dsimp only
    split_ifs <;> simp [heq]

/-- An acquisition on an empty free list counts the error, hands the packet
back to the IPA driver and leaves the free list empty. -/
theorem send_pkt_take_desc_empty (env : Env) (s : hdd_ipa_priv) (i : Nat)
    (d : ipa_rx_data) (skb : sk_buff) (h : s.free_tx_desc_head = []) :
    (send_pkt_take_desc env s i d skb).2.stats.num_tx_desc_error =
      inc64 s.stats.num_tx_desc_error ∧
    ExtCall.ipa_free_skb d.id ∈ (send_pkt_take_desc env s i d skb).2.calls ∧
    (send_pkt_take_desc env s i d skb).2.free_tx_desc_head = [] := by
  unfold send_pkt_take_desc
  split
  · dsimp only
    refine ⟨?_, ?_, ?_⟩
    · split_ifs <;> simp
    · apply try_release_calls_mem
      simp [call_calls]
    · split_ifs <;> simp [h]
  · rename_i id rest heq
    rw [h] at heq
    exact absurd heq (by simp)

/-- An acquisition on a free list `a :: rest` returns `a`; afterwards the
free list is `rest`, followed by `a` again when the TXRX layer rejected the
frame and the buffer went through the completion callback. -/
theorem send_pkt_take_desc_cons (env : Env) (s : hdd_ipa_priv) (i : Nat)
    (d : ipa_rx_data) (skb : sk_buff) (a : Nat) (rest : List Nat)
    (h : s.free_tx_desc_head = a :: rest) :
    (send_pkt_take_desc env s i d skb).1 = some a ∧
    ∃ tail, (send_pkt_take_desc env s i d skb).2.free_tx_desc_head = rest ++ tail ∧
      ((∀ hist c, env.ret hist (.ol_tx_send_ipa_data_frame c) = 0) → tail = []) := by
  unfold send_pkt_take_desc
  split
  · rename_i heq
    rw [h] at heq
    exact absurd heq (by simp)
  · rename_i id rest2 heq
    rw [h] at heq
    obtain ⟨h1, h2⟩ := List.cons.inj heq
    subst h1
    subst h2
    dsimp only
    split_ifs with hr
    · refine ⟨rfl, ?_⟩
      simp only [modify_iface_free_tx_desc_head]
      unfold qdf_nbuf_free
      dsimp only
      split_ifs
      · rw [nbuf_cb_free_tx_desc_head]
        exact ⟨_, rfl, fun hacc => absurd (hacc _ _) hr⟩
      · exact ⟨[], by simp, fun _ => rfl⟩
    · exact ⟨rfl, [], by simp, fun _ => rfl⟩

/-- A run of acquisitions on a free list that starts with the slots
`j, j + 1, ...`, one for each packet, returns these slots in order. -/
theorem acquire_seq_range (env : Env) (i : Nat) (ds : List ipa_rx_data) :
    ∀ (s : hdd_ipa_priv) (j : Nat) (tail : List Nat),
      s.free_tx_desc_head = List.range' j ds.length ++ tail →
      (acquire_seq env s i ds).1 = (List.range' j ds.length).map some ∧
      ∃ tail2, (acquire_seq env s i ds).2.free_tx_desc_head = tail ++ tail2 ∧
        ((∀ hist c, env.ret hist (.ol_tx_send_ipa_data_frame c) = 0) → tail2 = []) := by
  induction ds with
  | nil =>
    intro s j tail h
    refine ⟨rfl, [], ?_, fun _ => rfl⟩
    simpa using h
  | cons d ds ih =>
    intro s j tail h
    rw [List.length_cons, List.range'_succ, List.cons_append] at h
    obtain ⟨h1, t1, h2, h3⟩ := send_pkt_take_desc_cons env s i d
      { d.skb with ipa_owned := true, tx_ipa_priv := 0 } j _ h
    rw [List.append_assoc] at h2
    obtain ⟨k1, t2, k2, k3⟩ := ih _ (j + 1) (tail ++ t1) h2
    refine ⟨?_, t1 ++ t2, ?_, fun hacc => ?_⟩
    · show _ :: _ = _
      rw [h1, k1, List.length_cons, List.range'_succ]
      rfl
    · show (acquire_seq env _ i ds).2.free_tx_desc_head = _
      rw [k2, List.append_assoc]
    · rw [h3 hacc, k3 hacc]
      rfl

/-- What a successful `hdd_ipa_alloc_tx_desc_list` leaves: a pool of
`tx_desc_size` descriptors, all of them on the free list in index order. -/
theorem alloc_tx_desc_list_fresh (env : Env) (s s0 : hdd_ipa_priv)
    (h : hdd_ipa_alloc_tx_desc_list env s = (0, s0)) :
    s0.free_tx_desc_head = List.range s0.tx_desc_size ∧
    s0.tx_desc_list.length = s0.tx_desc_size ∧
    s0.tx_desc_size = (min s.IpaMccTxDescSize env.pool_size) % 2 ^ 16 := by
  unfold hdd_ipa_alloc_tx_desc_list at h
  dsimp only at h
  split_ifs at h with h1 h2
  · exact absurd (congrArg Prod.fst h) (show (-ENODEV : Int) ≠ 0 by decide)
  · exact absurd (congrArg Prod.fst h) (show (-ENOMEM : Int) ≠ 0 by decide)
  · have h3 := (Prod.mk.inj h).2
    subst h3
    simp [alloc_tx_desc_loop_snd, alloc_tx_desc_loop_fst, call]

theorem set_tx_desc_ptr_length (l : List hdd_ipa_tx_desc) (id : Nat) (p : Option Nat) :
    (set_tx_desc_ptr l id p).length = l.length := by
  unfold set_tx_desc_ptr
  split <;> simp

theorem set_tx_desc_ptr_get (l : List hdd_ipa_tx_desc) (id : Nat) (p : Option Nat)
    (h : id < l.length) :
    ((set_tx_desc_ptr l id p)[id]?).map (fun x => x.ipa_tx_desc_ptr) = some p := by
  unfold set_tx_desc_ptr
  have hs : l[id]? = some (l.get ⟨id, h⟩) := List.getElem?_eq_getElem h
  rw [hs]
  simp [List.getElem?_set, h]

/-- The part of the context on which `tx_desc_pop` and `send_pkt_take_desc`
agree when the free list is not empty: the slot returned, and the free list
and descriptor array at the moment the descriptor has been taken. -/
theorem tx_desc_pop_cons (s : hdd_ipa_priv) (d : ipa_rx_data) (skb : sk_buff)
    (a : Nat) (rest : List Nat) (h : s.free_tx_desc_head = a :: rest) :
    ∃ s1, tx_desc_pop s d skb = some (a, { skb with tx_ipa_priv := a }, s1) ∧
      s1.free_tx_desc_head = rest ∧
      s1.tx_desc_list = set_tx_desc_ptr s.tx_desc_list a (some d.id) ∧
      s1.stats.num_tx_desc_q_cnt = inc64 s.stats.num_tx_desc_q_cnt := by
  unfold tx_desc_pop
  split
  · rename_i heq
    rw [h] at heq
    exact absurd heq (by simp)
  · rename_i id rest2 heq
    rw [h] at heq
    obtain ⟨h1, h2⟩ := List.cons.inj heq
    subst h1
    subst h2
    exact ⟨_, rfl, rfl, rfl, rfl⟩

/-- When the TXRX layer accepts the frame, the descriptor taken by
`send_pkt_take_desc` still points at the packet on return. -/
theorem send_pkt_take_desc_cons_list (env : Env) (s : hdd_ipa_priv) (i : Nat)
    (d : ipa_rx_data) (skb : sk_buff) (a : Nat) (rest : List Nat)
    (h : s.free_tx_desc_head = a :: rest)
    (hacc : ∀ hist c, env.ret hist (.ol_tx_send_ipa_data_frame c) = 0) :
    (send_pkt_take_desc env s i d skb).2.tx_desc_list =
      set_tx_desc_ptr s.tx_desc_list a (some d.id) := by
  unfold send_pkt_take_desc
  split
  · rename_i heq
    rw [h] at heq
    exact absurd heq (by simp)
  · rename_i id rest2 heq
    rw [h] at heq
    obtain ⟨h1, h2⟩ := List.cons.inj heq
    subst h1
    subst h2
    dsimp only
    split_ifs with hr
    · exact absurd (hacc _ _) hr
    · simp

/-- The completion callback, for a buffer owned by the IPA path, clears the
buffer reference of the slot named by the buffer. -/
theorem nbuf_cb_tx_desc_list (env : Env) (s : hdd_ipa_priv) (skb : sk_buff)
    (ho : skb.ipa_owned = true) :
    (hdd_ipa_nbuf_cb env s skb).tx_desc_list =
      set_tx_desc_ptr s.tx_desc_list (skb.tx_ipa_priv % 2 ^ 16) none := by
  unfold hdd_ipa_nbuf_cb
  simp only [ho, Bool.not_true, Bool.false_eq_true, if_false, try_release_tx_desc_list]
  split_ifs <;> rfl

/-! ## Theorems: pool exhaustion and reuse -/

/-- C11: on the pool left by a successful `hdd_ipa_alloc_tx_desc_list`, of
size `n = tx_desc_size`, a run of `n` descriptor acquisitions returns the
slots `0, ..., n - 1` in order.  An acquisition returns no slot exactly when
the free list is empty, and then `num_tx_desc_error` is incremented and the
packet is handed back to the IPA driver.  When the TXRX layer accepts every
frame (so that no slot is released in between), the acquisition after the
first `n` returns no slot. -/
theorem pool_exhaustion (env : Env) (s s0 : hdd_ipa_priv) (i : Nat)
    (halloc : hdd_ipa_alloc_tx_desc_list env s = (0, s0)) :
    (∀ ds : List ipa_rx_data, ds.length = s0.tx_desc_size →
      (acquire_seq env s0 i ds).1 = (List.range s0.tx_desc_size).map some) ∧
    (∀ (env2 : Env) (t : hdd_ipa_priv) (d : ipa_rx_data) (skb : sk_buff),
      ((send_pkt_take_desc env2 t i d skb).1 = none ↔ t.free_tx_desc_head = []) ∧
      (t.free_tx_desc_head = [] →
        (send_pkt_take_desc env2 t i d skb).2.stats.num_tx_desc_error =
          inc64 t.stats.num_tx_desc_error ∧
        ExtCall.ipa_free_skb d.id ∈ (send_pkt_take_desc env2 t i d skb).2.calls)) ∧
    ((∀ hist c, env.ret hist (.ol_tx_send_ipa_data_frame c) = 0) →
      ∀ (ds : List ipa_rx_data) (d : ipa_rx_data) (skb : sk_buff),
        ds.length = s0.tx_desc_size →
        (send_pkt_take_desc env (acquire_seq env s0 i ds).2 i d skb).1 = none) := by
  obtain ⟨hfree, -, -⟩ := alloc_tx_desc_list_fresh env s s0 halloc
  have hrun : ∀ ds : List ipa_rx_data, ds.length = s0.tx_desc_size →
      s0.free_tx_desc_head = List.range' 0 ds.length ++ [] := by
    intro ds hds
    rw [hfree, hds, List.append_nil, List.range_eq_range']
  refine ⟨fun ds hds => ?_, fun env2 t d skb => ⟨?_, fun ht => ?_⟩,
    fun hacc ds d skb hds => ?_⟩
  · rw [(acquire_seq_range env i ds s0 0 [] (hrun ds hds)).1, hds, List.range_eq_range']
  · exact send_pkt_take_desc_none_iff env2 t i d skb
  · exact ⟨(send_pkt_take_desc_empty env2 t i d skb ht).1,
      (send_pkt_take_desc_empty env2 t i d skb ht).2.1⟩
  · obtain ⟨-, t2, h2, h3⟩ := acquire_seq_range env i ds s0 0 [] (hrun ds hds)
    rw [h3 hacc] at h2
    exact (send_pkt_take_desc_none_iff env _ i d skb).mpr h2

/-- Witness of `pool_exhaustion`: a pool of four descriptors; four
acquisitions return the slots 0 to 3 and the fifth returns none. -/
theorem pool_exhaustion_witness :
    (acquire_seq env_async (hdd_ipa_alloc_tx_desc_list env_async (priv_init 41)).2 0
      (List.replicate 4 sample_desc)).1 = [some 0, some 1, some 2, some 3] ∧
    (send_pkt_take_desc env_async
      (acquire_seq env_async (hdd_ipa_alloc_tx_desc_list env_async (priv_init 41)).2 0
        (List.replicate 4 sample_desc)).2 0 sample_desc sample_desc.skb).1 = none :=
  ⟨(pool_exhaustion env_async (priv_init 41)
      (hdd_ipa_alloc_tx_desc_list env_async (priv_init 41)).2 0 (by decide)).1
      (List.replicate 4 sample_desc) (by decide),
   (pool_exhaustion env_async (priv_init 41)
      (hdd_ipa_alloc_tx_desc_list env_async (priv_init 41)).2 0 (by decide)).2.2
      (fun _ _ => rfl) (List.replicate 4 sample_desc) sample_desc sample_desc.skb
      (by decide)⟩

/-- C12: when the free list is empty (every slot is in use) and
`hdd_ipa_nbuf_cb` runs for a buffer of the IPA path that carries slot
`skb.tx_ipa_priv`, the next acquisition returns that slot; at the moment
the descriptor has been taken its buffer reference is the new packet and the
free list is empty again, and the reference is still the new packet on return
when the TXRX layer accepts the frame. -/
theorem release_then_acquire (env env2 : Env) (s : hdd_ipa_priv) (skb : sk_buff)
    (i : Nat) (d : ipa_rx_data) (skb2 : sk_buff)
    (hfull : s.free_tx_desc_head = [])
    (hown : skb.ipa_owned = true)
    (hslot : skb.tx_ipa_priv < s.tx_desc_list.length)
    (hsz : s.tx_desc_list.length ≤ 2 ^ 16) :
    (send_pkt_take_desc env2 (hdd_ipa_nbuf_cb env s skb) i d skb2).1 =
      some skb.tx_ipa_priv ∧
    (∃ s2, tx_desc_pop (hdd_ipa_nbuf_cb env s skb) d skb2 =
        some (skb.tx_ipa_priv, { skb2 with tx_ipa_priv := skb.tx_ipa_priv }, s2) ∧
      (s2.tx_desc_list[skb.tx_ipa_priv]?).map (fun x => x.ipa_tx_desc_ptr) =
        some (some d.id) ∧
      s2.free_tx_desc_head = []) ∧
    ((∀ hist c, env2.ret hist (.ol_tx_send_ipa_data_frame c) = 0) →
      ((send_pkt_take_desc env2 (hdd_ipa_nbuf_cb env s skb) i d
          skb2).2.tx_desc_list[skb.tx_ipa_priv]?).map (fun x => x.ipa_tx_desc_ptr) =
        some (some d.id)) := by
  have hid : skb.tx_ipa_priv % 2 ^ 16 = skb.tx_ipa_priv :=
    Nat.mod_eq_of_lt (by omega)
  have hfree : (hdd_ipa_nbuf_cb env s skb).free_tx_desc_head = skb.tx_ipa_priv :: [] := by
    rw [nbuf_cb_free_tx_desc_head, hfull, hown, hid]
    rfl
  have hlist : (hdd_ipa_nbuf_cb env s skb).tx_desc_list =
      set_tx_desc_ptr s.tx_desc_list skb.tx_ipa_priv none := by
    rw [nbuf_cb_tx_desc_list env s skb hown, hid]
  have hlen : skb.tx_ipa_priv < (hdd_ipa_nbuf_cb env s skb).tx_desc_list.length := by
    rw [hlist, set_tx_desc_ptr_length]
    exact hslot
  refine ⟨(send_pkt_take_desc_cons env2 _ i d skb2 _ _ hfree).1, ?_, fun hacc => ?_⟩
  · obtain ⟨s2, h1, h2, h3, -⟩ := tx_desc_pop_cons _ d skb2 _ _ hfree
    refine ⟨s2, h1, ?_, h2⟩
    rw [h3]
    exact set_tx_desc_ptr_get _ _ _ hlen
  · rw [send_pkt_take_desc_cons_list env2 _ i d skb2 _ _ hfree hacc]
    exact set_tx_desc_ptr_get _ _ _ hlen

/-- Witness of `release_then_acquire`: all four slots are in use, slot 2 is
released, and the next acquisition returns slot 2. -/
theorem release_then_acquire_witness :
    priv_pool_full.free_tx_desc_head = [] ∧
    (send_pkt_take_desc env_async
      (hdd_ipa_nbuf_cb env_async priv_pool_full
        { id := 70, ipa_owned := true, tx_ipa_priv := 2 })
      0 sample_desc sample_desc.skb).1 = some 2 :=
  ⟨by decide,
   (release_then_acquire env_async env_async priv_pool_full
      { id := 70, ipa_owned := true, tx_ipa_priv := 2 } 0 sample_desc sample_desc.skb
      (by decide) rfl (by decide) (by decide)).1⟩

/-! ## Frame lemmas: the transition flags, the pipe count and the pending request -/

@[simp] theorem call_pending_cons_req (env : Env) (c : ExtCall) (s : hdd_ipa_priv) :
    (call env c s).2.pending_cons_req = s.pending_cons_req := rfl

@[simp] theorem wdi_enable_pipes_pending_cons_req (env : Env) (s : hdd_ipa_priv) :
    (hdd_ipa_wdi_enable_pipes env s).2.pending_cons_req = s.pending_cons_req := by
  unfold hdd_ipa_wdi_enable_pipes
  dsimp only
  split_ifs <;> simp

@[simp] theorem wdi_disable_pipes_pending_cons_req (env : Env) (s : hdd_ipa_priv) :
    (hdd_ipa_wdi_disable_pipes env s).2.pending_cons_req = s.pending_cons_req := by
  unfold hdd_ipa_wdi_disable_pipes
  dsimp only
  split_ifs <;> simp

@[simp] theorem uc_enable_pipes_pending_cons_req (env : Env) (s : hdd_ipa_priv) :
    (hdd_ipa_uc_enable_pipes env s).2.pending_cons_req = s.pending_cons_req := by
  unfold hdd_ipa_uc_enable_pipes
  dsimp only
  split_ifs <;> simp

@[simp] theorem uc_disable_pipes_pending_cons_req (env : Env) (s : hdd_ipa_priv) :
    (hdd_ipa_uc_disable_pipes env s).2.pending_cons_req = s.pending_cons_req := by
  unfold hdd_ipa_uc_disable_pipes
  dsimp only
  split_ifs <;> simp

@[simp] theorem handle_first_con_resource_unloading (env : Env) (s : hdd_ipa_priv) :
    (hdd_ipa_uc_handle_first_con env s).2.resource_unloading = s.resource_unloading := by
  unfold hdd_ipa_uc_handle_first_con
  dsimp only
  split_ifs <;> simp

@[simp] theorem handle_first_con_pending_cons_req (env : Env) (s : hdd_ipa_priv) :
    (hdd_ipa_uc_handle_first_con env s).2.pending_cons_req = s.pending_cons_req := by
  unfold hdd_ipa_uc_handle_first_con
  dsimp only
  split_ifs <;> simp

@[simp] theorem handle_last_discon_resource_loading (env : Env) (s : hdd_ipa_priv) :
    (hdd_ipa_uc_handle_last_discon env s).resource_loading = s.resource_loading := by
  unfold hdd_ipa_uc_handle_last_discon
  dsimp only
  split_ifs <;> simp

@[simp] theorem handle_last_discon_activated_fw_pipe (env : Env) (s : hdd_ipa_priv) :
    (hdd_ipa_uc_handle_last_discon env s).activated_fw_pipe = s.activated_fw_pipe := by
  unfold hdd_ipa_uc_handle_last_discon
  dsimp only
  split_ifs <;> simp

@[simp] theorem handle_last_discon_pending_cons_req (env : Env) (s : hdd_ipa_priv) :
    (hdd_ipa_uc_handle_last_discon env s).pending_cons_req = s.pending_cons_req := by
  unfold hdd_ipa_uc_handle_last_discon
  dsimp only
  split_ifs <;> simp

@[simp] theorem set_ipa_context_resource_loading (s : hdd_ipa_priv) (a : Nat) (c : Option Nat) :
    (set_ipa_context s a c).resource_loading = s.resource_loading := by
  unfold set_ipa_context
  cases c <;> rfl

@[simp] theorem set_ipa_context_resource_unloading (s : hdd_ipa_priv) (a : Nat) (c : Option Nat) :
    (set_ipa_context s a c).resource_unloading = s.resource_unloading := by
  unfold set_ipa_context
  cases c <;> rfl

@[simp] theorem set_ipa_context_activated_fw_pipe (s : hdd_ipa_priv) (a : Nat) (c : Option Nat) :
    (set_ipa_context s a c).activated_fw_pipe = s.activated_fw_pipe := by
  unfold set_ipa_context
  cases c <;> rfl

@[simp] theorem set_ipa_context_pending_cons_req (s : hdd_ipa_priv) (a : Nat) (c : Option Nat) :
    (set_ipa_context s a c).pending_cons_req = s.pending_cons_req := by
  unfold set_ipa_context
  cases c <;> rfl

@[simp] theorem modify_iface_resource_loading (s : hdd_ipa_priv) (i : Nat)
    (f : hdd_ipa_iface_context → hdd_ipa_iface_context) :
    (modify_iface s i f).resource_loading = s.resource_loading := by
  unfold modify_iface
  split <;> rfl

@[simp] theorem modify_iface_resource_unloading (s : hdd_ipa_priv) (i : Nat)
    (f : hdd_ipa_iface_context → hdd_ipa_iface_context) :
    (modify_iface s i f).resource_unloading = s.resource_unloading := by
  unfold modify_iface
  split <;> rfl

@[simp] theorem modify_iface_activated_fw_pipe (s : hdd_ipa_priv) (i : Nat)
    (f : hdd_ipa_iface_context → hdd_ipa_iface_context) :
    (modify_iface s i f).activated_fw_pipe = s.activated_fw_pipe := by
  unfold modify_iface
  split <;> rfl

@[simp] theorem modify_iface_pending_cons_req (s : hdd_ipa_priv) (i : Nat)
    (f : hdd_ipa_iface_context → hdd_ipa_iface_context) :
    (modify_iface s i f).pending_cons_req = s.pending_cons_req := by
  unfold modify_iface
  split <;> rfl

@[simp] theorem cleanup_iface_resource_loading (env : Env) (s : hdd_ipa_priv) (i : Option Nat) :
    (hdd_ipa_cleanup_iface env s i).resource_loading = s.resource_loading := by
  unfold hdd_ipa_cleanup_iface
  cases i with
  | none => rfl
  | some i =>
    dsimp only
    split_ifs <;> simp

@[simp] theorem cleanup_iface_resource_unloading (env : Env) (s : hdd_ipa_priv) (i : Option Nat) :
    (hdd_ipa_cleanup_iface env s i).resource_unloading = s.resource_unloading := by
  unfold hdd_ipa_cleanup_iface
  cases i with
  | none => rfl
  | some i =>
    dsimp only
    split_ifs <;> simp

@[simp] theorem cleanup_iface_activated_fw_pipe (env : Env) (s : hdd_ipa_priv) (i : Option Nat) :
    (hdd_ipa_cleanup_iface env s i).activated_fw_pipe = s.activated_fw_pipe := by
  unfold hdd_ipa_cleanup_iface
  cases i with
  | none => rfl
  | some i =>
    dsimp only
    split_ifs <;> simp

@[simp] theorem cleanup_iface_pending_cons_req (env : Env) (s : hdd_ipa_priv) (i : Option Nat) :
    (hdd_ipa_cleanup_iface env s i).pending_cons_req = s.pending_cons_req := by
  unfold hdd_ipa_cleanup_iface
  cases i with
  | none => rfl
  | some i =>
    dsimp only
    split_ifs <;> simp

@[simp] theorem setup_iface_resource_loading (env : Env) (s : hdd_ipa_priv) (a sta : Nat) :
    (hdd_ipa_setup_iface env s a sta).2.resource_loading = s.resource_loading := by
  unfold hdd_ipa_setup_iface
  cases find_free_iface s.iface_context 0 with
  | none =>
    dsimp only
    split_ifs <;> rfl
  | some i =>
    dsimp only
    split_ifs <;> simp

@[simp] theorem setup_iface_resource_unloading (env : Env) (s : hdd_ipa_priv) (a sta : Nat) :
    (hdd_ipa_setup_iface env s a sta).2.resource_unloading = s.resource_unloading := by
  unfold hdd_ipa_setup_iface
  cases find_free_iface s.iface_context 0 with
  | none =>
    dsimp only
    split_ifs <;> rfl
  | some i =>
    dsimp only
    split_ifs <;> simp

@[simp] theorem setup_iface_activated_fw_pipe (env : Env) (s : hdd_ipa_priv) (a sta : Nat) :
    (hdd_ipa_setup_iface env s a sta).2.activated_fw_pipe = s.activated_fw_pipe := by
  unfold hdd_ipa_setup_iface
  cases find_free_iface s.iface_context 0 with
  | none =>
    dsimp only
    split_ifs <;> rfl
  | some i =>
    dsimp only
    split_ifs <;> simp

@[simp] theorem setup_iface_pending_cons_req (env : Env) (s : hdd_ipa_priv) (a sta : Nat) :
    (hdd_ipa_setup_iface env s a sta).2.pending_cons_req = s.pending_cons_req := by
  unfold hdd_ipa_setup_iface
  cases find_free_iface s.iface_context 0 with
  | none =>
    dsimp only
    split_ifs <;> rfl
  | some i =>
    dsimp only
    split_ifs <;> simp

@[simp] theorem offload_enable_disable_resource_loading (env : Env) (s : hdd_ipa_priv)
    (a t : Nat) (b : Bool) :
    (hdd_ipa_uc_offload_enable_disable env s a t b).resource_loading = s.resource_loading := by
  unfold hdd_ipa_uc_offload_enable_disable
  dsimp only
  split_ifs <;> simp

@[simp] theorem offload_enable_disable_resource_unloading (env : Env) (s : hdd_ipa_priv)
    (a t : Nat) (b : Bool) :
    (hdd_ipa_uc_offload_enable_disable env s a t b).resource_unloading = s.resource_unloading := by
  unfold hdd_ipa_uc_offload_enable_disable
  dsimp only
  split_ifs <;> simp

@[simp] theorem offload_enable_disable_activated_fw_pipe (env : Env) (s : hdd_ipa_priv)
    (a t : Nat) (b : Bool) :
    (hdd_ipa_uc_offload_enable_disable env s a t b).activated_fw_pipe = s.activated_fw_pipe := by
  unfold hdd_ipa_uc_offload_enable_disable
  dsimp only
  split_ifs <;> simp

@[simp] theorem offload_enable_disable_pending_cons_req (env : Env) (s : hdd_ipa_priv)
    (a t : Nat) (b : Bool) :
    (hdd_ipa_uc_offload_enable_disable env s a t b).pending_cons_req = s.pending_cons_req := by
  unfold hdd_ipa_uc_offload_enable_disable
  dsimp only
  split_ifs <;> simp

@[simp] theorem set_vdev_to_iface_resource_loading (env : Env) (s : hdd_ipa_priv) (a v : Nat) :
    (set_vdev_to_iface env s a v).resource_loading = s.resource_loading := rfl

@[simp] theorem set_vdev_to_iface_resource_unloading (env : Env) (s : hdd_ipa_priv) (a v : Nat) :
    (set_vdev_to_iface env s a v).resource_unloading = s.resource_unloading := rfl

@[simp] theorem set_vdev_to_iface_activated_fw_pipe (env : Env) (s : hdd_ipa_priv) (a v : Nat) :
    (set_vdev_to_iface env s a v).activated_fw_pipe = s.activated_fw_pipe := rfl

@[simp] theorem set_vdev_to_iface_pending_cons_req (env : Env) (s : hdd_ipa_priv) (a v : Nat) :
    (set_vdev_to_iface env s a v).pending_cons_req = s.pending_cons_req := rfl

@[simp] theorem stats_event_inc_resource_loading (s : hdd_ipa_priv) (t : Nat) :
    (stats_event_inc s t).resource_loading = s.resource_loading := rfl

@[simp] theorem stats_event_inc_resource_unloading (s : hdd_ipa_priv) (t : Nat) :
    (stats_event_inc s t).resource_unloading = s.resource_unloading := rfl

@[simp] theorem stats_event_inc_activated_fw_pipe (s : hdd_ipa_priv) (t : Nat) :
    (stats_event_inc s t).activated_fw_pipe = s.activated_fw_pipe := rfl

@[simp] theorem stats_event_inc_pending_cons_req (s : hdd_ipa_priv) (t : Nat) :
    (stats_event_inc s t).pending_cons_req = s.pending_cons_req := rfl

@[simp] theorem send_wlan_msg_resource_loading (env : Env) (s : hdd_ipa_priv) (t : Nat) :
    (send_wlan_msg env s t).2.resource_loading = s.resource_loading := by
  unfold send_wlan_msg
  dsimp only
  split_ifs <;> simp

@[simp] theorem send_wlan_msg_resource_unloading (env : Env) (s : hdd_ipa_priv) (t : Nat) :
    (send_wlan_msg env s t).2.resource_unloading = s.resource_unloading := by
  unfold send_wlan_msg
  dsimp only
  split_ifs <;> simp

@[simp] theorem send_wlan_msg_activated_fw_pipe (env : Env) (s : hdd_ipa_priv) (t : Nat) :
    (send_wlan_msg env s t).2.activated_fw_pipe = s.activated_fw_pipe := by
  unfold send_wlan_msg
  dsimp only
  split_ifs <;> simp

@[simp] theorem send_wlan_msg_pending_cons_req (env : Env) (s : hdd_ipa_priv) (t : Nat) :
    (send_wlan_msg env s t).2.pending_cons_req = s.pending_cons_req := by
  unfold send_wlan_msg
  dsimp only
  split_ifs <;> simp

@[simp] theorem find_add_assoc_sta_resource_loading (s : hdd_ipa_priv) (b : Bool) (sta : Nat) :
    (hdd_ipa_uc_find_add_assoc_sta s b sta).2.resource_loading = s.resource_loading := by
  unfold hdd_ipa_uc_find_add_assoc_sta
  dsimp only
  split_ifs <;> rfl

@[simp] theorem find_add_assoc_sta_resource_unloading (s : hdd_ipa_priv) (b : Bool) (sta : Nat) :
    (hdd_ipa_uc_find_add_assoc_sta s b sta).2.resource_unloading = s.resource_unloading := by
  unfold hdd_ipa_uc_find_add_assoc_sta
  dsimp only
  split_ifs <;> rfl

@[simp] theorem find_add_assoc_sta_activated_fw_pipe (s : hdd_ipa_priv) (b : Bool) (sta : Nat) :
    (hdd_ipa_uc_find_add_assoc_sta s b sta).2.activated_fw_pipe = s.activated_fw_pipe := by
  unfold hdd_ipa_uc_find_add_assoc_sta
  dsimp only
  split_ifs <;> rfl

@[simp] theorem find_add_assoc_sta_pending_cons_req (s : hdd_ipa_priv) (b : Bool) (sta : Nat) :
    (hdd_ipa_uc_find_add_assoc_sta s b sta).2.pending_cons_req = s.pending_cons_req := by
  unfold hdd_ipa_uc_find_add_assoc_sta
  dsimp only
  split_ifs <;> rfl

@[simp] theorem pending_event_insert_resource_loading (env : Env) (s : hdd_ipa_priv)
    (ev : ipa_uc_pending_event) :
    (pending_event_insert env s ev).2.resource_loading = s.resource_loading := by
  unfold pending_event_insert
  dsimp only
  split_ifs <;> simp

@[simp] theorem pending_event_insert_resource_unloading (env : Env) (s : hdd_ipa_priv)
    (ev : ipa_uc_pending_event) :
    (pending_event_insert env s ev).2.resource_unloading = s.resource_unloading := by
  unfold pending_event_insert
  dsimp only
  split_ifs <;> simp

@[simp] theorem pending_event_insert_activated_fw_pipe (env : Env) (s : hdd_ipa_priv)
    (ev : ipa_uc_pending_event) :
    (pending_event_insert env s ev).2.activated_fw_pipe = s.activated_fw_pipe := by
  unfold pending_event_insert
  dsimp only
  split_ifs <;> simp

@[simp] theorem pending_event_insert_pending_cons_req (env : Env) (s : hdd_ipa_priv)
    (ev : ipa_uc_pending_event) :
    (pending_event_insert env s ev).2.pending_cons_req = s.pending_cons_req := by
  unfold pending_event_insert
  dsimp only
  split_ifs <;> simp

@[simp] theorem queue_pending_event_resource_loading (env : Env) (s : hdd_ipa_priv)
    (a sta t : Nat) (mac : List Nat) :
    (queue_pending_event env s a sta t mac).2.resource_loading = s.resource_loading := by
  unfold queue_pending_event
  dsimp only
  split_ifs
  · cases s.pending_event <;> simp
  · simp
  · simp

@[simp] theorem queue_pending_event_resource_unloading (env : Env) (s : hdd_ipa_priv)
    (a sta t : Nat) (mac : List Nat) :
    (queue_pending_event env s a sta t mac).2.resource_unloading = s.resource_unloading := by
  unfold queue_pending_event
  dsimp only
  split_ifs
  · cases s.pending_event <;> simp
  · simp
  · simp

@[simp] theorem queue_pending_event_activated_fw_pipe (env : Env) (s : hdd_ipa_priv)
    (a sta t : Nat) (mac : List Nat) :
    (queue_pending_event env s a sta t mac).2.activated_fw_pipe = s.activated_fw_pipe := by
  unfold queue_pending_event
  dsimp only
  split_ifs
  · cases s.pending_event <;> simp
  · simp
  · simp

@[simp] theorem queue_pending_event_pending_cons_req (env : Env) (s : hdd_ipa_priv)
    (a sta t : Nat) (mac : List Nat) :
    (queue_pending_event env s a sta t mac).2.pending_cons_req = s.pending_cons_req := by
  unfold queue_pending_event
  dsimp only
  split_ifs
  · cases s.pending_event <;> simp
  · simp
  · simp

@[simp] theorem client_connect_first_sta_resource_unloading (env : Env) (s : hdd_ipa_priv) :
    (client_connect_first_sta env s).2.resource_unloading = s.resource_unloading := by
  unfold client_connect_first_sta
  dsimp only
  split_ifs <;> simp

@[simp] theorem client_connect_first_sta_pending_cons_req (env : Env) (s : hdd_ipa_priv) :
    (client_connect_first_sta env s).2.pending_cons_req = s.pending_cons_req := by
  unfold client_connect_first_sta
  dsimp only
  split_ifs <;> simp

@[simp] theorem client_disconnect_last_sta_resource_loading (env : Env) (s : hdd_ipa_priv) :
    (client_disconnect_last_sta env s).resource_loading = s.resource_loading := by
  unfold client_disconnect_last_sta
  dsimp only
  split_ifs <;> simp

@[simp] theorem client_disconnect_last_sta_activated_fw_pipe (env : Env) (s : hdd_ipa_priv) :
    (client_disconnect_last_sta env s).activated_fw_pipe = s.activated_fw_pipe := by
  unfold client_disconnect_last_sta
  dsimp only
  split_ifs <;> simp

@[simp] theorem client_disconnect_last_sta_pending_cons_req (env : Env) (s : hdd_ipa_priv) :
    (client_disconnect_last_sta env s).pending_cons_req = s.pending_cons_req := by
  unfold client_disconnect_last_sta
  dsimp only
  split_ifs <;> simp

@[simp] theorem wlan_evt_sta_connect_resource_unloading (env : Env) (s : hdd_ipa_priv)
    (a sta t : Nat) :
    (wlan_evt_sta_connect env s a sta t).2.resource_unloading = s.resource_unloading := by
  unfold wlan_evt_sta_connect
  dsimp only
  split_ifs <;> simp

@[simp] theorem wlan_evt_sta_connect_pending_cons_req (env : Env) (s : hdd_ipa_priv)
    (a sta t : Nat) :
    (wlan_evt_sta_connect env s a sta t).2.pending_cons_req = s.pending_cons_req := by
  unfold wlan_evt_sta_connect
  dsimp only
  split_ifs <;> simp

@[simp] theorem wlan_evt_ap_connect_resource_loading (env : Env) (s : hdd_ipa_priv)
    (a sta t : Nat) :
    (wlan_evt_ap_connect env s a sta t).2.resource_loading = s.resource_loading := by
  unfold wlan_evt_ap_connect
  dsimp only
  split_ifs <;> simp

@[simp] theorem wlan_evt_ap_connect_resource_unloading (env : Env) (s : hdd_ipa_priv)
    (a sta t : Nat) :
    (wlan_evt_ap_connect env s a sta t).2.resource_unloading = s.resource_unloading := by
  unfold wlan_evt_ap_connect
  dsimp only
  split_ifs <;> simp

@[simp] theorem wlan_evt_ap_connect_activated_fw_pipe (env : Env) (s : hdd_ipa_priv)
    (a sta t : Nat) :
    (wlan_evt_ap_connect env s a sta t).2.activated_fw_pipe = s.activated_fw_pipe := by
  unfold wlan_evt_ap_connect
  dsimp only
  split_ifs <;> simp

@[simp] theorem wlan_evt_ap_connect_pending_cons_req (env : Env) (s : hdd_ipa_priv)
    (a sta t : Nat) :
    (wlan_evt_ap_connect env s a sta t).2.pending_cons_req = s.pending_cons_req := by
  unfold wlan_evt_ap_connect
  dsimp only
  split_ifs <;> simp

@[simp] theorem wlan_evt_sta_disconnect_resource_loading (env : Env) (s : hdd_ipa_priv)
    (a t : Nat) :
    (wlan_evt_sta_disconnect env s a t).2.resource_loading = s.resource_loading := by
  unfold wlan_evt_sta_disconnect
  dsimp only
  split_ifs <;> simp

@[simp] theorem wlan_evt_sta_disconnect_activated_fw_pipe (env : Env) (s : hdd_ipa_priv)
    (a t : Nat) :
    (wlan_evt_sta_disconnect env s a t).2.activated_fw_pipe = s.activated_fw_pipe := by
  unfold wlan_evt_sta_disconnect
  dsimp only
  split_ifs <;> simp

@[simp] theorem wlan_evt_sta_disconnect_pending_cons_req (env : Env) (s : hdd_ipa_priv)
    (a t : Nat) :
    (wlan_evt_sta_disconnect env s a t).2.pending_cons_req = s.pending_cons_req := by
  unfold wlan_evt_sta_disconnect
  dsimp only
  split_ifs <;> simp

@[simp] theorem wlan_evt_ap_disconnect_resource_loading (env : Env) (s : hdd_ipa_priv)
    (a t : Nat) :
    (wlan_evt_ap_disconnect env s a t).2.resource_loading = s.resource_loading := by
  unfold wlan_evt_ap_disconnect
  dsimp only
  split_ifs <;> simp

@[simp] theorem wlan_evt_ap_disconnect_activated_fw_pipe (env : Env) (s : hdd_ipa_priv)
    (a t : Nat) :
    (wlan_evt_ap_disconnect env s a t).2.activated_fw_pipe = s.activated_fw_pipe := by
  unfold wlan_evt_ap_disconnect
  dsimp only
  split_ifs <;> simp

@[simp] theorem wlan_evt_ap_disconnect_pending_cons_req (env : Env) (s : hdd_ipa_priv)
    (a t : Nat) :
    (wlan_evt_ap_disconnect env s a t).2.pending_cons_req = s.pending_cons_req := by
  unfold wlan_evt_ap_disconnect
  dsimp only
  split_ifs <;> simp

@[simp] theorem wlan_evt_client_connect_ex_resource_unloading (env : Env) (s : hdd_ipa_priv)
    (sta t : Nat) :
    (wlan_evt_client_connect_ex env s sta t).2.resource_unloading = s.resource_unloading := by
  unfold wlan_evt_client_connect_ex
  dsimp only
  split_ifs <;> simp

@[simp] theorem wlan_evt_client_connect_ex_pending_cons_req (env : Env) (s : hdd_ipa_priv)
    (sta t : Nat) :
    (wlan_evt_client_connect_ex env s sta t).2.pending_cons_req = s.pending_cons_req := by
  unfold wlan_evt_client_connect_ex
  dsimp only
  split_ifs <;> simp

@[simp] theorem wlan_evt_client_disconnect_resource_loading (env : Env) (s : hdd_ipa_priv)
    (sta t : Nat) :
    (wlan_evt_client_disconnect env s sta t).2.resource_loading = s.resource_loading := by
  unfold wlan_evt_client_disconnect
  dsimp only
  split_ifs <;> simp

@[simp] theorem wlan_evt_client_disconnect_activated_fw_pipe (env : Env) (s : hdd_ipa_priv)
    (sta t : Nat) :
    (wlan_evt_client_disconnect env s sta t).2.activated_fw_pipe = s.activated_fw_pipe := by
  unfold wlan_evt_client_disconnect
  dsimp only
  split_ifs <;> simp

@[simp] theorem wlan_evt_client_disconnect_pending_cons_req (env : Env) (s : hdd_ipa_priv)
    (sta t : Nat) :
    (wlan_evt_client_disconnect env s sta t).2.pending_cons_req = s.pending_cons_req := by
  unfold wlan_evt_client_disconnect
  dsimp only
  split_ifs <;> simp

@[simp] theorem wlan_evt_switch_pending_cons_req (env : Env) (s : hdd_ipa_priv) (a sta t : Nat) :
    (wlan_evt_switch env s a sta t).2.pending_cons_req = s.pending_cons_req := by
  unfold wlan_evt_switch
  split_ifs <;> simp


@[simp] theorem wdi_disable_pipes_IpaConfig (env : Env) (s : hdd_ipa_priv) :
    (hdd_ipa_wdi_disable_pipes env s).2.IpaConfig = s.IpaConfig := by
  unfold hdd_ipa_wdi_disable_pipes
  dsimp only
  split_ifs <;> simp

@[simp] theorem uc_disable_pipes_IpaConfig (env : Env) (s : hdd_ipa_priv) :
    (hdd_ipa_uc_disable_pipes env s).2.IpaConfig = s.IpaConfig := by
  unfold hdd_ipa_uc_disable_pipes
  dsimp only
  split_ifs <;> simp

@[simp] theorem handle_first_con_IpaConfig (env : Env) (s : hdd_ipa_priv) :
    (hdd_ipa_uc_handle_first_con env s).2.IpaConfig = s.IpaConfig := by
  unfold hdd_ipa_uc_handle_first_con
  dsimp only
  split_ifs <;> simp

@[simp] theorem handle_last_discon_IpaConfig (env : Env) (s : hdd_ipa_priv) :
    (hdd_ipa_uc_handle_last_discon env s).IpaConfig = s.IpaConfig := by
  unfold hdd_ipa_uc_handle_last_discon
  dsimp only
  split_ifs <;> simp

@[simp] theorem set_ipa_context_IpaConfig (s : hdd_ipa_priv) (a : Nat) (c : Option Nat) :
    (set_ipa_context s a c).IpaConfig = s.IpaConfig := by
  unfold set_ipa_context
  cases c <;> rfl

@[simp] theorem modify_iface_IpaConfig (s : hdd_ipa_priv) (i : Nat)
    (f : hdd_ipa_iface_context → hdd_ipa_iface_context) :
    (modify_iface s i f).IpaConfig = s.IpaConfig := by
  unfold modify_iface
  split <;> rfl

@[simp] theorem cleanup_iface_IpaConfig (env : Env) (s : hdd_ipa_priv) (i : Option Nat) :
    (hdd_ipa_cleanup_iface env s i).IpaConfig = s.IpaConfig := by
  unfold hdd_ipa_cleanup_iface
  cases i with
  | none => rfl
  | some i =>
    dsimp only
    split_ifs <;> simp

@[simp] theorem setup_iface_IpaConfig (env : Env) (s : hdd_ipa_priv) (a sta : Nat) :
    (hdd_ipa_setup_iface env s a sta).2.IpaConfig = s.IpaConfig := by
  unfold hdd_ipa_setup_iface
  cases find_free_iface s.iface_context 0 with
  | none =>
    dsimp only
    split_ifs <;> rfl
  | some i =>
    dsimp only
    split_ifs <;> simp

@[simp] theorem offload_enable_disable_IpaConfig (env : Env) (s : hdd_ipa_priv)
    (a t : Nat) (b : Bool) :
    (hdd_ipa_uc_offload_enable_disable env s a t b).IpaConfig = s.IpaConfig := by
  unfold hdd_ipa_uc_offload_enable_disable
  dsimp only
  split_ifs <;> simp

@[simp] theorem set_vdev_to_iface_IpaConfig (env : Env) (s : hdd_ipa_priv) (a v : Nat) :
    (set_vdev_to_iface env s a v).IpaConfig = s.IpaConfig := rfl

@[simp] theorem stats_event_inc_IpaConfig (s : hdd_ipa_priv) (t : Nat) :
    (stats_event_inc s t).IpaConfig = s.IpaConfig := rfl

@[simp] theorem send_wlan_msg_IpaConfig (env : Env) (s : hdd_ipa_priv) (t : Nat) :
    (send_wlan_msg env s t).2.IpaConfig = s.IpaConfig := by
  unfold send_wlan_msg
  dsimp only
  split_ifs <;> simp

@[simp] theorem find_add_assoc_sta_IpaConfig (s : hdd_ipa_priv) (b : Bool) (sta : Nat) :
    (hdd_ipa_uc_find_add_assoc_sta s b sta).2.IpaConfig = s.IpaConfig := by
  unfold hdd_ipa_uc_find_add_assoc_sta
  dsimp only
  split_ifs <;> rfl

@[simp] theorem pending_event_insert_IpaConfig (env : Env) (s : hdd_ipa_priv)
    (ev : ipa_uc_pending_event) :
    (pending_event_insert env s ev).2.IpaConfig = s.IpaConfig := by
  unfold pending_event_insert
  dsimp only
  split_ifs <;> simp

@[simp] theorem queue_pending_event_IpaConfig (env : Env) (s : hdd_ipa_priv)
    (a sta t : Nat) (mac : List Nat) :
    (queue_pending_event env s a sta t mac).2.IpaConfig = s.IpaConfig := by
  unfold queue_pending_event
  dsimp only
  split_ifs
  · cases s.pending_event <;> simp
  · simp
  · simp

@[simp] theorem client_connect_first_sta_IpaConfig (env : Env) (s : hdd_ipa_priv) :
    (client_connect_first_sta env s).2.IpaConfig = s.IpaConfig := by
  unfold client_connect_first_sta
  dsimp only
  split_ifs <;> simp

@[simp] theorem client_disconnect_last_sta_IpaConfig (env : Env) (s : hdd_ipa_priv) :
    (client_disconnect_last_sta env s).IpaConfig = s.IpaConfig := by
  unfold client_disconnect_last_sta
  dsimp only
  split_ifs <;> simp

@[simp] theorem wlan_evt_sta_connect_IpaConfig (env : Env) (s : hdd_ipa_priv)
    (a sta t : Nat) :
    (wlan_evt_sta_connect env s a sta t).2.IpaConfig = s.IpaConfig := by
  unfold wlan_evt_sta_connect
  dsimp only
  split_ifs <;> simp

@[simp] theorem wlan_evt_ap_connect_IpaConfig (env : Env) (s : hdd_ipa_priv)
    (a sta t : Nat) :
    (wlan_evt_ap_connect env s a sta t).2.IpaConfig = s.IpaConfig := by
  unfold wlan_evt_ap_connect
  dsimp only
  split_ifs <;> simp

@[simp] theorem wlan_evt_sta_disconnect_IpaConfig (env : Env) (s : hdd_ipa_priv)
    (a t : Nat) :
    (wlan_evt_sta_disconnect env s a t).2.IpaConfig = s.IpaConfig := by
  unfold wlan_evt_sta_disconnect
  dsimp only
  split_ifs <;> simp

@[simp] theorem wlan_evt_ap_disconnect_IpaConfig (env : Env) (s : hdd_ipa_priv)
    (a t : Nat) :
    (wlan_evt_ap_disconnect env s a t).2.IpaConfig = s.IpaConfig := by
  unfold wlan_evt_ap_disconnect
  dsimp only
  split_ifs <;> simp

@[simp] theorem wlan_evt_client_connect_ex_IpaConfig (env : Env) (s : hdd_ipa_priv)
    (sta t : Nat) :
    (wlan_evt_client_connect_ex env s sta t).2.IpaConfig = s.IpaConfig := by
  unfold wlan_evt_client_connect_ex
  dsimp only
  split_ifs <;> simp

@[simp] theorem wlan_evt_client_disconnect_IpaConfig (env : Env) (s : hdd_ipa_priv)
    (sta t : Nat) :
    (wlan_evt_client_disconnect env s sta t).2.IpaConfig = s.IpaConfig := by
  unfold wlan_evt_client_disconnect
  dsimp only
  split_ifs <;> simp

@[simp] theorem wlan_evt_switch_IpaConfig (env : Env) (s : hdd_ipa_priv) (a sta t : Nat) :
    (wlan_evt_switch env s a sta t).2.IpaConfig = s.IpaConfig := by
  unfold wlan_evt_switch
  split_ifs <;> simp


@[simp] theorem wlan_evt_IpaConfig (env : Env) (s : hdd_ipa_priv)
    (a sta t : Nat) (mac : List Nat) :
    (__hdd_ipa_wlan_evt env s a sta t mac).2.IpaConfig = s.IpaConfig := by
  unfold __hdd_ipa_wlan_evt
  dsimp only
  split_ifs <;> simp

/-! ## The pipe count and the transition flags along an event -/

@[simp] theorem handle_first_con_activated_fw_pipe (env : Env) (s : hdd_ipa_priv) :
    (hdd_ipa_uc_handle_first_con env s).2.activated_fw_pipe = 0 := by
  unfold hdd_ipa_uc_handle_first_con
  dsimp only
  split_ifs <;> simp

theorem client_connect_first_sta_activated (env : Env) (s : hdd_ipa_priv) :
    (client_connect_first_sta env s).2.activated_fw_pipe = s.activated_fw_pipe ∨
    (client_connect_first_sta env s).2.activated_fw_pipe = 0 := by
  unfold client_connect_first_sta
  dsimp only
  split_ifs <;> simp

theorem wlan_evt_sta_connect_activated (env : Env) (s : hdd_ipa_priv) (a sta t : Nat) :
    (wlan_evt_sta_connect env s a sta t).2.activated_fw_pipe = s.activated_fw_pipe ∨
    (wlan_evt_sta_connect env s a sta t).2.activated_fw_pipe = 0 := by
  unfold wlan_evt_sta_connect
  dsimp only
  split_ifs <;> simp

theorem wlan_evt_client_connect_ex_activated (env : Env) (s : hdd_ipa_priv) (sta t : Nat) :
    (wlan_evt_client_connect_ex env s sta t).2.activated_fw_pipe = s.activated_fw_pipe ∨
    (wlan_evt_client_connect_ex env s sta t).2.activated_fw_pipe = 0 := by
  unfold wlan_evt_client_connect_ex
  dsimp only
  split_ifs
  · exact Or.inl rfl
  · exact Or.inl (by simp)
  · rcases client_connect_first_sta_activated env
      (hdd_ipa_uc_find_add_assoc_sta s true sta).2 with h | h
    · exact Or.inl (by rw [h]; simp)
    · exact Or.inr h
  · rcases client_connect_first_sta_activated env
      (hdd_ipa_uc_find_add_assoc_sta s true sta).2 with h | h
    · exact Or.inl (by simp [h])
    · exact Or.inr (by simp [h])

/-- The `switch` of `__hdd_ipa_wlan_evt` leaves `activated_fw_pipe` as it was
or resets it to 0. -/
theorem wlan_evt_switch_activated (env : Env) (s : hdd_ipa_priv) (a sta t : Nat) :
    (wlan_evt_switch env s a sta t).2.activated_fw_pipe = s.activated_fw_pipe ∨
    (wlan_evt_switch env s a sta t).2.activated_fw_pipe = 0 := by
  unfold wlan_evt_switch
  split_ifs
  · exact wlan_evt_sta_connect_activated env s a sta t
  · exact Or.inl (by simp)
  · exact Or.inl (by simp)
  · exact Or.inl (by simp)
  · exact wlan_evt_client_connect_ex_activated env s sta t
  · exact Or.inl (by simp)
  · exact Or.inl rfl

/-- The `switch` of `__hdd_ipa_wlan_evt` writes at most one of the two
transition flags. -/
theorem wlan_evt_switch_flags (env : Env) (s : hdd_ipa_priv) (a sta t : Nat) :
    (wlan_evt_switch env s a sta t).2.resource_unloading = s.resource_unloading ∨
    (wlan_evt_switch env s a sta t).2.resource_loading = s.resource_loading := by
  unfold wlan_evt_switch
  split_ifs
  · exact Or.inl (by simp)
  · exact Or.inl (by simp)
  · exact Or.inr (by simp)
  · exact Or.inr (by simp)
  · exact Or.inl (by simp)
  · exact Or.inr (by simp)
  · exact Or.inl rfl

theorem wlan_evt_activated (env : Env) (s : hdd_ipa_priv)
    (a sta t : Nat) (mac : List Nat) :
    (__hdd_ipa_wlan_evt env s a sta t mac).2.activated_fw_pipe = s.activated_fw_pipe ∨
    (__hdd_ipa_wlan_evt env s a sta t mac).2.activated_fw_pipe = 0 := by
  unfold __hdd_ipa_wlan_evt
  dsimp only
  split_ifs
  · exact Or.inl rfl
  · exact Or.inl rfl
  · exact Or.inl rfl
  · exact Or.inl rfl
  · exact Or.inl rfl
  · exact Or.inl (by simp)
  · exact wlan_evt_switch_activated env _ a sta t
  · exact wlan_evt_switch_activated env _ a sta t

/-- An event that arrives with both transition flags clear, or that is
stored because the wait times out when one is set, does not leave both flags
set. -/
theorem wlan_evt_flags (env : Env) (s : hdd_ipa_priv)
    (a sta t : Nat) (mac : List Nat)
    (hinv : ¬ (s.resource_loading = true ∧ s.resource_unloading = true))
    (hwait : (s.resource_loading || s.resource_unloading) = true →
      hdd_ipa_uc_is_enabled s = true ∧
      env.ret s.calls .wait_for_completion_timeout = 0) :
    ¬ ((__hdd_ipa_wlan_evt env s a sta t mac).2.resource_loading = true ∧
       (__hdd_ipa_wlan_evt env s a sta t mac).2.resource_unloading = true) := by
  unfold __hdd_ipa_wlan_evt
  dsimp only
  split_ifs with h1 h2 h3 h4 h5 h6 h7
  any_goals exact hinv
  · simpa using hinv
  · exfalso
    simp only [Bool.and_eq_true] at h6
    exact h7 (hwait h6.2).2
  · have hcl : s.resource_loading = false ∧ s.resource_unloading = false := by
      cases hl : s.resource_loading <;> cases hu : s.resource_unloading <;>
        simp_all
    rcases wlan_evt_switch_flags env (stats_event_inc s t) a sta t with h | h
    · rw [h]
      simp [hcl.2]
    · rw [h]
      simp [hcl.1]

/-- A property of the context that holds whatever the pending-event list is
and that every event preserves is preserved by the replay. -/
theorem proc_pending_event_preserves (env : Env) (P : hdd_ipa_priv → Prop)
    (hq : ∀ (s : hdd_ipa_priv) (l : List ipa_uc_pending_event),
      P s → P { s with pending_event := l })
    (hevt : ∀ (s : hdd_ipa_priv) (a sta t : Nat) (mac : List Nat),
      P s → P (__hdd_ipa_wlan_evt env s a sta t mac).2) :
    ∀ (fuel : Nat) (s : hdd_ipa_priv) (phase : Bool)
      (disp : List ipa_uc_pending_event) (s' : hdd_ipa_priv),
      P s → hdd_ipa_uc_proc_pending_event env fuel s phase = some (disp, s') → P s' := by
  intro fuel
  induction fuel with
  | zero => intro s phase disp s' _ h; simp [hdd_ipa_uc_proc_pending_event] at h
  | succ n ih =>
    intro s phase disp s' hP h
    unfold hdd_ipa_uc_proc_pending_event at h
    cases hl : s.pending_event with
    | nil =>
      rw [hl] at h
      simp only [Option.some.injEq, Prod.mk.injEq] at h
      obtain ⟨-, h2⟩ := h
      subst h2
      exact hP
    | cons e rest =>
      rw [hl] at h
      dsimp only at h
      by_cases hd : pending_event_dispatched env phase e = true
      · rw [if_pos hd] at h
        cases hr : hdd_ipa_uc_proc_pending_event env n
            (__hdd_ipa_wlan_evt env { s with pending_event := rest }
              e.adapter e.sta_id e.type e.mac_addr).2 phase with
        | none => rw [hr] at h; simp at h
        | some r =>
          rw [hr] at h
          simp only [Option.map_some', Option.some.injEq, Prod.mk.injEq] at h
          obtain ⟨-, h2⟩ := h
          subst h2
          exact ih _ phase r.1 r.2 (hevt _ _ _ _ _ (hq s rest hP)) hr
      · rw [if_neg hd] at h
        exact ih _ phase disp s' (hq s rest hP) h

/-! ## Frame lemmas: firmware op-codes -/

@[simp] theorem wdi_disable_pipes_rm_state (env : Env) (s : hdd_ipa_priv) :
    (hdd_ipa_wdi_disable_pipes env s).2.rm_state = s.rm_state := by
  unfold hdd_ipa_wdi_disable_pipes
  dsimp only
  split_ifs <;> simp

@[simp] theorem uc_disable_pipes_rm_state (env : Env) (s : hdd_ipa_priv) :
    (hdd_ipa_uc_disable_pipes env s).2.rm_state = s.rm_state := by
  unfold hdd_ipa_uc_disable_pipes
  dsimp only
  split_ifs <;> simp

@[simp] theorem handle_first_con_rm_state (env : Env) (s : hdd_ipa_priv) :
    (hdd_ipa_uc_handle_first_con env s).2.rm_state = s.rm_state := by
  unfold hdd_ipa_uc_handle_first_con
  dsimp only
  split_ifs <;> simp

@[simp] theorem handle_last_discon_rm_state (env : Env) (s : hdd_ipa_priv) :
    (hdd_ipa_uc_handle_last_discon env s).rm_state = s.rm_state := by
  unfold hdd_ipa_uc_handle_last_discon
  dsimp only
  split_ifs <;> simp

@[simp] theorem set_ipa_context_rm_state (s : hdd_ipa_priv) (a : Nat) (c : Option Nat) :
    (set_ipa_context s a c).rm_state = s.rm_state := by
  unfold set_ipa_context
  cases c <;> rfl

@[simp] theorem modify_iface_rm_state (s : hdd_ipa_priv) (i : Nat)
    (f : hdd_ipa_iface_context → hdd_ipa_iface_context) :
    (modify_iface s i f).rm_state = s.rm_state := by
  unfold modify_iface
  split <;> rfl

@[simp] theorem cleanup_iface_rm_state (env : Env) (s : hdd_ipa_priv) (i : Option Nat) :
    (hdd_ipa_cleanup_iface env s i).rm_state = s.rm_state := by
  unfold hdd_ipa_cleanup_iface
  cases i with
  | none => rfl
  | some i =>
    dsimp only
    split_ifs <;> simp

@[simp] theorem setup_iface_rm_state (env : Env) (s : hdd_ipa_priv) (a sta : Nat) :
    (hdd_ipa_setup_iface env s a sta).2.rm_state = s.rm_state := by
  unfold hdd_ipa_setup_iface
  cases find_free_iface s.iface_context 0 with
  | none =>
    dsimp only
    split_ifs <;> rfl
  | some i =>
    dsimp only
    split_ifs <;> simp

@[simp] theorem offload_enable_disable_rm_state (env : Env) (s : hdd_ipa_priv)
    (a t : Nat) (b : Bool) :
    (hdd_ipa_uc_offload_enable_disable env s a t b).rm_state = s.rm_state := by
  unfold hdd_ipa_uc_offload_enable_disable
  dsimp only
  split_ifs <;> simp

@[simp] theorem set_vdev_to_iface_rm_state (env : Env) (s : hdd_ipa_priv) (a v : Nat) :
    (set_vdev_to_iface env s a v).rm_state = s.rm_state := rfl

@[simp] theorem stats_event_inc_rm_state (s : hdd_ipa_priv) (t : Nat) :
    (stats_event_inc s t).rm_state = s.rm_state := rfl

@[simp] theorem send_wlan_msg_rm_state (env : Env) (s : hdd_ipa_priv) (t : Nat) :
    (send_wlan_msg env s t).2.rm_state = s.rm_state := by
  unfold send_wlan_msg
  dsimp only
  split_ifs <;> simp

@[simp] theorem find_add_assoc_sta_rm_state (s : hdd_ipa_priv) (b : Bool) (sta : Nat) :
    (hdd_ipa_uc_find_add_assoc_sta s b sta).2.rm_state = s.rm_state := by
  unfold hdd_ipa_uc_find_add_assoc_sta
  dsimp only
  split_ifs <;> rfl

@[simp] theorem pending_event_insert_rm_state (env : Env) (s : hdd_ipa_priv)
    (ev : ipa_uc_pending_event) :
    (pending_event_insert env s ev).2.rm_state = s.rm_state := by
  unfold pending_event_insert
  dsimp only
  split_ifs <;> simp

@[simp] theorem queue_pending_event_rm_state (env : Env) (s : hdd_ipa_priv)
    (a sta t : Nat) (mac : List Nat) :
    (queue_pending_event env s a sta t mac).2.rm_state = s.rm_state := by
  unfold queue_pending_event
  dsimp only
  split_ifs
  · cases s.pending_event <;> simp
  · simp
  · simp

@[simp] theorem client_connect_first_sta_rm_state (env : Env) (s : hdd_ipa_priv) :
    (client_connect_first_sta env s).2.rm_state = s.rm_state := by
  unfold client_connect_first_sta
  dsimp only
  split_ifs <;> simp

@[simp] theorem client_disconnect_last_sta_rm_state (env : Env) (s : hdd_ipa_priv) :
    (client_disconnect_last_sta env s).rm_state = s.rm_state := by
  unfold client_disconnect_last_sta
  dsimp only
  split_ifs <;> simp

@[simp] theorem wlan_evt_sta_connect_rm_state (env : Env) (s : hdd_ipa_priv)
    (a sta t : Nat) :
    (wlan_evt_sta_connect env s a sta t).2.rm_state = s.rm_state := by
  unfold wlan_evt_sta_connect
  dsimp only
  split_ifs <;> simp

@[simp] theorem wlan_evt_ap_connect_rm_state (env : Env) (s : hdd_ipa_priv)
    (a sta t : Nat) :
    (wlan_evt_ap_connect env s a sta t).2.rm_state = s.rm_state := by
  unfold wlan_evt_ap_connect
  dsimp only
  split_ifs <;> simp

@[simp] theorem wlan_evt_sta_disconnect_rm_state (env : Env) (s : hdd_ipa_priv)
    (a t : Nat) :
    (wlan_evt_sta_disconnect env s a t).2.rm_state = s.rm_state := by
  unfold wlan_evt_sta_disconnect
  dsimp only
  split_ifs <;> simp

@[simp] theorem wlan_evt_ap_disconnect_rm_state (env : Env) (s : hdd_ipa_priv)
    (a t : Nat) :
    (wlan_evt_ap_disconnect env s a t).2.rm_state = s.rm_state := by
  unfold wlan_evt_ap_disconnect
  dsimp only
  split_ifs <;> simp

@[simp] theorem wlan_evt_client_connect_ex_rm_state (env : Env) (s : hdd_ipa_priv)
    (sta t : Nat) :
    (wlan_evt_client_connect_ex env s sta t).2.rm_state = s.rm_state := by
  unfold wlan_evt_client_connect_ex
  dsimp only
  split_ifs <;> simp

@[simp] theorem wlan_evt_client_disconnect_rm_state (env : Env) (s : hdd_ipa_priv)
    (sta t : Nat) :
    (wlan_evt_client_disconnect env s sta t).2.rm_state = s.rm_state := by
  unfold wlan_evt_client_disconnect
  dsimp only
  split_ifs <;> simp

@[simp] theorem wlan_evt_switch_rm_state (env : Env) (s : hdd_ipa_priv) (a sta t : Nat) :
    (wlan_evt_switch env s a sta t).2.rm_state = s.rm_state := by
  unfold wlan_evt_switch
  split_ifs <;> simp

@[simp] theorem send_wdi_control_msg_resource_loading (env : Env) (s : hdd_ipa_priv) (b : Bool) :
    (hdd_ipa_uc_send_wdi_control_msg env s b).2.resource_loading = s.resource_loading := by
  unfold hdd_ipa_uc_send_wdi_control_msg
  dsimp only
  split_ifs <;> simp

@[simp] theorem send_wdi_control_msg_resource_unloading (env : Env) (s : hdd_ipa_priv) (b : Bool) :
    (hdd_ipa_uc_send_wdi_control_msg env s b).2.resource_unloading = s.resource_unloading := by
  unfold hdd_ipa_uc_send_wdi_control_msg
  dsimp only
  split_ifs <;> simp

@[simp] theorem send_wdi_control_msg_activated_fw_pipe (env : Env) (s : hdd_ipa_priv) (b : Bool) :
    (hdd_ipa_uc_send_wdi_control_msg env s b).2.activated_fw_pipe = s.activated_fw_pipe := by
  unfold hdd_ipa_uc_send_wdi_control_msg
  dsimp only
  split_ifs <;> simp

@[simp] theorem send_wdi_control_msg_pending_cons_req (env : Env) (s : hdd_ipa_priv) (b : Bool) :
    (hdd_ipa_uc_send_wdi_control_msg env s b).2.pending_cons_req = s.pending_cons_req := by
  unfold hdd_ipa_uc_send_wdi_control_msg
  dsimp only
  split_ifs <;> simp

@[simp] theorem send_wdi_control_msg_pending_event (env : Env) (s : hdd_ipa_priv) (b : Bool) :
    (hdd_ipa_uc_send_wdi_control_msg env s b).2.pending_event = s.pending_event := by
  unfold hdd_ipa_uc_send_wdi_control_msg
  dsimp only
  split_ifs <;> simp

@[simp] theorem send_wdi_control_msg_IpaConfig (env : Env) (s : hdd_ipa_priv) (b : Bool) :
    (hdd_ipa_uc_send_wdi_control_msg env s b).2.IpaConfig = s.IpaConfig := by
  unfold hdd_ipa_uc_send_wdi_control_msg
  dsimp only
  split_ifs <;> simp

@[simp] theorem send_wdi_control_msg_rm_state (env : Env) (s : hdd_ipa_priv) (b : Bool) :
    (hdd_ipa_uc_send_wdi_control_msg env s b).2.rm_state = s.rm_state := by
  unfold hdd_ipa_uc_send_wdi_control_msg
  dsimp only
  split_ifs <;> simp

@[simp] theorem flush_txrx_queues_resource_loading (env : Env) (s : hdd_ipa_priv) (l : List Nat) :
    (flush_txrx_queues env s l).resource_loading = s.resource_loading := by
  induction l generalizing s with
  | nil => rfl
  | cons a as ih =>
    unfold flush_txrx_queues
    dsimp only
    rw [ih]
    split_ifs <;> simp

@[simp] theorem flush_txrx_queues_resource_unloading (env : Env) (s : hdd_ipa_priv) (l : List Nat) :
    (flush_txrx_queues env s l).resource_unloading = s.resource_unloading := by
  induction l generalizing s with
  | nil => rfl
  | cons a as ih =>
    unfold flush_txrx_queues
    dsimp only
    rw [ih]
    split_ifs <;> simp

@[simp] theorem flush_txrx_queues_activated_fw_pipe (env : Env) (s : hdd_ipa_priv) (l : List Nat) :
    (flush_txrx_queues env s l).activated_fw_pipe = s.activated_fw_pipe := by
  induction l generalizing s with
  | nil => rfl
  | cons a as ih =>
    unfold flush_txrx_queues
    dsimp only
    rw [ih]
    split_ifs <;> simp

@[simp] theorem flush_txrx_queues_pending_cons_req (env : Env) (s : hdd_ipa_priv) (l : List Nat) :
    (flush_txrx_queues env s l).pending_cons_req = s.pending_cons_req := by
  induction l generalizing s with
  | nil => rfl
  | cons a as ih =>
    unfold flush_txrx_queues
    dsimp only
    rw [ih]
    split_ifs <;> simp

@[simp] theorem flush_txrx_queues_pending_event (env : Env) (s : hdd_ipa_priv) (l : List Nat) :
    (flush_txrx_queues env s l).pending_event = s.pending_event := by
  induction l generalizing s with
  | nil => rfl
  | cons a as ih =>
    unfold flush_txrx_queues
    dsimp only
    rw [ih]
    split_ifs <;> simp

@[simp] theorem flush_txrx_queues_IpaConfig (env : Env) (s : hdd_ipa_priv) (l : List Nat) :
    (flush_txrx_queues env s l).IpaConfig = s.IpaConfig := by
  induction l generalizing s with
  | nil => rfl
  | cons a as ih =>
    unfold flush_txrx_queues
    dsimp only
    rw [ih]
    split_ifs <;> simp

@[simp] theorem flush_txrx_queues_rm_state (env : Env) (s : hdd_ipa_priv) (l : List Nat) :
    (flush_txrx_queues env s l).rm_state = s.rm_state := by
  induction l generalizing s with
  | nil => rfl
  | cons a as ih =>
    unfold flush_txrx_queues
    dsimp only
    rw [ih]
    split_ifs <;> simp

@[simp] theorem send_mcc_scc_msg_resource_loading (env : Env) (s : hdd_ipa_priv) (b : Bool) :
    (hdd_ipa_send_mcc_scc_msg env s b).2.resource_loading = s.resource_loading := by
  unfold hdd_ipa_send_mcc_scc_msg
  dsimp only
  split_ifs <;> simp

@[simp] theorem send_mcc_scc_msg_resource_unloading (env : Env) (s : hdd_ipa_priv) (b : Bool) :
    (hdd_ipa_send_mcc_scc_msg env s b).2.resource_unloading = s.resource_unloading := by
  unfold hdd_ipa_send_mcc_scc_msg
  dsimp only
  split_ifs <;> simp

@[simp] theorem send_mcc_scc_msg_activated_fw_pipe (env : Env) (s : hdd_ipa_priv) (b : Bool) :
    (hdd_ipa_send_mcc_scc_msg env s b).2.activated_fw_pipe = s.activated_fw_pipe := by
  unfold hdd_ipa_send_mcc_scc_msg
  dsimp only
  split_ifs <;> simp

@[simp] theorem send_mcc_scc_msg_pending_cons_req (env : Env) (s : hdd_ipa_priv) (b : Bool) :
    (hdd_ipa_send_mcc_scc_msg env s b).2.pending_cons_req = s.pending_cons_req := by
  unfold hdd_ipa_send_mcc_scc_msg
  dsimp only
  split_ifs <;> simp

@[simp] theorem send_mcc_scc_msg_pending_event (env : Env) (s : hdd_ipa_priv) (b : Bool) :
    (hdd_ipa_send_mcc_scc_msg env s b).2.pending_event = s.pending_event := by
  unfold hdd_ipa_send_mcc_scc_msg
  dsimp only
  split_ifs <;> simp

@[simp] theorem send_mcc_scc_msg_IpaConfig (env : Env) (s : hdd_ipa_priv) (b : Bool) :
    (hdd_ipa_send_mcc_scc_msg env s b).2.IpaConfig = s.IpaConfig := by
  unfold hdd_ipa_send_mcc_scc_msg
  dsimp only
  split_ifs <;> simp

@[simp] theorem send_mcc_scc_msg_rm_state (env : Env) (s : hdd_ipa_priv) (b : Bool) :
    (hdd_ipa_send_mcc_scc_msg env s b).2.rm_state = s.rm_state := by
  unfold hdd_ipa_send_mcc_scc_msg
  dsimp only
  split_ifs <;> simp

@[simp] theorem uc_op_wdi_enable_resource_loading (env : Env) (s : hdd_ipa_priv) :
    (uc_op_wdi_enable env s).resource_loading = s.resource_loading := by
  unfold uc_op_wdi_enable
  dsimp only
  split_ifs <;> simp

@[simp] theorem uc_op_wdi_enable_resource_unloading (env : Env) (s : hdd_ipa_priv) :
    (uc_op_wdi_enable env s).resource_unloading = s.resource_unloading := by
  unfold uc_op_wdi_enable
  dsimp only
  split_ifs <;> simp

@[simp] theorem uc_op_wdi_enable_activated_fw_pipe (env : Env) (s : hdd_ipa_priv) :
    (uc_op_wdi_enable env s).activated_fw_pipe = s.activated_fw_pipe := by
  unfold uc_op_wdi_enable
  dsimp only
  split_ifs <;> simp

@[simp] theorem uc_op_wdi_enable_pending_cons_req (env : Env) (s : hdd_ipa_priv) :
    (uc_op_wdi_enable env s).pending_cons_req = s.pending_cons_req := by
  unfold uc_op_wdi_enable
  dsimp only
  split_ifs <;> simp

@[simp] theorem uc_op_wdi_enable_pending_event (env : Env) (s : hdd_ipa_priv) :
    (uc_op_wdi_enable env s).pending_event = s.pending_event := by
  unfold uc_op_wdi_enable
  dsimp only
  split_ifs <;> simp

@[simp] theorem uc_op_wdi_enable_IpaConfig (env : Env) (s : hdd_ipa_priv) :
    (uc_op_wdi_enable env s).IpaConfig = s.IpaConfig := by
  unfold uc_op_wdi_enable
  dsimp only
  split_ifs <;> simp

@[simp] theorem uc_op_wdi_enable_rm_state (env : Env) (s : hdd_ipa_priv) :
    (uc_op_wdi_enable env s).rm_state = s.rm_state := by
  unfold uc_op_wdi_enable
  dsimp only
  split_ifs <;> simp

@[simp] theorem setup_sys_pipe_fail_resource_unloading (env : Env) (s : hdd_ipa_priv) (i : Nat) :
    (setup_sys_pipe_fail env s i).resource_unloading = s.resource_unloading := by
  induction i generalizing s with
  | zero => rfl
  | succ i ih =>
    unfold setup_sys_pipe_fail
    dsimp only
    rw [ih]
    simp

@[simp] theorem setup_sys_pipe_fail_activated_fw_pipe (env : Env) (s : hdd_ipa_priv) (i : Nat) :
    (setup_sys_pipe_fail env s i).activated_fw_pipe = s.activated_fw_pipe := by
  induction i generalizing s with
  | zero => rfl
  | succ i ih =>
    unfold setup_sys_pipe_fail
    dsimp only
    rw [ih]
    simp

@[simp] theorem setup_sys_pipe_fail_IpaConfig (env : Env) (s : hdd_ipa_priv) (i : Nat) :
    (setup_sys_pipe_fail env s i).IpaConfig = s.IpaConfig := by
  induction i generalizing s with
  | zero => rfl
  | succ i ih =>
    unfold setup_sys_pipe_fail
    dsimp only
    rw [ih]
    simp

@[simp] theorem setup_sys_pipe_tx_resource_unloading (env : Env) (s : hdd_ipa_priv) (i k : Nat) :
    (setup_sys_pipe_tx env s i k).2.2.resource_unloading = s.resource_unloading := by
  induction k generalizing s i with
  | zero => rfl
  | succ k ih =>
    unfold setup_sys_pipe_tx
    dsimp only
    split_ifs
    · simp
    · rw [ih]
      simp

@[simp] theorem setup_sys_pipe_tx_activated_fw_pipe (env : Env) (s : hdd_ipa_priv) (i k : Nat) :
    (setup_sys_pipe_tx env s i k).2.2.activated_fw_pipe = s.activated_fw_pipe := by
  induction k generalizing s i with
  | zero => rfl
  | succ k ih =>
    unfold setup_sys_pipe_tx
    dsimp only
    split_ifs
    · simp
    · rw [ih]
      simp

@[simp] theorem setup_sys_pipe_tx_IpaConfig (env : Env) (s : hdd_ipa_priv) (i k : Nat) :
    (setup_sys_pipe_tx env s i k).2.2.IpaConfig = s.IpaConfig := by
  induction k generalizing s i with
  | zero => rfl
  | succ k ih =>
    unfold setup_sys_pipe_tx
    dsimp only
    split_ifs
    · simp
    · rw [ih]
      simp

@[simp] theorem alloc_tx_desc_list_resource_unloading (env : Env) (s : hdd_ipa_priv) :
    (hdd_ipa_alloc_tx_desc_list env s).2.resource_unloading = s.resource_unloading := by
  unfold hdd_ipa_alloc_tx_desc_list
  dsimp only
  split_ifs <;> simp

@[simp] theorem alloc_tx_desc_list_activated_fw_pipe (env : Env) (s : hdd_ipa_priv) :
    (hdd_ipa_alloc_tx_desc_list env s).2.activated_fw_pipe = s.activated_fw_pipe := by
  unfold hdd_ipa_alloc_tx_desc_list
  dsimp only
  split_ifs <;> simp

@[simp] theorem alloc_tx_desc_list_IpaConfig (env : Env) (s : hdd_ipa_priv) :
    (hdd_ipa_alloc_tx_desc_list env s).2.IpaConfig = s.IpaConfig := by
  unfold hdd_ipa_alloc_tx_desc_list
  dsimp only
  split_ifs <;> simp

@[simp] theorem setup_sys_pipe_resource_unloading (env : Env) (s : hdd_ipa_priv) :
    (hdd_ipa_setup_sys_pipe env s).2.resource_unloading = s.resource_unloading := by
  unfold hdd_ipa_setup_sys_pipe
  dsimp only
  split_ifs <;> simp

@[simp] theorem setup_sys_pipe_activated_fw_pipe (env : Env) (s : hdd_ipa_priv) :
    (hdd_ipa_setup_sys_pipe env s).2.activated_fw_pipe = s.activated_fw_pipe := by
  unfold hdd_ipa_setup_sys_pipe
  dsimp only
  split_ifs <;> simp

@[simp] theorem setup_sys_pipe_IpaConfig (env : Env) (s : hdd_ipa_priv) :
    (hdd_ipa_setup_sys_pipe env s).2.IpaConfig = s.IpaConfig := by
  unfold hdd_ipa_setup_sys_pipe
  dsimp only
  split_ifs <;> simp

@[simp] theorem wdi_conn_pipes_resource_unloading (env : Env) (s : hdd_ipa_priv) :
    (hdd_ipa_wdi_conn_pipes env s).2.resource_unloading = s.resource_unloading := by
  unfold hdd_ipa_wdi_conn_pipes
  dsimp only
  split_ifs <;> simp

@[simp] theorem wdi_conn_pipes_activated_fw_pipe (env : Env) (s : hdd_ipa_priv) :
    (hdd_ipa_wdi_conn_pipes env s).2.activated_fw_pipe = s.activated_fw_pipe := by
  unfold hdd_ipa_wdi_conn_pipes
  dsimp only
  split_ifs <;> simp

@[simp] theorem wdi_conn_pipes_IpaConfig (env : Env) (s : hdd_ipa_priv) :
    (hdd_ipa_wdi_conn_pipes env s).2.IpaConfig = s.IpaConfig := by
  unfold hdd_ipa_wdi_conn_pipes
  dsimp only
  split_ifs <;> simp

@[simp] theorem set_perf_level_resource_unloading (env : Env) (s : hdd_ipa_priv) (tx rx : Nat) :
    (hdd_ipa_set_perf_level env s tx rx).2.resource_unloading = s.resource_unloading := by
  unfold hdd_ipa_set_perf_level
  dsimp only
  split_ifs <;> simp

@[simp] theorem set_perf_level_activated_fw_pipe (env : Env) (s : hdd_ipa_priv) (tx rx : Nat) :
    (hdd_ipa_set_perf_level env s tx rx).2.activated_fw_pipe = s.activated_fw_pipe := by
  unfold hdd_ipa_set_perf_level
  dsimp only
  split_ifs <;> simp

@[simp] theorem set_perf_level_IpaConfig (env : Env) (s : hdd_ipa_priv) (tx rx : Nat) :
    (hdd_ipa_set_perf_level env s tx rx).2.IpaConfig = s.IpaConfig := by
  unfold hdd_ipa_set_perf_level
  dsimp only
  split_ifs <;> simp

@[simp] theorem init_perf_level_resource_unloading (env : Env) (s : hdd_ipa_priv) :
    (hdd_ipa_init_perf_level env s).2.resource_unloading = s.resource_unloading := by
  unfold hdd_ipa_init_perf_level
  dsimp only
  split_ifs <;> simp

@[simp] theorem init_perf_level_activated_fw_pipe (env : Env) (s : hdd_ipa_priv) :
    (hdd_ipa_init_perf_level env s).2.activated_fw_pipe = s.activated_fw_pipe := by
  unfold hdd_ipa_init_perf_level
  dsimp only
  split_ifs <;> simp

@[simp] theorem init_perf_level_IpaConfig (env : Env) (s : hdd_ipa_priv) :
    (hdd_ipa_init_perf_level env s).2.IpaConfig = s.IpaConfig := by
  unfold hdd_ipa_init_perf_level
  dsimp only
  split_ifs <;> simp

@[simp] theorem loaded_handler_sys_pipe_resource_unloading (env : Env) (s : hdd_ipa_priv) :
    (loaded_handler_sys_pipe env s).2.resource_unloading = s.resource_unloading := by
  unfold loaded_handler_sys_pipe
  dsimp only
  split_ifs <;> simp

@[simp] theorem loaded_handler_sys_pipe_activated_fw_pipe (env : Env) (s : hdd_ipa_priv) :
    (loaded_handler_sys_pipe env s).2.activated_fw_pipe = s.activated_fw_pipe := by
  unfold loaded_handler_sys_pipe
  dsimp only
  split_ifs <;> simp

@[simp] theorem loaded_handler_sys_pipe_IpaConfig (env : Env) (s : hdd_ipa_priv) :
    (loaded_handler_sys_pipe env s).2.IpaConfig = s.IpaConfig := by
  unfold loaded_handler_sys_pipe
  dsimp only
  split_ifs <;> simp

@[simp] theorem loaded_handler_connect_resource_unloading (env : Env) (s : hdd_ipa_priv) :
    (loaded_handler_connect env s).resource_unloading = s.resource_unloading := by
  unfold loaded_handler_connect
  dsimp only
  split_ifs <;> simp

@[simp] theorem loaded_handler_connect_IpaConfig (env : Env) (s : hdd_ipa_priv) :
    (loaded_handler_connect env s).IpaConfig = s.IpaConfig := by
  unfold loaded_handler_connect
  dsimp only
  split_ifs <;> simp

@[simp] theorem loaded_handler_resource_unloading (env : Env) (s : hdd_ipa_priv) :
    (hdd_ipa_uc_loaded_handler env s).resource_unloading = s.resource_unloading := by
  unfold hdd_ipa_uc_loaded_handler
  dsimp only
  split_ifs <;> simp

@[simp] theorem loaded_handler_IpaConfig (env : Env) (s : hdd_ipa_priv) :
    (hdd_ipa_uc_loaded_handler env s).IpaConfig = s.IpaConfig := by
  unfold hdd_ipa_uc_loaded_handler
  dsimp only
  split_ifs <;> simp

@[simp] theorem op_metering_resource_loading (env : Env) (s : hdd_ipa_priv) (m : op_msg_type) :
    (hdd_ipa_uc_op_metering env s m).2.resource_loading = s.resource_loading := by
  unfold hdd_ipa_uc_op_metering
  dsimp only
  split_ifs <;> simp

@[simp] theorem op_metering_resource_unloading (env : Env) (s : hdd_ipa_priv) (m : op_msg_type) :
    (hdd_ipa_uc_op_metering env s m).2.resource_unloading = s.resource_unloading := by
  unfold hdd_ipa_uc_op_metering
  dsimp only
  split_ifs <;> simp

@[simp] theorem op_metering_activated_fw_pipe (env : Env) (s : hdd_ipa_priv) (m : op_msg_type) :
    (hdd_ipa_uc_op_metering env s m).2.activated_fw_pipe = s.activated_fw_pipe := by
  unfold hdd_ipa_uc_op_metering
  dsimp only
  split_ifs <;> simp

@[simp] theorem op_metering_IpaConfig (env : Env) (s : hdd_ipa_priv) (m : op_msg_type) :
    (hdd_ipa_uc_op_metering env s m).2.IpaConfig = s.IpaConfig := by
  unfold hdd_ipa_uc_op_metering
  dsimp only
  split_ifs <;> simp

@[simp] theorem uc_op_bw_cal_resource_loading (env : Env) (s : hdd_ipa_priv) (st : ipa_uc_fw_stats) :
    (uc_op_bw_cal env s st).resource_loading = s.resource_loading := rfl

@[simp] theorem uc_op_bw_cal_resource_unloading (env : Env) (s : hdd_ipa_priv) (st : ipa_uc_fw_stats) :
    (uc_op_bw_cal env s st).resource_unloading = s.resource_unloading := rfl

@[simp] theorem uc_op_bw_cal_activated_fw_pipe (env : Env) (s : hdd_ipa_priv) (st : ipa_uc_fw_stats) :
    (uc_op_bw_cal env s st).activated_fw_pipe = s.activated_fw_pipe := rfl

@[simp] theorem uc_op_bw_cal_IpaConfig (env : Env) (s : hdd_ipa_priv) (st : ipa_uc_fw_stats) :
    (uc_op_bw_cal env s st).IpaConfig = s.IpaConfig := rfl

/-! ## Firmware op-codes: resume -/

@[simp] theorem resume_complete_resource_loading (env : Env) (s : hdd_ipa_priv) :
    (uc_op_resume_complete env s).resource_loading = false := by
  simp [uc_op_resume_complete]

@[simp] theorem resume_complete_resource_unloading (env : Env) (s : hdd_ipa_priv) :
    (uc_op_resume_complete env s).resource_unloading = s.resource_unloading := by
  simp [uc_op_resume_complete]

@[simp] theorem resume_complete_activated_fw_pipe (env : Env) (s : hdd_ipa_priv) :
    (uc_op_resume_complete env s).activated_fw_pipe = s.activated_fw_pipe := by
  simp [uc_op_resume_complete]

@[simp] theorem resume_complete_pending_event (env : Env) (s : hdd_ipa_priv) :
    (uc_op_resume_complete env s).pending_event = s.pending_event := by
  simp [uc_op_resume_complete]

@[simp] theorem resume_complete_IpaConfig (env : Env) (s : hdd_ipa_priv) :
    (uc_op_resume_complete env s).IpaConfig = s.IpaConfig := by
  simp [uc_op_resume_complete]

@[simp] theorem suspend_pipes_resource_loading (env : Env) (s : hdd_ipa_priv) (op : Nat) :
    (uc_op_suspend_pipes env s op).resource_loading = s.resource_loading := by
  unfold uc_op_suspend_pipes
  split_ifs <;> simp

@[simp] theorem suspend_pipes_resource_unloading (env : Env) (s : hdd_ipa_priv) (op : Nat) :
    (uc_op_suspend_pipes env s op).resource_unloading = s.resource_unloading := by
  unfold uc_op_suspend_pipes
  split_ifs <;> simp

@[simp] theorem suspend_pipes_activated_fw_pipe (env : Env) (s : hdd_ipa_priv) (op : Nat) :
    (uc_op_suspend_pipes env s op).activated_fw_pipe = s.activated_fw_pipe := by
  unfold uc_op_suspend_pipes
  split_ifs <;> simp

@[simp] theorem suspend_pipes_pending_event (env : Env) (s : hdd_ipa_priv) (op : Nat) :
    (uc_op_suspend_pipes env s op).pending_event = s.pending_event := by
  unfold uc_op_suspend_pipes
  split_ifs <;> simp

@[simp] theorem suspend_pipes_rm_state (env : Env) (s : hdd_ipa_priv) (op : Nat) :
    (uc_op_suspend_pipes env s op).rm_state = s.rm_state := by
  unfold uc_op_suspend_pipes
  split_ifs <;> simp

@[simp] theorem suspend_pipes_IpaConfig (env : Env) (s : hdd_ipa_priv) (op : Nat) :
    (uc_op_suspend_pipes env s op).IpaConfig = s.IpaConfig := by
  unfold uc_op_suspend_pipes
  split_ifs <;> simp

@[simp] theorem suspend_complete_resource_unloading (env : Env) (s : hdd_ipa_priv) :
    (uc_op_suspend_complete env s).resource_unloading = false := by
  unfold uc_op_suspend_complete
  dsimp only
  split_ifs <;> simp

@[simp] theorem suspend_complete_resource_loading (env : Env) (s : hdd_ipa_priv) :
    (uc_op_suspend_complete env s).resource_loading = s.resource_loading := by
  unfold uc_op_suspend_complete
  dsimp only
  split_ifs <;> simp

@[simp] theorem suspend_complete_activated_fw_pipe (env : Env) (s : hdd_ipa_priv) :
    (uc_op_suspend_complete env s).activated_fw_pipe = s.activated_fw_pipe := by
  unfold uc_op_suspend_complete
  dsimp only
  split_ifs <;> simp

@[simp] theorem suspend_complete_pending_event (env : Env) (s : hdd_ipa_priv) :
    (uc_op_suspend_complete env s).pending_event = s.pending_event := by
  unfold uc_op_suspend_complete
  dsimp only
  split_ifs <;> simp

@[simp] theorem suspend_complete_IpaConfig (env : Env) (s : hdd_ipa_priv) :
    (uc_op_suspend_complete env s).IpaConfig = s.IpaConfig := by
  unfold uc_op_suspend_complete
  dsimp only
  split_ifs <;> simp

/-- C20: a message whose op-code is `HDD_IPA_UC_OPCODE_MAX` or more is
dropped by `hdd_ipa_uc_op_event_handler` and by `hdd_ipa_uc_op_cb`, which
return the context unchanged.  A message whose op-code is below the bound
and matches no branch of `hdd_ipa_uc_op_cb` (it is not a suspend, resume or
uC-ready op-code, not a statistics op-code with request reason debug or
bandwidth calibration, and, in a build with `FEATURE_METERING`, not one of
the three metering op-codes) also leaves the context unchanged. -/
theorem op_cb_unknown_opcode (env : Env) (fuel : Nat) (s : hdd_ipa_priv)
    (msg : op_msg_type) :
    (HDD_IPA_UC_OPCODE_MAX ≤ msg.op_code →
      hdd_ipa_uc_op_event_handler env s msg = s ∧
      hdd_ipa_uc_op_cb env fuel s (some msg) = some s) ∧
    (msg.op_code < HDD_IPA_UC_OPCODE_MAX →
      msg.op_code ≠ HDD_IPA_UC_OPCODE_TX_SUSPEND →
      msg.op_code ≠ HDD_IPA_UC_OPCODE_TX_RESUME →
      msg.op_code ≠ HDD_IPA_UC_OPCODE_RX_SUSPEND →
      msg.op_code ≠ HDD_IPA_UC_OPCODE_RX_RESUME →
      msg.op_code ≠ HDD_IPA_UC_OPCODE_UC_READY →
      (msg.op_code = HDD_IPA_UC_OPCODE_STATS →
        s.stat_req_reason ≠ HDD_IPA_UC_STAT_REASON_DEBUG ∧
        s.stat_req_reason ≠ HDD_IPA_UC_STAT_REASON_BW_CAL) →
      (env.FEATURE_METERING = true →
        msg.op_code ≠ HDD_IPA_UC_OPCODE_SHARING_STATS ∧
        msg.op_code ≠ HDD_IPA_UC_OPCODE_QUOTA_RSP ∧
        msg.op_code ≠ HDD_IPA_UC_OPCODE_QUOTA_IND) →
      hdd_ipa_uc_op_cb env fuel s (some msg) = some s) := by
  refine ⟨fun h => ⟨?_, ?_⟩, fun _ h0 h1 h2 h3 h8 h4 hm => ?_⟩
  · unfold hdd_ipa_uc_op_event_handler
    split_ifs <;> rfl
  · unfold hdd_ipa_uc_op_cb
    dsimp only
    split_ifs <;> rfl
  · unfold hdd_ipa_uc_op_cb
    dsimp only
    have e0 : (HDD_IPA_UC_OPCODE_TX_SUSPEND == msg.op_code) = false :=
      beq_eq_false_iff_ne.mpr (Ne.symm h0)
    have e1 : (HDD_IPA_UC_OPCODE_TX_RESUME == msg.op_code) = false :=
      beq_eq_false_iff_ne.mpr (Ne.symm h1)
    have e2 : (HDD_IPA_UC_OPCODE_RX_SUSPEND == msg.op_code) = false :=
      beq_eq_false_iff_ne.mpr (Ne.symm h2)
    have e3 : (HDD_IPA_UC_OPCODE_RX_RESUME == msg.op_code) = false :=
      beq_eq_false_iff_ne.mpr (Ne.symm h3)
    have e8 : (msg.op_code == HDD_IPA_UC_OPCODE_UC_READY) = false :=
      beq_eq_false_iff_ne.mpr h8
    have e4 : (HDD_IPA_UC_OPCODE_STATS == msg.op_code &&
        HDD_IPA_UC_STAT_REASON_DEBUG == s.stat_req_reason) = false := by
      rw [Bool.and_eq_false_iff]
      by_cases hc : msg.op_code = HDD_IPA_UC_OPCODE_STATS
      · exact Or.inr (beq_eq_false_iff_ne.mpr (Ne.symm (h4 hc).1))
      · exact Or.inl (beq_eq_false_iff_ne.mpr (Ne.symm hc))
    have e5 : (HDD_IPA_UC_OPCODE_STATS == msg.op_code &&
        HDD_IPA_UC_STAT_REASON_BW_CAL == s.stat_req_reason) = false := by
      rw [Bool.and_eq_false_iff]
      by_cases hc : msg.op_code = HDD_IPA_UC_OPCODE_STATS
      · exact Or.inr (beq_eq_false_iff_ne.mpr (Ne.symm (h4 hc).2))
      · exact Or.inl (beq_eq_false_iff_ne.mpr (Ne.symm hc))
    have hmet : (hdd_ipa_uc_op_metering env s msg).2 = s := by
      unfold hdd_ipa_uc_op_metering
      cases hf : env.FEATURE_METERING
      · simp
      · obtain ⟨m5, m6, m7⟩ := hm hf
        have f5 : (HDD_IPA_UC_OPCODE_SHARING_STATS == msg.op_code) = false :=
          beq_eq_false_iff_ne.mpr (Ne.symm m5)
        have f6 : (HDD_IPA_UC_OPCODE_QUOTA_RSP == msg.op_code) = false :=
          beq_eq_false_iff_ne.mpr (Ne.symm m6)
        have f7 : (HDD_IPA_UC_OPCODE_QUOTA_IND == msg.op_code) = false :=
          beq_eq_false_iff_ne.mpr (Ne.symm m7)
        simp [f5, f6, f7]
    rw [e0, e1, e2, e3, e4, e5, e8, hmet]
    split_ifs <;> first | rfl | simp_all

/-- Witness of `op_cb_unknown_opcode`: op-code 9, and a statistics message
that nobody requested. -/
theorem op_cb_unknown_opcode_witness :
    hdd_ipa_uc_op_event_handler env_zero (priv_init 41) (sample_msg 9) = priv_init 41 ∧
    hdd_ipa_uc_op_cb env_zero 0 (priv_init 41) (some (sample_msg 9)) =
      some (priv_init 41) ∧
    hdd_ipa_uc_op_cb env_zero 0 (priv_init 41) (some (sample_msg 4)) =
      some (priv_init 41) :=
  ⟨((op_cb_unknown_opcode env_zero 0 (priv_init 41) (sample_msg 9)).1 (by decide)).1,
   ((op_cb_unknown_opcode env_zero 0 (priv_init 41) (sample_msg 9)).1 (by decide)).2,
   (op_cb_unknown_opcode env_zero 0 (priv_init 41) (sample_msg 4)).2 (by decide)
     (by decide) (by decide) (by decide) (by decide) (by decide)
     (fun _ => ⟨by decide, by decide⟩) (fun h => absurd h (by decide))⟩

/-! ## The range of the pipe count -/

theorem loaded_handler_connect_activated (env : Env) (s : hdd_ipa_priv) :
    (loaded_handler_connect env s).activated_fw_pipe = s.activated_fw_pipe ∨
    (loaded_handler_connect env s).activated_fw_pipe = 0 := by
  unfold loaded_handler_connect
  dsimp only
  split_ifs <;> simp

theorem loaded_handler_activated (env : Env) (s : hdd_ipa_priv) :
    (hdd_ipa_uc_loaded_handler env s).activated_fw_pipe = s.activated_fw_pipe ∨
    (hdd_ipa_uc_loaded_handler env s).activated_fw_pipe = 0 := by
  unfold hdd_ipa_uc_loaded_handler
  dsimp only
  split_ifs
  · exact Or.inl rfl
  · exact Or.inl rfl
  · exact Or.inl rfl
  · exact Or.inl (by simp)
  · rcases loaded_handler_connect_activated env
      (loaded_handler_sys_pipe env { s with uc_loaded := true }).2 with h | h
    · exact Or.inl (by rw [h]; simp)
    · exact Or.inr h

/-- An event keeps the pipe count within 2. -/
theorem wlan_evt_activated_le (env : Env) (s : hdd_ipa_priv)
    (a sta t : Nat) (mac : List Nat) (h : s.activated_fw_pipe ≤ 2) :
    (__hdd_ipa_wlan_evt env s a sta t mac).2.activated_fw_pipe ≤ 2 := by
  rcases wlan_evt_activated env s a sta t mac with h1 | h1 <;> omega

/-- The replay keeps the pipe count within 2. -/
theorem proc_pending_event_activated_le (env : Env) (fuel : Nat) (s : hdd_ipa_priv)
    (phase : Bool) (disp : List ipa_uc_pending_event) (s' : hdd_ipa_priv)
    (hs : s.activated_fw_pipe ≤ 2)
    (h : hdd_ipa_uc_proc_pending_event env fuel s phase = some (disp, s')) :
    s'.activated_fw_pipe ≤ 2 :=
  proc_pending_event_preserves env (fun x => x.activated_fw_pipe ≤ 2)
    (fun _ _ hx => hx) (fun x a sta t mac hx => wlan_evt_activated_le env x a sta t mac hx)
    fuel s phase disp s' hs h

theorem uc_op_resume_activated_le (env : Env) (fuel : Nat) (s s' : hdd_ipa_priv)
    (hs : s.activated_fw_pipe < 2) (h : uc_op_resume env fuel s = some s') :
    s'.activated_fw_pipe ≤ 2 := by
  have hinc : inc8 s.activated_fw_pipe = s.activated_fw_pipe + 1 := by
    unfold inc8
    exact Nat.mod_eq_of_lt (by omega)
  unfold uc_op_resume at h
  dsimp only at h
  split_ifs at h
  · cases hr : hdd_ipa_uc_proc_pending_event env fuel (uc_op_resume_complete env
        { s with activated_fw_pipe := inc8 s.activated_fw_pipe }) true with
    | none => rw [hr] at h; simp at h
    | some r =>
      rw [hr] at h
      simp only [Option.map_some', Option.some.injEq] at h
      have hle := proc_pending_event_activated_le env fuel _ true r.1 r.2
        (by simp [hinc]; omega) hr
      subst h
      split_ifs <;> simpa using hle
  · simp only [Option.some.injEq] at h
    subst h
    show inc8 s.activated_fw_pipe ≤ 2
    omega

theorem uc_op_suspend_activated_le (env : Env) (fuel : Nat) (s s' : hdd_ipa_priv)
    (op : Nat) (hs : 0 < s.activated_fw_pipe) (hs2 : s.activated_fw_pipe ≤ 2)
    (h : uc_op_suspend env fuel s op = some s') :
    s'.activated_fw_pipe ≤ 2 := by
  have hdec : dec8 (uc_op_suspend_pipes env s op).activated_fw_pipe =
      s.activated_fw_pipe - 1 := by
    rw [suspend_pipes_activated_fw_pipe]
    unfold dec8
    have e : s.activated_fw_pipe + (2 ^ 8 - 1) = (s.activated_fw_pipe - 1) + 1 * 2 ^ 8 := by
      omega
    rw [e, Nat.add_mul_mod_self_right]
    exact Nat.mod_eq_of_lt (by omega)
  unfold uc_op_suspend at h
  dsimp only at h
  rw [hdec] at h
  split_ifs at h
  · cases hr : hdd_ipa_uc_proc_pending_event env fuel (uc_op_suspend_complete env
        { uc_op_suspend_pipes env s op with
          activated_fw_pipe := s.activated_fw_pipe - 1 }) false with
    | none => rw [hr] at h; simp at h
    | some r =>
      rw [hr] at h
      simp only [Option.map_some', Option.some.injEq] at h
      have hle := proc_pending_event_activated_le env fuel _ false r.1 r.2
        (by simp; omega) hr
      subst h
      exact hle
  · simp only [Option.some.injEq] at h
    subst h
    show s.activated_fw_pipe - 1 ≤ 2
    omega

/-! ## Theorems: the range of the pipe count -/

/-- C19, as stated, fails: nothing bounds the count.  From the initial
context a third resume op-code leaves `activated_fw_pipe` at 3, and a suspend
op-code at count 0 leaves it at 255. -/
theorem activated_fw_pipe_range_counterexample :
    (priv_init 41).activated_fw_pipe = 0 ∧
    (((hdd_ipa_uc_op_cb env_zero 1 (priv_init 41) (some (sample_msg 1))).bind
      (fun s1 => hdd_ipa_uc_op_cb env_zero 1 s1 (some (sample_msg 3)))).bind
      (fun s2 => hdd_ipa_uc_op_cb env_zero 1 s2 (some (sample_msg 1)))).map
      (fun s3 => s3.activated_fw_pipe) = some 3 ∧
    (hdd_ipa_uc_op_cb env_zero 1 (priv_init 41) (some (sample_msg 0))).map
      (fun s1 => s1.activated_fw_pipe) = some 255 := by
  decide

/-- C19, amended: `activated_fw_pipe` stays within 0..2 along connection
events, along `hdd_ipa_uc_handle_first_con` (which resets it to 0) and
`hdd_ipa_uc_handle_last_discon`, and along the op-codes handled by
`hdd_ipa_uc_op_cb`, provided that a resume op-code arrives only while the
count is below 2 and a suspend op-code only while it is above 0; the code
itself does not check the count. -/
theorem activated_fw_pipe_range (env : Env) (s : hdd_ipa_priv)
    (hs : s.activated_fw_pipe ≤ 2) :
    (∀ a sta t mac, (__hdd_ipa_wlan_evt env s a sta t mac).2.activated_fw_pipe ≤ 2) ∧
    (hdd_ipa_uc_handle_first_con env s).2.activated_fw_pipe = 0 ∧
    (hdd_ipa_uc_handle_last_discon env s).activated_fw_pipe = s.activated_fw_pipe ∧
    (∀ fuel msg s',
      (msg.op_code = HDD_IPA_UC_OPCODE_TX_RESUME ∨
        msg.op_code = HDD_IPA_UC_OPCODE_RX_RESUME → s.activated_fw_pipe < 2) →
      (msg.op_code = HDD_IPA_UC_OPCODE_TX_SUSPEND ∨
        msg.op_code = HDD_IPA_UC_OPCODE_RX_SUSPEND → 0 < s.activated_fw_pipe) →
      hdd_ipa_uc_op_cb env fuel s (some msg) = some s' →
      s'.activated_fw_pipe ≤ 2) := by
  refine ⟨fun a sta t mac => wlan_evt_activated_le env s a sta t mac hs, by simp, by simp,
    fun fuel msg s' hres hsus h => ?_⟩
  unfold hdd_ipa_uc_op_cb at h
  dsimp only at h
  split_ifs at h with h1 h2 h3 h4 h5 h6 h7 h8
  · simp only [Option.some.injEq] at h; subst h; exact hs
  · simp only [Option.some.injEq] at h; subst h; exact hs
  · simp only [Option.some.injEq] at h; subst h; exact hs
  · refine uc_op_resume_activated_le env fuel s s' (hres ?_) h
    simp only [Bool.or_eq_true, beq_iff_eq] at h4
    rcases h4 with h4 | h4
    · exact Or.inl h4.symm
    · exact Or.inr h4.symm
  · refine uc_op_suspend_activated_le env fuel s s' msg.op_code (hsus ?_) hs h
    simp only [Bool.or_eq_true, beq_iff_eq] at h5
    rcases h5 with h5 | h5
    · exact Or.inl h5.symm
    · exact Or.inr h5.symm
  · simp only [Option.some.injEq] at h; subst h; exact hs
  · simp only [Option.some.injEq] at h; subst h; exact hs
  · simp only [Option.some.injEq] at h
    subst h
    rcases loaded_handler_activated env s with h9 | h9 <;> omega
  · simp only [Option.some.injEq] at h
    subst h
    simpa using hs

/-- Witness of `activated_fw_pipe_range`: the second resume op-code, at
count 1, returns and leaves the count at 2. -/
theorem activated_fw_pipe_range_witness :
    (hdd_ipa_uc_op_cb env_zero 1 { priv_init 41 with activated_fw_pipe := 1 }
      (some (sample_msg 3))).isSome = true ∧
    ((hdd_ipa_uc_op_cb env_zero 1 { priv_init 41 with activated_fw_pipe := 1 }
      (some (sample_msg 3))).getD (priv_init 41)).activated_fw_pipe ≤ 2 :=
  ⟨by decide,
   (activated_fw_pipe_range env_zero { priv_init 41 with activated_fw_pipe := 1 }
    (by decide)).2.2.2 1 (sample_msg 3)
    ((hdd_ipa_uc_op_cb env_zero 1 { priv_init 41 with activated_fw_pipe := 1 }
      (some (sample_msg 3))).getD (priv_init 41))
    (fun _ => by decide) (fun h => absurd h (by decide)) (by decide)⟩

/-! ## The two transition flags -/

/-- The resource-manager callback never sets a transition flag. -/
theorem rm_notify_flags (env : Env) (s : hdd_ipa_priv) (ev : ipa_rm_event) :
    (hdd_ipa_rm_notify env s ev).resource_loading = s.resource_loading ∧
    ((hdd_ipa_rm_notify env s ev).resource_unloading = true →
      s.resource_unloading = true) := by
  unfold hdd_ipa_rm_notify
  cases ev <;> dsimp only <;> split_ifs <;> simp

/-- The deferred resource-manager handler never sets a transition flag. -/
theorem uc_rm_notify_handler_flags (env : Env) (s : hdd_ipa_priv) (ev : ipa_rm_event) :
    ((hdd_ipa_uc_rm_notify_handler env s ev).resource_loading = true →
      s.resource_loading = true) ∧
    ((hdd_ipa_uc_rm_notify_handler env s ev).resource_unloading = true →
      s.resource_unloading = true) := by
  unfold hdd_ipa_uc_rm_notify_handler
  cases ev <;> dsimp only <;> split_ifs <;> simp

/-- With uC offload enabled and every wait timing out, the replay does not
leave both transition flags set. -/
theorem proc_pending_event_flags (env : Env) (fuel : Nat) (s : hdd_ipa_priv)
    (phase : Bool) (disp : List ipa_uc_pending_event) (s' : hdd_ipa_priv)
    (hwait : ∀ hist, env.ret hist .wait_for_completion_timeout = 0)
    (huc : hdd_ipa_uc_is_enabled s = true)
    (hinv : ¬ (s.resource_loading = true ∧ s.resource_unloading = true))
    (h : hdd_ipa_uc_proc_pending_event env fuel s phase = some (disp, s')) :
    ¬ (s'.resource_loading = true ∧ s'.resource_unloading = true) :=
  (proc_pending_event_preserves env
    (fun x => hdd_ipa_uc_is_enabled x = true ∧
      ¬ (x.resource_loading = true ∧ x.resource_unloading = true))
    (fun _ _ hx => hx)
    (fun x a sta t mac hx => ⟨by
        have e : hdd_ipa_uc_is_enabled (__hdd_ipa_wlan_evt env x a sta t mac).2 =
            hdd_ipa_uc_is_enabled x := by
          simp [hdd_ipa_uc_is_enabled, HDD_IPA_IS_CONFIG_ENABLED]
        rw [e]
        exact hx.1,
      wlan_evt_flags env x a sta t mac hx.2 (fun _ => ⟨hx.1, hwait _⟩)⟩)
    fuel s phase disp s' ⟨huc, hinv⟩ h).2

theorem uc_op_resume_flags (env : Env) (fuel : Nat) (s s' : hdd_ipa_priv)
    (hwait : ∀ hist, env.ret hist .wait_for_completion_timeout = 0)
    (huc : hdd_ipa_uc_is_enabled s = true)
    (hinv : ¬ (s.resource_loading = true ∧ s.resource_unloading = true))
    (h : uc_op_resume env fuel s = some s') :
    ¬ (s'.resource_loading = true ∧ s'.resource_unloading = true) := by
  unfold uc_op_resume at h
  dsimp only at h
  split_ifs at h
  · cases hr : hdd_ipa_uc_proc_pending_event env fuel (uc_op_resume_complete env
        { s with activated_fw_pipe := inc8 s.activated_fw_pipe }) true with
    | none => rw [hr] at h; simp at h
    | some r =>
      rw [hr] at h
      simp only [Option.map_some', Option.some.injEq] at h
      have hf := proc_pending_event_flags env fuel _ true r.1 r.2 hwait
        (by simpa [hdd_ipa_uc_is_enabled, HDD_IPA_IS_CONFIG_ENABLED] using huc)
        (by simp) hr
      subst h
      split_ifs <;> simpa using hf
  · simp only [Option.some.injEq] at h
    subst h
    exact hinv

theorem uc_op_suspend_flags (env : Env) (fuel : Nat) (s s' : hdd_ipa_priv) (op : Nat)
    (hwait : ∀ hist, env.ret hist .wait_for_completion_timeout = 0)
    (huc : hdd_ipa_uc_is_enabled s = true)
    (hinv : ¬ (s.resource_loading = true ∧ s.resource_unloading = true))
    (h : uc_op_suspend env fuel s op = some s') :
    ¬ (s'.resource_loading = true ∧ s'.resource_unloading = true) := by
  unfold uc_op_suspend at h
  dsimp only at h
  split_ifs at h
  · cases hr : hdd_ipa_uc_proc_pending_event env fuel (uc_op_suspend_complete env
        { uc_op_suspend_pipes env s op with
          activated_fw_pipe := dec8 (uc_op_suspend_pipes env s op).activated_fw_pipe })
        false with
    | none => rw [hr] at h; simp at h
    | some r =>
      rw [hr] at h
      simp only [Option.map_some', Option.some.injEq] at h
      have hf := proc_pending_event_flags env fuel _ false r.1 r.2 hwait
        (by simpa [hdd_ipa_uc_is_enabled, HDD_IPA_IS_CONFIG_ENABLED] using huc)
        (by simp) hr
      subst h
      exact hf
  · simp only [Option.some.injEq] at h
    subst h
    simpa using hinv

/-- An op-code does not leave both transition flags set, when uC offload is
enabled, every wait of a replayed event times out and the uC-ready op-code
does not arrive during an unload. -/
theorem op_cb_flags (env : Env) (fuel : Nat) (s s' : hdd_ipa_priv) (msg : op_msg_type)
    (hwait : ∀ hist, env.ret hist .wait_for_completion_timeout = 0)
    (huc : hdd_ipa_uc_is_enabled s = true)
    (hready : msg.op_code = HDD_IPA_UC_OPCODE_UC_READY → s.resource_unloading = false)
    (hinv : ¬ (s.resource_loading = true ∧ s.resource_unloading = true))
    (h : hdd_ipa_uc_op_cb env fuel s (some msg) = some s') :
    ¬ (s'.resource_loading = true ∧ s'.resource_unloading = true) := by
  unfold hdd_ipa_uc_op_cb at h
  dsimp only at h
  split_ifs at h with h1 h2 h3 h4 h5 h6 h7 h8
  · simp only [Option.some.injEq] at h; subst h; exact hinv
  · simp only [Option.some.injEq] at h; subst h; exact hinv
  · simp only [Option.some.injEq] at h; subst h; exact hinv
  · exact uc_op_resume_flags env fuel s s' hwait huc hinv h
  · exact uc_op_suspend_flags env fuel s s' msg.op_code hwait huc hinv h
  · simp only [Option.some.injEq] at h; subst h; exact hinv
  · simp only [Option.some.injEq] at h; subst h; exact hinv
  · simp only [Option.some.injEq] at h
    subst h
    have hu := hready (by simpa using h8)
    simp [hu]
  · simp only [Option.some.injEq] at h
    subst h
    simpa using hinv

/-! ## Theorems: the two transition flags -/

/-- C13, as stated, fails: from the initial context (both flags clear),
`hdd_ipa_uc_handle_last_discon` sets `resource_unloading`, and
`hdd_ipa_uc_handle_first_con`, entered in that context, sets
`resource_loading` without looking at `resource_unloading`; with the grant
deferred both flags are set on return. -/
theorem transition_flags_counterexample :
    (priv_init 41).resource_loading = false ∧
    (priv_init 41).resource_unloading = false ∧
    (hdd_ipa_uc_handle_last_discon env_async (priv_init 41)).resource_loading = false ∧
    (hdd_ipa_uc_handle_last_discon env_async (priv_init 41)).resource_unloading = true ∧
    (hdd_ipa_uc_handle_first_con env_async
      (hdd_ipa_uc_handle_last_discon env_async (priv_init 41))).2.resource_loading = true ∧
    (hdd_ipa_uc_handle_first_con env_async
      (hdd_ipa_uc_handle_last_discon env_async (priv_init 41))).2.resource_unloading =
        true := by
  decide

/-- C13, amended: from a context in which `resource_loading` and
`resource_unloading` are not both set, they are not both set after
(1) `hdd_ipa_uc_handle_first_con` entered with `resource_unloading` clear,
(2) `hdd_ipa_uc_handle_last_discon` entered with `resource_loading` clear,
(3) a resource-manager notification or its deferred handler, (4) the SSR
re-initialisation, (5) a connection event that, when it finds a flag set,
finds uC offload enabled and times out on the wait (so that it is stored),
and (6) an op-code handled by `hdd_ipa_uc_op_cb` with uC offload enabled,
when the waits of the replayed events time out and the uC-ready op-code does
not arrive during an unload.  The two functions of (1) and (2) do not test
the other flag. -/
theorem transition_flags (env : Env) (s : hdd_ipa_priv)
    (hinv : ¬ (s.resource_loading = true ∧ s.resource_unloading = true)) :
    (s.resource_unloading = false →
      ¬ ((hdd_ipa_uc_handle_first_con env s).2.resource_loading = true ∧
         (hdd_ipa_uc_handle_first_con env s).2.resource_unloading = true)) ∧
    (s.resource_loading = false →
      ¬ ((hdd_ipa_uc_handle_last_discon env s).resource_loading = true ∧
         (hdd_ipa_uc_handle_last_discon env s).resource_unloading = true)) ∧
    (∀ ev,
      ¬ ((hdd_ipa_rm_notify env s ev).resource_loading = true ∧
         (hdd_ipa_rm_notify env s ev).resource_unloading = true) ∧
      ¬ ((hdd_ipa_uc_rm_notify_handler env s ev).resource_loading = true ∧
         (hdd_ipa_uc_rm_notify_handler env s ev).resource_unloading = true)) ∧
    ¬ ((__hdd_ipa_uc_ssr_reinit s).2.resource_loading = true ∧
       (__hdd_ipa_uc_ssr_reinit s).2.resource_unloading = true) ∧
    (∀ a sta t mac,
      ((s.resource_loading || s.resource_unloading) = true →
        hdd_ipa_uc_is_enabled s = true ∧
        env.ret s.calls .wait_for_completion_timeout = 0) →
      ¬ ((__hdd_ipa_wlan_evt env s a sta t mac).2.resource_loading = true ∧
         (__hdd_ipa_wlan_evt env s a sta t mac).2.resource_unloading = true)) ∧
    (∀ fuel msg s',
      hdd_ipa_uc_is_enabled s = true →
      (∀ hist, env.ret hist .wait_for_completion_timeout = 0) →
      (msg.op_code = HDD_IPA_UC_OPCODE_UC_READY → s.resource_unloading = false) →
      hdd_ipa_uc_op_cb env fuel s (some msg) = some s' →
      ¬ (s'.resource_loading = true ∧ s'.resource_unloading = true)) := by
  refine ⟨fun h => ?_, fun h => ?_, fun ev => ⟨?_, ?_⟩, ?_,
    fun a sta t mac hw => wlan_evt_flags env s a sta t mac hinv hw,
    fun fuel msg s' huc hwait hready h =>
      op_cb_flags env fuel s s' msg hwait huc hready hinv h⟩
  · simp [h]
  · simp [h]
  · obtain ⟨h1, h2⟩ := rm_notify_flags env s ev
    rw [h1]
    exact fun hc => hinv ⟨hc.1, h2 hc.2⟩
  · obtain ⟨h1, h2⟩ := uc_rm_notify_handler_flags env s ev
    exact fun hc => hinv ⟨h1 hc.1, h2 hc.2⟩
  · unfold __hdd_ipa_uc_ssr_reinit
    split_ifs
    · exact hinv
    · simp

/-- Witness of `transition_flags`: a first connection from the initial
context leaves `resource_unloading` clear; and the resume op-code that ends a
load, whose replay dispatches a queued client connection, returns with
`resource_unloading` clear. -/
theorem transition_flags_witness :
    ¬ ((hdd_ipa_uc_handle_first_con env_async (priv_init 41)).2.resource_loading = true ∧
       (hdd_ipa_uc_handle_first_con env_async (priv_init 41)).2.resource_unloading = true) ∧
    (hdd_ipa_uc_op_cb env_async 3 priv_loading (some (sample_msg 1))).isSome = true ∧
    ¬ (((hdd_ipa_uc_op_cb env_async 3 priv_loading
          (some (sample_msg 1))).getD (priv_init 41)).resource_loading = true ∧
       ((hdd_ipa_uc_op_cb env_async 3 priv_loading
          (some (sample_msg 1))).getD (priv_init 41)).resource_unloading = true) :=
  ⟨(transition_flags env_async (priv_init 41) (by decide)).1 (by decide),
   by decide,
   (transition_flags env_async priv_loading (by decide)).2.2.2.2.2 3 (sample_msg 1)
     ((hdd_ipa_uc_op_cb env_async 3 priv_loading (some (sample_msg 1))).getD (priv_init 41))
     (by decide) (fun _ => rfl) (fun h => absurd h (by decide)) (by decide)⟩


/-! ## Bandwidth calibration -/

theorem HDD_BW_GET_DIFF_mod (env : Env) (x y : Nat) (hbits : 32 ≤ env.BITS_PER_LONG)
    (hy : y < 2 ^ 32) :
    ((HDD_BW_GET_DIFF env x y % 2 ^ 32 : Nat) : Int) = ((x : Int) - (y : Int)) % 2 ^ 32 := by
  unfold HDD_BW_GET_DIFF
  obtain ⟨d, hd⟩ := Nat.exists_eq_add_of_le hbits
  have hM : 2 ^ env.BITS_PER_LONG = 2 ^ 32 * 2 ^ d := by rw [hd, pow_add]
  have hk : 0 < 2 ^ d := Nat.pow_pos (by decide)
  rw [hM, Nat.mod_mul_right_mod]
  generalize 2 ^ d = k at hk
  norm_num at hy ⊢
  omega

/-- C21: a statistics message answering a bandwidth-calibration request sets
`ipa_tx_packets_diff` to the difference between the reported
`tx_pkts_completed` and the previous `ipa_p_tx_packets`, taken modulo 2^32,
and `ipa_rx_packets_diff` to the difference, modulo 2^32, between the sum of
the three receive counters (itself taken modulo 2^32) and the previous
`ipa_p_rx_packets`; this covers a counter that has wrapped past zero.
Afterwards `ipa_p_tx_packets` and `ipa_p_rx_packets` hold the new counter
values.  The machine word has at least 32 bits and the previous values are
32-bit values. -/
theorem bw_cal_diff (env : Env) (fuel : Nat) (s : hdd_ipa_priv) (msg : op_msg_type)
    (hpdev : env.pdev = true) (hctx : env.wlan_hdd_validate_context = 0)
    (hop : msg.op_code = HDD_IPA_UC_OPCODE_STATS)
    (hreason : s.stat_req_reason = HDD_IPA_UC_STAT_REASON_BW_CAL)
    (hbits : 32 ≤ env.BITS_PER_LONG)
    (htx : s.ipa_p_tx_packets < 2 ^ 32) (hrx : s.ipa_p_rx_packets < 2 ^ 32) :
    ∃ s', hdd_ipa_uc_op_cb env fuel s (some msg) = some s' ∧
      (s'.ipa_tx_packets_diff : Int) =
        ((msg.uc_fw_stat.tx_pkts_completed : Int) - (s.ipa_p_tx_packets : Int)) % 2 ^ 32 ∧
      (s'.ipa_rx_packets_diff : Int) =
        ((((msg.uc_fw_stat.rx_num_ind_drop_no_space +
            msg.uc_fw_stat.rx_num_ind_drop_no_buf +
            msg.uc_fw_stat.rx_num_pkts_indicated) % 2 ^ 32 : Nat) : Int) -
          (s.ipa_p_rx_packets : Int)) % 2 ^ 32 ∧
      s'.ipa_p_tx_packets = msg.uc_fw_stat.tx_pkts_completed ∧
      s'.ipa_p_rx_packets =
        (msg.uc_fw_stat.rx_num_ind_drop_no_space +
          msg.uc_fw_stat.rx_num_ind_drop_no_buf +
          msg.uc_fw_stat.rx_num_pkts_indicated) % 2 ^ 32 := by
  refine ⟨uc_op_bw_cal env s msg.uc_fw_stat, ?_, ?_, ?_, rfl, rfl⟩
  · unfold hdd_ipa_uc_op_cb
    simp [hpdev, hctx, hop, hreason, HDD_IPA_UC_OPCODE_MAX, HDD_IPA_UC_OPCODE_STATS,
      HDD_IPA_UC_OPCODE_TX_RESUME, HDD_IPA_UC_OPCODE_RX_RESUME,
      HDD_IPA_UC_OPCODE_TX_SUSPEND, HDD_IPA_UC_OPCODE_RX_SUSPEND,
      HDD_IPA_UC_STAT_REASON_DEBUG, HDD_IPA_UC_STAT_REASON_BW_CAL]
  · exact HDD_BW_GET_DIFF_mod env _ _ hbits htx
  · exact HDD_BW_GET_DIFF_mod env _ _ hbits hrx

/-- Witness of `bw_cal_diff`: the transmit counter has wrapped from
`2^32 - 6` to 4, and the difference is 10. -/
theorem bw_cal_diff_witness :
    ∃ s', hdd_ipa_uc_op_cb env_zero 0
        { priv_init 41 with stat_req_reason := 2, ipa_p_tx_packets := 4294967290 }
        (some { sample_msg 4 with uc_fw_stat := { (sample_msg 4).uc_fw_stat with
          tx_pkts_completed := 4 } }) = some s' ∧
      (s'.ipa_tx_packets_diff : Int) = ((4 : Int) - (4294967290 : Int)) % 2 ^ 32 ∧
      s'.ipa_tx_packets_diff = 10 ∧
      s'.ipa_p_tx_packets = 4 :=
  let ⟨s', h, h1, _, h3, _⟩ := bw_cal_diff env_zero 0
    { priv_init 41 with stat_req_reason := 2, ipa_p_tx_packets := 4294967290 }
    { sample_msg 4 with uc_fw_stat := { (sample_msg 4).uc_fw_stat with
          tx_pkts_completed := 4 } }
    (by decide) (by decide) (by decide) (by decide) (by decide) (by decide) (by decide)
  ⟨s', h, h1, by
    have : (s'.ipa_tx_packets_diff : Int) = 10 := by rw [h1]; decide
    exact_mod_cast this, h3⟩

/-! ## Frame lemmas: stations and the association table -/

@[simp] theorem call_sta_connected (env : Env) (c : ExtCall) (s : hdd_ipa_priv) :
    (call env c s).2.sta_connected = s.sta_connected := rfl

@[simp] theorem call_sap_num_connected_sta (env : Env) (c : ExtCall) (s : hdd_ipa_priv) :
    (call env c s).2.sap_num_connected_sta = s.sap_num_connected_sta := rfl

@[simp] theorem call_assoc_stas_map (env : Env) (c : ExtCall) (s : hdd_ipa_priv) :
    (call env c s).2.assoc_stas_map = s.assoc_stas_map := rfl

@[simp] theorem set_ipa_context_sta_connected (s : hdd_ipa_priv) (a : Nat) (c : Option Nat) :
    (set_ipa_context s a c).sta_connected = s.sta_connected := by
  unfold set_ipa_context
  cases c <;> rfl

@[simp] theorem set_ipa_context_sap_num_connected_sta (s : hdd_ipa_priv) (a : Nat) (c : Option Nat) :
    (set_ipa_context s a c).sap_num_connected_sta = s.sap_num_connected_sta := by
  unfold set_ipa_context
  cases c <;> rfl

@[simp] theorem set_ipa_context_assoc_stas_map (s : hdd_ipa_priv) (a : Nat) (c : Option Nat) :
    (set_ipa_context s a c).assoc_stas_map = s.assoc_stas_map := by
  unfold set_ipa_context
  cases c <;> rfl

@[simp] theorem set_ipa_context_ipa_pipes_down (s : hdd_ipa_priv) (a : Nat) (c : Option Nat) :
    (set_ipa_context s a c).ipa_pipes_down = s.ipa_pipes_down := by
  unfold set_ipa_context
  cases c <;> rfl

@[simp] theorem modify_iface_sta_connected (s : hdd_ipa_priv) (i : Nat)
    (f : hdd_ipa_iface_context → hdd_ipa_iface_context) :
    (modify_iface s i f).sta_connected = s.sta_connected := by
  unfold modify_iface
  split <;> rfl

@[simp] theorem modify_iface_sap_num_connected_sta (s : hdd_ipa_priv) (i : Nat)
    (f : hdd_ipa_iface_context → hdd_ipa_iface_context) :
    (modify_iface s i f).sap_num_connected_sta = s.sap_num_connected_sta := by
  unfold modify_iface
  split <;> rfl

@[simp] theorem modify_iface_assoc_stas_map (s : hdd_ipa_priv) (i : Nat)
    (f : hdd_ipa_iface_context → hdd_ipa_iface_context) :
    (modify_iface s i f).assoc_stas_map = s.assoc_stas_map := by
  unfold modify_iface
  split <;> rfl

@[simp] theorem modify_iface_ipa_pipes_down (s : hdd_ipa_priv) (i : Nat)
    (f : hdd_ipa_iface_context → hdd_ipa_iface_context) :
    (modify_iface s i f).ipa_pipes_down = s.ipa_pipes_down := by
  unfold modify_iface
  split <;> rfl

@[simp] theorem cleanup_iface_sta_connected (env : Env) (s : hdd_ipa_priv) (i : Option Nat) :
    (hdd_ipa_cleanup_iface env s i).sta_connected = s.sta_connected := by
  unfold hdd_ipa_cleanup_iface
  cases i with
  | none => rfl
  | some i =>
    dsimp only
    split_ifs <;> simp

@[simp] theorem cleanup_iface_sap_num_connected_sta (env : Env) (s : hdd_ipa_priv) (i : Option Nat) :
    (hdd_ipa_cleanup_iface env s i).sap_num_connected_sta = s.sap_num_connected_sta := by
  unfold hdd_ipa_cleanup_iface
  cases i with
  | none => rfl
  | some i =>
    dsimp only
    split_ifs <;> simp

@[simp] theorem cleanup_iface_assoc_stas_map (env : Env) (s : hdd_ipa_priv) (i : Option Nat) :
    (hdd_ipa_cleanup_iface env s i).assoc_stas_map = s.assoc_stas_map := by
  unfold hdd_ipa_cleanup_iface
  cases i with
  | none => rfl
  | some i =>
    dsimp only
    split_ifs <;> simp

@[simp] theorem cleanup_iface_ipa_pipes_down (env : Env) (s : hdd_ipa_priv) (i : Option Nat) :
    (hdd_ipa_cleanup_iface env s i).ipa_pipes_down = s.ipa_pipes_down := by
  unfold hdd_ipa_cleanup_iface
  cases i with
  | none => rfl
  | some i =>
    dsimp only
    split_ifs <;> simp

@[simp] theorem stats_event_inc_sta_connected (s : hdd_ipa_priv) (t : Nat) :
    (stats_event_inc s t).sta_connected = s.sta_connected := rfl

@[simp] theorem stats_event_inc_sap_num_connected_sta (s : hdd_ipa_priv) (t : Nat) :
    (stats_event_inc s t).sap_num_connected_sta = s.sap_num_connected_sta := rfl

@[simp] theorem stats_event_inc_assoc_stas_map (s : hdd_ipa_priv) (t : Nat) :
    (stats_event_inc s t).assoc_stas_map = s.assoc_stas_map := rfl

@[simp] theorem stats_event_inc_ipa_pipes_down (s : hdd_ipa_priv) (t : Nat) :
    (stats_event_inc s t).ipa_pipes_down = s.ipa_pipes_down := rfl

@[simp] theorem pending_event_insert_sta_connected (env : Env) (s : hdd_ipa_priv)
    (ev : ipa_uc_pending_event) :
    (pending_event_insert env s ev).2.sta_connected = s.sta_connected := by
  unfold pending_event_insert
  dsimp only
  split_ifs <;> simp

@[simp] theorem pending_event_insert_sap_num_connected_sta (env : Env) (s : hdd_ipa_priv)
    (ev : ipa_uc_pending_event) :
    (pending_event_insert env s ev).2.sap_num_connected_sta = s.sap_num_connected_sta := by
  unfold pending_event_insert
  dsimp only
  split_ifs <;> simp

@[simp] theorem pending_event_insert_assoc_stas_map (env : Env) (s : hdd_ipa_priv)
    (ev : ipa_uc_pending_event) :
    (pending_event_insert env s ev).2.assoc_stas_map = s.assoc_stas_map := by
  unfold pending_event_insert
  dsimp only
  split_ifs <;> simp

@[simp] theorem pending_event_insert_ipa_pipes_down (env : Env) (s : hdd_ipa_priv)
    (ev : ipa_uc_pending_event) :
    (pending_event_insert env s ev).2.ipa_pipes_down = s.ipa_pipes_down := by
  unfold pending_event_insert
  dsimp only
  split_ifs <;> simp

@[simp] theorem queue_pending_event_sta_connected (env : Env) (s : hdd_ipa_priv)
    (a sta t : Nat) (mac : List Nat) :
    (queue_pending_event env s a sta t mac).2.sta_connected = s.sta_connected := by
  unfold queue_pending_event
  dsimp only
  split_ifs
  · cases s.pending_event <;> simp
  · simp
  · simp

@[simp] theorem queue_pending_event_sap_num_connected_sta (env : Env) (s : hdd_ipa_priv)
    (a sta t : Nat) (mac : List Nat) :
    (queue_pending_event env s a sta t mac).2.sap_num_connected_sta = s.sap_num_connected_sta := by
  unfold queue_pending_event
  dsimp only
  split_ifs
  · cases s.pending_event <;> simp
  · simp
  · simp

@[simp] theorem queue_pending_event_assoc_stas_map (env : Env) (s : hdd_ipa_priv)
    (a sta t : Nat) (mac : List Nat) :
    (queue_pending_event env s a sta t mac).2.assoc_stas_map = s.assoc_stas_map := by
  unfold queue_pending_event
  dsimp only
  split_ifs
  · cases s.pending_event <;> simp
  · simp
  · simp

@[simp] theorem queue_pending_event_ipa_pipes_down (env : Env) (s : hdd_ipa_priv)
    (a sta t : Nat) (mac : List Nat) :
    (queue_pending_event env s a sta t mac).2.ipa_pipes_down = s.ipa_pipes_down := by
  unfold queue_pending_event
  dsimp only
  split_ifs
  · cases s.pending_event <;> simp
  · simp
  · simp

/-! ## Duplicate and unknown stations -/

theorem find_add_of_reserved (s : hdd_ipa_priv) (sta_id : Nat)
    (h : s.assoc_stas_map.any (fun m => m.is_reserved && m.sta_id == sta_id) = true) :
    hdd_ipa_uc_find_add_assoc_sta s true sta_id = (true, s) := by
  unfold hdd_ipa_uc_find_add_assoc_sta
  simp [h]

theorem find_del_of_not_reserved (s : hdd_ipa_priv) (sta_id : Nat)
    (h : s.assoc_stas_map.any (fun m => m.is_reserved && m.sta_id == sta_id) = false) :
    hdd_ipa_uc_find_add_assoc_sta s false sta_id = (false, s) := by
  unfold hdd_ipa_uc_find_add_assoc_sta
  simp [h]

theorem client_connect_ex_of_reserved (env : Env) (s : hdd_ipa_priv) (sta_id t : Nat)
    (h : s.assoc_stas_map.any (fun m => m.is_reserved && m.sta_id == sta_id) = true) :
    wlan_evt_client_connect_ex env s sta_id t = (0, s) := by
  unfold wlan_evt_client_connect_ex
  rw [find_add_of_reserved s sta_id h]
  simp

theorem client_disconnect_of_not_reserved (env : Env) (s : hdd_ipa_priv) (sta_id t : Nat)
    (h : s.assoc_stas_map.any (fun m => m.is_reserved && m.sta_id == sta_id) = false) :
    wlan_evt_client_disconnect env s sta_id t = (0, s) := by
  unfold wlan_evt_client_disconnect
  rw [find_del_of_not_reserved s sta_id h]
  simp

/-- C24: a client-connect event for a station id that is already reserved
in `assoc_stas_map` is dropped: `hdd_ipa_uc_find_add_assoc_sta` with
`sta_add` set returns true and leaves the context as it was, and
`__hdd_ipa_wlan_evt` leaves `sap_num_connected_sta`, the flags
`resource_loading`, `resource_unloading`, `ipa_pipes_down`, the pipe count
and the map unchanged.  A client-disconnect event for a station id that is
not in the map leaves the map and `sap_num_connected_sta` unchanged. -/
theorem duplicate_station_dropped (env : Env) (s : hdd_ipa_priv) (adapter sta_id : Nat)
    (mac_addr : List Nat) :
    (s.assoc_stas_map.any (fun m => m.is_reserved && m.sta_id == sta_id) = true →
      hdd_ipa_uc_find_add_assoc_sta s true sta_id = (true, s) ∧
      (__hdd_ipa_wlan_evt env s adapter sta_id WLAN_CLIENT_CONNECT_EX
          mac_addr).2.sap_num_connected_sta = s.sap_num_connected_sta ∧
      (__hdd_ipa_wlan_evt env s adapter sta_id WLAN_CLIENT_CONNECT_EX
          mac_addr).2.resource_loading = s.resource_loading ∧
      (__hdd_ipa_wlan_evt env s adapter sta_id WLAN_CLIENT_CONNECT_EX
          mac_addr).2.resource_unloading = s.resource_unloading ∧
      (__hdd_ipa_wlan_evt env s adapter sta_id WLAN_CLIENT_CONNECT_EX
          mac_addr).2.ipa_pipes_down = s.ipa_pipes_down ∧
      (__hdd_ipa_wlan_evt env s adapter sta_id WLAN_CLIENT_CONNECT_EX
          mac_addr).2.activated_fw_pipe = s.activated_fw_pipe ∧
      (__hdd_ipa_wlan_evt env s adapter sta_id WLAN_CLIENT_CONNECT_EX
          mac_addr).2.assoc_stas_map = s.assoc_stas_map) ∧
    (s.assoc_stas_map.any (fun m => m.is_reserved && m.sta_id == sta_id) = false →
      (hdd_ipa_uc_find_add_assoc_sta s false sta_id).2 = s ∧
      (__hdd_ipa_wlan_evt env s adapter sta_id WLAN_CLIENT_DISCONNECT
          mac_addr).2.sap_num_connected_sta = s.sap_num_connected_sta ∧
      (__hdd_ipa_wlan_evt env s adapter sta_id WLAN_CLIENT_DISCONNECT
          mac_addr).2.assoc_stas_map = s.assoc_stas_map) := by
  have hsw1 : ∀ s1 : hdd_ipa_priv, s1.assoc_stas_map = s.assoc_stas_map →
      s.assoc_stas_map.any (fun m => m.is_reserved && m.sta_id == sta_id) = true →
      wlan_evt_switch env s1 adapter sta_id WLAN_CLIENT_CONNECT_EX = (0, s1) := by
    intro s1 h1 h
    unfold wlan_evt_switch
    rw [if_neg (by decide), if_neg (by decide), if_neg (by decide), if_neg (by decide),
      if_pos rfl]
    exact client_connect_ex_of_reserved env s1 sta_id _ (h1 ▸ h)
  have hsw2 : ∀ s1 : hdd_ipa_priv, s1.assoc_stas_map = s.assoc_stas_map →
      s.assoc_stas_map.any (fun m => m.is_reserved && m.sta_id == sta_id) = false →
      wlan_evt_switch env s1 adapter sta_id WLAN_CLIENT_DISCONNECT = (0, s1) := by
    intro s1 h1 h
    unfold wlan_evt_switch
    rw [if_neg (by decide), if_neg (by decide), if_neg (by decide), if_neg (by decide),
      if_neg (by decide), if_pos rfl]
    exact client_disconnect_of_not_reserved env s1 sta_id _ (h1 ▸ h)
  refine ⟨fun h => ⟨find_add_of_reserved s sta_id h, ?_⟩, fun h =>
    ⟨by rw [find_del_of_not_reserved s sta_id h], ?_⟩⟩
  · unfold __hdd_ipa_wlan_evt
    dsimp only
    split_ifs <;>
      simp [hsw1 _ (show (stats_event_inc s WLAN_CLIENT_CONNECT_EX).assoc_stas_map =
          s.assoc_stas_map from rfl) h,
        hsw1 _ (show (stats_event_inc (call env .wait_for_completion_timeout s).2
          WLAN_CLIENT_CONNECT_EX).assoc_stas_map = s.assoc_stas_map from rfl) h]
  · unfold __hdd_ipa_wlan_evt
    dsimp only
    split_ifs <;>
      simp [hsw2 _ (show (stats_event_inc s WLAN_CLIENT_DISCONNECT).assoc_stas_map =
          s.assoc_stas_map from rfl) h,
        hsw2 _ (show (stats_event_inc (call env .wait_for_completion_timeout s).2
          WLAN_CLIENT_DISCONNECT).assoc_stas_map = s.assoc_stas_map from rfl) h]

/-- Witness of `duplicate_station_dropped`: station 5 connects a second
time, and station 6, which is not in the table, disconnects. -/
theorem duplicate_station_dropped_witness :
    hdd_ipa_uc_find_add_assoc_sta priv_station true 5 = (true, priv_station) ∧
    (__hdd_ipa_wlan_evt env_zero priv_station 1 5 WLAN_CLIENT_CONNECT_EX
      [2, 0, 0, 0, 0, 5]).2.sap_num_connected_sta = 1 ∧
    (__hdd_ipa_wlan_evt env_zero priv_station 1 5 WLAN_CLIENT_CONNECT_EX
      [2, 0, 0, 0, 0, 5]).2.assoc_stas_map = priv_station.assoc_stas_map ∧
    (__hdd_ipa_wlan_evt env_zero priv_station 1 6 WLAN_CLIENT_DISCONNECT
      [2, 0, 0, 0, 0, 6]).2.sap_num_connected_sta = 1 ∧
    (__hdd_ipa_wlan_evt env_zero priv_station 1 6 WLAN_CLIENT_DISCONNECT
      [2, 0, 0, 0, 0, 6]).2.assoc_stas_map = priv_station.assoc_stas_map :=
  have h1 := (duplicate_station_dropped env_zero priv_station 1 5 [2, 0, 0, 0, 0, 5]).1
    (by decide)
  have h2 := (duplicate_station_dropped env_zero priv_station 1 6 [2, 0, 0, 0, 0, 6]).2
    (by decide)
  ⟨h1.1, h1.2.1, h1.2.2.2.2.2.2, h2.2.1, h2.2.2⟩

/-! ## An event that arrives during a transition -/

/-- C22: when uC offload is enabled, a load or unload is in progress and the
timed wait on the completion times out, `__hdd_ipa_wlan_evt` returns 0 and
links the event (adapter, type, station id, address), tagged with the
current `resource_loading`, at the tail of the pending-event list, provided
an entry is at hand: the list already holds twenty entries, in which case
the oldest one is reused, or the allocation succeeds.  `sta_connected`,
`sap_num_connected_sta` and the association table are left unchanged. -/
theorem wlan_evt_timeout_queues (env : Env) (s : hdd_ipa_priv) (adapter sta_id type : Nat)
    (mac_addr : List Nat)
    (hw : reaches_wait env s adapter type mac_addr = true)
    (ht : env.ret s.calls .wait_for_completion_timeout = 0)
    (ha : HDD_IPA_MAX_PENDING_EVENT_COUNT ≤ s.pending_event.length ∨
      env.ret (s.calls ++ [.wait_for_completion_timeout])
        .qdf_mem_malloc_pending_event ≠ 0) :
    (__hdd_ipa_wlan_evt env s adapter sta_id type mac_addr).1 = 0 ∧
    (__hdd_ipa_wlan_evt env s adapter sta_id type mac_addr).2.pending_event =
      (if HDD_IPA_MAX_PENDING_EVENT_COUNT ≤ s.pending_event.length then
          s.pending_event.tail
        else s.pending_event) ++
        [{ adapter := adapter, type := type, sta_id := sta_id, mac_addr := mac_addr,
           is_loading := s.resource_loading }] ∧
    (__hdd_ipa_wlan_evt env s adapter sta_id type mac_addr).2.sta_connected =
      s.sta_connected ∧
    (__hdd_ipa_wlan_evt env s adapter sta_id type mac_addr).2.sap_num_connected_sta =
      s.sap_num_connected_sta ∧
    (__hdd_ipa_wlan_evt env s adapter sta_id type mac_addr).2.assoc_stas_map =
      s.assoc_stas_map := by
  rw [wlan_evt_eq_of_reaches_wait env s adapter sta_id type mac_addr hw, if_pos ht]
  have hc : (call env .wait_for_completion_timeout s).2.calls =
      s.calls ++ [.wait_for_completion_timeout] := call_calls env _ s
  have hp : (call env .wait_for_completion_timeout s).2.pending_event = s.pending_event :=
    rfl
  refine ⟨?_, ?_, ?_, ?_, ?_⟩
  · apply queue_pending_event_ret
    rw [hc, hp]
    exact ha
  · rw [queue_pending_event_queue, hc, hp]
    by_cases hlen : HDD_IPA_MAX_PENDING_EVENT_COUNT ≤ s.pending_event.length
    · rw [if_pos hlen, if_pos hlen]
      rfl
    · rw [if_neg hlen, if_neg hlen]
      rcases ha with ha | ha
      · exact absurd ha hlen
      · rw [if_neg ha]
        rfl
  · rw [queue_pending_event_sta_connected]
    rfl
  · rw [queue_pending_event_sap_num_connected_sta]
    rfl
  · rw [queue_pending_event_assoc_stas_map]
    rfl

/-- Witness of `wlan_evt_timeout_queues`: a client connects while a load is
in progress and the wait times out; the event is stored behind the one
already waiting. -/
theorem wlan_evt_timeout_queues_witness :
    (__hdd_ipa_wlan_evt env_async priv_loading 1 2 WLAN_CLIENT_CONNECT_EX
      [2, 0, 0, 0, 0, 2]).1 = 0 ∧
    (__hdd_ipa_wlan_evt env_async priv_loading 1 2 WLAN_CLIENT_CONNECT_EX
      [2, 0, 0, 0, 0, 2]).2.pending_event =
      [sample_event 1 1 true, sample_event 1 2 true] :=
  have h := wlan_evt_timeout_queues env_async priv_loading 1 2 WLAN_CLIENT_CONNECT_EX
    [2, 0, 0, 0, 0, 2] (by decide) (by decide)
    (Or.inr (show (1 : Int) ≠ 0 by decide))
  ⟨h.1, h.2.1⟩

/-! ## The size of the descriptor pool -/

/-- C25: for every configured `IpaMccTxDescSize` and every pool size of the
TXRX layer (a 16-bit field), `hdd_ipa_alloc_tx_desc_list` succeeds when the
TXRX context exists and the allocation succeeds, and a successful call
leaves a pool whose size, `tx_desc_size`, the length of the descriptor
array and the number of descriptors on the free list, is the smaller of the
two. -/
theorem alloc_pool_size (env : Env) (s : hdd_ipa_priv) (hp : env.pool_size < 2 ^ 16) :
    (env.pdev = true →
      env.ret s.calls
        (.qdf_mem_malloc_tx_desc (min s.IpaMccTxDescSize env.pool_size)) ≠ 0 →
      (hdd_ipa_alloc_tx_desc_list env s).1 = 0) ∧
    ((hdd_ipa_alloc_tx_desc_list env s).1 = 0 →
      (hdd_ipa_alloc_tx_desc_list env s).2.tx_desc_size =
        min s.IpaMccTxDescSize env.pool_size ∧
      (hdd_ipa_alloc_tx_desc_list env s).2.tx_desc_list.length =
        min s.IpaMccTxDescSize env.pool_size ∧
      (hdd_ipa_alloc_tx_desc_list env s).2.free_tx_desc_head.length =
        min s.IpaMccTxDescSize env.pool_size) := by
  have hm : (min s.IpaMccTxDescSize env.pool_size) % 2 ^ 16 =
      min s.IpaMccTxDescSize env.pool_size :=
    Nat.mod_eq_of_lt (lt_of_le_of_lt (Nat.min_le_right _ _) hp)
  constructor
  · intro hpdev hmal
    unfold hdd_ipa_alloc_tx_desc_list
    dsimp only
    rw [if_neg (by simp [hpdev]), hm]
    have : ¬ (call env (.qdf_mem_malloc_tx_desc (min s.IpaMccTxDescSize env.pool_size))
        { s with tx_desc_size := min s.IpaMccTxDescSize env.pool_size,
                 free_tx_desc_head := [] }).1 = 0 := hmal
    rw [if_neg this]
  · intro h0
    obtain ⟨h1, h2, h3⟩ := alloc_tx_desc_list_fresh env s
      (hdd_ipa_alloc_tx_desc_list env s).2 (Prod.ext h0 rfl)
    rw [hm] at h3
    refine ⟨h3, by rw [h2, h3], by rw [h1, List.length_range, h3]⟩

/-- Witness of `alloc_pool_size`: a configured size of 4 against a pool of 4,
and a configured size of 100000 against a pool of 4. -/
theorem alloc_pool_size_witness :
    (hdd_ipa_alloc_tx_desc_list env_async priv_sap).1 = 0 ∧
    (hdd_ipa_alloc_tx_desc_list env_async priv_sap).2.free_tx_desc_head.length = 4 ∧
    (hdd_ipa_alloc_tx_desc_list env_async
      { priv_sap with IpaMccTxDescSize := 100000 }).2.tx_desc_size = 4 :=
  ⟨(alloc_pool_size env_async priv_sap (by decide)).1 (by decide)
      (show (1 : Int) ≠ 0 by decide),
   ((alloc_pool_size env_async priv_sap (by decide)).2 (by decide)).2.2,
   ((alloc_pool_size env_async { priv_sap with IpaMccTxDescSize := 100000 }
      (by decide)).2 (by decide)).1⟩

/-! ## The association table as a set -/

theorem mem_reserved_ids (m : List ipa_uc_stas_map) (sta_id : Nat) :
    m.any (fun e => e.is_reserved && e.sta_id == sta_id) = true ↔
      sta_id ∈ reserved_ids m := by
  unfold reserved_ids
  simp only [List.any_eq_true, Bool.and_eq_true, beq_iff_eq, List.mem_map, List.mem_filter]
  constructor
  · rintro ⟨e, he, hr, hs⟩
    exact ⟨e, ⟨he, hr⟩, hs⟩
  · rintro ⟨e, ⟨he, hr⟩, hs⟩
    exact ⟨e, he, hr, hs⟩

theorem assoc_sta_add_full (sta_id : Nat) (m : List ipa_uc_stas_map)
    (h : m.all (fun e => e.is_reserved) = true) : assoc_sta_add sta_id m = m := by
  induction m with
  | nil => rfl
  | cons e es ih =>
    simp only [List.all_cons, Bool.and_eq_true] at h
    unfold assoc_sta_add
    rw [if_neg (by simp [h.1]), ih h.2]

theorem assoc_sta_add_set (sta_id : Nat) (m : List ipa_uc_stas_map)
    (h : m.all (fun e => e.is_reserved) = false) :
    ∃ i, (m[i]?).map (fun e => e.is_reserved) = some false ∧
      assoc_sta_add sta_id m = m.set i { is_reserved := true, sta_id := sta_id } := by
  induction m with
  | nil => simp at h
  | cons e es ih =>
    unfold assoc_sta_add
    by_cases he : e.is_reserved = true
    · rw [if_neg (by simp [he])]
      have h2 : es.all (fun e => e.is_reserved) = false := by
        simpa [List.all_cons, he] using h
      obtain ⟨i, hi, hset⟩ := ih h2
      exact ⟨i + 1, by simpa using hi, by rw [hset]; rfl⟩
    · rw [if_pos (by simpa using he)]
      exact ⟨0, by simpa using he, rfl⟩

theorem reserved_ids_add_count (sta_id x : Nat) (m : List ipa_uc_stas_map)
    (h : m.all (fun e => e.is_reserved) = false) :
    (reserved_ids (assoc_sta_add sta_id m)).count x =
      (reserved_ids m).count x + if x = sta_id then 1 else 0 := by
  induction m with
  | nil => simp at h
  | cons e es ih =>
    unfold assoc_sta_add
    by_cases he : e.is_reserved = true
    · rw [if_neg (by simp [he])]
      have h2 : es.all (fun e => e.is_reserved) = false := by
        simpa [List.all_cons, he] using h
      have := ih h2
      simp only [reserved_ids, List.filter_cons, he, if_true, List.map_cons,
        List.count_cons] at this ⊢
      omega
    · have he' : e.is_reserved = false := by simpa using he
      rw [if_pos (by simp [he'])]
      simp only [reserved_ids, List.filter_cons, he', if_true, List.map_cons,
        List.count_cons, Bool.false_eq_true, if_false, beq_iff_eq]
      by_cases hx : x = sta_id
      · simp [hx]
      · simp [hx, Ne.symm hx]

theorem reserved_ids_del_sublist (sta_id : Nat) (m : List ipa_uc_stas_map) :
    (reserved_ids (assoc_sta_del sta_id m)).Sublist (reserved_ids m) := by
  induction m with
  | nil => exact List.Sublist.refl _
  | cons e es ih =>
    unfold assoc_sta_del
    by_cases hc : (e.is_reserved && e.sta_id == sta_id) = true
    · rw [if_pos hc]
      have he : e.is_reserved = true := by
        simp only [Bool.and_eq_true] at hc
        exact hc.1
      simp only [reserved_ids, List.filter_cons, he, if_true, List.map_cons,
        Bool.false_eq_true, if_false]
      exact List.sublist_cons_self _ _
    · rw [if_neg hc]
      by_cases he : e.is_reserved = true
      · simp only [reserved_ids, List.filter_cons, he, if_true, List.map_cons]
        exact List.Sublist.cons₂ _ ih
      · simp only [reserved_ids, List.filter_cons, he, if_false]
        exact ih

theorem find_add_nodup (s : hdd_ipa_priv) (b : Bool) (sta_id : Nat)
    (h : (reserved_ids s.assoc_stas_map).Nodup) :
    (reserved_ids (hdd_ipa_uc_find_add_assoc_sta s b sta_id).2.assoc_stas_map).Nodup := by
  unfold hdd_ipa_uc_find_add_assoc_sta
  dsimp only
  split_ifs with h1 h2 h3
  · exact h
  · have hb : b = true := h2
    have hnf : ¬ sta_id ∈ reserved_ids s.assoc_stas_map := by
      rw [← mem_reserved_ids]
      intro hf
      exact h1 (by simp [hb, hf])
    show (reserved_ids (assoc_sta_add sta_id s.assoc_stas_map)).Nodup
    by_cases hall : s.assoc_stas_map.all (fun e => e.is_reserved) = true
    · rw [assoc_sta_add_full _ _ hall]
      exact h
    · have hall' : s.assoc_stas_map.all (fun e => e.is_reserved) = false := by
        simpa using hall
      rw [List.nodup_iff_count_le_one] at h ⊢
      intro x
      rw [reserved_ids_add_count _ _ _ hall']
      by_cases hx : x = sta_id
      · rw [if_pos hx, hx, List.count_eq_zero.mpr hnf]
      · rw [if_neg hx]
        exact h x
  · exact h
  · exact h.sublist (reserved_ids_del_sublist sta_id s.assoc_stas_map)

theorem assoc_calls_nodup (s : hdd_ipa_priv) (calls : List (Bool × Nat))
    (h : (reserved_ids s.assoc_stas_map).Nodup) :
    (reserved_ids (assoc_calls s calls).assoc_stas_map).Nodup := by
  induction calls generalizing s with
  | nil => exact h
  | cons c cs ih =>
    unfold assoc_calls
    exact ih _ (find_add_nodup s c.1 c.2 h)

/-- C30, as far as it holds: for a station id that is not reserved,
`hdd_ipa_uc_find_add_assoc_sta` with `sta_add` set returns false; when the
table has a slot that is not reserved, one such slot is given to the station
id and every other slot is left as it was, so that the id is reserved in
exactly one slot; when every slot is reserved the table is left unchanged
and the id is still not reserved.  From a table in which no two reserved
slots hold the same id, no sequence of add and delete calls reaches a table
in which two do. -/
theorem assoc_table_set (s : hdd_ipa_priv) (sta_id : Nat) (calls : List (Bool × Nat)) :
    (sta_id ∉ reserved_ids s.assoc_stas_map →
      (hdd_ipa_uc_find_add_assoc_sta s true sta_id).1 = false ∧
      (s.assoc_stas_map.all (fun e => e.is_reserved) = false →
        (∃ i, (s.assoc_stas_map[i]?).map (fun e => e.is_reserved) = some false ∧
          (hdd_ipa_uc_find_add_assoc_sta s true sta_id).2.assoc_stas_map =
            s.assoc_stas_map.set i { is_reserved := true, sta_id := sta_id }) ∧
        (reserved_ids
          (hdd_ipa_uc_find_add_assoc_sta s true sta_id).2.assoc_stas_map).count sta_id = 1) ∧
      (s.assoc_stas_map.all (fun e => e.is_reserved) = true →
        (hdd_ipa_uc_find_add_assoc_sta s true sta_id).2 = s)) ∧
    ((reserved_ids s.assoc_stas_map).Nodup →
      (reserved_ids (assoc_calls s calls).assoc_stas_map).Nodup) := by
  refine ⟨fun hn => ?_, assoc_calls_nodup s calls⟩
  have hf : s.assoc_stas_map.any (fun m => m.is_reserved && m.sta_id == sta_id) = false := by
    rw [← mem_reserved_ids] at hn
    simpa using hn
  have hfa : hdd_ipa_uc_find_add_assoc_sta s true sta_id =
      (false, { s with assoc_stas_map := assoc_sta_add sta_id s.assoc_stas_map }) := by
    unfold hdd_ipa_uc_find_add_assoc_sta
    simp [hf]
  rw [hfa]
  refine ⟨rfl, fun hall => ⟨?_, ?_⟩, fun hall => ?_⟩
  · exact assoc_sta_add_set sta_id _ hall
  · show (reserved_ids (assoc_sta_add sta_id s.assoc_stas_map)).count sta_id = 1
    rw [reserved_ids_add_count _ _ _ hall, if_pos rfl, List.count_eq_zero.mpr hn]
  · show { s with assoc_stas_map := assoc_sta_add sta_id s.assoc_stas_map } = s
    rw [assoc_sta_add_full _ _ hall]

/-- Witness of `assoc_table_set`: station 6 is added to a table that holds
station 5, and a run of calls from the empty table. -/
theorem assoc_table_set_witness :
    (hdd_ipa_uc_find_add_assoc_sta priv_station true 6).1 = false ∧
    (reserved_ids
      (hdd_ipa_uc_find_add_assoc_sta priv_station true 6).2.assoc_stas_map).count 6 = 1 ∧
    (reserved_ids (assoc_calls (priv_init 41)
      [(true, 1), (true, 2), (true, 1), (false, 1), (true, 2)]).assoc_stas_map).Nodup :=
  have h := assoc_table_set priv_station 6 []
  have h2 := assoc_table_set (priv_init 41) 0
    [(true, 1), (true, 2), (true, 1), (false, 1), (true, 2)]
  ⟨(h.1 (by decide)).1, ((h.1 (by decide)).2.1 (by decide)).2, h2.2 (by decide)⟩

/-- Counterexample to C30 as stated: with every slot reserved, adding
station 9, which is not reserved, returns false and leaves the table as it
was, so that station 9 is reserved in no slot. -/
theorem assoc_table_full_counterexample :
    priv_table_full.assoc_stas_map.all (fun e => e.is_reserved) = true ∧
    9 ∉ reserved_ids priv_table_full.assoc_stas_map ∧
    hdd_ipa_uc_find_add_assoc_sta priv_table_full true 9 = (false, priv_table_full) ∧
    (reserved_ids
      (hdd_ipa_uc_find_add_assoc_sta priv_table_full true 9).2.assoc_stas_map).count 9 = 0 := by
  decide

/-! ## The in-flight counter on the reject path -/

/-- C28 does not hold on the path where the TXRX layer rejects the frame.
From a fresh pool (both counters 0), `hdd_ipa_send_pkt_to_tl` takes
descriptor 0 and counts it in `num_tx_desc_q_cnt`, the frame is rejected,
and the buffer goes to `qdf_nbuf_free` without `tx_ref_cnt` having been
incremented.  With the free callback registered `hdd_ipa_nbuf_cb` then
decrements both counters: `tx_ref_cnt` is -1 and `num_tx_desc_q_cnt` is 0.
Without the callback the descriptor stays counted: `tx_ref_cnt` is 0 and
`num_tx_desc_q_cnt` is 1. -/
theorem send_reject_unbalanced :
    (hdd_ipa_alloc_tx_desc_list env_reject priv_sap).2.tx_ref_cnt = 0 ∧
    (hdd_ipa_alloc_tx_desc_list env_reject priv_sap).2.stats.num_tx_desc_q_cnt = 0 ∧
    (hdd_ipa_send_pkt_to_tl env_reject
      (hdd_ipa_alloc_tx_desc_list env_reject priv_sap).2 0 sample_desc).1 = some 0 ∧
    (hdd_ipa_send_pkt_to_tl env_reject
      (hdd_ipa_alloc_tx_desc_list env_reject priv_sap).2 0 sample_desc).2.tx_ref_cnt = -1 ∧
    (hdd_ipa_send_pkt_to_tl env_reject
      (hdd_ipa_alloc_tx_desc_list env_reject priv_sap).2 0
      sample_desc).2.stats.num_tx_desc_q_cnt = 0 ∧
    (hdd_ipa_send_pkt_to_tl env_reject
      { (hdd_ipa_alloc_tx_desc_list env_reject priv_sap).2 with nbuf_free_cb := false } 0
      sample_desc).2.tx_ref_cnt = 0 ∧
    (hdd_ipa_send_pkt_to_tl env_reject
      { (hdd_ipa_alloc_tx_desc_list env_reject priv_sap).2 with nbuf_free_cb := false } 0
      sample_desc).2.stats.num_tx_desc_q_cnt = 1 := by
  decide

/-! ## Suspend and resume -/

/-- C29: with IPA enabled and a valid HDD context, `__hdd_ipa_suspend`
returns `-EAGAIN` and leaves the context, hence `suspended`, unchanged when
`tx_ref_cnt` is not zero or `rm_state` is not released; otherwise it sets
`suspended` and returns 0.  `__hdd_ipa_resume` returns 0 in every case and,
under the same premise, clears `suspended`.  So a call of
`__hdd_ipa_suspend` that turns `suspended` from false to true starts with
`tx_ref_cnt` zero and the resource released. -/
theorem suspend_gate (env : Env) (s : hdd_ipa_priv)
    (hctx : env.wlan_hdd_validate_context = 0) (hen : hdd_ipa_is_enabled s = true) :
    ((s.tx_ref_cnt ≠ 0 ∨ s.rm_state ≠ .HDD_IPA_RM_RELEASED) →
      __hdd_ipa_suspend env s = (-EAGAIN, s)) ∧
    (s.tx_ref_cnt = 0 → s.rm_state = .HDD_IPA_RM_RELEASED →
      __hdd_ipa_suspend env s = (0, { s with suspended := true })) ∧
    (__hdd_ipa_resume env s).1 = 0 ∧
    (__hdd_ipa_resume env s).2.suspended = false ∧
    (s.suspended = false → (__hdd_ipa_suspend env s).2.suspended = true →
      s.tx_ref_cnt = 0 ∧ s.rm_state = .HDD_IPA_RM_RELEASED) := by
  have hbusy : (s.tx_ref_cnt ≠ 0 ∨ s.rm_state ≠ .HDD_IPA_RM_RELEASED) →
      __hdd_ipa_suspend env s = (-EAGAIN, s) := by
    intro h
    unfold __hdd_ipa_suspend hdd_ipa_is_rm_released
    rw [if_neg (by simp [hctx]), if_neg (by simp [hen])]
    by_cases h0 : s.tx_ref_cnt ≠ 0
    · rw [if_pos h0]
    · rw [if_neg h0]
      rcases h with h | h
      · exact absurd h h0
      · simp [h]
  refine ⟨hbusy, ?_, ?_, ?_, ?_⟩
  · intro h0 hr
    unfold __hdd_ipa_suspend hdd_ipa_is_rm_released
    rw [if_neg (by simp [hctx]), if_neg (by simp [hen]), if_neg (by simp [h0])]
    simp [hr]
  · unfold __hdd_ipa_resume
    split_ifs <;> rfl
  · unfold __hdd_ipa_resume
    rw [if_neg (by simp [hctx]), if_neg (by simp [hen])]
  · intro hs hsusp
    by_contra hcon
    have hb : s.tx_ref_cnt ≠ 0 ∨ s.rm_state ≠ .HDD_IPA_RM_RELEASED := by
      by_cases h0 : s.tx_ref_cnt = 0
      · exact Or.inr (fun hr => hcon ⟨h0, hr⟩)
      · exact Or.inl h0
    rw [hbusy hb] at hsusp
    rw [hs] at hsusp
    exact Bool.false_ne_true hsusp

/-- Witness of `suspend_gate`: a suspend with one transmission in flight is
refused, a suspend of an idle context succeeds, and a resume clears the
flag. -/
theorem suspend_gate_witness :
    __hdd_ipa_suspend env_zero { priv_init 41 with tx_ref_cnt := 1 } =
      (-EAGAIN, { priv_init 41 with tx_ref_cnt := 1 }) ∧
    __hdd_ipa_suspend env_zero (priv_init 41) =
      (0, { priv_init 41 with suspended := true }) ∧
    (__hdd_ipa_resume env_zero { priv_init 41 with suspended := true }).2.suspended = false :=
  ⟨(suspend_gate env_zero { priv_init 41 with tx_ref_cnt := 1 } (by decide) (by decide)).1
      (Or.inl (by decide)),
   (suspend_gate env_zero (priv_init 41) (by decide) (by decide)).2.1 (by decide) (by decide),
   (suspend_gate env_zero { priv_init 41 with suspended := true } (by decide)
      (by decide)).2.2.2.1⟩

/-! ## The wake lock and the state of the resource -/

@[simp] theorem call_wake_lock_released (env : Env) (c : ExtCall) (s : hdd_ipa_priv) :
    (call env c s).2.wake_lock_released = s.wake_lock_released := rfl

@[simp] theorem wdi_enable_pipes_wake_lock_released (env : Env) (s : hdd_ipa_priv) :
    (hdd_ipa_wdi_enable_pipes env s).2.wake_lock_released = s.wake_lock_released := by
  unfold hdd_ipa_wdi_enable_pipes
  dsimp only
  split_ifs <;> simp

@[simp] theorem uc_enable_pipes_wake_lock_released (env : Env) (s : hdd_ipa_priv) :
    (hdd_ipa_uc_enable_pipes env s).2.wake_lock_released = s.wake_lock_released := by
  unfold hdd_ipa_uc_enable_pipes
  dsimp only
  split_ifs <;> simp

theorem rm_request_wake_lock (env : Env) (s : hdd_ipa_priv)
    (h : s.wake_lock_released = true → s.rm_state = .HDD_IPA_RM_RELEASED) :
    (hdd_ipa_wdi_rm_request env s).2.wake_lock_released = true →
      (hdd_ipa_wdi_rm_request env s).2.rm_state = .HDD_IPA_RM_RELEASED := by
  unfold hdd_ipa_wdi_rm_request
  split_ifs
  · exact h
  · cases hs : s.rm_state with
    | HDD_IPA_RM_GRANTED => simpa [hs] using h
    | HDD_IPA_RM_GRANT_PENDING => simpa [hs] using h
    | HDD_IPA_RM_RELEASED =>
      dsimp only
      split_ifs <;> simp_all

theorem rm_try_release_wake_lock (env : Env) (s : hdd_ipa_priv)
    (h : s.wake_lock_released = true → s.rm_state = .HDD_IPA_RM_RELEASED) :
    (hdd_ipa_wdi_rm_try_release env s).2.wake_lock_released = true →
      (hdd_ipa_wdi_rm_try_release env s).2.rm_state = .HDD_IPA_RM_RELEASED := by
  unfold hdd_ipa_wdi_rm_try_release
  split_ifs
  · exact h
  · exact h
  · exact h
  · cases hs : s.rm_state with
    | HDD_IPA_RM_RELEASED => simp [hs]
    | HDD_IPA_RM_GRANT_PENDING => simpa [hs] using h
    | HDD_IPA_RM_GRANTED =>
      dsimp only
      intro hw
      have : s.wake_lock_released = true := by
        split_ifs at hw <;> simpa using hw
      rw [h this] at hs
      exact absurd hs (by decide)

theorem wake_lock_timer_func_wake_lock (env : Env) (s : hdd_ipa_priv)
    (h : s.wake_lock_released = true → s.rm_state = .HDD_IPA_RM_RELEASED) :
    (hdd_ipa_wake_lock_timer_func env s).wake_lock_released = true →
      (hdd_ipa_wake_lock_timer_func env s).rm_state = .HDD_IPA_RM_RELEASED := by
  unfold hdd_ipa_wake_lock_timer_func
  split_ifs with h1
  · exact h
  · intro _
    simpa using h1

theorem rm_notify_wake_lock (env : Env) (s : hdd_ipa_priv) (ev : ipa_rm_event)
    (hp : ev = .IPA_RM_RESOURCE_GRANTED → s.rm_state = .HDD_IPA_RM_GRANT_PENDING)
    (h : s.wake_lock_released = true → s.rm_state = .HDD_IPA_RM_RELEASED) :
    (hdd_ipa_rm_notify env s ev).wake_lock_released = true →
      (hdd_ipa_rm_notify env s ev).rm_state = .HDD_IPA_RM_RELEASED := by
  unfold hdd_ipa_rm_notify
  cases ev with
  | IPA_RM_RESOURCE_GRANTED =>
    dsimp only
    split_ifs
    · exact h
    · exact h
    · intro hw
      have hw1 : s.wake_lock_released = true := hw
      have := h hw1
      rw [hp rfl] at this
      exact absurd this (by decide)
  | IPA_RM_RESOURCE_RELEASED =>
    dsimp only
    split_ifs <;> exact h
  | other =>
    dsimp only
    split_ifs <;> exact h

theorem rm_notify_defer_wake_lock (env : Env) (s : hdd_ipa_priv)
    (h : s.wake_lock_released = true → s.rm_state = .HDD_IPA_RM_RELEASED) :
    (hdd_ipa_uc_rm_notify_defer env s).wake_lock_released = true →
      (hdd_ipa_uc_rm_notify_defer env s).rm_state = .HDD_IPA_RM_RELEASED := by
  unfold hdd_ipa_uc_rm_notify_defer hdd_ipa_uc_rm_notify_handler
  generalize s.uc_rm_work_event = ev
  cases ev with
  | IPA_RM_RESOURCE_GRANTED =>
    dsimp only
    split_ifs
    · exact h
    · exact h
    · simpa using h
    · exact h
  | IPA_RM_RESOURCE_RELEASED =>
    dsimp only
    split_ifs <;> exact h
  | other =>
    dsimp only
    split_ifs <;> exact h

theorem rm_step_wake_lock (env : Env) (s s1 : hdd_ipa_priv) (st : RmStep)
    (hst : rm_step env s st = some s1)
    (h : s.wake_lock_released = true → s.rm_state = .HDD_IPA_RM_RELEASED) :
    s1.wake_lock_released = true → s1.rm_state = .HDD_IPA_RM_RELEASED := by
  cases st with
  | request =>
    simp only [rm_step, Option.some.injEq] at hst
    subst hst
    exact rm_request_wake_lock env s h
  | try_release =>
    simp only [rm_step, Option.some.injEq] at hst
    subst hst
    exact rm_try_release_wake_lock env s h
  | timer =>
    simp only [rm_step, Option.some.injEq] at hst
    subst hst
    exact wake_lock_timer_func_wake_lock env s h
  | notify ev =>
    simp only [rm_step] at hst
    split_ifs at hst with hc
    simp only [Option.some.injEq] at hst
    subst hst
    refine rm_notify_wake_lock env s ev (fun he => ?_) h
    by_contra hn
    exact hc ⟨he, hn⟩
  | defer =>
    simp only [rm_step, Option.some.injEq] at hst
    subst hst
    exact rm_notify_defer_wake_lock env s h

theorem rm_run_wake_lock (env : Env) (steps : List RmStep) (s s1 : hdd_ipa_priv)
    (hrun : rm_run env s steps = some s1)
    (h : s.wake_lock_released = true → s.rm_state = .HDD_IPA_RM_RELEASED) :
    s1.wake_lock_released = true → s1.rm_state = .HDD_IPA_RM_RELEASED := by
  induction steps generalizing s with
  | nil =>
    simp only [rm_run, Option.some.injEq] at hrun
    subst hrun
    exact h
  | cons st rest ih =>
    unfold rm_run at hrun
    cases hst : rm_step env s st with
    | none => rw [hst] at hrun; simp at hrun
    | some s2 =>
      rw [hst] at hrun
      exact ih s2 hrun (rm_step_wake_lock env s s2 st hst h)

theorem setup_rm_released (env : Env) (s : hdd_ipa_priv)
    (hrm : hdd_ipa_is_rm_enabled s = true) (h0 : (hdd_ipa_wdi_setup_rm env s).1 = 0) :
    (hdd_ipa_wdi_setup_rm env s).2.rm_state = .HDD_IPA_RM_RELEASED ∧
    (hdd_ipa_wdi_setup_rm env s).2.wake_lock_released = true := by
  unfold hdd_ipa_wdi_setup_rm at h0 ⊢
  rw [if_neg (by simp [hrm])] at h0 ⊢
  dsimp only at h0 ⊢
  split_ifs at h0 ⊢ with h1 h2 h3
  · exact absurd h0 h1
  · exact absurd h0 h2
  · exact absurd h0 h3
  · exact ⟨rfl, rfl⟩

/-- C27: `hdd_ipa_wake_lock_timer_func` does nothing unless `rm_state` is
released when it runs, and then releases the wake lock and sets
`wake_lock_released`.  A request made in the released state cancels the
delayed work and leaves `wake_lock_released` false, acquiring the wake lock
if it had been released.  In every state reached from a successful
`hdd_ipa_wdi_setup_rm` by requests, release attempts, runs of the delayed
work, notifications (a grant being delivered only while a grant is pending)
and runs of the deferred handler, `wake_lock_released` implies that
`rm_state` is released. -/
theorem wake_lock_released_inv (env : Env) (s t s1 : hdd_ipa_priv) (steps : List RmStep)
    (hrm : hdd_ipa_is_rm_enabled s = true)
    (hsetup : (hdd_ipa_wdi_setup_rm env s).1 = 0)
    (hrun : rm_run env (hdd_ipa_wdi_setup_rm env s).2 steps = some s1) :
    (t.rm_state ≠ .HDD_IPA_RM_RELEASED → hdd_ipa_wake_lock_timer_func env t = t) ∧
    (t.rm_state = .HDD_IPA_RM_RELEASED →
      (hdd_ipa_wake_lock_timer_func env t).wake_lock_released = true ∧
      (hdd_ipa_wake_lock_timer_func env t).calls = t.calls ++ [.qdf_wake_lock_release]) ∧
    (hdd_ipa_is_rm_enabled t = true → t.rm_state = .HDD_IPA_RM_RELEASED →
      (hdd_ipa_wdi_rm_request env t).2.rm_state ≠ .HDD_IPA_RM_RELEASED ∧
      (hdd_ipa_wdi_rm_request env t).2.wake_lock_released = false ∧
      .cancel_delayed_work_wake_lock_work ∈ (hdd_ipa_wdi_rm_request env t).2.calls ∧
      (t.wake_lock_released = true →
        .qdf_wake_lock_acquire ∈ (hdd_ipa_wdi_rm_request env t).2.calls)) ∧
    (s1.wake_lock_released = true → s1.rm_state = .HDD_IPA_RM_RELEASED) := by
  refine ⟨?_, ?_, ?_, ?_⟩
  · intro h
    unfold hdd_ipa_wake_lock_timer_func
    rw [if_pos h]
  · intro h
    unfold hdd_ipa_wake_lock_timer_func
    rw [if_neg (by simp [h])]
    exact ⟨rfl, rfl⟩
  · intro hen hr
    unfold hdd_ipa_wdi_rm_request
    rw [if_neg (by simp [hen]), hr]
    dsimp only
    refine ⟨?_, ?_, ?_, ?_⟩
    · split_ifs <;> simp
    · split_ifs <;> simp_all
    · split_ifs <;> simp [call_calls]
    · intro hw
      split_ifs <;> simp_all [call_calls]
  · have hs := setup_rm_released env s hrm hsetup
    exact rm_run_wake_lock env steps _ s1 hrun (fun _ => hs.1)

/-- Witness of `wake_lock_released_inv`: after the set-up, a request that
is granted at once, a release and a run of the delayed work leave the wake
lock released and the resource released; a run of the delayed work while
the resource is granted changes nothing. -/
theorem wake_lock_released_inv_witness :
    (rm_run env_zero (hdd_ipa_wdi_setup_rm env_zero (priv_init 41)).2
      [.request, .try_release, .timer]).isSome = true ∧
    ((rm_run env_zero (hdd_ipa_wdi_setup_rm env_zero (priv_init 41)).2
      [.request, .try_release, .timer]).getD (priv_init 41)).wake_lock_released = true ∧
    ((rm_run env_zero (hdd_ipa_wdi_setup_rm env_zero (priv_init 41)).2
      [.request, .try_release, .timer]).getD (priv_init 41)).rm_state =
      .HDD_IPA_RM_RELEASED ∧
    hdd_ipa_wake_lock_timer_func env_zero priv_unloading = priv_unloading ∧
    (hdd_ipa_wdi_rm_request env_zero (priv_init 41)).2.wake_lock_released = false :=
  have h := wake_lock_released_inv env_zero (priv_init 41) priv_unloading
    ((rm_run env_zero (hdd_ipa_wdi_setup_rm env_zero (priv_init 41)).2
      [.request, .try_release, .timer]).getD (priv_init 41))
    [.request, .try_release, .timer] (by decide) (by decide) (by decide)
  have h2 := wake_lock_released_inv env_zero (priv_init 41) (priv_init 41)
    (hdd_ipa_wdi_setup_rm env_zero (priv_init 41)).2 [] (by decide) (by decide) rfl
  ⟨by decide, by decide, h.2.2.2 (by decide), h.1 (by decide),
    (h2.2.2.1 (by decide) (by decide)).2.1⟩

/-! ## Subsystem restart -/

@[simp] theorem uc_send_evt_rm_state (env : Env) (s : hdd_ipa_priv) (t : Nat) :
    (hdd_ipa_uc_send_evt env s t).2.rm_state = s.rm_state := by
  unfold hdd_ipa_uc_send_evt
  dsimp only
  split_ifs <;> simp

@[simp] theorem uc_send_evt_IpaConfig (env : Env) (s : hdd_ipa_priv) (t : Nat) :
    (hdd_ipa_uc_send_evt env s t).2.IpaConfig = s.IpaConfig := by
  unfold hdd_ipa_uc_send_evt
  dsimp only
  split_ifs <;> simp

@[simp] theorem uc_send_evt_assoc_stas_map (env : Env) (s : hdd_ipa_priv) (t : Nat) :
    (hdd_ipa_uc_send_evt env s t).2.assoc_stas_map = s.assoc_stas_map := by
  unfold hdd_ipa_uc_send_evt
  dsimp only
  split_ifs <;> simp

@[simp] theorem uc_disconnect_client_rm_state (env : Env) (s : hdd_ipa_priv) (l : List hdd_station_info) :
    (hdd_ipa_uc_disconnect_client env s l).rm_state = s.rm_state := by
  induction l generalizing s with
  | nil => rfl
  | cons i rest ih =>
    unfold hdd_ipa_uc_disconnect_client
    split_ifs
    · exact ih s
    · rw [ih]
      simp
    · exact ih s

@[simp] theorem uc_disconnect_client_IpaConfig (env : Env) (s : hdd_ipa_priv) (l : List hdd_station_info) :
    (hdd_ipa_uc_disconnect_client env s l).IpaConfig = s.IpaConfig := by
  induction l generalizing s with
  | nil => rfl
  | cons i rest ih =>
    unfold hdd_ipa_uc_disconnect_client
    split_ifs
    · exact ih s
    · rw [ih]
      simp
    · exact ih s

@[simp] theorem uc_disconnect_client_assoc_stas_map (env : Env) (s : hdd_ipa_priv) (l : List hdd_station_info) :
    (hdd_ipa_uc_disconnect_client env s l).assoc_stas_map = s.assoc_stas_map := by
  induction l generalizing s with
  | nil => rfl
  | cons i rest ih =>
    unfold hdd_ipa_uc_disconnect_client
    split_ifs
    · exact ih s
    · rw [ih]
      simp
    · exact ih s

@[simp] theorem uc_disconnect_ap_rm_state (env : Env) (s : hdd_ipa_priv) (a : Nat) :
    (hdd_ipa_uc_disconnect_ap env s a).rm_state = s.rm_state := by
  unfold hdd_ipa_uc_disconnect_ap
  split_ifs <;> simp

@[simp] theorem uc_disconnect_ap_IpaConfig (env : Env) (s : hdd_ipa_priv) (a : Nat) :
    (hdd_ipa_uc_disconnect_ap env s a).IpaConfig = s.IpaConfig := by
  unfold hdd_ipa_uc_disconnect_ap
  split_ifs <;> simp

@[simp] theorem uc_disconnect_ap_assoc_stas_map (env : Env) (s : hdd_ipa_priv) (a : Nat) :
    (hdd_ipa_uc_disconnect_ap env s a).assoc_stas_map = s.assoc_stas_map := by
  unfold hdd_ipa_uc_disconnect_ap
  split_ifs <;> simp

@[simp] theorem uc_disconnect_sta_rm_state (env : Env) (s : hdd_ipa_priv) :
    (hdd_ipa_uc_disconnect_sta env s).rm_state = s.rm_state := by
  unfold hdd_ipa_uc_disconnect_sta
  split_ifs <;> simp

@[simp] theorem uc_disconnect_sta_IpaConfig (env : Env) (s : hdd_ipa_priv) :
    (hdd_ipa_uc_disconnect_sta env s).IpaConfig = s.IpaConfig := by
  unfold hdd_ipa_uc_disconnect_sta
  split_ifs <;> simp

@[simp] theorem uc_disconnect_sta_assoc_stas_map (env : Env) (s : hdd_ipa_priv) :
    (hdd_ipa_uc_disconnect_sta env s).assoc_stas_map = s.assoc_stas_map := by
  unfold hdd_ipa_uc_disconnect_sta
  split_ifs <;> simp

@[simp] theorem uc_disconnect_rm_state (env : Env) (s : hdd_ipa_priv) (l : List Nat) :
    (hdd_ipa_uc_disconnect env s l).rm_state = s.rm_state := by
  induction l generalizing s with
  | nil => rfl
  | cons a rest ih =>
    unfold hdd_ipa_uc_disconnect
    dsimp only
    rw [ih]
    split_ifs <;> simp

@[simp] theorem uc_disconnect_IpaConfig (env : Env) (s : hdd_ipa_priv) (l : List Nat) :
    (hdd_ipa_uc_disconnect env s l).IpaConfig = s.IpaConfig := by
  induction l generalizing s with
  | nil => rfl
  | cons a rest ih =>
    unfold hdd_ipa_uc_disconnect
    dsimp only
    rw [ih]
    split_ifs <;> simp

@[simp] theorem uc_disconnect_assoc_stas_map (env : Env) (s : hdd_ipa_priv) (l : List Nat) :
    (hdd_ipa_uc_disconnect env s l).assoc_stas_map = s.assoc_stas_map := by
  induction l generalizing s with
  | nil => rfl
  | cons a rest ih =>
    unfold hdd_ipa_uc_disconnect
    dsimp only
    rw [ih]
    split_ifs <;> simp

@[simp] theorem ssr_cleanup_ifaces_rm_state (env : Env) (s : hdd_ipa_priv) (idx k : Nat) :
    (ssr_cleanup_ifaces env s idx k).rm_state = s.rm_state := by
  induction k generalizing s idx with
  | zero => rfl
  | succ k ih =>
    unfold ssr_cleanup_ifaces
    dsimp only
    split_ifs
    · rfl
    · rw [ih]
      split
      · split_ifs <;> simp
      · rfl

@[simp] theorem ssr_cleanup_ifaces_IpaConfig (env : Env) (s : hdd_ipa_priv) (idx k : Nat) :
    (ssr_cleanup_ifaces env s idx k).IpaConfig = s.IpaConfig := by
  induction k generalizing s idx with
  | zero => rfl
  | succ k ih =>
    unfold ssr_cleanup_ifaces
    dsimp only
    split_ifs
    · rfl
    · rw [ih]
      split
      · split_ifs <;> simp
      · rfl

@[simp] theorem ssr_cleanup_ifaces_assoc_stas_map (env : Env) (s : hdd_ipa_priv) (idx k : Nat) :
    (ssr_cleanup_ifaces env s idx k).assoc_stas_map = s.assoc_stas_map := by
  induction k generalizing s idx with
  | zero => rfl
  | succ k ih =>
    unfold ssr_cleanup_ifaces
    dsimp only
    split_ifs
    · rfl
    · rw [ih]
      split
      · split_ifs <;> simp
      · rfl

@[simp] theorem ssr_cancel_op_work_rm_state (env : Env) (s : hdd_ipa_priv) (idx k : Nat) :
    (ssr_cancel_op_work env s idx k).rm_state = s.rm_state := by
  induction k generalizing s idx with
  | zero => rfl
  | succ k ih =>
    unfold ssr_cancel_op_work
    dsimp only
    rw [ih]
    rfl

@[simp] theorem ssr_cancel_op_work_IpaConfig (env : Env) (s : hdd_ipa_priv) (idx k : Nat) :
    (ssr_cancel_op_work env s idx k).IpaConfig = s.IpaConfig := by
  induction k generalizing s idx with
  | zero => rfl
  | succ k ih =>
    unfold ssr_cancel_op_work
    dsimp only
    rw [ih]
    rfl

@[simp] theorem ssr_cancel_op_work_assoc_stas_map (env : Env) (s : hdd_ipa_priv) (idx k : Nat) :
    (ssr_cancel_op_work env s idx k).assoc_stas_map = s.assoc_stas_map := by
  induction k generalizing s idx with
  | zero => rfl
  | succ k ih =>
    unfold ssr_cancel_op_work
    dsimp only
    rw [ih]
    rfl

@[simp] theorem ssr_cancel_op_work_num_iface (env : Env) (s : hdd_ipa_priv) (idx k : Nat) :
    (ssr_cancel_op_work env s idx k).num_iface = s.num_iface := by
  induction k generalizing s idx with
  | zero => rfl
  | succ k ih =>
    unfold ssr_cancel_op_work
    dsimp only
    rw [ih]
    rfl

@[simp] theorem ssr_cancel_op_work_sta_connected (env : Env) (s : hdd_ipa_priv) (idx k : Nat) :
    (ssr_cancel_op_work env s idx k).sta_connected = s.sta_connected := by
  induction k generalizing s idx with
  | zero => rfl
  | succ k ih =>
    unfold ssr_cancel_op_work
    dsimp only
    rw [ih]
    rfl


theorem ssr_deinit_ret (env : Env) (s : hdd_ipa_priv) : (__hdd_ipa_uc_ssr_deinit env s).1 = 0 := by
  unfold __hdd_ipa_uc_ssr_deinit
  split_ifs <;> rfl

@[simp] theorem ssr_deinit_rm_state (env : Env) (s : hdd_ipa_priv) :
    (__hdd_ipa_uc_ssr_deinit env s).2.rm_state = s.rm_state := by
  unfold __hdd_ipa_uc_ssr_deinit
  dsimp only
  split_ifs <;> simp

@[simp] theorem ssr_deinit_IpaConfig (env : Env) (s : hdd_ipa_priv) :
    (__hdd_ipa_uc_ssr_deinit env s).2.IpaConfig = s.IpaConfig := by
  unfold __hdd_ipa_uc_ssr_deinit
  dsimp only
  split_ifs <;> simp

theorem ssr_deinit_tables (env : Env) (s : hdd_ipa_priv)
    (huc : hdd_ipa_uc_is_enabled s = true) :
    (__hdd_ipa_uc_ssr_deinit env s).2.num_iface = 0 ∧
    (∀ e ∈ (__hdd_ipa_uc_ssr_deinit env s).2.assoc_stas_map,
      e = { is_reserved := false, sta_id := 0xFF }) ∧
    (__hdd_ipa_uc_ssr_deinit env s).2.assoc_stas_map.length = s.assoc_stas_map.length := by
  unfold __hdd_ipa_uc_ssr_deinit
  rw [if_neg (by simp [huc])]
  dsimp only
  refine ⟨?_, ?_, ?_⟩
  · split_ifs <;> simp
  · intro e he
    have : e ∈ (ssr_cleanup_ifaces env (hdd_ipa_uc_disconnect env s env.adapters) 0
        (hdd_ipa_uc_disconnect env s env.adapters).iface_context.length).assoc_stas_map.map
        (fun _ => ({ is_reserved := false, sta_id := 0xFF } : ipa_uc_stas_map)) := by
      split_ifs at he <;> simpa using he
    obtain ⟨_, _, h⟩ := List.mem_map.mp this
    exact h.symm
  · split_ifs <;> simp

theorem ssr_deinit_uc_is_enabled (env : Env) (s : hdd_ipa_priv) :
    hdd_ipa_uc_is_enabled (__hdd_ipa_uc_ssr_deinit env s).2 = hdd_ipa_uc_is_enabled s := by
  simp [hdd_ipa_uc_is_enabled, HDD_IPA_IS_CONFIG_ENABLED]

theorem ssr_reinit_of_enabled (s : hdd_ipa_priv) (huc : hdd_ipa_uc_is_enabled s = true) :
    __hdd_ipa_uc_ssr_reinit s =
      (0, { s with
        iface_context := s.iface_context.enum.map (fun p =>
          { p.2 with iface_id := p.1, adapter := none }),
        resource_loading := false,
        resource_unloading := false,
        sta_connected := 0,
        ipa_pipes_down := true,
        uc_loaded := true }) := by
  unfold __hdd_ipa_uc_ssr_reinit
  rw [if_neg (by simp [huc])]

/-- C23, as far as it holds: with uC offload enabled,
`__hdd_ipa_uc_ssr_deinit` followed by `__hdd_ipa_uc_ssr_reinit` both return
0 and, whatever the state before, leave `num_iface` 0, no interface context
holding an adapter, every entry of `assoc_stas_map` not reserved (the table
keeps its size), `resource_loading` and `resource_unloading` false and
`ipa_pipes_down` true.  Neither function writes `rm_state`: it is what it
was before the restart. -/
theorem ssr_restart (env : Env) (s : hdd_ipa_priv) (huc : hdd_ipa_uc_is_enabled s = true) :
    (__hdd_ipa_uc_ssr_deinit env s).1 = 0 ∧
    (__hdd_ipa_uc_ssr_reinit (__hdd_ipa_uc_ssr_deinit env s).2).1 = 0 ∧
    (__hdd_ipa_uc_ssr_reinit (__hdd_ipa_uc_ssr_deinit env s).2).2.num_iface = 0 ∧
    (∀ c ∈ (__hdd_ipa_uc_ssr_reinit (__hdd_ipa_uc_ssr_deinit env s).2).2.iface_context,
      c.adapter = none) ∧
    (∀ e ∈ (__hdd_ipa_uc_ssr_reinit (__hdd_ipa_uc_ssr_deinit env s).2).2.assoc_stas_map,
      e.is_reserved = false) ∧
    (__hdd_ipa_uc_ssr_reinit (__hdd_ipa_uc_ssr_deinit env s).2).2.assoc_stas_map.length =
      s.assoc_stas_map.length ∧
    (__hdd_ipa_uc_ssr_reinit (__hdd_ipa_uc_ssr_deinit env s).2).2.resource_loading = false ∧
    (__hdd_ipa_uc_ssr_reinit (__hdd_ipa_uc_ssr_deinit env s).2).2.resource_unloading = false ∧
    (__hdd_ipa_uc_ssr_reinit (__hdd_ipa_uc_ssr_deinit env s).2).2.ipa_pipes_down = true ∧
    (__hdd_ipa_uc_ssr_reinit (__hdd_ipa_uc_ssr_deinit env s).2).2.rm_state = s.rm_state := by
  have hen : hdd_ipa_uc_is_enabled (__hdd_ipa_uc_ssr_deinit env s).2 = true := by
    rw [ssr_deinit_uc_is_enabled, huc]
  obtain ⟨hn, hm, hl⟩ := ssr_deinit_tables env s huc
  rw [ssr_reinit_of_enabled _ hen]
  refine ⟨ssr_deinit_ret env s, rfl, hn, ?_, ?_, hl, rfl, rfl, rfl, ssr_deinit_rm_state env s⟩
  · intro c hc
    obtain ⟨p, _, hp⟩ := List.mem_map.mp hc
    rw [← hp]
  · intro e he
    rw [hm e he]

/-- Witness of `ssr_restart`: a restart while a station is connected to the
soft access point. -/
theorem ssr_restart_witness :
    (__hdd_ipa_uc_ssr_reinit (__hdd_ipa_uc_ssr_deinit env_zero priv_station).2).2.num_iface =
      0 ∧
    (__hdd_ipa_uc_ssr_reinit
      (__hdd_ipa_uc_ssr_deinit env_zero priv_station).2).2.assoc_stas_map.length = 4 ∧
    (__hdd_ipa_uc_ssr_reinit (__hdd_ipa_uc_ssr_deinit env_zero priv_station).2).2.rm_state =
      .HDD_IPA_RM_RELEASED :=
  have h := ssr_restart env_zero priv_station (by decide)
  ⟨h.2.2.1, h.2.2.2.2.2.1, h.2.2.2.2.2.2.2.2.2⟩

/-- Counterexample to C23 as stated: a restart that starts with the
resource granted ends with the resource granted, not released. -/
theorem ssr_restart_counterexample :
    hdd_ipa_uc_is_enabled { priv_station with rm_state := .HDD_IPA_RM_GRANTED } = true ∧
    (__hdd_ipa_uc_ssr_reinit (__hdd_ipa_uc_ssr_deinit env_zero
      { priv_station with rm_state := .HDD_IPA_RM_GRANTED }).2).2.rm_state =
      .HDD_IPA_RM_GRANTED := by
  decide

/-! ## Frame lemmas: the flag `wdi_enabled` -/

@[simp] theorem call_wdi_enabled (env : Env) (c : ExtCall) (s : hdd_ipa_priv) :
    (call env c s).2.wdi_enabled = s.wdi_enabled := rfl

@[simp] theorem wdi_enable_pipes_wdi_enabled (env : Env) (s : hdd_ipa_priv) :
    (hdd_ipa_wdi_enable_pipes env s).2.wdi_enabled = s.wdi_enabled := by
  unfold hdd_ipa_wdi_enable_pipes
  dsimp only
  split_ifs <;> simp

@[simp] theorem uc_enable_pipes_wdi_enabled (env : Env) (s : hdd_ipa_priv) :
    (hdd_ipa_uc_enable_pipes env s).2.wdi_enabled = s.wdi_enabled := by
  unfold hdd_ipa_uc_enable_pipes
  dsimp only
  split_ifs <;> simp

@[simp] theorem wdi_disable_pipes_wdi_enabled (env : Env) (s : hdd_ipa_priv) :
    (hdd_ipa_wdi_disable_pipes env s).2.wdi_enabled = s.wdi_enabled := by
  unfold hdd_ipa_wdi_disable_pipes
  dsimp only
  split_ifs <;> simp

@[simp] theorem uc_disable_pipes_wdi_enabled (env : Env) (s : hdd_ipa_priv) :
    (hdd_ipa_uc_disable_pipes env s).2.wdi_enabled = s.wdi_enabled := by
  unfold hdd_ipa_uc_disable_pipes
  dsimp only
  split_ifs <;> simp

@[simp] theorem handle_first_con_wdi_enabled (env : Env) (s : hdd_ipa_priv) :
    (hdd_ipa_uc_handle_first_con env s).2.wdi_enabled = s.wdi_enabled := by
  unfold hdd_ipa_uc_handle_first_con
  dsimp only
  split_ifs <;> simp

@[simp] theorem handle_last_discon_wdi_enabled (env : Env) (s : hdd_ipa_priv) :
    (hdd_ipa_uc_handle_last_discon env s).wdi_enabled = s.wdi_enabled := by
  unfold hdd_ipa_uc_handle_last_discon
  dsimp only
  split_ifs <;> simp

@[simp] theorem set_ipa_context_wdi_enabled (s : hdd_ipa_priv) (a : Nat) (c : Option Nat) :
    (set_ipa_context s a c).wdi_enabled = s.wdi_enabled := by
  unfold set_ipa_context
  cases c <;> rfl

@[simp] theorem modify_iface_wdi_enabled (s : hdd_ipa_priv) (i : Nat)
    (f : hdd_ipa_iface_context → hdd_ipa_iface_context) :
    (modify_iface s i f).wdi_enabled = s.wdi_enabled := by
  unfold modify_iface
  split <;> rfl

@[simp] theorem cleanup_iface_wdi_enabled (env : Env) (s : hdd_ipa_priv) (i : Option Nat) :
    (hdd_ipa_cleanup_iface env s i).wdi_enabled = s.wdi_enabled := by
  unfold hdd_ipa_cleanup_iface
  cases i with
  | none => rfl
  | some i =>
    dsimp only
    split_ifs <;> simp

@[simp] theorem setup_iface_wdi_enabled (env : Env) (s : hdd_ipa_priv) (a sta : Nat) :
    (hdd_ipa_setup_iface env s a sta).2.wdi_enabled = s.wdi_enabled := by
  unfold hdd_ipa_setup_iface
  cases find_free_iface s.iface_context 0 with
  | none =>
    dsimp only
    split_ifs <;> rfl
  | some i =>
    dsimp only
    split_ifs <;> simp

@[simp] theorem offload_enable_disable_wdi_enabled (env : Env) (s : hdd_ipa_priv)
    (a t : Nat) (b : Bool) :
    (hdd_ipa_uc_offload_enable_disable env s a t b).wdi_enabled = s.wdi_enabled := by
  unfold hdd_ipa_uc_offload_enable_disable
  dsimp only
  split_ifs <;> simp

@[simp] theorem set_vdev_to_iface_wdi_enabled (env : Env) (s : hdd_ipa_priv) (a v : Nat) :
    (set_vdev_to_iface env s a v).wdi_enabled = s.wdi_enabled := rfl

@[simp] theorem stats_event_inc_wdi_enabled (s : hdd_ipa_priv) (t : Nat) :
    (stats_event_inc s t).wdi_enabled = s.wdi_enabled := rfl

@[simp] theorem send_wlan_msg_wdi_enabled (env : Env) (s : hdd_ipa_priv) (t : Nat) :
    (send_wlan_msg env s t).2.wdi_enabled = s.wdi_enabled := by
  unfold send_wlan_msg
  dsimp only
  split_ifs <;> simp

@[simp] theorem find_add_assoc_sta_wdi_enabled (s : hdd_ipa_priv) (b : Bool) (sta : Nat) :
    (hdd_ipa_uc_find_add_assoc_sta s b sta).2.wdi_enabled = s.wdi_enabled := by
  unfold hdd_ipa_uc_find_add_assoc_sta
  dsimp only
  split_ifs <;> rfl

@[simp] theorem pending_event_insert_wdi_enabled (env : Env) (s : hdd_ipa_priv)
    (ev : ipa_uc_pending_event) :
    (pending_event_insert env s ev).2.wdi_enabled = s.wdi_enabled := by
  unfold pending_event_insert
  dsimp only
  split_ifs <;> simp

@[simp] theorem queue_pending_event_wdi_enabled (env : Env) (s : hdd_ipa_priv)
    (a sta t : Nat) (mac : List Nat) :
    (queue_pending_event env s a sta t mac).2.wdi_enabled = s.wdi_enabled := by
  unfold queue_pending_event
  dsimp only
  split_ifs
  · cases s.pending_event <;> simp
  · simp
  · simp

@[simp] theorem client_connect_first_sta_wdi_enabled (env : Env) (s : hdd_ipa_priv) :
    (client_connect_first_sta env s).2.wdi_enabled = s.wdi_enabled := by
  unfold client_connect_first_sta
  dsimp only
  split_ifs <;> simp

@[simp] theorem client_disconnect_last_sta_wdi_enabled (env : Env) (s : hdd_ipa_priv) :
    (client_disconnect_last_sta env s).wdi_enabled = s.wdi_enabled := by
  unfold client_disconnect_last_sta
  dsimp only
  split_ifs <;> simp

@[simp] theorem wlan_evt_sta_connect_wdi_enabled (env : Env) (s : hdd_ipa_priv)
    (a sta t : Nat) :
    (wlan_evt_sta_connect env s a sta t).2.wdi_enabled = s.wdi_enabled := by
  unfold wlan_evt_sta_connect
  dsimp only
  split_ifs <;> simp

@[simp] theorem wlan_evt_ap_connect_wdi_enabled (env : Env) (s : hdd_ipa_priv)
    (a sta t : Nat) :
    (wlan_evt_ap_connect env s a sta t).2.wdi_enabled = s.wdi_enabled := by
  unfold wlan_evt_ap_connect
  dsimp only
  split_ifs <;> simp

@[simp] theorem wlan_evt_sta_disconnect_wdi_enabled (env : Env) (s : hdd_ipa_priv)
    (a t : Nat) :
    (wlan_evt_sta_disconnect env s a t).2.wdi_enabled = s.wdi_enabled := by
  unfold wlan_evt_sta_disconnect
  dsimp only
  split_ifs <;> simp

@[simp] theorem wlan_evt_ap_disconnect_wdi_enabled (env : Env) (s : hdd_ipa_priv)
    (a t : Nat) :
    (wlan_evt_ap_disconnect env s a t).2.wdi_enabled = s.wdi_enabled := by
  unfold wlan_evt_ap_disconnect
  dsimp only
  split_ifs <;> simp

@[simp] theorem wlan_evt_client_connect_ex_wdi_enabled (env : Env) (s : hdd_ipa_priv)
    (sta t : Nat) :
    (wlan_evt_client_connect_ex env s sta t).2.wdi_enabled = s.wdi_enabled := by
  unfold wlan_evt_client_connect_ex
  dsimp only
  split_ifs <;> simp

@[simp] theorem wlan_evt_client_disconnect_wdi_enabled (env : Env) (s : hdd_ipa_priv)
    (sta t : Nat) :
    (wlan_evt_client_disconnect env s sta t).2.wdi_enabled = s.wdi_enabled := by
  unfold wlan_evt_client_disconnect
  dsimp only
  split_ifs <;> simp

@[simp] theorem wlan_evt_switch_wdi_enabled (env : Env) (s : hdd_ipa_priv) (a sta t : Nat) :
    (wlan_evt_switch env s a sta t).2.wdi_enabled = s.wdi_enabled := by
  unfold wlan_evt_switch
  split_ifs <;> simp

@[simp] theorem wlan_evt_wdi_enabled (env : Env) (s : hdd_ipa_priv)
    (a sta t : Nat) (mac : List Nat) :
    (__hdd_ipa_wlan_evt env s a sta t mac).2.wdi_enabled = s.wdi_enabled := by
  unfold __hdd_ipa_wlan_evt
  dsimp only
  split_ifs <;> simp

@[simp] theorem send_wdi_control_msg_wdi_enabled (env : Env) (s : hdd_ipa_priv) (b : Bool) :
    (hdd_ipa_uc_send_wdi_control_msg env s b).2.wdi_enabled = s.wdi_enabled := by
  unfold hdd_ipa_uc_send_wdi_control_msg
  dsimp only
  split_ifs <;> simp

@[simp] theorem flush_txrx_queues_wdi_enabled (env : Env) (s : hdd_ipa_priv) (l : List Nat) :
    (flush_txrx_queues env s l).wdi_enabled = s.wdi_enabled := by
  induction l generalizing s with
  | nil => rfl
  | cons a as ih =>
    unfold flush_txrx_queues
    dsimp only
    rw [ih]
    split_ifs <;> simp

@[simp] theorem send_mcc_scc_msg_wdi_enabled (env : Env) (s : hdd_ipa_priv) (b : Bool) :
    (hdd_ipa_send_mcc_scc_msg env s b).2.wdi_enabled = s.wdi_enabled := by
  unfold hdd_ipa_send_mcc_scc_msg
  dsimp only
  split_ifs <;> simp

@[simp] theorem setup_sys_pipe_fail_wdi_enabled (env : Env) (s : hdd_ipa_priv) (i : Nat) :
    (setup_sys_pipe_fail env s i).wdi_enabled = s.wdi_enabled := by
  induction i generalizing s with
  | zero => rfl
  | succ i ih =>
    unfold setup_sys_pipe_fail
    dsimp only
    rw [ih]
    simp

@[simp] theorem setup_sys_pipe_tx_wdi_enabled (env : Env) (s : hdd_ipa_priv) (i k : Nat) :
    (setup_sys_pipe_tx env s i k).2.2.wdi_enabled = s.wdi_enabled := by
  induction k generalizing s i with
  | zero => rfl
  | succ k ih =>
    unfold setup_sys_pipe_tx
    dsimp only
    split_ifs
    · simp
    · rw [ih]
      simp

@[simp] theorem alloc_tx_desc_list_wdi_enabled (env : Env) (s : hdd_ipa_priv) :
    (hdd_ipa_alloc_tx_desc_list env s).2.wdi_enabled = s.wdi_enabled := by
  unfold hdd_ipa_alloc_tx_desc_list
  dsimp only
  split_ifs <;> simp

@[simp] theorem setup_sys_pipe_wdi_enabled (env : Env) (s : hdd_ipa_priv) :
    (hdd_ipa_setup_sys_pipe env s).2.wdi_enabled = s.wdi_enabled := by
  unfold hdd_ipa_setup_sys_pipe
  dsimp only
  split_ifs <;> simp

@[simp] theorem wdi_conn_pipes_wdi_enabled (env : Env) (s : hdd_ipa_priv) :
    (hdd_ipa_wdi_conn_pipes env s).2.wdi_enabled = s.wdi_enabled := by
  unfold hdd_ipa_wdi_conn_pipes
  dsimp only
  split_ifs <;> simp

@[simp] theorem set_perf_level_wdi_enabled (env : Env) (s : hdd_ipa_priv) (tx rx : Nat) :
    (hdd_ipa_set_perf_level env s tx rx).2.wdi_enabled = s.wdi_enabled := by
  unfold hdd_ipa_set_perf_level
  dsimp only
  split_ifs <;> simp

@[simp] theorem init_perf_level_wdi_enabled (env : Env) (s : hdd_ipa_priv) :
    (hdd_ipa_init_perf_level env s).2.wdi_enabled = s.wdi_enabled := by
  unfold hdd_ipa_init_perf_level
  dsimp only
  split_ifs <;> simp

@[simp] theorem loaded_handler_sys_pipe_wdi_enabled (env : Env) (s : hdd_ipa_priv) :
    (loaded_handler_sys_pipe env s).2.wdi_enabled = s.wdi_enabled := by
  unfold loaded_handler_sys_pipe
  dsimp only
  split_ifs <;> simp

@[simp] theorem loaded_handler_connect_wdi_enabled (env : Env) (s : hdd_ipa_priv) :
    (loaded_handler_connect env s).wdi_enabled = s.wdi_enabled := by
  unfold loaded_handler_connect
  dsimp only
  split_ifs <;> simp

@[simp] theorem loaded_handler_wdi_enabled (env : Env) (s : hdd_ipa_priv) :
    (hdd_ipa_uc_loaded_handler env s).wdi_enabled = s.wdi_enabled := by
  unfold hdd_ipa_uc_loaded_handler
  dsimp only
  split_ifs <;> simp

@[simp] theorem op_metering_wdi_enabled (env : Env) (s : hdd_ipa_priv) (m : op_msg_type) :
    (hdd_ipa_uc_op_metering env s m).2.wdi_enabled = s.wdi_enabled := by
  unfold hdd_ipa_uc_op_metering
  dsimp only
  split_ifs <;> simp

@[simp] theorem uc_op_bw_cal_wdi_enabled (env : Env) (s : hdd_ipa_priv) (st : ipa_uc_fw_stats) :
    (uc_op_bw_cal env s st).wdi_enabled = s.wdi_enabled := rfl

@[simp] theorem suspend_pipes_wdi_enabled (env : Env) (s : hdd_ipa_priv) (op : Nat) :
    (uc_op_suspend_pipes env s op).wdi_enabled = s.wdi_enabled := by
  unfold uc_op_suspend_pipes
  split_ifs <;> simp

@[simp] theorem suspend_complete_wdi_enabled (env : Env) (s : hdd_ipa_priv) :
    (uc_op_suspend_complete env s).wdi_enabled = s.wdi_enabled := by
  unfold uc_op_suspend_complete
  dsimp only
  split_ifs <;> simp

/-! ## Frame lemmas: the number of `WLAN_WDI_ENABLE` messages -/

@[simp] theorem call_wdi_msgs (env : Env) (c : ExtCall) (s : hdd_ipa_priv) :
    List.count (ExtCall.ipa_send_msg WLAN_WDI_ENABLE) (call env c s).2.calls =
      List.count (ExtCall.ipa_send_msg WLAN_WDI_ENABLE) s.calls +
        if c = ExtCall.ipa_send_msg WLAN_WDI_ENABLE then 1 else 0 := by
  rw [call_calls, List.count_append]
  by_cases h : c = ExtCall.ipa_send_msg WLAN_WDI_ENABLE
  · simp [h]
  · simp [List.count_cons, h]

@[simp] theorem wdi_enable_pipes_wdi_msgs (env : Env) (s : hdd_ipa_priv) :
    List.count (ExtCall.ipa_send_msg WLAN_WDI_ENABLE) (hdd_ipa_wdi_enable_pipes env s).2.calls =
      List.count (ExtCall.ipa_send_msg WLAN_WDI_ENABLE) s.calls := by
  unfold hdd_ipa_wdi_enable_pipes
  dsimp only
  split_ifs <;> simp

@[simp] theorem uc_enable_pipes_wdi_msgs (env : Env) (s : hdd_ipa_priv) :
    List.count (ExtCall.ipa_send_msg WLAN_WDI_ENABLE) (hdd_ipa_uc_enable_pipes env s).2.calls =
      List.count (ExtCall.ipa_send_msg WLAN_WDI_ENABLE) s.calls := by
  unfold hdd_ipa_uc_enable_pipes
  dsimp only
  split_ifs <;> simp

@[simp] theorem wdi_disable_pipes_wdi_msgs (env : Env) (s : hdd_ipa_priv) :
    List.count (ExtCall.ipa_send_msg WLAN_WDI_ENABLE) (hdd_ipa_wdi_disable_pipes env s).2.calls =
      List.count (ExtCall.ipa_send_msg WLAN_WDI_ENABLE) s.calls := by
  unfold hdd_ipa_wdi_disable_pipes
  dsimp only
  split_ifs <;> simp

@[simp] theorem uc_disable_pipes_wdi_msgs (env : Env) (s : hdd_ipa_priv) :
    List.count (ExtCall.ipa_send_msg WLAN_WDI_ENABLE) (hdd_ipa_uc_disable_pipes env s).2.calls =
      List.count (ExtCall.ipa_send_msg WLAN_WDI_ENABLE) s.calls := by
  unfold hdd_ipa_uc_disable_pipes
  dsimp only
  split_ifs <;> simp

@[simp] theorem handle_first_con_wdi_msgs (env : Env) (s : hdd_ipa_priv) :
    List.count (ExtCall.ipa_send_msg WLAN_WDI_ENABLE) (hdd_ipa_uc_handle_first_con env s).2.calls =
      List.count (ExtCall.ipa_send_msg WLAN_WDI_ENABLE) s.calls := by
  unfold hdd_ipa_uc_handle_first_con
  dsimp only
  split_ifs <;> simp

@[simp] theorem handle_last_discon_wdi_msgs (env : Env) (s : hdd_ipa_priv) :
    List.count (ExtCall.ipa_send_msg WLAN_WDI_ENABLE) (hdd_ipa_uc_handle_last_discon env s).calls =
      List.count (ExtCall.ipa_send_msg WLAN_WDI_ENABLE) s.calls := by
  unfold hdd_ipa_uc_handle_last_discon
  dsimp only
  split_ifs <;> simp

@[simp] theorem set_ipa_context_wdi_msgs (s : hdd_ipa_priv) (a : Nat) (c : Option Nat) :
    List.count (ExtCall.ipa_send_msg WLAN_WDI_ENABLE) (set_ipa_context s a c).calls =
      List.count (ExtCall.ipa_send_msg WLAN_WDI_ENABLE) s.calls := by
  unfold set_ipa_context
  cases c <;> rfl

@[simp] theorem modify_iface_wdi_msgs (s : hdd_ipa_priv) (i : Nat)
    (f : hdd_ipa_iface_context → hdd_ipa_iface_context) :
    List.count (ExtCall.ipa_send_msg WLAN_WDI_ENABLE) (modify_iface s i f).calls =
      List.count (ExtCall.ipa_send_msg WLAN_WDI_ENABLE) s.calls := by
  unfold modify_iface
  split <;> rfl

@[simp] theorem cleanup_iface_wdi_msgs (env : Env) (s : hdd_ipa_priv) (i : Option Nat) :
    List.count (ExtCall.ipa_send_msg WLAN_WDI_ENABLE) (hdd_ipa_cleanup_iface env s i).calls =
      List.count (ExtCall.ipa_send_msg WLAN_WDI_ENABLE) s.calls := by
  unfold hdd_ipa_cleanup_iface
  cases i with
  | none => rfl
  | some i =>
    dsimp only
    split_ifs <;> simp

@[simp] theorem setup_iface_wdi_msgs (env : Env) (s : hdd_ipa_priv) (a sta : Nat) :
    List.count (ExtCall.ipa_send_msg WLAN_WDI_ENABLE) (hdd_ipa_setup_iface env s a sta).2.calls =
      List.count (ExtCall.ipa_send_msg WLAN_WDI_ENABLE) s.calls := by
  unfold hdd_ipa_setup_iface
  cases find_free_iface s.iface_context 0 with
  | none =>
    dsimp only
    split_ifs <;> rfl
  | some i =>
    dsimp only
    split_ifs <;> simp

@[simp] theorem offload_enable_disable_wdi_msgs (env : Env) (s : hdd_ipa_priv)
    (a t : Nat) (b : Bool) :
    List.count (ExtCall.ipa_send_msg WLAN_WDI_ENABLE) (hdd_ipa_uc_offload_enable_disable env s a t b).calls =
      List.count (ExtCall.ipa_send_msg WLAN_WDI_ENABLE) s.calls := by
  unfold hdd_ipa_uc_offload_enable_disable
  dsimp only
  split_ifs <;> simp

@[simp] theorem set_vdev_to_iface_wdi_msgs (env : Env) (s : hdd_ipa_priv) (a v : Nat) :
    List.count (ExtCall.ipa_send_msg WLAN_WDI_ENABLE) (set_vdev_to_iface env s a v).calls =
      List.count (ExtCall.ipa_send_msg WLAN_WDI_ENABLE) s.calls := rfl

@[simp] theorem stats_event_inc_wdi_msgs (s : hdd_ipa_priv) (t : Nat) :
    List.count (ExtCall.ipa_send_msg WLAN_WDI_ENABLE) (stats_event_inc s t).calls =
      List.count (ExtCall.ipa_send_msg WLAN_WDI_ENABLE) s.calls := rfl

@[simp] theorem send_wlan_msg_wdi_msgs (env : Env) (s : hdd_ipa_priv) (t : Nat)
    (ht : t ≠ WLAN_WDI_ENABLE) :
    List.count (ExtCall.ipa_send_msg WLAN_WDI_ENABLE) (send_wlan_msg env s t).2.calls =
      List.count (ExtCall.ipa_send_msg WLAN_WDI_ENABLE) s.calls := by
  unfold send_wlan_msg
  dsimp only
  split_ifs <;> simp [ht]

@[simp] theorem find_add_assoc_sta_wdi_msgs (s : hdd_ipa_priv) (b : Bool) (sta : Nat) :
    List.count (ExtCall.ipa_send_msg WLAN_WDI_ENABLE) (hdd_ipa_uc_find_add_assoc_sta s b sta).2.calls =
      List.count (ExtCall.ipa_send_msg WLAN_WDI_ENABLE) s.calls := by
  unfold hdd_ipa_uc_find_add_assoc_sta
  dsimp only
  split_ifs <;> rfl

@[simp] theorem pending_event_insert_wdi_msgs (env : Env) (s : hdd_ipa_priv)
    (ev : ipa_uc_pending_event) :
    List.count (ExtCall.ipa_send_msg WLAN_WDI_ENABLE) (pending_event_insert env s ev).2.calls =
      List.count (ExtCall.ipa_send_msg WLAN_WDI_ENABLE) s.calls := by
  unfold pending_event_insert
  dsimp only
  split_ifs <;> simp

@[simp] theorem queue_pending_event_wdi_msgs (env : Env) (s : hdd_ipa_priv)
    (a sta t : Nat) (mac : List Nat) :
    List.count (ExtCall.ipa_send_msg WLAN_WDI_ENABLE) (queue_pending_event env s a sta t mac).2.calls =
      List.count (ExtCall.ipa_send_msg WLAN_WDI_ENABLE) s.calls := by
  unfold queue_pending_event
  dsimp only
  split_ifs
  · cases s.pending_event <;> simp
  · simp
  · simp

@[simp] theorem client_connect_first_sta_wdi_msgs (env : Env) (s : hdd_ipa_priv) :
    List.count (ExtCall.ipa_send_msg WLAN_WDI_ENABLE) (client_connect_first_sta env s).2.calls =
      List.count (ExtCall.ipa_send_msg WLAN_WDI_ENABLE) s.calls := by
  unfold client_connect_first_sta
  dsimp only
  split_ifs <;> simp

@[simp] theorem client_disconnect_last_sta_wdi_msgs (env : Env) (s : hdd_ipa_priv) :
    List.count (ExtCall.ipa_send_msg WLAN_WDI_ENABLE) (client_disconnect_last_sta env s).calls =
      List.count (ExtCall.ipa_send_msg WLAN_WDI_ENABLE) s.calls := by
  unfold client_disconnect_last_sta
  dsimp only
  split_ifs <;> simp

@[simp] theorem wlan_evt_sta_connect_wdi_msgs (env : Env) (s : hdd_ipa_priv)
    (a sta t : Nat)
    (ht : t ≠ WLAN_WDI_ENABLE) :
    List.count (ExtCall.ipa_send_msg WLAN_WDI_ENABLE) (wlan_evt_sta_connect env s a sta t).2.calls =
      List.count (ExtCall.ipa_send_msg WLAN_WDI_ENABLE) s.calls := by
  unfold wlan_evt_sta_connect
  dsimp only
  split_ifs <;> simp [ht]

@[simp] theorem wlan_evt_ap_connect_wdi_msgs (env : Env) (s : hdd_ipa_priv)
    (a sta t : Nat)
    (ht : t ≠ WLAN_WDI_ENABLE) :
    List.count (ExtCall.ipa_send_msg WLAN_WDI_ENABLE) (wlan_evt_ap_connect env s a sta t).2.calls =
      List.count (ExtCall.ipa_send_msg WLAN_WDI_ENABLE) s.calls := by
  unfold wlan_evt_ap_connect
  dsimp only
  split_ifs <;> simp [ht]

@[simp] theorem wlan_evt_sta_disconnect_wdi_msgs (env : Env) (s : hdd_ipa_priv)
    (a t : Nat)
    (ht : t ≠ WLAN_WDI_ENABLE) :
    List.count (ExtCall.ipa_send_msg WLAN_WDI_ENABLE) (wlan_evt_sta_disconnect env s a t).2.calls =
      List.count (ExtCall.ipa_send_msg WLAN_WDI_ENABLE) s.calls := by
  unfold wlan_evt_sta_disconnect
  dsimp only
  split_ifs <;> simp [ht]

@[simp] theorem wlan_evt_ap_disconnect_wdi_msgs (env : Env) (s : hdd_ipa_priv)
    (a t : Nat)
    (ht : t ≠ WLAN_WDI_ENABLE) :
    List.count (ExtCall.ipa_send_msg WLAN_WDI_ENABLE) (wlan_evt_ap_disconnect env s a t).2.calls =
      List.count (ExtCall.ipa_send_msg WLAN_WDI_ENABLE) s.calls := by
  unfold wlan_evt_ap_disconnect
  dsimp only
  split_ifs <;> simp [ht]

@[simp] theorem wlan_evt_client_connect_ex_wdi_msgs (env : Env) (s : hdd_ipa_priv)
    (sta t : Nat)
    (ht : t ≠ WLAN_WDI_ENABLE) :
    List.count (ExtCall.ipa_send_msg WLAN_WDI_ENABLE) (wlan_evt_client_connect_ex env s sta t).2.calls =
      List.count (ExtCall.ipa_send_msg WLAN_WDI_ENABLE) s.calls := by
  unfold wlan_evt_client_connect_ex
  dsimp only
  split_ifs <;> simp [ht]

@[simp] theorem wlan_evt_client_disconnect_wdi_msgs (env : Env) (s : hdd_ipa_priv)
    (sta t : Nat)
    (ht : t ≠ WLAN_WDI_ENABLE) :
    List.count (ExtCall.ipa_send_msg WLAN_WDI_ENABLE) (wlan_evt_client_disconnect env s sta t).2.calls =
      List.count (ExtCall.ipa_send_msg WLAN_WDI_ENABLE) s.calls := by
  unfold wlan_evt_client_disconnect
  dsimp only
  split_ifs <;> simp [ht]

@[simp] theorem wlan_evt_switch_wdi_msgs (env : Env) (s : hdd_ipa_priv) (a sta t : Nat) :
    List.count (ExtCall.ipa_send_msg WLAN_WDI_ENABLE) (wlan_evt_switch env s a sta t).2.calls =
      List.count (ExtCall.ipa_send_msg WLAN_WDI_ENABLE) s.calls := by
  unfold wlan_evt_switch
  split_ifs with h1 h2 h3 h4 h5 h6
  · exact wlan_evt_sta_connect_wdi_msgs env s a sta t (by rw [h1]; decide)
  · exact wlan_evt_ap_connect_wdi_msgs env s a sta t (by rw [h2]; decide)
  · exact wlan_evt_sta_disconnect_wdi_msgs env s a t (by rw [h3]; decide)
  · exact wlan_evt_ap_disconnect_wdi_msgs env s a t (by rw [h4]; decide)
  · exact wlan_evt_client_connect_ex_wdi_msgs env s sta t (by rw [h5]; decide)
  · exact wlan_evt_client_disconnect_wdi_msgs env s sta t (by rw [h6]; decide)
  · rfl

@[simp] theorem wlan_evt_wdi_msgs (env : Env) (s : hdd_ipa_priv)
    (a sta t : Nat) (mac : List Nat) :
    List.count (ExtCall.ipa_send_msg WLAN_WDI_ENABLE) (__hdd_ipa_wlan_evt env s a sta t mac).2.calls =
      List.count (ExtCall.ipa_send_msg WLAN_WDI_ENABLE) s.calls := by
  unfold __hdd_ipa_wlan_evt
  dsimp only
  split_ifs <;> simp

@[simp] theorem flush_txrx_queues_wdi_msgs (env : Env) (s : hdd_ipa_priv) (l : List Nat) :
    List.count (ExtCall.ipa_send_msg WLAN_WDI_ENABLE) (flush_txrx_queues env s l).calls =
      List.count (ExtCall.ipa_send_msg WLAN_WDI_ENABLE) s.calls := by
  induction l generalizing s with
  | nil => rfl
  | cons a as ih =>
    unfold flush_txrx_queues
    dsimp only
    rw [ih]
    split_ifs <;> simp

@[simp] theorem send_mcc_scc_msg_wdi_msgs (env : Env) (s : hdd_ipa_priv) (b : Bool) :
    List.count (ExtCall.ipa_send_msg WLAN_WDI_ENABLE) (hdd_ipa_send_mcc_scc_msg env s b).2.calls =
      List.count (ExtCall.ipa_send_msg WLAN_WDI_ENABLE) s.calls := by
  unfold hdd_ipa_send_mcc_scc_msg
  dsimp only
  split_ifs <;>
    simp [show WLAN_SWITCH_TO_MCC ≠ WLAN_WDI_ENABLE by decide,
      show WLAN_SWITCH_TO_SCC ≠ WLAN_WDI_ENABLE by decide]

@[simp] theorem setup_sys_pipe_fail_wdi_msgs (env : Env) (s : hdd_ipa_priv) (i : Nat) :
    List.count (ExtCall.ipa_send_msg WLAN_WDI_ENABLE) (setup_sys_pipe_fail env s i).calls =
      List.count (ExtCall.ipa_send_msg WLAN_WDI_ENABLE) s.calls := by
  induction i generalizing s with
  | zero => rfl
  | succ i ih =>
    unfold setup_sys_pipe_fail
    dsimp only
    rw [ih]
    simp

@[simp] theorem setup_sys_pipe_tx_wdi_msgs (env : Env) (s : hdd_ipa_priv) (i k : Nat) :
    List.count (ExtCall.ipa_send_msg WLAN_WDI_ENABLE) (setup_sys_pipe_tx env s i k).2.2.calls =
      List.count (ExtCall.ipa_send_msg WLAN_WDI_ENABLE) s.calls := by
  induction k generalizing s i with
  | zero => rfl
  | succ k ih =>
    unfold setup_sys_pipe_tx
    dsimp only
    split_ifs
    · simp
    · rw [ih]
      simp

@[simp] theorem alloc_tx_desc_list_wdi_msgs (env : Env) (s : hdd_ipa_priv) :
    List.count (ExtCall.ipa_send_msg WLAN_WDI_ENABLE) (hdd_ipa_alloc_tx_desc_list env s).2.calls =
      List.count (ExtCall.ipa_send_msg WLAN_WDI_ENABLE) s.calls := by
  unfold hdd_ipa_alloc_tx_desc_list
  dsimp only
  split_ifs <;> simp

@[simp] theorem setup_sys_pipe_wdi_msgs (env : Env) (s : hdd_ipa_priv) :
    List.count (ExtCall.ipa_send_msg WLAN_WDI_ENABLE) (hdd_ipa_setup_sys_pipe env s).2.calls =
      List.count (ExtCall.ipa_send_msg WLAN_WDI_ENABLE) s.calls := by
  unfold hdd_ipa_setup_sys_pipe
  dsimp only
  split_ifs <;> simp

@[simp] theorem wdi_conn_pipes_wdi_msgs (env : Env) (s : hdd_ipa_priv) :
    List.count (ExtCall.ipa_send_msg WLAN_WDI_ENABLE) (hdd_ipa_wdi_conn_pipes env s).2.calls =
      List.count (ExtCall.ipa_send_msg WLAN_WDI_ENABLE) s.calls := by
  unfold hdd_ipa_wdi_conn_pipes
  dsimp only
  split_ifs <;> simp

@[simp] theorem set_perf_level_wdi_msgs (env : Env) (s : hdd_ipa_priv) (tx rx : Nat) :
    List.count (ExtCall.ipa_send_msg WLAN_WDI_ENABLE) (hdd_ipa_set_perf_level env s tx rx).2.calls =
      List.count (ExtCall.ipa_send_msg WLAN_WDI_ENABLE) s.calls := by
  unfold hdd_ipa_set_perf_level
  dsimp only
  split_ifs <;> simp

@[simp] theorem init_perf_level_wdi_msgs (env : Env) (s : hdd_ipa_priv) :
    List.count (ExtCall.ipa_send_msg WLAN_WDI_ENABLE) (hdd_ipa_init_perf_level env s).2.calls =
      List.count (ExtCall.ipa_send_msg WLAN_WDI_ENABLE) s.calls := by
  unfold hdd_ipa_init_perf_level
  dsimp only
  split_ifs <;> simp

@[simp] theorem loaded_handler_sys_pipe_wdi_msgs (env : Env) (s : hdd_ipa_priv) :
    List.count (ExtCall.ipa_send_msg WLAN_WDI_ENABLE) (loaded_handler_sys_pipe env s).2.calls =
      List.count (ExtCall.ipa_send_msg WLAN_WDI_ENABLE) s.calls := by
  unfold loaded_handler_sys_pipe
  dsimp only
  split_ifs <;> simp

@[simp] theorem loaded_handler_connect_wdi_msgs (env : Env) (s : hdd_ipa_priv) :
    List.count (ExtCall.ipa_send_msg WLAN_WDI_ENABLE) (loaded_handler_connect env s).calls =
      List.count (ExtCall.ipa_send_msg WLAN_WDI_ENABLE) s.calls := by
  unfold loaded_handler_connect
  dsimp only
  split_ifs <;> simp

@[simp] theorem loaded_handler_wdi_msgs (env : Env) (s : hdd_ipa_priv) :
    List.count (ExtCall.ipa_send_msg WLAN_WDI_ENABLE) (hdd_ipa_uc_loaded_handler env s).calls =
      List.count (ExtCall.ipa_send_msg WLAN_WDI_ENABLE) s.calls := by
  unfold hdd_ipa_uc_loaded_handler
  dsimp only
  split_ifs <;> simp

@[simp] theorem op_metering_wdi_msgs (env : Env) (s : hdd_ipa_priv) (m : op_msg_type) :
    List.count (ExtCall.ipa_send_msg WLAN_WDI_ENABLE) (hdd_ipa_uc_op_metering env s m).2.calls =
      List.count (ExtCall.ipa_send_msg WLAN_WDI_ENABLE) s.calls := by
  unfold hdd_ipa_uc_op_metering
  dsimp only
  split_ifs <;> simp

@[simp] theorem uc_op_bw_cal_wdi_msgs (env : Env) (s : hdd_ipa_priv) (st : ipa_uc_fw_stats) :
    List.count (ExtCall.ipa_send_msg WLAN_WDI_ENABLE) (uc_op_bw_cal env s st).calls =
      List.count (ExtCall.ipa_send_msg WLAN_WDI_ENABLE) s.calls := rfl

@[simp] theorem suspend_pipes_wdi_msgs (env : Env) (s : hdd_ipa_priv) (op : Nat) :
    List.count (ExtCall.ipa_send_msg WLAN_WDI_ENABLE) (uc_op_suspend_pipes env s op).calls =
      List.count (ExtCall.ipa_send_msg WLAN_WDI_ENABLE) s.calls := by
  unfold uc_op_suspend_pipes
  split_ifs <;> simp

@[simp] theorem suspend_complete_wdi_msgs (env : Env) (s : hdd_ipa_priv) :
    List.count (ExtCall.ipa_send_msg WLAN_WDI_ENABLE) (uc_op_suspend_complete env s).calls =
      List.count (ExtCall.ipa_send_msg WLAN_WDI_ENABLE) s.calls := by
  unfold uc_op_suspend_complete
  dsimp only
  split_ifs <;> simp

/-! ## The WDI control message is sent at most once -/

theorem send_wdi_control_msg_wdi_msgs (env : Env) (s : hdd_ipa_priv) (b : Bool) :
    wdi_enable_msgs s ≤ wdi_enable_msgs (hdd_ipa_uc_send_wdi_control_msg env s b).2 ∧
    wdi_enable_msgs (hdd_ipa_uc_send_wdi_control_msg env s b).2 ≤ wdi_enable_msgs s + 1 := by
  unfold hdd_ipa_uc_send_wdi_control_msg wdi_enable_msgs
  dsimp only
  by_cases hm : (call env .qdf_mem_malloc_msg s).1 = 0
  · rw [if_pos hm]
    simp
  · rw [if_neg hm]
    have e1 : List.count (ExtCall.ipa_send_msg WLAN_WDI_ENABLE)
        (call env .qdf_mem_malloc_msg s).2.calls =
        List.count (ExtCall.ipa_send_msg WLAN_WDI_ENABLE) s.calls := by
      simp
    rw [call_wdi_msgs, e1]
    constructor
    · omega
    · split_ifs <;> omega

theorem uc_op_wdi_enable_wdi (env : Env) (s : hdd_ipa_priv) :
    (uc_op_wdi_enable env s).wdi_enabled = true ∧
    (s.wdi_enabled = true → uc_op_wdi_enable env s = s) ∧
    wdi_enable_msgs s ≤ wdi_enable_msgs (uc_op_wdi_enable env s) ∧
    wdi_enable_msgs (uc_op_wdi_enable env s) ≤ wdi_enable_msgs s + 1 := by
  obtain ⟨hb1, hb2⟩ := send_wdi_control_msg_wdi_msgs env { s with wdi_enabled := true } true
  have hs : wdi_enable_msgs { s with wdi_enabled := true } = wdi_enable_msgs s := rfl
  rw [hs] at hb1 hb2
  have hmcc : ∀ (x : hdd_ipa_priv) (b : Bool),
      wdi_enable_msgs (hdd_ipa_send_mcc_scc_msg env x b).2 = wdi_enable_msgs x := by
    intro x b
    unfold wdi_enable_msgs
    exact send_mcc_scc_msg_wdi_msgs env x b
  unfold uc_op_wdi_enable
  dsimp only
  refine ⟨?_, ?_, ?_, ?_⟩
  · split_ifs with h1 h2
    · simp
    · simp
    · simpa using h1
  · intro h
    rw [if_neg (by simp [h])]
  · split_ifs
    · rw [hmcc]
      exact hb1
    · exact hb1
    · exact le_refl _
  · split_ifs
    · rw [hmcc]
      exact hb2
    · exact hb2
    · exact Nat.le_succ _

theorem uc_op_resume_complete_wdi (env : Env) (s : hdd_ipa_priv) :
    (uc_op_resume_complete env s).wdi_enabled = true ∧
    (s.wdi_enabled = true →
      wdi_enable_msgs (uc_op_resume_complete env s) = wdi_enable_msgs s) ∧
    wdi_enable_msgs s ≤ wdi_enable_msgs (uc_op_resume_complete env s) ∧
    wdi_enable_msgs (uc_op_resume_complete env s) ≤ wdi_enable_msgs s + 1 := by
  unfold uc_op_resume_complete
  obtain ⟨h1, h2, h3, h4⟩ := uc_op_wdi_enable_wdi env
    (call env .complete_ipa_resource_comp { s with resource_loading := false }).2
  have hc : wdi_enable_msgs
      (call env .complete_ipa_resource_comp { s with resource_loading := false }).2 =
      wdi_enable_msgs s := by
    simp [wdi_enable_msgs]
  rw [hc] at h3 h4
  refine ⟨h1, fun hw => ?_, h3, h4⟩
  rw [h2 hw, hc]

theorem proc_pending_event_wdi (env : Env) (fuel : Nat) (s : hdd_ipa_priv)
    (phase : Bool) (disp : List ipa_uc_pending_event) (s1 : hdd_ipa_priv)
    (h : hdd_ipa_uc_proc_pending_event env fuel s phase = some (disp, s1)) :
    s1.wdi_enabled = s.wdi_enabled ∧ wdi_enable_msgs s1 = wdi_enable_msgs s :=
  proc_pending_event_preserves env
    (fun x => x.wdi_enabled = s.wdi_enabled ∧ wdi_enable_msgs x = wdi_enable_msgs s)
    (fun _ _ hx => hx) (fun x a sta t mac hx => by
      show (__hdd_ipa_wlan_evt env x a sta t mac).2.wdi_enabled = s.wdi_enabled ∧
        wdi_enable_msgs (__hdd_ipa_wlan_evt env x a sta t mac).2 = wdi_enable_msgs s
      unfold wdi_enable_msgs at hx ⊢
      rw [wlan_evt_wdi_enabled, wlan_evt_wdi_msgs]
      exact hx)
    fuel s phase disp s1 ⟨rfl, rfl⟩ h

theorem uc_op_resume_wdi (env : Env) (fuel : Nat) (s s1 : hdd_ipa_priv)
    (h : uc_op_resume env fuel s = some s1) :
    (s.wdi_enabled = true →
      s1.wdi_enabled = true ∧ wdi_enable_msgs s1 = wdi_enable_msgs s) ∧
    wdi_enable_msgs s ≤ wdi_enable_msgs s1 ∧
    wdi_enable_msgs s1 ≤ wdi_enable_msgs s + 1 ∧
    (wdi_enable_msgs s1 ≠ wdi_enable_msgs s →
      s1.wdi_enabled = true ∧ s.wdi_enabled = false ∧
      hdd_ipa_is_fw_wdi_actived
        { s with activated_fw_pipe := inc8 s.activated_fw_pipe } = true) := by
  unfold uc_op_resume at h
  dsimp only at h
  split_ifs at h with hact
  · cases hr : hdd_ipa_uc_proc_pending_event env fuel (uc_op_resume_complete env
        { s with activated_fw_pipe := inc8 s.activated_fw_pipe }) true with
    | none => rw [hr] at h; simp at h
    | some r =>
      rw [hr] at h
      simp only [Option.map_some', Option.some.injEq] at h
      obtain ⟨hp1, hp2⟩ := proc_pending_event_wdi env fuel _ true r.1 r.2 hr
      obtain ⟨hc1, hc2, hc3, hc4⟩ := uc_op_resume_complete_wdi env
        { s with activated_fw_pipe := inc8 s.activated_fw_pipe }
      have hm : wdi_enable_msgs
          { s with activated_fw_pipe := inc8 s.activated_fw_pipe } = wdi_enable_msgs s := rfl
      rw [hm] at hc2 hc3 hc4
      have he : s1.wdi_enabled = r.2.wdi_enabled := by
        subst h
        split_ifs <;> rfl
      have hn : wdi_enable_msgs s1 = wdi_enable_msgs r.2 := by
        subst h
        unfold wdi_enable_msgs
        split_ifs <;> simp
      rw [he, hn, hp1, hp2]
      refine ⟨fun hw => ⟨hc1, hc2 hw⟩, hc3, hc4, fun hne => ⟨hc1, ?_, hact⟩⟩
      by_contra hw
      exact hne (hc2 (by simpa using hw))
  · simp only [Option.some.injEq] at h
    subst h
    exact ⟨fun hw => ⟨hw, rfl⟩, le_refl _, Nat.le_succ _, fun hne => absurd rfl hne⟩

theorem uc_op_suspend_wdi (env : Env) (fuel : Nat) (s s1 : hdd_ipa_priv) (op : Nat)
    (h : uc_op_suspend env fuel s op = some s1) :
    s1.wdi_enabled = s.wdi_enabled ∧ wdi_enable_msgs s1 = wdi_enable_msgs s := by
  unfold uc_op_suspend at h
  dsimp only at h
  split_ifs at h
  · cases hr : hdd_ipa_uc_proc_pending_event env fuel (uc_op_suspend_complete env
        { uc_op_suspend_pipes env s op with
          activated_fw_pipe := dec8 (uc_op_suspend_pipes env s op).activated_fw_pipe })
        false with
    | none => rw [hr] at h; simp at h
    | some r =>
      rw [hr] at h
      simp only [Option.map_some', Option.some.injEq] at h
      obtain ⟨hp1, hp2⟩ := proc_pending_event_wdi env fuel _ false r.1 r.2 hr
      subst h
      refine ⟨?_, ?_⟩
      · show r.2.wdi_enabled = s.wdi_enabled
        rw [hp1]
        simp
      · show wdi_enable_msgs r.2 = wdi_enable_msgs s
        rw [hp2]
        simp [wdi_enable_msgs]
  · simp only [Option.some.injEq] at h
    subst h
    exact ⟨by simp, by simp [wdi_enable_msgs]⟩

theorem op_cb_wdi (env : Env) (fuel : Nat) (s s1 : hdd_ipa_priv) (msg : op_msg_type)
    (h : hdd_ipa_uc_op_cb env fuel s (some msg) = some s1) :
    (s.wdi_enabled = true →
      s1.wdi_enabled = true ∧ wdi_enable_msgs s1 = wdi_enable_msgs s) ∧
    wdi_enable_msgs s ≤ wdi_enable_msgs s1 ∧
    wdi_enable_msgs s1 ≤ wdi_enable_msgs s + 1 ∧
    (wdi_enable_msgs s1 ≠ wdi_enable_msgs s →
      s1.wdi_enabled = true ∧ s.wdi_enabled = false ∧
      (msg.op_code = HDD_IPA_UC_OPCODE_TX_RESUME ∨
        msg.op_code = HDD_IPA_UC_OPCODE_RX_RESUME) ∧
      hdd_ipa_is_fw_wdi_actived
        { s with activated_fw_pipe := inc8 s.activated_fw_pipe } = true) := by
  have hsame : ∀ x : hdd_ipa_priv, x.wdi_enabled = s.wdi_enabled →
      wdi_enable_msgs x = wdi_enable_msgs s →
      (s.wdi_enabled = true →
        x.wdi_enabled = true ∧ wdi_enable_msgs x = wdi_enable_msgs s) ∧
      wdi_enable_msgs s ≤ wdi_enable_msgs x ∧
      wdi_enable_msgs x ≤ wdi_enable_msgs s + 1 ∧
      (wdi_enable_msgs x ≠ wdi_enable_msgs s →
        x.wdi_enabled = true ∧ s.wdi_enabled = false ∧
        (msg.op_code = HDD_IPA_UC_OPCODE_TX_RESUME ∨
          msg.op_code = HDD_IPA_UC_OPCODE_RX_RESUME) ∧
        hdd_ipa_is_fw_wdi_actived
          { s with activated_fw_pipe := inc8 s.activated_fw_pipe } = true) := by
    intro x hx hm
    rw [hx, hm]
    exact ⟨fun hw => ⟨hw, rfl⟩, le_refl _, Nat.le_succ _, fun hne => absurd rfl hne⟩
  unfold hdd_ipa_uc_op_cb at h
  dsimp only at h
  split_ifs at h with h1 h2 h3 h4 h5 h6 h7 h8
  · simp only [Option.some.injEq] at h; subst h; exact hsame _ rfl rfl
  · simp only [Option.some.injEq] at h; subst h; exact hsame _ rfl rfl
  · simp only [Option.some.injEq] at h; subst h; exact hsame _ rfl rfl
  · obtain ⟨r1, r2, r3, r4⟩ := uc_op_resume_wdi env fuel s s1 h
    refine ⟨r1, r2, r3, fun hne => ?_⟩
    obtain ⟨q1, q2, q3⟩ := r4 hne
    refine ⟨q1, q2, ?_, q3⟩
    simp only [Bool.or_eq_true, beq_iff_eq] at h4
    rcases h4 with h4 | h4
    · exact Or.inl h4.symm
    · exact Or.inr h4.symm
  · obtain ⟨r1, r2⟩ := uc_op_suspend_wdi env fuel s s1 msg.op_code h
    exact hsame _ r1 r2
  · simp only [Option.some.injEq] at h; subst h; exact hsame _ rfl rfl
  · simp only [Option.some.injEq] at h; subst h; exact hsame _ rfl rfl
  · simp only [Option.some.injEq] at h
    subst h
    exact hsame _ (by simp) (by simp [wdi_enable_msgs])
  · simp only [Option.some.injEq] at h
    subst h
    exact hsame _ (by simp) (by simp [wdi_enable_msgs])

theorem life_step_wdi (env : Env) (fuel : Nat) (s s1 : hdd_ipa_priv) (st : LifeStep)
    (h : life_step env fuel s st = some s1) :
    (s.wdi_enabled = true →
      s1.wdi_enabled = true ∧ wdi_enable_msgs s1 = wdi_enable_msgs s) ∧
    wdi_enable_msgs s ≤ wdi_enable_msgs s1 ∧
    wdi_enable_msgs s1 ≤ wdi_enable_msgs s + 1 ∧
    (wdi_enable_msgs s1 ≠ wdi_enable_msgs s →
      s1.wdi_enabled = true ∧ s.wdi_enabled = false ∧
      ∃ msg, st = .op msg ∧
        (msg.op_code = HDD_IPA_UC_OPCODE_TX_RESUME ∨
          msg.op_code = HDD_IPA_UC_OPCODE_RX_RESUME) ∧
        hdd_ipa_is_fw_wdi_actived
          { s with activated_fw_pipe := inc8 s.activated_fw_pipe } = true) := by
  cases st with
  | op msg =>
    obtain ⟨r1, r2, r3, r4⟩ := op_cb_wdi env fuel s s1 msg h
    refine ⟨r1, r2, r3, fun hne => ?_⟩
    obtain ⟨q1, q2, q3, q4⟩ := r4 hne
    exact ⟨q1, q2, msg, rfl, q3, q4⟩
  | evt a sta t mac =>
    simp only [life_step, Option.some.injEq] at h
    subst h
    have hm : wdi_enable_msgs (__hdd_ipa_wlan_evt env s a sta t mac).2 =
        wdi_enable_msgs s := by
      unfold wdi_enable_msgs
      exact wlan_evt_wdi_msgs env s a sta t mac
    rw [hm, wlan_evt_wdi_enabled]
    exact ⟨fun hw => ⟨hw, rfl⟩, le_refl _, Nat.le_succ _, fun hne => absurd rfl hne⟩

theorem life_run_wdi (env : Env) (fuel : Nat) (steps : List LifeStep)
    (s s1 : hdd_ipa_priv) (h : life_run env fuel s steps = some s1)
    (hinv : wdi_enable_msgs s ≤ 1 ∧ (s.wdi_enabled = false → wdi_enable_msgs s = 0)) :
    wdi_enable_msgs s1 ≤ 1 ∧ (s1.wdi_enabled = false → wdi_enable_msgs s1 = 0) := by
  induction steps generalizing s with
  | nil =>
    simp only [life_run, Option.some.injEq] at h
    subst h
    exact hinv
  | cons st rest ih =>
    unfold life_run at h
    cases hst : life_step env fuel s st with
    | none => rw [hst] at h; simp at h
    | some s2 =>
      rw [hst] at h
      refine ih s2 h ?_
      obtain ⟨r1, r2, r3, r4⟩ := life_step_wdi env fuel s s2 st hst
      by_cases hw : s.wdi_enabled = true
      · obtain ⟨a1, a2⟩ := r1 hw
        rw [a2]
        exact ⟨hinv.1, fun hf => by rw [a1] at hf; exact absurd hf (by decide)⟩
      · have h0 := hinv.2 (by simpa using hw)
        refine ⟨by omega, fun hf => ?_⟩
        by_contra hne
        have := (r4 (by omega)).1
        rw [hf] at this
        exact absurd this (by decide)

/-- C26: over any sequence of firmware op-codes and connection events that
starts before any `WLAN_WDI_ENABLE` message has been sent (as after
`__hdd_ipa_init`, which leaves `wdi_enabled` false), at most one
`WLAN_WDI_ENABLE` message is handed to the IPA driver, and none while
`wdi_enabled` is false.  For a single step from any context: once
`wdi_enabled` is true it stays true and no further message is sent; a step
that sends the message is a resume op-code that brings the pipe count to 2
in a context with `wdi_enabled` false, it sends one message and leaves
`wdi_enabled` true. -/
theorem wdi_enable_once (env : Env) (fuel : Nat) (s s1 t t1 : hdd_ipa_priv)
    (steps : List LifeStep) (st : LifeStep)
    (hm : wdi_enable_msgs s = 0)
    (hrun : life_run env fuel s steps = some s1)
    (hstep : life_step env fuel t st = some t1) :
    wdi_enable_msgs s1 ≤ 1 ∧
    (s1.wdi_enabled = false → wdi_enable_msgs s1 = 0) ∧
    (t.wdi_enabled = true →
      t1.wdi_enabled = true ∧ wdi_enable_msgs t1 = wdi_enable_msgs t) ∧
    (wdi_enable_msgs t1 ≠ wdi_enable_msgs t →
      wdi_enable_msgs t1 = wdi_enable_msgs t + 1 ∧
      t1.wdi_enabled = true ∧ t.wdi_enabled = false ∧
      ∃ msg, st = .op msg ∧
        (msg.op_code = HDD_IPA_UC_OPCODE_TX_RESUME ∨
          msg.op_code = HDD_IPA_UC_OPCODE_RX_RESUME) ∧
        hdd_ipa_is_fw_wdi_actived
          { t with activated_fw_pipe := inc8 t.activated_fw_pipe } = true) := by
  obtain ⟨a1, a2⟩ := life_run_wdi env fuel steps s s1 hrun
    ⟨by omega, fun _ => hm⟩
  obtain ⟨r1, r2, r3, r4⟩ := life_step_wdi env fuel t t1 st hstep
  exact ⟨a1, a2, r1, fun hne => ⟨by omega, r4 hne⟩⟩

/-- Witness of `wdi_enable_once`: two loads with an unload in between; the
message is sent at the end of the first load only. -/
theorem wdi_enable_once_witness :
    (life_run env_async 1 (priv_init 41)
      [.op (sample_msg 1), .op (sample_msg 3), .op (sample_msg 0), .op (sample_msg 2),
        .op (sample_msg 1), .op (sample_msg 3)]).isSome = true ∧
    wdi_enable_msgs ((life_run env_async 1 (priv_init 41)
      [.op (sample_msg 1), .op (sample_msg 3)]).getD (priv_init 41)) = 1 ∧
    wdi_enable_msgs ((life_run env_async 1 (priv_init 41)
      [.op (sample_msg 1), .op (sample_msg 3), .op (sample_msg 0), .op (sample_msg 2),
        .op (sample_msg 1), .op (sample_msg 3)]).getD (priv_init 41)) ≤ 1 :=
  ⟨by decide, by decide,
   (wdi_enable_once env_async 1 (priv_init 41)
      ((life_run env_async 1 (priv_init 41)
        [.op (sample_msg 1), .op (sample_msg 3), .op (sample_msg 0), .op (sample_msg 2),
          .op (sample_msg 1), .op (sample_msg 3)]).getD (priv_init 41))
      (priv_init 41)
      ((life_step env_async 1 (priv_init 41) (.op (sample_msg 1))).getD (priv_init 41))
      [.op (sample_msg 1), .op (sample_msg 3), .op (sample_msg 0), .op (sample_msg 2),
        .op (sample_msg 1), .op (sample_msg 3)]
      (.op (sample_msg 1)) (by decide) (by decide) (by decide)).1⟩

/-! ## Pipe enable and disable: the primitives and the flag -/

/-- With every external call succeeding, `hdd_ipa_wdi_enable_pipes` makes its
five calls in order and returns 0. -/
theorem wdi_enable_pipes_ok (env : Env) (s : hdd_ipa_priv) (hp : env.pdev = true)
    (hok : ∀ hist c, env.ret hist c = 0) :
    hdd_ipa_wdi_enable_pipes env s =
      (0, { s with calls := s.calls ++
        [.ol_txrx_rx_hash_smmu_map true, .ipa_enable_wdi_pipe true,
          .ipa_resume_wdi_pipe true, .ipa_enable_wdi_pipe false,
          .ipa_resume_wdi_pipe false] }) := by
  unfold hdd_ipa_wdi_enable_pipes
  simp [hp, call, hok]

/-- With every external call succeeding, `hdd_ipa_wdi_disable_pipes` makes
its five calls in order and returns 0. -/
theorem wdi_disable_pipes_ok (env : Env) (s : hdd_ipa_priv) (hp : env.pdev = true)
    (hok : ∀ hist c, env.ret hist c = 0) :
    hdd_ipa_wdi_disable_pipes env s =
      (0, { s with calls := s.calls ++
        [.ipa_suspend_wdi_pipe false, .ipa_disable_wdi_pipe false,
          .ipa_suspend_wdi_pipe true, .ipa_disable_wdi_pipe true,
          .ol_txrx_rx_hash_smmu_map false] }) := by
  unfold hdd_ipa_wdi_disable_pipes
  simp [hp, call, hok]

/-- In the down state `hdd_ipa_uc_enable_pipes` runs `hdd_ipa_wdi_enable_pipes`
and follows its result. -/
theorem uc_enable_pipes_of_down (env : Env) (s : hdd_ipa_priv) (hp : env.pdev = true)
    (h : s.ipa_pipes_down = true) :
    hdd_ipa_uc_enable_pipes env s =
      if (hdd_ipa_wdi_enable_pipes env s).1 ≠ 0 then hdd_ipa_wdi_enable_pipes env s
      else
        (0, { (call env .init_completion_ipa_resource_comp
                (call env (.ol_txrx_ipa_uc_set_active true false)
                  (call env (.ol_txrx_ipa_uc_set_active true true)
                    (hdd_ipa_wdi_enable_pipes env s).2).2).2).2 with
              ipa_pipes_down := false }) := by
  unfold hdd_ipa_uc_enable_pipes
  rw [if_neg (by simp [hp]), if_neg (by simp [h])]
  dsimp only
  split_ifs with h1
  · rfl
  · rw [not_not.mp h1]

/-- In the up state `hdd_ipa_uc_disable_pipes` runs
`hdd_ipa_wdi_disable_pipes` and follows its result. -/
theorem uc_disable_pipes_of_up (env : Env) (s : hdd_ipa_priv)
    (h : s.ipa_pipes_down = false) :
    hdd_ipa_uc_disable_pipes env s =
      if (hdd_ipa_wdi_disable_pipes env s).1 ≠ 0 then hdd_ipa_wdi_disable_pipes env s
      else (0, { (hdd_ipa_wdi_disable_pipes env s).2 with ipa_pipes_down := true }) := by
  unfold hdd_ipa_uc_disable_pipes
  rw [if_neg (by simp [h])]
  dsimp only
  split_ifs with h1
  · rfl
  · rw [not_not.mp h1]

/-- With every external call succeeding, an enable in the down state makes
its eight calls, returns 0 and leaves the pipes up. -/
theorem uc_enable_pipes_ok (env : Env) (s : hdd_ipa_priv) (hp : env.pdev = true)
    (h : s.ipa_pipes_down = true) (hok : ∀ hist c, env.ret hist c = 0) :
    hdd_ipa_uc_enable_pipes env s =
      (0, { s with
        ipa_pipes_down := false,
        calls := s.calls ++
          [.ol_txrx_rx_hash_smmu_map true, .ipa_enable_wdi_pipe true,
            .ipa_resume_wdi_pipe true, .ipa_enable_wdi_pipe false,
            .ipa_resume_wdi_pipe false, .ol_txrx_ipa_uc_set_active true true,
            .ol_txrx_ipa_uc_set_active true false,
            .init_completion_ipa_resource_comp] }) := by
  rw [uc_enable_pipes_of_down env s hp h, wdi_enable_pipes_ok env s hp hok]
  simp [call]

/-- With every external call succeeding, a disable in the up state makes its
five calls, returns 0 and leaves the pipes down. -/
theorem uc_disable_pipes_ok (env : Env) (s : hdd_ipa_priv) (hp : env.pdev = true)
    (h : s.ipa_pipes_down = false) (hok : ∀ hist c, env.ret hist c = 0) :
    hdd_ipa_uc_disable_pipes env s =
      (0, { s with
        ipa_pipes_down := true,
        calls := s.calls ++
          [.ipa_suspend_wdi_pipe false, .ipa_disable_wdi_pipe false,
            .ipa_suspend_wdi_pipe true, .ipa_disable_wdi_pipe true,
            .ol_txrx_rx_hash_smmu_map false] }) := by
  rw [uc_disable_pipes_of_up env s h, wdi_disable_pipes_ok env s hp hok]
  simp

/-- The first primitive of an enable or disable failing: the call stops
there with the primitive's value. -/
theorem wdi_pipes_first_fails (env : Env) (s : hdd_ipa_priv) (hp : env.pdev = true) :
    (env.ret s.calls (.ol_txrx_rx_hash_smmu_map true) ≠ 0 →
      hdd_ipa_wdi_enable_pipes env s =
        (env.ret s.calls (.ol_txrx_rx_hash_smmu_map true),
          { s with calls := s.calls ++ [.ol_txrx_rx_hash_smmu_map true] })) ∧
    (env.ret s.calls (.ipa_suspend_wdi_pipe false) ≠ 0 →
      hdd_ipa_wdi_disable_pipes env s =
        (env.ret s.calls (.ipa_suspend_wdi_pipe false),
          { s with calls := s.calls ++ [.ipa_suspend_wdi_pipe false] })) := by
  constructor
  · intro h
    unfold hdd_ipa_wdi_enable_pipes
    simp [hp, call, h]
  · intro h
    unfold hdd_ipa_wdi_disable_pipes
    simp [hp, call, h]

/-- C17: `hdd_ipa_uc_enable_pipes` makes an external call only when
`ipa_pipes_down` is true and `hdd_ipa_uc_disable_pipes` only when it is
false; a call in the wrong state returns the context unchanged (no call
recorded, `ipa_pipes_down` and every other field as before).  In the right
state the enable runs `hdd_ipa_wdi_enable_pipes` and the disable runs
`hdd_ipa_wdi_disable_pipes`, on the context as it stands: when that returns
0 the result is 0 and the flag is flipped (for the enable after the two
`ol_txrx_ipa_uc_set_active` calls and the re-initialised completion), when
it returns another value the result is that value and the context is the one
the primitive left, with the flag as it was.  With every external call
returning 0 the primitive's calls are made in order, the result is 0 and
the flag is flipped; when the first external call of the primitive fails,
only that call is made, its value is the result and the flag is as it
was. -/
theorem pipe_enable_disable_guards (env : Env) (s : hdd_ipa_priv) :
    (s.ipa_pipes_down = false → (hdd_ipa_uc_enable_pipes env s).2 = s) ∧
    (s.ipa_pipes_down = true → (hdd_ipa_uc_disable_pipes env s).2 = s) ∧
    ((hdd_ipa_uc_enable_pipes env s).2.calls ≠ s.calls → s.ipa_pipes_down = true) ∧
    ((hdd_ipa_uc_disable_pipes env s).2.calls ≠ s.calls → s.ipa_pipes_down = false) ∧
    ((hdd_ipa_uc_enable_pipes env s).1 = 0 →
      (hdd_ipa_uc_enable_pipes env s).2.ipa_pipes_down = false) ∧
    ((hdd_ipa_uc_disable_pipes env s).1 = 0 →
      (hdd_ipa_uc_disable_pipes env s).2.ipa_pipes_down = true) ∧
    ((hdd_ipa_uc_enable_pipes env s).1 ≠ 0 →
      (hdd_ipa_uc_enable_pipes env s).2.ipa_pipes_down = s.ipa_pipes_down) ∧
    ((hdd_ipa_uc_disable_pipes env s).1 ≠ 0 →
      (hdd_ipa_uc_disable_pipes env s).2.ipa_pipes_down = s.ipa_pipes_down) ∧
    (env.pdev = true → s.ipa_pipes_down = true →
      hdd_ipa_uc_enable_pipes env s =
        if (hdd_ipa_wdi_enable_pipes env s).1 ≠ 0 then hdd_ipa_wdi_enable_pipes env s
        else
          (0, { (call env .init_completion_ipa_resource_comp
                  (call env (.ol_txrx_ipa_uc_set_active true false)
                    (call env (.ol_txrx_ipa_uc_set_active true true)
                      (hdd_ipa_wdi_enable_pipes env s).2).2).2).2 with
                ipa_pipes_down := false })) ∧
    (s.ipa_pipes_down = false →
      hdd_ipa_uc_disable_pipes env s =
        if (hdd_ipa_wdi_disable_pipes env s).1 ≠ 0 then hdd_ipa_wdi_disable_pipes env s
        else (0, { (hdd_ipa_wdi_disable_pipes env s).2 with ipa_pipes_down := true })) ∧
    (env.pdev = true → (∀ hist c, env.ret hist c = 0) →
      (s.ipa_pipes_down = true →
        hdd_ipa_uc_enable_pipes env s =
          (0, { s with
            ipa_pipes_down := false,
            calls := s.calls ++
              [.ol_txrx_rx_hash_smmu_map true, .ipa_enable_wdi_pipe true,
                .ipa_resume_wdi_pipe true, .ipa_enable_wdi_pipe false,
                .ipa_resume_wdi_pipe false, .ol_txrx_ipa_uc_set_active true true,
                .ol_txrx_ipa_uc_set_active true false,
                .init_completion_ipa_resource_comp] })) ∧
      (s.ipa_pipes_down = false →
        hdd_ipa_uc_disable_pipes env s =
          (0, { s with
            ipa_pipes_down := true,
            calls := s.calls ++
              [.ipa_suspend_wdi_pipe false, .ipa_disable_wdi_pipe false,
                .ipa_suspend_wdi_pipe true, .ipa_disable_wdi_pipe true,
                .ol_txrx_rx_hash_smmu_map false] }))) ∧
    (env.pdev = true →
      (s.ipa_pipes_down = true →
        env.ret s.calls (.ol_txrx_rx_hash_smmu_map true) ≠ 0 →
        hdd_ipa_uc_enable_pipes env s =
          (env.ret s.calls (.ol_txrx_rx_hash_smmu_map true),
            { s with calls := s.calls ++ [.ol_txrx_rx_hash_smmu_map true] })) ∧
      (s.ipa_pipes_down = false →
        env.ret s.calls (.ipa_suspend_wdi_pipe false) ≠ 0 →
        hdd_ipa_uc_disable_pipes env s =
          (env.ret s.calls (.ipa_suspend_wdi_pipe false),
            { s with calls := s.calls ++ [.ipa_suspend_wdi_pipe false] }))) := by
  refine ⟨fun h => ?_, fun h => ?_, fun h => ?_, fun h => ?_,
    (uc_enable_pipes_flag env s).1, (uc_disable_pipes_flag env s).1,
    (uc_enable_pipes_flag env s).2, (uc_disable_pipes_flag env s).2,
    fun hp h => uc_enable_pipes_of_down env s hp h,
    fun h => uc_disable_pipes_of_up env s h,
    fun hp hok => ⟨fun h => uc_enable_pipes_ok env s hp h hok,
      fun h => uc_disable_pipes_ok env s hp h hok⟩,
    fun hp => ⟨fun h hf => ?_, fun h hf => ?_⟩⟩
  · rw [uc_enable_pipes_of_up env s h]
  · rw [uc_disable_pipes_of_down env s h]
  · cases hd : s.ipa_pipes_down
    · rw [uc_enable_pipes_of_up env s hd] at h
      exact absurd rfl h
    · rfl
  · cases hd : s.ipa_pipes_down
    · rfl
    · rw [uc_disable_pipes_of_down env s hd] at h
      exact absurd rfl h
  · rw [uc_enable_pipes_of_down env s hp h, (wdi_pipes_first_fails env s hp).1 hf,
      if_pos hf]
  · rw [uc_disable_pipes_of_up env s h, (wdi_pipes_first_fails env s hp).2 hf, if_pos hf]

/-- Witness of `pipe_enable_disable_guards`: with every primitive
succeeding, an enable from the down state makes its eight calls and brings
the pipes up, a disable from the up state makes its five calls and brings
them down, and a disable in the down state changes nothing; when the IPA
driver refuses to suspend a pipe, a disable from the up state returns the
error after that one call and leaves the pipes up. -/
theorem pipe_enable_disable_guards_witness :
    hdd_ipa_uc_enable_pipes env_zero (priv_init 41) =
      (0, { priv_init 41 with
        ipa_pipes_down := false,
        calls := [.ol_txrx_rx_hash_smmu_map true, .ipa_enable_wdi_pipe true,
          .ipa_resume_wdi_pipe true, .ipa_enable_wdi_pipe false,
          .ipa_resume_wdi_pipe false, .ol_txrx_ipa_uc_set_active true true,
          .ol_txrx_ipa_uc_set_active true false,
          .init_completion_ipa_resource_comp] }) ∧
    hdd_ipa_uc_disable_pipes env_zero { priv_init 41 with ipa_pipes_down := false } =
      (0, { priv_init 41 with
        ipa_pipes_down := true,
        calls := [.ipa_suspend_wdi_pipe false, .ipa_disable_wdi_pipe false,
          .ipa_suspend_wdi_pipe true, .ipa_disable_wdi_pipe true,
          .ol_txrx_rx_hash_smmu_map false] }) ∧
    (hdd_ipa_uc_disable_pipes env_zero (priv_init 41)).2 = priv_init 41 ∧
    hdd_ipa_uc_disable_pipes env_suspend_fails
        { priv_init 41 with ipa_pipes_down := false } =
      (-EINVAL, { priv_init 41 with
        ipa_pipes_down := false,
        calls := [.ipa_suspend_wdi_pipe false] }) :=
  ⟨((pipe_enable_disable_guards env_zero (priv_init 41)).2.2.2.2.2.2.2.2.2.2.1 rfl
      (fun _ _ => rfl)).1 (by decide),
   ((pipe_enable_disable_guards env_zero
      { priv_init 41 with ipa_pipes_down := false }).2.2.2.2.2.2.2.2.2.2.1 rfl
      (fun _ _ => rfl)).2 (by decide),
   (pipe_enable_disable_guards env_zero (priv_init 41)).2.1 (by decide),
   ((pipe_enable_disable_guards env_suspend_fails
      { priv_init 41 with ipa_pipes_down := false }).2.2.2.2.2.2.2.2.2.2.2 rfl).2
      (by decide) (by decide)⟩

/-! ## First connection with a synchronous grant -/

/-- C16, amended: `hdd_ipa_uc_handle_first_con` resets `activated_fw_pipe`
to 0 and sets `resource_loading` before anything else.  With the resource
manager disabled, or with it enabled and the resource request granted
synchronously (`ipa_rm_request_resource` returns 0), a succeeding
`hdd_ipa_uc_enable_pipes` makes the result 0 and leaves the pipes up and
`activated_fw_pipe` 0; `resource_loading` has been cleared on return when the
resource manager is disabled and is still set when it is enabled.  In
particular this is the outcome when the pipes are down and every external
call returns 0. -/
theorem first_con_sync_grant (env : Env) (s : hdd_ipa_priv) :
    (hdd_ipa_uc_handle_first_con env s).2.activated_fw_pipe = 0 ∧
    (hdd_ipa_is_rm_enabled s = false →
      (hdd_ipa_uc_enable_pipes env
        { s with activated_fw_pipe := 0, resource_loading := true }).1 = 0 →
      (hdd_ipa_uc_handle_first_con env s).1 = 0 ∧
      (hdd_ipa_uc_handle_first_con env s).2.ipa_pipes_down = false ∧
      (hdd_ipa_uc_handle_first_con env s).2.resource_loading = false) ∧
    (hdd_ipa_is_rm_enabled s = true →
      env.ret s.calls .ipa_rm_request_resource = 0 →
      (hdd_ipa_uc_enable_pipes env
        (call env .ipa_rm_request_resource
          { s with activated_fw_pipe := 0, resource_loading := true }).2).1 = 0 →
      (hdd_ipa_uc_handle_first_con env s).1 = 0 ∧
      (hdd_ipa_uc_handle_first_con env s).2.ipa_pipes_down = false ∧
      (hdd_ipa_uc_handle_first_con env s).2.resource_loading = true) ∧
    (env.pdev = true → (∀ hist c, env.ret hist c = 0) → s.ipa_pipes_down = true →
      (hdd_ipa_uc_handle_first_con env s).1 = 0 ∧
      (hdd_ipa_uc_handle_first_con env s).2.ipa_pipes_down = false ∧
      (hdd_ipa_uc_handle_first_con env s).2.resource_loading = hdd_ipa_is_rm_enabled s) := by
  have hcfg : hdd_ipa_is_rm_enabled
      { s with activated_fw_pipe := 0, resource_loading := true } =
      hdd_ipa_is_rm_enabled s := rfl
  have hoff : hdd_ipa_is_rm_enabled s = false →
      (hdd_ipa_uc_enable_pipes env
        { s with activated_fw_pipe := 0, resource_loading := true }).1 = 0 →
      (hdd_ipa_uc_handle_first_con env s).1 = 0 ∧
      (hdd_ipa_uc_handle_first_con env s).2.ipa_pipes_down = false ∧
      (hdd_ipa_uc_handle_first_con env s).2.resource_loading = false := by
    intro hrm hen
    unfold hdd_ipa_uc_handle_first_con
    dsimp only
    rw [hcfg, hrm]
    simp only [Bool.false_eq_true, if_false]
    rw [if_neg (by simp [hen])]
    exact ⟨rfl, (uc_enable_pipes_flag env _).1 hen, rfl⟩
  have hon : hdd_ipa_is_rm_enabled s = true →
      env.ret s.calls .ipa_rm_request_resource = 0 →
      (hdd_ipa_uc_enable_pipes env
        (call env .ipa_rm_request_resource
          { s with activated_fw_pipe := 0, resource_loading := true }).2).1 = 0 →
      (hdd_ipa_uc_handle_first_con env s).1 = 0 ∧
      (hdd_ipa_uc_handle_first_con env s).2.ipa_pipes_down = false ∧
      (hdd_ipa_uc_handle_first_con env s).2.resource_loading = true := by
    intro hrm hgr hen
    unfold hdd_ipa_uc_handle_first_con
    dsimp only
    rw [hcfg, hrm]
    have hg : (call env .ipa_rm_request_resource
        { s with activated_fw_pipe := 0, resource_loading := true }).1 = 0 := hgr
    simp only [if_true, hg]
    rw [if_neg (by simp [hen])]
    exact ⟨rfl, (uc_enable_pipes_flag env _).1 hen, by simp⟩
  refine ⟨handle_first_con_activated_fw_pipe env s, hoff, hon, fun hp hok hd => ?_⟩
  cases hrm : hdd_ipa_is_rm_enabled s
  · have e := uc_enable_pipes_ok env
      { s with activated_fw_pipe := 0, resource_loading := true } hp hd hok
    exact hoff hrm (by rw [e])
  · have e := uc_enable_pipes_ok env
      (call env .ipa_rm_request_resource
        { s with activated_fw_pipe := 0, resource_loading := true }).2 hp hd hok
    exact hon hrm (hok _ _) (by rw [e])

/-- Witness of `first_con_sync_grant`: the resource manager disabled
(`IpaConfig` 33) and enabled (`IpaConfig` 41), every call succeeding. -/
theorem first_con_sync_grant_witness :
    ((hdd_ipa_uc_handle_first_con env_zero (priv_init 33)).1 = 0 ∧
      (hdd_ipa_uc_handle_first_con env_zero (priv_init 33)).2.ipa_pipes_down = false ∧
      (hdd_ipa_uc_handle_first_con env_zero (priv_init 33)).2.resource_loading = false) ∧
    ((hdd_ipa_uc_handle_first_con env_zero (priv_init 41)).1 = 0 ∧
      (hdd_ipa_uc_handle_first_con env_zero (priv_init 41)).2.ipa_pipes_down = false ∧
      (hdd_ipa_uc_handle_first_con env_zero (priv_init 41)).2.resource_loading = true) ∧
    (hdd_ipa_uc_handle_first_con env_zero
      { priv_init 41 with activated_fw_pipe := 2 }).2.activated_fw_pipe = 0 :=
  ⟨(first_con_sync_grant env_zero (priv_init 33)).2.1 (by decide) (by decide),
   (first_con_sync_grant env_zero (priv_init 41)).2.2.1 (by decide) (by decide) (by decide),
   (first_con_sync_grant env_zero { priv_init 41 with activated_fw_pipe := 2 }).1⟩

/-! ## The replay, iteration by iteration -/

end HddIpa
